import Mathlib

/-!
# T=1 over I2C block protocol (phNxpEseProto7816_3.c): embedding and properties

The C sources are embedded shallowly.  Bytes and machine integers are natural
numbers; a narrowing store is written with an explicit `%`.  A C pointer that the
code tests against NULL is an `Option`.  The two compile-time dialects
(`T1oI2C_UM11225`, Dialect-A, and `T1oI2C_GP1_0`, Dialect-B) are a parameter `d`.
Constants of the header `phNxpEseProto7816_3.h`, which is not part of the sources
at hand, are either fields of `Consts` or definitions marked as modelled.
-/

namespace T1oI2C

/-! ## Compile-time configuration -/

/-- The two dialects selected by `#if defined(T1oI2C_UM11225)` / `T1oI2C_GP1_0`. -/
inductive Dialect where
  | T1oI2C_UM11225
  | T1oI2C_GP1_0
  deriving DecidableEq, Repr

/-! ## CRC engine -/

/-- One pass of the inner `for (bit = 8; bit > 0; --bit)` body of
`phNxpEseProto7816_ComputeCRC`: test the low bit, shift, and fold in `0x8408`;
the `(unsigned short)` cast is the `% 65536`. -/
def crcBit (CAL_CRC : Nat) : Nat :=
  if CAL_CRC &&& 0x0001 = 0x0001 then ((CAL_CRC >>> 1) ^^^ 0x8408) % 65536
  else CAL_CRC >>> 1

/-- One pass of the outer loop body of `phNxpEseProto7816_ComputeCRC`:
`CAL_CRC ^= p_buff[i]` (a store into a `uint16_t`) followed by the eight bit steps. -/
def crcByte (CAL_CRC b : Nat) : Nat :=
  Nat.iterate crcBit 8 ((CAL_CRC ^^^ b) % 65536)

/-- The loop `for (i = offset; i < length; i++)` of `phNxpEseProto7816_ComputeCRC`,
with `n` iterations left, the index at `i` and the running value `CAL_CRC`.
A read past the end of the modelled buffer yields 0. -/
def ComputeCRC_loop (p_buff : List Nat) : Nat → Nat → Nat → Nat
  | 0, _, CAL_CRC => CAL_CRC
  | n + 1, i, CAL_CRC => ComputeCRC_loop p_buff n (i + 1) (crcByte CAL_CRC (p_buff.getD i 0))

/-- The function `phNxpEseProto7816_ComputeCRC(p_buff, offset, length)`.  A NULL buffer
leaves `CRC = 0`.  Dialect-A exchanges the two bytes of the result. -/
def ComputeCRC (d : Dialect) (p_buff : Option (List Nat)) (offset length : Nat) : Nat :=
  match p_buff with
  | none => 0x0000
  | some buf =>
    let CAL_CRC := ComputeCRC_loop buf (length - offset) offset 0xFFFF ^^^ 0xFFFF
    match d with
    | .T1oI2C_UM11225 => ((CAL_CRC &&& 0xFF) <<< 8) ||| ((CAL_CRC >>> 8) &&& 0xFF)
    | .T1oI2C_GP1_0 => CAL_CRC

/-- The function `phNxpEseProto7816_CheckCRC(data_len, p_data)`, with the buffer size
limit `MAX_APDU_BUFFER` as a parameter. -/
def CheckCRC (MAX_APDU_BUFFER : Nat) (d : Dialect) (data_len : Nat)
    (p_data : Option (List Nat)) : Bool :=
  match p_data with
  | none => false
  | some buf =>
    if ¬ data_len < MAX_APDU_BUFFER then false
    else if ¬ data_len ≥ 2 then false
    else
      let recv_crc := ((buf.getD (data_len - 2) 0 <<< 8) ||| buf.getD (data_len - 1) 0) % 65536
      let calc_crc := ComputeCRC d (some buf) 0 (data_len - 2)
      if recv_crc ≠ calc_crc then false else true

/-! ### Reference CRC-16/X-25, written from its textbook description -/

/-- Bit-serial reflected CRC step: the register is shifted right by one and the
polynomial `0x8408` is folded in when the bit shifted out differs from the data bit. -/
def refCrcShift (reg : Nat) (dataBit : Bool) : Nat :=
  if (reg % 2 = 1) ≠ (dataBit = true) then (reg / 2) ^^^ 0x8408 else reg / 2

/-- The eight data bits of a byte, least significant first. -/
def bitsLsbFirst (b : Nat) : List Bool :=
  (List.range 8).map fun k => b.testBit k

/-- Reference CRC-16/X-25: bit-reflected CRC-16, polynomial `0x8408`, initial value
`0xFFFF`, final XOR `0xFFFF`, taken over a byte string one data bit at a time. -/
def crc16X25 (bytes : List Nat) : Nat :=
  (bytes.foldl (fun reg b => (bitsLsbFirst b).foldl refCrcShift reg) 0xFFFF) ^^^ 0xFFFF

/-- The two bytes of a 16-bit value exchanged. -/
def swapBytes (x : Nat) : Nat := (x % 256) * 256 + x / 256

/-- The CRC trailer as every sender stores it: `(calc_crc >> 8) & 0xFF` first,
then `calc_crc & 0xFF`. -/
def crcTrailer (calc_crc : Nat) : List Nat :=
  [(calc_crc >>> 8) &&& 0xFF, calc_crc &&& 0xFF]


/-! ## Constants of `phNxpEseProto7816_3.h` -/

/-- Modelled from the spec: macro `PH_PROTO_7816_HEADER_LEN` of the absent header
`phNxpEseProto7816_3.h`: NAD, PCB and LEN, where LEN is one byte in Dialect-A and two
bytes in Dialect-B (spec 4.3 and 6.1). -/
def PH_PROTO_7816_HEADER_LEN : Dialect → Nat
  | .T1oI2C_UM11225 => 3
  | .T1oI2C_GP1_0 => 4

/-- Modelled from the spec: macro `PH_PROTO_7816_CRC_LEN` of the absent header; the CRC
field is two bytes (spec 3). -/
def PH_PROTO_7816_CRC_LEN : Nat := 2

/-- Modelled from the spec: macro `PH_PROPTO_7816_NAD_OFFSET` of the absent header
(spec 4.3: NAD=0). -/
def PH_PROPTO_7816_NAD_OFFSET : Nat := 0

/-- Modelled from the spec: macro `PH_PROPTO_7816_PCB_OFFSET` of the absent header
(spec 4.3: PCB=1). -/
def PH_PROPTO_7816_PCB_OFFSET : Nat := 1

/-- Modelled from the spec: macro `PH_PROPTO_7816_LEN_UPPER_OFFSET` of the absent header
(spec 4.3: LEN_hi=2). -/
def PH_PROPTO_7816_LEN_UPPER_OFFSET : Nat := 2

/-- Modelled from the spec: macro `PH_PROPTO_7816_LEN_LOWER_OFFSET` of the absent header
(spec 4.3: LEN_lo=3, Dialect-B only). -/
def PH_PROPTO_7816_LEN_LOWER_OFFSET : Nat := 3

/-- Modelled from the spec: macro `PH_PROPTO_7816_FRAME_LENGTH_OFFSET` of the absent
header; the first byte of the LEN field (spec 4.3: offset 2). -/
def PH_PROPTO_7816_FRAME_LENGTH_OFFSET : Nat := 2

/-- Modelled from the spec: macro `PH_PROPTO_7816_INF_BYTE_OFFSET` of the absent header
(spec 4.3: INF begins at 3 in Dialect-A and at 4 in Dialect-B). -/
def PH_PROPTO_7816_INF_BYTE_OFFSET : Dialect → Nat
  | .T1oI2C_UM11225 => 3
  | .T1oI2C_GP1_0 => 4

/-- Modelled from the spec: macro `PH_PROTO_7816_INF_FILED` of the absent header; the
number of frame bytes that are not INF, header plus CRC, which `DecodeFrame` subtracts
from the frame length to obtain the INF length. -/
def PH_PROTO_7816_INF_FILED (d : Dialect) : Nat :=
  PH_PROTO_7816_HEADER_LEN d + PH_PROTO_7816_CRC_LEN

/-- Modelled from the spec: macro `SEND_PACKET_SOF` of the absent header; the NAD byte
of every outbound block is `0x5A` (spec 3 and 6.1). -/
def SEND_PACKET_SOF : Nat := 0x5A

/-- Modelled from the spec: macro `PH_PROTO_7816_CHAINING` of the absent header; the
chaining flag M is PCB bit 5 (spec 4.3 and 6.1). -/
def PH_PROTO_7816_CHAINING : Nat := 0x20

/-- Modelled from the spec: macro `PH_PROTO_7816_S_BLOCK_REQ` of the absent header; an
S-block has PCB bits 7 and 6 set and bit 5 clear for a request (spec 4.3). -/
def PH_PROTO_7816_S_BLOCK_REQ : Nat := 0xC0

/-- Modelled from the spec: macro `PH_PROTO_7816_S_BLOCK_RSP` of the absent header; an
S-block has PCB bits 7 and 6 set and bit 5 set for a response (spec 4.3). -/
def PH_PROTO_7816_S_BLOCK_RSP : Nat := 0xE0

/-- Macro `PH_PROTO_7816_VALUE_ZERO`. -/
def PH_PROTO_7816_VALUE_ZERO : Nat := 0

/-- Macro `PH_PROTO_7816_VALUE_ONE`. -/
def PH_PROTO_7816_VALUE_ONE : Nat := 1

/-- `UINT_MAX` of `<limits.h>` for the 32-bit targets of the examples. -/
def UINT_MAX : Nat := 4294967295

/-- `UINT32_MAX` of `<stdint.h>`. -/
def UINT32_MAX : Nat := 4294967295

/-! ## Enumerations -/

/-- Frame variants (`IFRAME`, `SFRAME`, `RFRAME`, `INVALID`, `UNKNOWN`). -/
inductive FrameType where
  | IFRAME | SFRAME | RFRAME | INVALID | UNKNOWN
  deriving DecidableEq, Repr

/-- The enumerators of `sFrameTypes_t` used by the code, both dialects together. -/
inductive SFrameType where
  | RESYNCH_REQ | RESYNCH_RSP | IFSC_REQ | IFSC_RES | ABORT_REQ | ABORT_RES
  | WTX_REQ | WTX_RSP
  | INTF_RESET_REQ | INTF_RESET_RSP | PROP_END_APDU_REQ | PROP_END_APDU_RSP
  | ATR_REQ | ATR_RES | CHIP_RESET_REQ | CHIP_RESET_RES
  | SWR_REQ | SWR_RSP | RELEASE_REQ | RELEASE_RES | CIP_REQ | CIP_RES
  | COLD_RESET_REQ | COLD_RESET_RES
  | DEEP_PWR_DOWN_REQ | DEEP_PWR_DOWN_RES
  | INVALID_REQ_RES
  deriving DecidableEq, Repr

/-- R-block error codes (`rFrameErrorTypes_t`). -/
inductive RFrameError where
  | NO_ERROR | PARITY_ERROR | OTHER_ERROR | SOF_MISSED_ERROR | UNDEFINED_ERROR
  deriving DecidableEq, Repr

/-- The argument of `phNxpEseProto7816_sendRframe` (`rFrameTypes_t`). -/
inductive rFrameTypes_t where
  | RACK | RNACK
  deriving DecidableEq, Repr

/-- The next-step values of the transceive loop, both dialects together. -/
inductive TransceiveState where
  | IDLE_STATE | SEND_IFRAME | SEND_R_ACK | SEND_R_NACK
  | SEND_S_RSYNC | SEND_S_WTX_RSP | SEND_DEEP_PWR_DOWN
  | SEND_S_CHIP_RST | SEND_S_INTF_RST | SEND_S_EOS | SEND_S_ATR
  | SEND_S_CIP | SEND_S_SWR | SEND_S_RELEASE | SEND_S_COLD_RST
  deriving DecidableEq, Repr

/-- The high-level state (`PH_NXP_ESE_PROTO_7816_IDLE`, `_TRANSCEIVE`, `_DEINIT`). -/
inductive ProtoState where
  | PH_NXP_ESE_PROTO_7816_IDLE
  | PH_NXP_ESE_PROTO_7816_TRANSCEIVE
  | PH_NXP_ESE_PROTO_7816_DEINIT
  deriving DecidableEq, Repr

/-- Values declared in headers that are not part of the sources at hand and that the
specification does not fix; every function that needs one takes them as `K`. -/
structure Consts where
  /-- Macro `MAX_APDU_BUFFER`: size of the frame buffers. -/
  MAX_APDU_BUFFER : Nat
  /-- Macro `IFSC_SIZE_SEND`: default maximum INF size of an outbound I-block. -/
  IFSC_SIZE_SEND : Nat
  /-- Macro `PH_PROTO_7816_FRAME_RETRY_COUNT`. -/
  PH_PROTO_7816_FRAME_RETRY_COUNT : Nat
  /-- Macro `PH_PROTO_7816_TIMEOUT_RETRY_COUNT`. -/
  PH_PROTO_7816_TIMEOUT_RETRY_COUNT : Nat
  /-- The integer value of each enumerator of `sFrameTypes_t`. -/
  sFrameCode : SFrameType → Nat
  /-- Macro `PH_PROTO_7816_S_RESYNCH`. -/
  PH_PROTO_7816_S_RESYNCH : Nat
  /-- Macro `PH_PROTO_7816_S_RESET`. -/
  PH_PROTO_7816_S_RESET : Nat
  /-- Macro `PH_PROTO_7816_S_END_OF_APDU`. -/
  PH_PROTO_7816_S_END_OF_APDU : Nat
  /-- Macro `PH_PROTO_7816_S_GET_ATR`. -/
  PH_PROTO_7816_S_GET_ATR : Nat
  /-- Macro `PH_PROTO_7816_S_DEEP_PWR_DOWN`. -/
  PH_PROTO_7816_S_DEEP_PWR_DOWN : Nat
  /-- Macro `PH_PROTO_7816_S_WTX`. -/
  PH_PROTO_7816_S_WTX : Nat
  /-- Macro `PH_PROTO_7816_S_CHIP_RST`. -/
  PH_PROTO_7816_S_CHIP_RST : Nat
  /-- Macro `PH_PROTO_7816_S_SWR`. -/
  PH_PROTO_7816_S_SWR : Nat
  /-- Macro `PH_PROTO_7816_S_RELEASE`. -/
  PH_PROTO_7816_S_RELEASE : Nat
  /-- Macro `PH_PROTO_7816_S_GET_CIP`. -/
  PH_PROTO_7816_S_GET_CIP : Nat
  /-- Macro `PH_PROTO_7816_S_COLD_RST`. -/
  PH_PROTO_7816_S_COLD_RST : Nat
  /-- The enumerator of `sFrameTypes_t` that an all-zero `memset` leaves in a field. -/
  zeroSFrameType : SFrameType
  /-- The enumerator of `rFrameErrorTypes_t` that an all-zero `memset` leaves in a field. -/
  zeroErrCode : RFrameError
  /-- The largest value of the integer type of the field `recoveryCounter`, which the
  header declares; the field is taken to be of an unsigned type, so `recoveryCounter++`
  at this value gives 0. -/
  RECOVERY_COUNTER_MAX : Nat
  /-- The largest value of the integer type of the fields `wtx_counter` and
  `wtx_counter_limit`, which the header declares (the code logs them with `%lu`, the
  format of `unsigned long`); `wtx_counter++` at this value gives 0. -/
  WTX_COUNTER_MAX : Nat

/-! ## Data model -/

/-- The caller's buffer descriptor `phNxpEse_data`: a length and a data pointer. -/
structure phNxpEse_data where
  len : Nat
  p_data : Option (List Nat)
  deriving DecidableEq, Repr

/-- The I-block context `iFrameInfo_t`. -/
structure iFrameInfo_t where
  isChained : Bool
  p_data : Option (List Nat)
  seqNo : Nat
  maxDataLen : Nat
  dataOffset : Nat
  totalDataLen : Nat
  sendDataLen : Nat
  deriving DecidableEq, Repr

/-- The R-block context `rFrameInfo_t`. -/
structure rFrameInfo_t where
  seqNo : Nat
  errCode : RFrameError
  deriving DecidableEq, Repr

/-- The S-block context `sFrameInfo_t`. -/
structure sFrameInfo_t where
  sFrameType : SFrameType
  deriving DecidableEq, Repr

/-- The send context (type of `phNxpEseNextTx_Cntx` and `phNxpEseLastTx_Cntx`).  The code
reads `IframeInfo` of the last-sent context after R- and S-blocks were sent, so the three
infos are separate members, not a union. -/
structure phNxpEseProto7816_NextTx_Info_t where
  IframeInfo : iFrameInfo_t
  RframeInfo : rFrameInfo_t
  SframeInfo : sFrameInfo_t
  FrameType : FrameType
  deriving DecidableEq, Repr

/-- The value of the pointer `pRsp` of the receive context: NULL, or the address of the
response descriptor the caller handed to the current API call. -/
inductive RspPtr where
  | NULL
  | caller
  deriving DecidableEq, Repr

/-- The receive context `phNxpEseRx_Cntx_t`. -/
structure phNxpEseRx_Cntx_t where
  lastRcvdIframeInfo : iFrameInfo_t
  lastRcvdRframeInfo : rFrameInfo_t
  lastRcvdSframeInfo : sFrameInfo_t
  lastRcvdFrameType : FrameType
  pRsp : RspPtr
  responseBytesRcvd : Nat
  deriving DecidableEq, Repr

/-- The protocol instance `phNxpEseProto7816_t`. -/
structure phNxpEseProto7816_t where
  phNxpEseLastTx_Cntx : phNxpEseProto7816_NextTx_Info_t
  phNxpEseNextTx_Cntx : phNxpEseProto7816_NextTx_Info_t
  phNxpEseRx_Cntx : phNxpEseRx_Cntx_t
  phNxpEseProto7816_nextTransceiveState : TransceiveState
  phNxpEseProto7816_CurrentState : ProtoState
  recoveryCounter : Nat
  timeoutCounter : Nat
  wtx_counter : Nat
  wtx_counter_limit : Nat
  rnack_retry_counter : Nat
  rnack_retry_limit : Nat
  lastSentNonErrorframeType : FrameType
  deriving DecidableEq, Repr

/-- The memory the protocol functions work on: the global `phNxpEseProto7816_3_Var` and
the caller's response descriptor that `pRsp` points to while it is not NULL. -/
structure Session where
  phNxpEseProto7816_3_Var : phNxpEseProto7816_t
  rsp : phNxpEse_data
  deriving DecidableEq, Repr

/-- What the transport did with one block: the write failed, the write succeeded and the
read that follows failed, or the write succeeded and the read returned a frame. -/
inductive Outcome where
  | writeFailed
  | readFailed
  | received (p_data : List Nat)
  deriving DecidableEq, Repr

/-- The transport together with the peer behind it: from the blocks handed to the
transport so far (oldest first, the current one last) to the outcome for the current one. -/
abbrev Transport := List (List Nat) → Outcome

/-- The function `phNxpEseProto7816_SendRawFrame`: hands the first `data_len` bytes of
`p_data` to `phNxpEse_WriteFrame`.  Returns the status and the blocks handed to the
transport so far. -/
def SendRawFrame (tr : Transport) (hist : List (List Nat)) (data_len : Nat)
    (p_data : List Nat) : Bool × List (List Nat) :=
  let hist1 := hist ++ [p_data.take data_len]
  match tr hist1 with
  | .writeFailed => (false, hist1)
  | _ => (true, hist1)

/-- Result of `phNxpEseProto7816_GetRawFrame` after the blocks in `hist` were written:
`none` when `phNxpEse_read` fails, the frame otherwise (`data_len` is its length). -/
def GetRawFrame (tr : Transport) (hist : List (List Nat)) : Option (List Nat) :=
  match tr hist with
  | .received p_data => some p_data
  | _ => none

/-! ## Building and sending blocks -/

/-- The function `getMaxSupportedSendIFrameSize`. -/
def getMaxSupportedSendIFrameSize (K : Consts) : Nat := K.IFSC_SIZE_SEND % 256

/-- The `switch (sframeData.sFrameType)` of `phNxpEseProto7816_SendSFrame`: for the cases
compiled in dialect `d`, the frame length, the frame buffer after the LEN and INF stores
and the PCB byte; `none` for the `default` case. -/
def SendSFrame_switch (K : Consts) (d : Dialect) (sFrameType : SFrameType) :
    Option (Nat × List Nat × Nat) :=
  let p_framebuff : List Nat := [0, 0, 0, 0, 0, 0, 0]
  let req (lower : Bool) (code : Nat) : Option (Nat × List Nat × Nat) :=
    let b1 := p_framebuff.set PH_PROPTO_7816_LEN_UPPER_OFFSET 0
    let b2 := if lower then b1.set PH_PROPTO_7816_LEN_LOWER_OFFSET 0 else b1
    let b3 := b2.set (PH_PROPTO_7816_INF_BYTE_OFFSET d) 0x00
    some (PH_PROTO_7816_HEADER_LEN d + PH_PROTO_7816_CRC_LEN, b3,
      (((0 ||| PH_PROTO_7816_S_BLOCK_REQ) % 256) ||| code) % 256)
  match d, sFrameType with
  | .T1oI2C_UM11225, .RESYNCH_REQ => req false K.PH_PROTO_7816_S_RESYNCH
  | .T1oI2C_GP1_0, .RESYNCH_REQ => req true K.PH_PROTO_7816_S_RESYNCH
  | .T1oI2C_UM11225, .INTF_RESET_REQ => req false K.PH_PROTO_7816_S_RESET
  | .T1oI2C_UM11225, .PROP_END_APDU_REQ => req false K.PH_PROTO_7816_S_END_OF_APDU
  | .T1oI2C_UM11225, .ATR_REQ => req false K.PH_PROTO_7816_S_GET_ATR
  | _, .DEEP_PWR_DOWN_REQ => req false K.PH_PROTO_7816_S_DEEP_PWR_DOWN
  | .T1oI2C_UM11225, .WTX_RSP =>
    let b1 := p_framebuff.set PH_PROPTO_7816_LEN_UPPER_OFFSET 0x01
    let b2 := b1.set (PH_PROPTO_7816_INF_BYTE_OFFSET d) 0x01
    some (PH_PROTO_7816_HEADER_LEN d + 1 + PH_PROTO_7816_CRC_LEN, b2,
      (((0 ||| PH_PROTO_7816_S_BLOCK_RSP) % 256) ||| K.PH_PROTO_7816_S_WTX) % 256)
  | .T1oI2C_GP1_0, .WTX_RSP =>
    let b1 := p_framebuff.set PH_PROPTO_7816_LEN_UPPER_OFFSET 0x00
    let b2 := b1.set PH_PROPTO_7816_LEN_LOWER_OFFSET 0x01
    let b3 := b2.set (PH_PROPTO_7816_INF_BYTE_OFFSET d) 0x01
    some (PH_PROTO_7816_HEADER_LEN d + 1 + PH_PROTO_7816_CRC_LEN, b3,
      (((0 ||| PH_PROTO_7816_S_BLOCK_RSP) % 256) ||| K.PH_PROTO_7816_S_WTX) % 256)
  | .T1oI2C_UM11225, .CHIP_RESET_REQ => req false K.PH_PROTO_7816_S_CHIP_RST
  | .T1oI2C_GP1_0, .SWR_REQ => req true K.PH_PROTO_7816_S_SWR
  | .T1oI2C_GP1_0, .RELEASE_REQ => req true K.PH_PROTO_7816_S_RELEASE
  | .T1oI2C_GP1_0, .CIP_REQ => req true K.PH_PROTO_7816_S_GET_CIP
  | .T1oI2C_GP1_0, .COLD_RESET_REQ => req true K.PH_PROTO_7816_S_COLD_RST
  | _, _ => none

/-- The array `p_framebuff` that `phNxpEseProto7816_SendSFrame` passes to `SendRawFrame`:
the NAD and PCB stores, the CRC over the first `frame_len - 2` bytes and the two CRC
stores. -/
def SendSFrame_frame (d : Dialect) (frame_len : Nat) (p_framebuff : List Nat)
    (pcb_byte : Nat) : List Nat :=
  let b1 := p_framebuff.set PH_PROPTO_7816_NAD_OFFSET 0x5A
  let b2 := b1.set PH_PROPTO_7816_PCB_OFFSET pcb_byte
  let calc_crc := ComputeCRC d (some b2) 0 (frame_len - 2)
  let b3 := b2.set (frame_len - 2) ((calc_crc >>> 8) &&& 0xFF)
  b3.set (frame_len - 1) (calc_crc &&& 0xFF)

/-- The function `phNxpEseProto7816_SendSFrame`.  Returns the status, the session and the
blocks handed to the transport so far.  In the `default` case the C code returns its
initial `status`, `ESESTATUS_FAILED`, which every caller treats as not `TRUE`. -/
def SendSFrame (K : Consts) (d : Dialect) (tr : Transport) (hist : List (List Nat))
    (w : Session) (sFrameData : sFrameInfo_t) : Bool × Session × List (List Nat) :=
  let w1 : Session := { w with phNxpEseProto7816_3_Var.lastSentNonErrorframeType := .SFRAME }
  match SendSFrame_switch K d sFrameData.sFrameType with
  | none => (false, w1, hist)
  | some (frame_len, p_framebuff, pcb_byte) =>
    let r := SendRawFrame tr hist frame_len (SendSFrame_frame d frame_len p_framebuff pcb_byte)
    (r.1, w1, r.2)

/-- The low PCB bits `phNxpEseProto7816_sendRframe` sets for an R-NACK, by the error code
of the next-to-send R context; the `default` case sets none. -/
def sendRframe_errBits : RFrameError → Nat
  | .PARITY_ERROR => 0x01 &&& 0xFF
  | .OTHER_ERROR => 0x02 &&& 0xFF
  | .SOF_MISSED_ERROR => 0x03 &&& 0xFF
  | .UNDEFINED_ERROR => 0x03 &&& 0xFF
  | .NO_ERROR => 0

/-- The PCB byte `recv_ack[PH_PROPTO_7816_PCB_OFFSET]` that `phNxpEseProto7816_sendRframe`
builds: `0x80`, the error bits for an R-NACK, and `(seqNo ^ 1) << 4` of the last received
I-block, each stored into a byte. -/
def sendRframe_pcb (w : Session) (rFrameType : rFrameTypes_t) : Nat :=
  let pcb0 : Nat := 0x80
  let pcb1 :=
    match rFrameType with
    | .RNACK =>
      (pcb0 ||| sendRframe_errBits
        w.phNxpEseProto7816_3_Var.phNxpEseNextTx_Cntx.RframeInfo.errCode) % 256
    | .RACK => pcb0
  (pcb1 ||| ((w.phNxpEseProto7816_3_Var.phNxpEseRx_Cntx.lastRcvdIframeInfo.seqNo ^^^ 1) <<< 4))
    % 256

/-- The bytes `phNxpEseProto7816_sendRframe` hands to `SendRawFrame`: the array `recv_ack`
(five bytes in Dialect-A, six in Dialect-B) with the PCB and the two CRC bytes stored. -/
def sendRframe_frame (d : Dialect) (w : Session) (rFrameType : rFrameTypes_t) : List Nat :=
  let recv_ack : List Nat :=
    match d with
    | .T1oI2C_UM11225 => [0x5A, 0x80, 0x00, 0x00, 0x00]
    | .T1oI2C_GP1_0 => [0x5A, 0x80, 0x00, 0x00, 0x00, 0x00]
  let a1 := recv_ack.set PH_PROPTO_7816_PCB_OFFSET (sendRframe_pcb w rFrameType)
  let calc_crc := ComputeCRC d (some a1) 0x00 (recv_ack.length - 2)
  let a2 := a1.set (recv_ack.length - 2) ((calc_crc >>> 8) &&& 0xFF)
  a2.set (recv_ack.length - 1) (calc_crc &&& 0xFF)

/-- The function `phNxpEseProto7816_sendRframe`. -/
def sendRframe (d : Dialect) (tr : Transport) (hist : List (List Nat)) (w : Session)
    (rFrameType : rFrameTypes_t) : Bool × Session × List (List Nat) :=
  let w1 : Session :=
    match rFrameType with
    | .RNACK => w
    | .RACK => { w with phNxpEseProto7816_3_Var.lastSentNonErrorframeType := .RFRAME }
  let recv_ack := sendRframe_frame d w rFrameType
  let r := SendRawFrame tr hist recv_ack.length recv_ack
  (r.1, w1, r.2)

/-- The bytes `phNxpEse_memcpy` reads: `n` bytes of `p_data` from `offset` on.  A NULL
pointer or a read past the end of the modelled buffer yields 0. -/
def readBytes (p_data : Option (List Nat)) (offset n : Nat) : List Nat :=
  (List.range n).map fun i => (p_data.getD []).getD (offset + i) 0

/-- The PCB byte of `phNxpEseProto7816_SendIframe`: the chaining bit of the argument and
`seqNo`, the sequence number of the next-to-send I context (`pNextTx_IframeInfo->seqNo`),
shifted to bit 6, stored into a byte. -/
def SendIframe_pcb (seqNo : Nat) (iFrameData : iFrameInfo_t) : Nat :=
  let pcb0 : Nat := 0
  let pcb1 := if iFrameData.isChained then (pcb0 ||| PH_PROTO_7816_CHAINING) % 256 else pcb0
  (pcb1 ||| (seqNo <<< 6)) % 256

/-- The LEN field `phNxpEseProto7816_SendIframe` stores: one byte in Dialect-A, the upper
and the lower byte of the 16-bit length in Dialect-B. -/
def SendIframe_len (d : Dialect) (sendDataLen : Nat) : List Nat :=
  match d with
  | .T1oI2C_UM11225 => [sendDataLen % 256]
  | .T1oI2C_GP1_0 => [((sendDataLen % 65536) >>> 8) &&& 0xff, (sendDataLen % 65536) &&& 0xff]

/-- The bytes `phNxpEseProto7816_SendIframe` hands to `SendRawFrame` once its guards have
passed: NAD, PCB, LEN, the INF copied from the command buffer, and the CRC over all of
them. -/
def SendIframe_frame (d : Dialect) (seqNo : Nat) (iFrameData : iFrameInfo_t) : List Nat :=
  let body := [SEND_PACKET_SOF, SendIframe_pcb seqNo iFrameData] ++
    SendIframe_len d iFrameData.sendDataLen ++
    readBytes iFrameData.p_data iFrameData.dataOffset iFrameData.sendDataLen
  let frame_len := iFrameData.sendDataLen + PH_PROTO_7816_HEADER_LEN d + PH_PROTO_7816_CRC_LEN
  let calc_crc := ComputeCRC d (some body) 0 (frame_len - 2)
  body ++ [(calc_crc >>> 8) &&& 0xff, calc_crc &&& 0xff]

/-- The function `phNxpEseProto7816_SendIframe`. -/
def SendIframe (K : Consts) (d : Dialect) (tr : Transport) (hist : List (List Nat))
    (w : Session) (iFrameData : iFrameInfo_t) : Bool × Session × List (List Nat) :=
  if 0 = iFrameData.sendDataLen then (false, w, hist)
  else
    let w1 : Session := { w with phNxpEseProto7816_3_Var.lastSentNonErrorframeType := .IFRAME }
    if ¬ iFrameData.sendDataLen ≤ UINT_MAX - (PH_PROTO_7816_HEADER_LEN d + PH_PROTO_7816_CRC_LEN)
    then (false, w1, hist)
    else
      let frame_len :=
        iFrameData.sendDataLen + PH_PROTO_7816_HEADER_LEN d + PH_PROTO_7816_CRC_LEN
      if ¬ iFrameData.sendDataLen ≤ K.MAX_APDU_BUFFER - PH_PROPTO_7816_INF_BYTE_OFFSET d
      then (false, w1, hist)
      else if ¬ frame_len - 1 < K.MAX_APDU_BUFFER then (false, w1, hist)
      else
        let r := SendRawFrame tr hist frame_len
          (SendIframe_frame d
            w1.phNxpEseProto7816_3_Var.phNxpEseNextTx_Cntx.IframeInfo.seqNo iFrameData)
        (r.1, w1, r.2)

/-! ## I-block contexts, response assembly, reset -/

/-- The function `phNxpEseProto7816_SetFirstIframeContxt`. -/
def SetFirstIframeContxt (v : phNxpEseProto7816_t) : Bool × phNxpEseProto7816_t :=
  let pLastTx_IframeInfo := v.phNxpEseLastTx_Cntx.IframeInfo
  let v1 : phNxpEseProto7816_t :=
    { v with
      phNxpEseNextTx_Cntx.IframeInfo.dataOffset := 0
      phNxpEseNextTx_Cntx.FrameType := .IFRAME
      phNxpEseNextTx_Cntx.IframeInfo.seqNo := (pLastTx_IframeInfo.seqNo ^^^ 1) % 256
      phNxpEseProto7816_nextTransceiveState := .SEND_IFRAME
      phNxpEseRx_Cntx.responseBytesRcvd := 0 }
  let pNextTx_IframeInfo := v1.phNxpEseNextTx_Cntx.IframeInfo
  if pNextTx_IframeInfo.totalDataLen > pNextTx_IframeInfo.maxDataLen then
    (true, { v1 with
      phNxpEseNextTx_Cntx.IframeInfo.isChained := true
      phNxpEseNextTx_Cntx.IframeInfo.sendDataLen := pNextTx_IframeInfo.maxDataLen
      phNxpEseNextTx_Cntx.IframeInfo.totalDataLen :=
        pNextTx_IframeInfo.totalDataLen - pNextTx_IframeInfo.maxDataLen })
  else
    (true, { v1 with
      phNxpEseNextTx_Cntx.IframeInfo.sendDataLen := pNextTx_IframeInfo.totalDataLen
      phNxpEseNextTx_Cntx.IframeInfo.isChained := false })

/-- The function `phNxpEseProto7816_SetNextIframeContxt`. -/
def SetNextIframeContxt (v : phNxpEseProto7816_t) : Bool × phNxpEseProto7816_t :=
  let pLastTx_IframeInfo := v.phNxpEseLastTx_Cntx.IframeInfo
  let v1 : phNxpEseProto7816_t :=
    { v with
      phNxpEseNextTx_Cntx.FrameType := .IFRAME
      phNxpEseProto7816_nextTransceiveState := .SEND_IFRAME
      phNxpEseNextTx_Cntx.IframeInfo.seqNo := (pLastTx_IframeInfo.seqNo ^^^ 1) % 256 }
  if UINT_MAX - pLastTx_IframeInfo.dataOffset < pLastTx_IframeInfo.maxDataLen then
    (false, v1)
  else
    let v2 : phNxpEseProto7816_t :=
      { v1 with
        phNxpEseNextTx_Cntx.IframeInfo.dataOffset :=
          pLastTx_IframeInfo.dataOffset + pLastTx_IframeInfo.maxDataLen
        phNxpEseNextTx_Cntx.IframeInfo.p_data := pLastTx_IframeInfo.p_data
        phNxpEseNextTx_Cntx.IframeInfo.maxDataLen := pLastTx_IframeInfo.maxDataLen }
    if pLastTx_IframeInfo.totalDataLen > pLastTx_IframeInfo.maxDataLen then
      (true, { v2 with
        phNxpEseNextTx_Cntx.IframeInfo.isChained := true
        phNxpEseNextTx_Cntx.IframeInfo.sendDataLen := pLastTx_IframeInfo.maxDataLen
        phNxpEseNextTx_Cntx.IframeInfo.totalDataLen :=
          pLastTx_IframeInfo.totalDataLen - pLastTx_IframeInfo.maxDataLen })
    else
      (true, { v2 with
        phNxpEseNextTx_Cntx.IframeInfo.isChained := false
        phNxpEseNextTx_Cntx.IframeInfo.sendDataLen := pLastTx_IframeInfo.totalDataLen })

/-- The store `memmove(dst + offset, src, n)` on a modelled buffer `dst` that holds at
least `offset + n` bytes. -/
def memmove (dst : List Nat) (offset : Nat) (src : List Nat) (n : Nat) : List Nat :=
  dst.take offset ++ src.take n ++ dst.drop (offset + n)

/-- The function `phNxpEseProro7816_SaveRxframeData(p_data, data_len)`; `p_data` is the
memory from the pointer on. -/
def SaveRxframeData (p_data : Option (List Nat)) (data_len : Nat) (w : Session) :
    Bool × Session :=
  let pRx_EseCntx := w.phNxpEseProto7816_3_Var.phNxpEseRx_Cntx
  match p_data with
  | none => (false, w)
  | some src =>
    match pRx_EseCntx.pRsp with
    | .caller =>
      match w.rsp.p_data with
      | none => (false, w)
      | some dst =>
        if pRx_EseCntx.responseBytesRcvd > UINT_MAX - data_len then (false, w)
        else if pRx_EseCntx.responseBytesRcvd + data_len > w.rsp.len then (false, w)
        else
          (true, { w with
            rsp.p_data := some (memmove dst pRx_EseCntx.responseBytesRcvd src data_len)
            phNxpEseProto7816_3_Var.phNxpEseRx_Cntx.responseBytesRcvd :=
              pRx_EseCntx.responseBytesRcvd + data_len })
    | .NULL => (false, w)

/-- The function `phNxpEseProto7816_ResetRecovery`. -/
def ResetRecovery (v : phNxpEseProto7816_t) : Bool × phNxpEseProto7816_t :=
  (true, { v with recoveryCounter := 0 })

/-- The function `phNxpEseProto7816_RecoverySteps`. -/
def RecoverySteps (K : Consts) (d : Dialect) (v : phNxpEseProto7816_t) :
    Bool × phNxpEseProto7816_t :=
  if v.recoveryCounter ≤ K.PH_PROTO_7816_FRAME_RETRY_COUNT then
    match d with
    | .T1oI2C_UM11225 =>
      (true, { v with
        phNxpEseRx_Cntx.lastRcvdSframeInfo.sFrameType := .INTF_RESET_REQ
        phNxpEseNextTx_Cntx.FrameType := .SFRAME
        phNxpEseNextTx_Cntx.SframeInfo.sFrameType := .INTF_RESET_REQ
        phNxpEseProto7816_nextTransceiveState := .SEND_S_INTF_RST })
    | .T1oI2C_GP1_0 =>
      (true, { v with
        phNxpEseRx_Cntx.lastRcvdSframeInfo.sFrameType := .SWR_REQ
        phNxpEseNextTx_Cntx.FrameType := .SFRAME
        phNxpEseNextTx_Cntx.SframeInfo.sFrameType := .SWR_REQ
        phNxpEseProto7816_nextTransceiveState := .SEND_S_SWR })
  else
    (true, { v with phNxpEseProto7816_nextTransceiveState := .IDLE_STATE })

/-- What `phNxpEse_memset(.., 0, sizeof(iFrameInfo_t))` leaves in an I-block context. -/
def iFrameInfo_zero : iFrameInfo_t :=
  { isChained := false, p_data := none, seqNo := 0, maxDataLen := 0, dataOffset := 0,
    totalDataLen := 0, sendDataLen := 0 }

/-- The function `phNxpEseProto7816_ResetProtoParams`: the all-zero `memset` of the
instance followed by the stores of the function, in their order. -/
def ResetProtoParams (K : Consts) (v : phNxpEseProto7816_t) : Bool × phNxpEseProto7816_t :=
  let tmpWTXCountlimit := v.wtx_counter_limit
  let tmpRNACKCountlimit := v.rnack_retry_limit
  let iInfo (seqNo : Nat) : iFrameInfo_t :=
    { iFrameInfo_zero with maxDataLen := K.IFSC_SIZE_SEND, p_data := none, seqNo := seqNo }
  let rZero : rFrameInfo_t := { seqNo := 0, errCode := K.zeroErrCode }
  let sZero : sFrameInfo_t := { sFrameType := K.zeroSFrameType }
  let tx : phNxpEseProto7816_NextTx_Info_t :=
    { IframeInfo := iInfo PH_PROTO_7816_VALUE_ONE, RframeInfo := rZero, SframeInfo := sZero,
      FrameType := .INVALID }
  (true,
    { phNxpEseLastTx_Cntx := tx
      phNxpEseNextTx_Cntx := tx
      phNxpEseRx_Cntx :=
        { lastRcvdIframeInfo := { iFrameInfo_zero with seqNo := PH_PROTO_7816_VALUE_ONE }
          lastRcvdRframeInfo := rZero
          lastRcvdSframeInfo := sZero
          lastRcvdFrameType := .INVALID
          pRsp := .NULL
          responseBytesRcvd := 0 }
      phNxpEseProto7816_nextTransceiveState := .IDLE_STATE
      phNxpEseProto7816_CurrentState := .PH_NXP_ESE_PROTO_7816_IDLE
      recoveryCounter := PH_PROTO_7816_VALUE_ZERO
      timeoutCounter := PH_PROTO_7816_VALUE_ZERO
      wtx_counter := PH_PROTO_7816_VALUE_ZERO
      wtx_counter_limit := tmpWTXCountlimit
      rnack_retry_counter := PH_PROTO_7816_VALUE_ZERO
      rnack_retry_limit := tmpRNACKCountlimit
      lastSentNonErrorframeType := .UNKNOWN })

/-- The function `phNxpEseProto7816_Reset`. -/
def Reset (K : Consts) (v : phNxpEseProto7816_t) : Bool × phNxpEseProto7816_t :=
  ResetProtoParams K v

/-- The function `phNxpEseProto7816_SetIfscSize`. -/
def SetIfscSize (IFSC_Size : Nat) (v : phNxpEseProto7816_t) : Bool × phNxpEseProto7816_t :=
  (true, { v with phNxpEseNextTx_Cntx.IframeInfo.maxDataLen := IFSC_Size % 65536 })

/-- The loop of `phNxpEseProto7816_DecodeSFrameData` with its two `uint8_t` variables:
`some` of the final `frameOffset` when the loop ends within `fuel` iterations. -/
def DecodeSFrameData_loop (p_data : List Nat) (maxSframeLen : Nat) : Nat → Nat → Option Nat
  | 0, _ => none
  | fuel + 1, frameOffset =>
    if maxSframeLen > frameOffset then
      let frameOffset1 := (frameOffset + 1) % 256
      let frameOffset2 := (frameOffset1 + p_data.getD (frameOffset1 + 1) 0) % 256
      DecodeSFrameData_loop p_data maxSframeLen fuel frameOffset2
    else some frameOffset

/-- The function `phNxpEseProto7816_DecodeSFrameData`: it stores nothing, so the result
only says whether it returns within `fuel` iterations of its loop. -/
def DecodeSFrameData (d : Dialect) (fuel : Nat) (p_data : Option (List Nat)) : Option Unit :=
  match p_data with
  | none => some ()
  | some buf =>
    let frameOffset :=
      match d with
      | .T1oI2C_UM11225 => PH_PROPTO_7816_LEN_UPPER_OFFSET
      | .T1oI2C_GP1_0 => PH_PROPTO_7816_LEN_LOWER_OFFSET
    let maxSframeLen := (buf.getD frameOffset 0 + frameOffset) % 256
    (DecodeSFrameData_loop buf maxSframeLen fuel frameOffset).map fun _ => ()

/-! ## Decoding a received frame -/

/-- A terminal S-response in `phNxpEseProto7816_DecodeFrame`: record the subtype, clear
the next-to-send frame type and schedule `IDLE_STATE`. -/
def DecodeFrame_sDone (t : SFrameType) (w : Session) : Session :=
  { w with
    phNxpEseProto7816_3_Var.phNxpEseRx_Cntx.lastRcvdSframeInfo.sFrameType := t
    phNxpEseProto7816_3_Var.phNxpEseNextTx_Cntx.FrameType := .UNKNOWN
    phNxpEseProto7816_3_Var.phNxpEseProto7816_nextTransceiveState := .IDLE_STATE }

/-- The statement `if (p_data[PH_PROPTO_7816_FRAME_LENGTH_OFFSET] > 0)
phNxpEseProto7816_DecodeSFrameData(p_data);` of the S-response cases. -/
def DecodeFrame_sData (d : Dialect) (fuel : Nat) (buf : List Nat) : Option Unit :=
  if buf.getD PH_PROPTO_7816_FRAME_LENGTH_OFFSET 0 > 0 then DecodeSFrameData d fuel (some buf)
  else some ()

/-- The escalation `phNxpEseProto7816_RecoverySteps(); recoveryCounter++;`.  No test
guards this increment, so it is taken in the arithmetic of the field's type: from
`RECOVERY_COUNTER_MAX` the counter goes to 0. -/
def DecodeFrame_escalate (K : Consts) (d : Dialect) (w : Session) : Session :=
  let v := (RecoverySteps K d w.phNxpEseProto7816_3_Var).2
  { w with
    phNxpEseProto7816_3_Var :=
      { v with recoveryCounter := (v.recoveryCounter + 1) % (K.RECOVERY_COUNTER_MAX + 1) } }

/-- The reset request scheduled when the WTX counter reaches its limit (interface reset in
Dialect-A, software reset in Dialect-B). -/
def DecodeFrame_wtxReset (d : Dialect) (w : Session) : Session :=
  match d with
  | .T1oI2C_UM11225 =>
    { w with
      phNxpEseProto7816_3_Var.wtx_counter := 0
      phNxpEseProto7816_3_Var.phNxpEseRx_Cntx.lastRcvdSframeInfo.sFrameType := .INTF_RESET_REQ
      phNxpEseProto7816_3_Var.phNxpEseNextTx_Cntx.FrameType := .SFRAME
      phNxpEseProto7816_3_Var.phNxpEseNextTx_Cntx.SframeInfo.sFrameType := .INTF_RESET_REQ
      phNxpEseProto7816_3_Var.phNxpEseProto7816_nextTransceiveState := .SEND_S_INTF_RST }
  | .T1oI2C_GP1_0 =>
    { w with
      phNxpEseProto7816_3_Var.wtx_counter := 0
      phNxpEseProto7816_3_Var.phNxpEseRx_Cntx.lastRcvdSframeInfo.sFrameType := .SWR_REQ
      phNxpEseProto7816_3_Var.phNxpEseNextTx_Cntx.FrameType := .SFRAME
      phNxpEseProto7816_3_Var.phNxpEseNextTx_Cntx.SframeInfo.sFrameType := .SWR_REQ
      phNxpEseProto7816_3_Var.phNxpEseProto7816_nextTransceiveState := .SEND_S_SWR }

/-- The I-block branch of `phNxpEseProto7816_DecodeFrame`. -/
def DecodeFrame_I (K : Consts) (d : Dialect) (buf : List Nat) (data_len pcb : Nat)
    (w : Session) : Bool × Session :=
  let w1 : Session :=
    { w with
      phNxpEseProto7816_3_Var.wtx_counter := 0
      phNxpEseProto7816_3_Var.phNxpEseRx_Cntx.lastRcvdFrameType := .IFRAME }
  let inf : Option (List Nat) := some (buf.drop (PH_PROPTO_7816_INF_BYTE_OFFSET d))
  if w1.phNxpEseProto7816_3_Var.phNxpEseRx_Cntx.lastRcvdIframeInfo.seqNo ≠ (pcb &&& 0x40) >>> 6
  then
    let w2 : Session :=
      { w1 with phNxpEseProto7816_3_Var := (ResetRecovery w1.phNxpEseProto7816_3_Var).2 }
    let w3 : Session :=
      { w2 with
        phNxpEseProto7816_3_Var.phNxpEseRx_Cntx.lastRcvdIframeInfo.seqNo :=
          (0x00 ||| ((pcb &&& 0x40) >>> 6)) % 256 }
    if pcb &&& 0x20 ≠ 0 then
      let w4 : Session :=
        { w3 with
          phNxpEseProto7816_3_Var.phNxpEseRx_Cntx.lastRcvdIframeInfo.isChained := true
          phNxpEseProto7816_3_Var.phNxpEseNextTx_Cntx.FrameType := .RFRAME
          phNxpEseProto7816_3_Var.phNxpEseNextTx_Cntx.RframeInfo.errCode := .NO_ERROR }
      let r := SaveRxframeData inf (data_len - PH_PROTO_7816_INF_FILED d) w4
      if r.1 = false then
        (false,
          { r.2 with phNxpEseProto7816_3_Var.phNxpEseProto7816_nextTransceiveState := .IDLE_STATE })
      else
        (true,
          { r.2 with phNxpEseProto7816_3_Var.phNxpEseProto7816_nextTransceiveState := .SEND_R_ACK })
    else
      let w4 : Session :=
        { w3 with
          phNxpEseProto7816_3_Var.phNxpEseRx_Cntx.lastRcvdIframeInfo.isChained := false
          phNxpEseProto7816_3_Var.phNxpEseProto7816_nextTransceiveState := .IDLE_STATE }
      let r := SaveRxframeData inf (data_len - PH_PROTO_7816_INF_FILED d) w4
      if r.1 = false then (false, r.2) else (true, r.2)
  else
    if w1.phNxpEseProto7816_3_Var.recoveryCounter < K.PH_PROTO_7816_FRAME_RETRY_COUNT then
      (true,
        { w1 with
          phNxpEseProto7816_3_Var.phNxpEseNextTx_Cntx.FrameType := .RFRAME
          phNxpEseProto7816_3_Var.phNxpEseNextTx_Cntx.RframeInfo.errCode := .OTHER_ERROR
          phNxpEseProto7816_3_Var.phNxpEseProto7816_nextTransceiveState := .SEND_R_NACK
          phNxpEseProto7816_3_Var.recoveryCounter :=
            w1.phNxpEseProto7816_3_Var.recoveryCounter + 1 })
    else (true, DecodeFrame_escalate K d w1)

/-- The retransmission `phNxpEseNextTx_Cntx = phNxpEseLastTx_Cntx` followed by scheduling
`SEND_IFRAME` with frame type `IFRAME`. -/
def DecodeFrame_resendI (v : phNxpEseProto7816_t) : phNxpEseProto7816_t :=
  { v with
    phNxpEseNextTx_Cntx := { v.phNxpEseLastTx_Cntx with FrameType := .IFRAME }
    phNxpEseProto7816_nextTransceiveState := .SEND_IFRAME }

/-- The R-block branch of `phNxpEseProto7816_DecodeFrame`. -/
def DecodeFrame_R (K : Consts) (d : Dialect) (pcb : Nat) (w : Session) : Bool × Session :=
  let v1 : phNxpEseProto7816_t :=
    { w.phNxpEseProto7816_3_Var with
      wtx_counter := 0
      phNxpEseRx_Cntx.lastRcvdFrameType := .RFRAME
      phNxpEseRx_Cntx.lastRcvdRframeInfo.seqNo := (0 ||| ((pcb &&& 0x10) >>> 4)) % 256 }
  let pLastTx_IframeInfo := v1.phNxpEseLastTx_Cntx.IframeInfo
  if pcb &&& 0x01 = 0 ∧ pcb &&& 0x02 = 0 then
    let v2 : phNxpEseProto7816_t :=
      { v1 with phNxpEseRx_Cntx.lastRcvdRframeInfo.errCode := .NO_ERROR }
    let v3 := (ResetRecovery v2).2
    if v3.phNxpEseRx_Cntx.lastRcvdRframeInfo.seqNo ≠ pLastTx_IframeInfo.seqNo then
      let v4 := (SetNextIframeContxt v3).2
      (true, { w with
        phNxpEseProto7816_3_Var :=
          { v4 with phNxpEseProto7816_nextTransceiveState := .SEND_IFRAME } })
    else (true, { w with phNxpEseProto7816_3_Var := v3 })
  else if (pcb &&& 0x01 ≠ 0 ∧ pcb &&& 0x02 = 0) ∨ (pcb &&& 0x01 = 0 ∧ pcb &&& 0x02 ≠ 0) then
    let v2 : phNxpEseProto7816_t :=
      if pcb &&& 0x01 = 0 ∧ pcb &&& 0x02 ≠ 0 then
        { v1 with phNxpEseRx_Cntx.lastRcvdRframeInfo.errCode := .OTHER_ERROR }
      else { v1 with phNxpEseRx_Cntx.lastRcvdRframeInfo.errCode := .PARITY_ERROR }
    if v2.recoveryCounter < K.PH_PROTO_7816_FRAME_RETRY_COUNT then
      let v3 : phNxpEseProto7816_t :=
        if v2.phNxpEseLastTx_Cntx.FrameType = .IFRAME then DecodeFrame_resendI v2
        else if v2.phNxpEseLastTx_Cntx.FrameType = .RFRAME then
          if v2.phNxpEseRx_Cntx.lastRcvdRframeInfo.seqNo = pLastTx_IframeInfo.seqNo ∧
              v2.lastSentNonErrorframeType = .IFRAME then DecodeFrame_resendI v2
          else if v2.phNxpEseRx_Cntx.lastRcvdRframeInfo.seqNo ≠ pLastTx_IframeInfo.seqNo ∧
              v2.lastSentNonErrorframeType = .RFRAME then
            { v2 with
              phNxpEseNextTx_Cntx.FrameType := .RFRAME
              phNxpEseNextTx_Cntx.RframeInfo.errCode := .NO_ERROR
              phNxpEseProto7816_nextTransceiveState := .SEND_R_ACK }
          else
            { v2 with
              phNxpEseNextTx_Cntx.FrameType := .RFRAME
              phNxpEseNextTx_Cntx.RframeInfo.errCode := .OTHER_ERROR
              phNxpEseProto7816_nextTransceiveState := .SEND_R_NACK }
        else if v2.phNxpEseLastTx_Cntx.FrameType = .SFRAME then
          { v2 with phNxpEseNextTx_Cntx := v2.phNxpEseLastTx_Cntx }
        else v2
      (true, { w with
        phNxpEseProto7816_3_Var := { v3 with recoveryCounter := v3.recoveryCounter + 1 } })
    else (true, DecodeFrame_escalate K d { w with phNxpEseProto7816_3_Var := v2 })
  else if pcb &&& 0x01 ≠ 0 ∧ pcb &&& 0x02 ≠ 0 then
    if v1.recoveryCounter < K.PH_PROTO_7816_FRAME_RETRY_COUNT then
      (true, { w with
        phNxpEseProto7816_3_Var :=
          { v1 with
            phNxpEseRx_Cntx.lastRcvdRframeInfo.errCode := .SOF_MISSED_ERROR
            phNxpEseNextTx_Cntx := v1.phNxpEseLastTx_Cntx
            recoveryCounter := v1.recoveryCounter + 1 } })
    else (true, DecodeFrame_escalate K d { w with phNxpEseProto7816_3_Var := v1 })
  else (true, { w with phNxpEseProto7816_3_Var := v1 })

/-- The `case WTX_REQ` of the S-block branch of `phNxpEseProto7816_DecodeFrame`.  The
statement `wtx_counter++` is not guarded by a test, so it is taken in the arithmetic of the
field's type: from `WTX_COUNTER_MAX` the counter goes to 0. -/
def DecodeFrame_WTX (K : Consts) (d : Dialect) (w : Session) : Bool × Session :=
  let w1 : Session :=
    { w with
      phNxpEseProto7816_3_Var.wtx_counter :=
        (w.phNxpEseProto7816_3_Var.wtx_counter + 1) % (K.WTX_COUNTER_MAX + 1) }
  let v1 := w1.phNxpEseProto7816_3_Var
  if v1.phNxpEseLastTx_Cntx.SframeInfo.sFrameType ≠ .WTX_RSP ∧
      v1.phNxpEseLastTx_Cntx.FrameType = .SFRAME then
    if v1.recoveryCounter < K.PH_PROTO_7816_FRAME_RETRY_COUNT then
      (true, { w1 with
        phNxpEseProto7816_3_Var :=
          { v1 with
            phNxpEseNextTx_Cntx := v1.phNxpEseLastTx_Cntx
            recoveryCounter := v1.recoveryCounter + 1 } })
    else (true, DecodeFrame_escalate K d w1)
  else
    if v1.wtx_counter = v1.wtx_counter_limit then (true, DecodeFrame_wtxReset d w1)
    else
      (true, { w1 with
        phNxpEseProto7816_3_Var.phNxpEseRx_Cntx.lastRcvdSframeInfo.sFrameType := .WTX_REQ
        phNxpEseProto7816_3_Var.phNxpEseNextTx_Cntx.FrameType := .SFRAME
        phNxpEseProto7816_3_Var.phNxpEseNextTx_Cntx.SframeInfo.sFrameType := .WTX_RSP
        phNxpEseProto7816_3_Var.phNxpEseProto7816_nextTransceiveState := .SEND_S_WTX_RSP })

/-- The cases `INTF_RESET_RSP` (Dialect-A, `save = true`) and `SWR_RSP` (Dialect-B,
`save = false`) of the S-block branch, after the optional payload walk. -/
def DecodeFrame_resetRsp (K : Consts) (d : Dialect) (t : SFrameType) (save : Bool)
    (buf : List Nat) (data_len : Nat) (w : Session) : Bool × Session :=
  let idle (x : Session) : Session :=
    { x with phNxpEseProto7816_3_Var.phNxpEseProto7816_nextTransceiveState := .IDLE_STATE }
  let finish (x : Session) : Bool × Session :=
    if x.phNxpEseProto7816_3_Var.recoveryCounter > K.PH_PROTO_7816_FRAME_RETRY_COUNT then
      (false, idle x)
    else
      (true, DecodeFrame_sDone t
        { x with phNxpEseProto7816_3_Var := (ResetProtoParams K x.phNxpEseProto7816_3_Var).2 })
  if save then
    if data_len < PH_PROTO_7816_INF_FILED d then (false, w)
    else
      let r := SaveRxframeData (some (buf.drop (PH_PROPTO_7816_INF_BYTE_OFFSET d)))
        (data_len - PH_PROTO_7816_INF_FILED d) w
      if r.1 = false then (false, idle r.2) else finish r.2
  else finish w

/-- The cases `ATR_RES` (Dialect-A) and `CIP_RES` (Dialect-B) of the S-block branch, after
the subtype store and the optional payload walk. -/
def DecodeFrame_paramRsp (d : Dialect) (buf : List Nat) (data_len : Nat) (w : Session) :
    Bool × Session :=
  let r := SaveRxframeData (some (buf.drop (PH_PROPTO_7816_INF_BYTE_OFFSET d)))
    (data_len - PH_PROTO_7816_INF_FILED d) w
  if r.1 = false then
    (false,
      { r.2 with phNxpEseProto7816_3_Var.phNxpEseProto7816_nextTransceiveState := .IDLE_STATE })
  else
    (true, { r.2 with
      phNxpEseProto7816_3_Var.phNxpEseNextTx_Cntx.FrameType := .UNKNOWN
      phNxpEseProto7816_3_Var.phNxpEseProto7816_nextTransceiveState := .IDLE_STATE })

/-- The S-block branch of `phNxpEseProto7816_DecodeFrame`; the `case` labels of dialect
`d` are tried in their order.  `none` when a payload walk does not return within `fuel`
iterations. -/
def DecodeFrame_S (K : Consts) (d : Dialect) (fuel : Nat) (buf : List Nat)
    (data_len pcb : Nat) (w : Session) : Option (Bool × Session) :=
  let frameType := pcb &&& 0x3F
  let w1 : Session :=
    { w with phNxpEseProto7816_3_Var.phNxpEseRx_Cntx.lastRcvdFrameType := .SFRAME }
  let w2 : Session :=
    if frameType ≠ K.sFrameCode .WTX_REQ then
      { w1 with phNxpEseProto7816_3_Var.wtx_counter := 0 }
    else w1
  let setType (t : SFrameType) (x : Session) : Session :=
    { x with phNxpEseProto7816_3_Var.phNxpEseRx_Cntx.lastRcvdSframeInfo.sFrameType := t }
  let plain (t : SFrameType) : Option (Bool × Session) :=
    (DecodeFrame_sData d fuel buf).map fun _ => (true, DecodeFrame_sDone t w2)
  if frameType = K.sFrameCode .RESYNCH_RSP then some (true, DecodeFrame_sDone .RESYNCH_RSP w2)
  else if frameType = K.sFrameCode .IFSC_RES then some (true, DecodeFrame_sDone .IFSC_RES w2)
  else if frameType = K.sFrameCode .ABORT_RES then some (true, DecodeFrame_sDone .ABORT_RES w2)
  else if frameType = K.sFrameCode .WTX_REQ then some (DecodeFrame_WTX K d w2)
  else
    match d with
    | .T1oI2C_UM11225 =>
      if frameType = K.sFrameCode .INTF_RESET_RSP then
        (DecodeFrame_sData d fuel buf).map fun _ =>
          DecodeFrame_resetRsp K d .INTF_RESET_RSP true buf data_len w2
      else if frameType = K.sFrameCode .PROP_END_APDU_RSP then plain .PROP_END_APDU_RSP
      else if frameType = K.sFrameCode .ATR_RES then
        (DecodeFrame_sData d fuel buf).map fun _ =>
          DecodeFrame_paramRsp d buf data_len (setType .ATR_RES w2)
      else if frameType = K.sFrameCode .CHIP_RESET_RES then plain .CHIP_RESET_RES
      else if frameType = K.sFrameCode .DEEP_PWR_DOWN_RES then plain .DEEP_PWR_DOWN_RES
      else some (true, w2)
    | .T1oI2C_GP1_0 =>
      if frameType = K.sFrameCode .SWR_RSP then
        (DecodeFrame_sData d fuel buf).map fun _ =>
          DecodeFrame_resetRsp K d .SWR_RSP false buf data_len w2
      else if frameType = K.sFrameCode .RELEASE_RES then plain .RELEASE_RES
      else if frameType = K.sFrameCode .CIP_RES then
        (DecodeFrame_sData d fuel buf).map fun _ =>
          DecodeFrame_paramRsp d buf data_len (setType .CIP_RES w2)
      else if frameType = K.sFrameCode .COLD_RESET_RES then plain .COLD_RESET_RES
      else if frameType = K.sFrameCode .DEEP_PWR_DOWN_RES then plain .DEEP_PWR_DOWN_RES
      else some (true, w2)

/-- The function `phNxpEseProto7816_DecodeFrame(p_data, data_len)`.  The three
`ENSURE_OR_GO_EXIT` guards leave through `exit` with the initial `status = TRUE`. -/
def DecodeFrame (K : Consts) (d : Dialect) (fuel : Nat) (p_data : Option (List Nat))
    (data_len : Nat) (w : Session) : Option (Bool × Session) :=
  match p_data with
  | none => some (true, w)
  | some buf =>
    if ¬ data_len < K.MAX_APDU_BUFFER then some (true, w)
    else if ¬ data_len ≥ PH_PROTO_7816_HEADER_LEN d then some (true, w)
    else
      let pcb := buf.getD PH_PROPTO_7816_PCB_OFFSET 0
      if data_len < PH_PROTO_7816_INF_FILED d then some (false, w)
      else if pcb &&& 0x80 = 0 then some (DecodeFrame_I K d buf data_len pcb w)
      else if pcb &&& 0x80 ≠ 0 ∧ 0x40 &&& pcb = 0 then some (DecodeFrame_R K d pcb w)
      else if 0x80 &&& pcb ≠ 0 ∧ 0x40 &&& pcb ≠ 0 then DecodeFrame_S K d fuel buf data_len pcb w
      else some (true, w)

/-! ## The transceive loop -/

/-- The R-NACK that `phNxpEseProto7816_ProcessResponse` schedules while the R-NACK budget
lasts: frame type `RFRAME`, the given error code, `(!seqNo) << 4` of the last received
I-block as sequence field, next step `SEND_R_NACK`, and the R-NACK counter incremented. -/
def ProcessResponse_rnack (errCode : RFrameError) (v : phNxpEseProto7816_t) :
    phNxpEseProto7816_t :=
  { v with
    phNxpEseRx_Cntx.lastRcvdFrameType := .INVALID
    phNxpEseNextTx_Cntx.FrameType := .RFRAME
    phNxpEseNextTx_Cntx.RframeInfo.errCode := errCode
    phNxpEseNextTx_Cntx.RframeInfo.seqNo :=
      ((if v.phNxpEseRx_Cntx.lastRcvdIframeInfo.seqNo = 0 then 1 else 0) <<< 4) % 256
    phNxpEseProto7816_nextTransceiveState := .SEND_R_NACK
    rnack_retry_counter := v.rnack_retry_counter + 1 }

/-- The give-up stores of `phNxpEseProto7816_ProcessResponse`: R-NACK counter and timeout
counter back to zero and next step `IDLE_STATE`. -/
def ProcessResponse_giveUp (v : phNxpEseProto7816_t) : phNxpEseProto7816_t :=
  { v with
    rnack_retry_counter := PH_PROTO_7816_VALUE_ZERO
    phNxpEseProto7816_nextTransceiveState := .IDLE_STATE
    timeoutCounter := PH_PROTO_7816_VALUE_ZERO }

/-- The function `phNxpEseProto7816_ProcessResponse`; `rd` is the result of
`phNxpEseProto7816_GetRawFrame`.  `none` when decoding does not return. -/
def ProcessResponse (K : Consts) (d : Dialect) (fuel : Nat) (rd : Option (List Nat))
    (w : Session) : Option (Bool × Session) :=
  let v := w.phNxpEseProto7816_3_Var
  match rd with
  | some p_data =>
    let data_len := p_data.length
    let v1 : phNxpEseProto7816_t := { v with timeoutCounter := PH_PROTO_7816_VALUE_ZERO }
    if CheckCRC K.MAX_APDU_BUFFER d data_len (some p_data) = true then
      DecodeFrame K d fuel (some p_data) data_len
        { w with
          phNxpEseProto7816_3_Var := { v1 with rnack_retry_counter := PH_PROTO_7816_VALUE_ZERO } }
    else if v1.rnack_retry_counter < v1.rnack_retry_limit then
      some (true, { w with phNxpEseProto7816_3_Var := ProcessResponse_rnack .PARITY_ERROR v1 })
    else some (false, { w with phNxpEseProto7816_3_Var := ProcessResponse_giveUp v1 })
  | none =>
    if v.phNxpEseLastTx_Cntx.FrameType = .SFRAME ∧
        (v.phNxpEseLastTx_Cntx.SframeInfo.sFrameType = .WTX_RSP ∨
          v.phNxpEseLastTx_Cntx.SframeInfo.sFrameType = .RESYNCH_RSP) then
      if v.rnack_retry_counter < v.rnack_retry_limit then
        some (false, { w with phNxpEseProto7816_3_Var := ProcessResponse_rnack .OTHER_ERROR v })
      else some (false, { w with phNxpEseProto7816_3_Var := ProcessResponse_giveUp v })
    else if v.phNxpEseLastTx_Cntx.FrameType = .IFRAME then
      if v.rnack_retry_counter < v.rnack_retry_limit then
        some (false, { w with phNxpEseProto7816_3_Var := ProcessResponse_rnack .PARITY_ERROR v })
      else some (false, { w with phNxpEseProto7816_3_Var := ProcessResponse_giveUp v })
    else
      if v.timeoutCounter < K.PH_PROTO_7816_TIMEOUT_RETRY_COUNT then
        some (false, { w with
          phNxpEseProto7816_3_Var :=
            { v with
              timeoutCounter := v.timeoutCounter + 1
              phNxpEseNextTx_Cntx := v.phNxpEseLastTx_Cntx } })
      else
        some (false, { w with
          phNxpEseProto7816_3_Var :=
            { v with
              phNxpEseProto7816_nextTransceiveState := .IDLE_STATE
              timeoutCounter := PH_PROTO_7816_VALUE_ZERO } })

/-- The `switch` of `TransceiveProcess` on the next step, for the cases compiled in
dialect `d`: the block is sent and the status taken from the sender.  In the `default`
case the next step becomes `IDLE_STATE` and `status` keeps its value. -/
def TransceiveProcess_send (K : Consts) (d : Dialect) (tr : Transport)
    (hist : List (List Nat)) (status : Bool) (w : Session) :
    Bool × Session × List (List Nat) :=
  let s (t : SFrameType) := SendSFrame K d tr hist w { sFrameType := t }
  let default : Bool × Session × List (List Nat) :=
    (status,
      { w with phNxpEseProto7816_3_Var.phNxpEseProto7816_nextTransceiveState := .IDLE_STATE },
      hist)
  match w.phNxpEseProto7816_3_Var.phNxpEseProto7816_nextTransceiveState, d with
  | .SEND_IFRAME, _ =>
    SendIframe K d tr hist w w.phNxpEseProto7816_3_Var.phNxpEseNextTx_Cntx.IframeInfo
  | .SEND_R_ACK, _ => sendRframe d tr hist w .RACK
  | .SEND_R_NACK, _ => sendRframe d tr hist w .RNACK
  | .SEND_S_RSYNC, _ => s .RESYNCH_REQ
  | .SEND_S_WTX_RSP, _ => s .WTX_RSP
  | .SEND_DEEP_PWR_DOWN, _ => s .DEEP_PWR_DOWN_REQ
  | .SEND_S_CHIP_RST, .T1oI2C_UM11225 => s .CHIP_RESET_REQ
  | .SEND_S_INTF_RST, .T1oI2C_UM11225 => s .INTF_RESET_REQ
  | .SEND_S_EOS, .T1oI2C_UM11225 => s .PROP_END_APDU_REQ
  | .SEND_S_ATR, .T1oI2C_UM11225 => s .ATR_REQ
  | .SEND_S_CIP, .T1oI2C_GP1_0 => s .CIP_REQ
  | .SEND_S_SWR, .T1oI2C_GP1_0 => s .SWR_REQ
  | .SEND_S_RELEASE, .T1oI2C_GP1_0 => s .RELEASE_REQ
  | .SEND_S_COLD_RST, .T1oI2C_GP1_0 => s .COLD_RESET_REQ
  | _, _ => default

/-- The `while` loop of `TransceiveProcess`, with `status` carried from one iteration to
the next and at most `fuel` iterations.  `none` when the loop has not reached
`IDLE_STATE` within `fuel` iterations or a decode does not return. -/
def TransceiveProcess_loop (K : Consts) (d : Dialect) (tr : Transport) :
    Nat → Bool → Session → List (List Nat) → Option (Bool × Session × List (List Nat))
  | 0, _, _, _ => none
  | fuel + 1, status, w, hist =>
    if w.phNxpEseProto7816_3_Var.phNxpEseProto7816_nextTransceiveState = .IDLE_STATE then
      some (status, w, hist)
    else
      match TransceiveProcess_send K d tr hist status w with
      | (true, w1, hist1) =>
        match ProcessResponse K d fuel (GetRawFrame tr hist1)
            { w1 with
              phNxpEseProto7816_3_Var.phNxpEseLastTx_Cntx :=
                w1.phNxpEseProto7816_3_Var.phNxpEseNextTx_Cntx } with
        | none => none
        | some (status2, w2) => TransceiveProcess_loop K d tr fuel status2 w2 hist1
      | (false, w1, hist1) =>
        TransceiveProcess_loop K d tr fuel false
          { w1 with
            phNxpEseProto7816_3_Var.phNxpEseProto7816_nextTransceiveState := .IDLE_STATE }
          hist1

/-- The function `TransceiveProcess`: `status` starts as `FALSE`. -/
def TransceiveProcess (K : Consts) (d : Dialect) (tr : Transport) (fuel : Nat) (w : Session)
    (hist : List (List Nat)) : Option (Bool × Session × List (List Nat)) :=
  TransceiveProcess_loop K d tr fuel false w hist

/-! ## Session API -/

/-- The function `phNxpEseProto7816_Transceive(conn_ctx, pCmd, pRsp)`.  Returns the
status, the session (whose `rsp` is the caller's response descriptor on return) and the
blocks handed to the transport. -/
def Transceive (K : Consts) (d : Dialect) (tr : Transport) (fuel : Nat) (w : Session)
    (hist : List (List Nat)) (pCmd pRsp : Option phNxpEse_data) :
    Option (Bool × Session × List (List Nat)) :=
  match pCmd, pRsp with
  | some cmd, some rsp =>
    if w.phNxpEseProto7816_3_Var.phNxpEseProto7816_CurrentState ≠ .PH_NXP_ESE_PROTO_7816_IDLE
    then some (false, w, hist)
    else
      let v1 : phNxpEseProto7816_t :=
        { w.phNxpEseProto7816_3_Var with
          phNxpEseProto7816_CurrentState := .PH_NXP_ESE_PROTO_7816_TRANSCEIVE
          phNxpEseNextTx_Cntx.IframeInfo.p_data := cmd.p_data
          phNxpEseNextTx_Cntx.IframeInfo.totalDataLen := cmd.len
          phNxpEseRx_Cntx.pRsp := .caller }
      let w1 : Session := { phNxpEseProto7816_3_Var := (SetFirstIframeContxt v1).2, rsp := rsp }
      match TransceiveProcess K d tr fuel w1 hist with
      | none => none
      | some (status, w2, hist2) =>
        if w2.phNxpEseProto7816_3_Var.phNxpEseRx_Cntx.responseBytesRcvd > UINT32_MAX then
          some (false, w2, hist2)
        else
          some (status,
            { w2 with
              rsp.len := w2.phNxpEseProto7816_3_Var.phNxpEseRx_Cntx.responseBytesRcvd
              phNxpEseProto7816_3_Var.phNxpEseProto7816_CurrentState :=
                .PH_NXP_ESE_PROTO_7816_IDLE },
            hist2)
  | _, _ => some (false, w, hist)

/-- An S-request API call (`RSync`, `Deep_Pwr_Down`, `ChipReset`, `SoftReset`,
`ColdReset`): current state `TRANSCEIVE`, the request installed as next-to-send S-block,
`TransceiveProcess`, current state back to `IDLE`.  `clearRsp` is the store
`pRx_EseCntx->pRsp = NULL` of the reset calls. -/
def sRequest (K : Consts) (d : Dialect) (tr : Transport) (fuel : Nat) (w : Session)
    (hist : List (List Nat)) (t : SFrameType) (st : TransceiveState) (clearRsp : Bool) :
    Option (Bool × Session × List (List Nat)) :=
  let v := w.phNxpEseProto7816_3_Var
  let v1 : phNxpEseProto7816_t :=
    { v with
      phNxpEseProto7816_CurrentState := .PH_NXP_ESE_PROTO_7816_TRANSCEIVE
      phNxpEseNextTx_Cntx.FrameType := .SFRAME
      phNxpEseNextTx_Cntx.SframeInfo.sFrameType := t
      phNxpEseProto7816_nextTransceiveState := st
      phNxpEseRx_Cntx.pRsp := if clearRsp then .NULL else v.phNxpEseRx_Cntx.pRsp }
  match TransceiveProcess K d tr fuel { w with phNxpEseProto7816_3_Var := v1 } hist with
  | none => none
  | some (status, w2, hist2) =>
    some (status,
      { w2 with
        phNxpEseProto7816_3_Var.phNxpEseProto7816_CurrentState := .PH_NXP_ESE_PROTO_7816_IDLE },
      hist2)

/-- The function `phNxpEseProto7816_RSync`. -/
def RSync (K : Consts) (d : Dialect) (tr : Transport) (fuel : Nat) (w : Session)
    (hist : List (List Nat)) : Option (Bool × Session × List (List Nat)) :=
  sRequest K d tr fuel w hist .RESYNCH_REQ .SEND_S_RSYNC false

/-- The function `phNxpEseProto7816_Deep_Pwr_Down`. -/
def Deep_Pwr_Down (K : Consts) (d : Dialect) (tr : Transport) (fuel : Nat) (w : Session)
    (hist : List (List Nat)) : Option (Bool × Session × List (List Nat)) :=
  sRequest K d tr fuel w hist .DEEP_PWR_DOWN_REQ .SEND_DEEP_PWR_DOWN false

/-- The function `phNxpEseProto7816_ChipReset` (Dialect-A). -/
def ChipReset (K : Consts) (tr : Transport) (fuel : Nat) (w : Session)
    (hist : List (List Nat)) : Option (Bool × Session × List (List Nat)) :=
  sRequest K .T1oI2C_UM11225 tr fuel w hist .CHIP_RESET_REQ .SEND_S_CHIP_RST true

/-- The function `phNxpEseProto7816_SoftReset` (Dialect-B). -/
def SoftReset (K : Consts) (tr : Transport) (fuel : Nat) (w : Session)
    (hist : List (List Nat)) : Option (Bool × Session × List (List Nat)) :=
  sRequest K .T1oI2C_GP1_0 tr fuel w hist .SWR_REQ .SEND_S_SWR true

/-- The function `phNxpEseProto7816_ColdReset` (Dialect-B). -/
def ColdReset (K : Consts) (tr : Transport) (fuel : Nat) (w : Session)
    (hist : List (List Nat)) : Option (Bool × Session × List (List Nat)) :=
  sRequest K .T1oI2C_GP1_0 tr fuel w hist .COLD_RESET_REQ .SEND_S_COLD_RST true

/-- An S-request API call that collects the response payload into the caller's
descriptor (`GetAtr`, `IntfReset` in Dialect-A, `GetCip` in Dialect-B): the descriptor is
installed as `pRsp`, `responseBytesRcvd` starts at 0, and on return the descriptor's `len`
is `responseBytesRcvd`.  A NULL descriptor returns `FALSE` at once. -/
def sFetch (K : Consts) (d : Dialect) (tr : Transport) (fuel : Nat) (w : Session)
    (hist : List (List Nat)) (t : SFrameType) (st : TransceiveState)
    (pRsp : Option phNxpEse_data) : Option (Bool × Session × List (List Nat)) :=
  match pRsp with
  | none => some (false, w, hist)
  | some rsp =>
    let v1 : phNxpEseProto7816_t :=
      { w.phNxpEseProto7816_3_Var with
        phNxpEseProto7816_CurrentState := .PH_NXP_ESE_PROTO_7816_TRANSCEIVE
        phNxpEseNextTx_Cntx.FrameType := .SFRAME
        phNxpEseNextTx_Cntx.SframeInfo.sFrameType := t
        phNxpEseProto7816_nextTransceiveState := st
        phNxpEseRx_Cntx.pRsp := .caller
        phNxpEseRx_Cntx.responseBytesRcvd := 0 }
    match TransceiveProcess K d tr fuel { phNxpEseProto7816_3_Var := v1, rsp := rsp } hist with
    | none => none
    | some (status, w2, hist2) =>
      some (status,
        { w2 with
          rsp.len := w2.phNxpEseProto7816_3_Var.phNxpEseRx_Cntx.responseBytesRcvd
          phNxpEseProto7816_3_Var.phNxpEseProto7816_CurrentState :=
            .PH_NXP_ESE_PROTO_7816_IDLE },
        hist2)

/-- The function `phNxpEseProto7816_GetAtr` (Dialect-A). -/
def GetAtr (K : Consts) (tr : Transport) (fuel : Nat) (w : Session) (hist : List (List Nat))
    (pRsp : Option phNxpEse_data) : Option (Bool × Session × List (List Nat)) :=
  sFetch K .T1oI2C_UM11225 tr fuel w hist .ATR_REQ .SEND_S_ATR pRsp

/-- The function `phNxpEseProto7816_IntfReset` (Dialect-A). -/
def IntfReset (K : Consts) (tr : Transport) (fuel : Nat) (w : Session)
    (hist : List (List Nat)) (AtrRsp : Option phNxpEse_data) :
    Option (Bool × Session × List (List Nat)) :=
  sFetch K .T1oI2C_UM11225 tr fuel w hist .INTF_RESET_REQ .SEND_S_INTF_RST AtrRsp

/-- The function `phNxpEseProto7816_GetCip` (Dialect-B). -/
def GetCip (K : Consts) (tr : Transport) (fuel : Nat) (w : Session) (hist : List (List Nat))
    (pRsp : Option phNxpEse_data) : Option (Bool × Session × List (List Nat)) :=
  sFetch K .T1oI2C_GP1_0 tr fuel w hist .CIP_REQ .SEND_S_CIP pRsp

/-- The function `phNxpEseProto7816_WTXRsp`. -/
def WTXRsp (K : Consts) (d : Dialect) (tr : Transport) (hist : List (List Nat))
    (w : Session) : Bool × Session × List (List Nat) :=
  SendSFrame K d tr hist w { sFrameType := .WTX_RSP }

/-- The function `phNxpEseProto7816_SendRSync`. -/
def SendRSync (K : Consts) (d : Dialect) (tr : Transport) (hist : List (List Nat))
    (w : Session) : Bool × Session × List (List Nat) :=
  SendSFrame K d tr hist w { sFrameType := .RESYNCH_REQ }

/-- The argument `phNxpEseProto7816InitParam_t` of `phNxpEseProto7816_Open`. -/
structure phNxpEseProto7816InitParam_t where
  wtx_counter_limit : Nat
  rnack_retry_limit : Nat
  interfaceReset : Bool
  deriving DecidableEq, Repr

/-- The function `phNxpEseProto7816_Open(conn_ctx, initParam, AtrRsp)`, for a non-NULL
`AtrRsp` (the code dereferences it unconditionally). -/
def Open (K : Consts) (d : Dialect) (tr : Transport) (fuel : Nat) (w : Session)
    (hist : List (List Nat)) (initParam : phNxpEseProto7816InitParam_t)
    (AtrRsp : phNxpEse_data) : Option (Bool × Session × List (List Nat)) :=
  let v0 := (ResetProtoParams K w.phNxpEseProto7816_3_Var).2
  let v1 : phNxpEseProto7816_t :=
    { v0 with
      wtx_counter_limit := initParam.wtx_counter_limit
      rnack_retry_limit := initParam.rnack_retry_limit
      phNxpEseRx_Cntx.pRsp := .caller
      phNxpEseRx_Cntx.responseBytesRcvd := 0 }
  let w1 : Session := { phNxpEseProto7816_3_Var := v1, rsp := AtrRsp }
  let finish (r : Bool × Session × List (List Nat)) : Bool × Session × List (List Nat) :=
    (r.1,
      { r.2.1 with
        rsp.len := r.2.1.phNxpEseProto7816_3_Var.phNxpEseRx_Cntx.responseBytesRcvd },
      r.2.2)
  match RSync K d tr fuel w1 hist with
  | none => none
  | some (status, w2, hist2) =>
    if initParam.interfaceReset ∧ status = true then
      match d with
      | .T1oI2C_UM11225 => (GetAtr K tr fuel w2 hist2 (some w2.rsp)).map finish
      | .T1oI2C_GP1_0 => (GetCip K tr fuel w2 hist2 (some w2.rsp)).map finish
    else some (finish (status, w2, hist2))

/-- The function `phNxpEseProto7816_Close`. -/
def Close (K : Consts) (d : Dialect) (tr : Transport) (fuel : Nat) (w : Session)
    (hist : List (List Nat)) : Option (Bool × Session × List (List Nat)) :=
  let v := w.phNxpEseProto7816_3_Var
  let v1 : phNxpEseProto7816_t := { v with phNxpEseRx_Cntx.pRsp := .NULL }
  if v1.phNxpEseProto7816_CurrentState ≠ .PH_NXP_ESE_PROTO_7816_IDLE then
    some (false, { w with phNxpEseProto7816_3_Var := v1 }, hist)
  else
    let v2 : phNxpEseProto7816_t :=
      { v1 with
        phNxpEseProto7816_CurrentState := .PH_NXP_ESE_PROTO_7816_DEINIT
        recoveryCounter := 0
        wtx_counter := 0
        phNxpEseNextTx_Cntx.FrameType := .SFRAME
        phNxpEseNextTx_Cntx.SframeInfo.sFrameType :=
          match d with
          | .T1oI2C_UM11225 => .PROP_END_APDU_REQ
          | .T1oI2C_GP1_0 => .RELEASE_REQ
        phNxpEseProto7816_nextTransceiveState :=
          match d with
          | .T1oI2C_UM11225 => .SEND_S_EOS
          | .T1oI2C_GP1_0 => .SEND_S_RELEASE }
    match TransceiveProcess K d tr fuel { w with phNxpEseProto7816_3_Var := v2 } hist with
    | none => none
    | some (status, w2, hist2) =>
      some (status,
        { w2 with
          phNxpEseProto7816_3_Var.phNxpEseProto7816_CurrentState :=
            .PH_NXP_ESE_PROTO_7816_IDLE },
        hist2)

/-! ## Observations on the blocks handed to the transport, and peers -/

/-- The PCB byte of a block. -/
def pcbOf (f : List Nat) : Nat := f.getD PH_PROPTO_7816_PCB_OFFSET 0

/-- A block is an I-block when PCB bit 7 is clear. -/
def isIBlock (f : List Nat) : Bool := pcbOf f &&& 0x80 = 0

/-- The send-sequence bit S of an I-block (PCB bit 6). -/
def sBit (f : List Nat) : Nat := (pcbOf f &&& 0x40) >>> 6

/-- The chaining bit M of an I-block (PCB bit 5). -/
def mBit (f : List Nat) : Nat := (pcbOf f &&& 0x20) >>> 5

/-- The INF field of a block: the bytes between the header and the two CRC bytes. -/
def infOf (d : Dialect) (f : List Nat) : List Nat :=
  (f.drop (PH_PROPTO_7816_INF_BYTE_OFFSET d)).take (f.length - PH_PROTO_7816_INF_FILED d)

/-- The I-blocks among the blocks handed to the transport, in emission order. -/
def iBlocks (hist : List (List Nat)) : List (List Nat) := hist.filter isIBlock

/-- A transport that answers the k-th block handed to it with the k-th entry of a script
and fails every read after the script has ended. -/
def scripted (script : List Outcome) : Transport :=
  fun hist => script.getD (hist.length - 1) .readFailed

/-- A frame with a correct CRC trailer for dialect `d`, as a peer would send it. -/
def withCRC (d : Dialect) (body : List Nat) : List Nat :=
  body ++ crcTrailer (ComputeCRC d (some body) 0 body.length)

/-- A configuration for concrete scenarios.  `IFSC_SIZE_SEND = 254` and the frame retry
limit 3 are the values the specification names; `MAX_APDU_BUFFER = 260` is the smallest
buffer that holds a full I-block of either dialect (254 + 4 + 2); the timeout retry limit
1 and the S-block code tables are sample values (the ISO 7816-3 codes for resynch, IFS,
abort and WTX, distinct values for the others), and the counter ranges are those of an
8-bit recovery counter and a 32-bit `unsigned long`.  Only the concrete scenarios use this
configuration; every general statement is about an arbitrary configuration `K`. -/
def sampleConsts : Consts :=
  { MAX_APDU_BUFFER := 260
    IFSC_SIZE_SEND := 254
    PH_PROTO_7816_FRAME_RETRY_COUNT := 3
    PH_PROTO_7816_TIMEOUT_RETRY_COUNT := 1
    sFrameCode := fun t =>
      match t with
      | .RESYNCH_REQ => 0x00 | .RESYNCH_RSP => 0x20
      | .IFSC_REQ => 0x01 | .IFSC_RES => 0x21
      | .ABORT_REQ => 0x02 | .ABORT_RES => 0x22
      | .WTX_REQ => 0x03 | .WTX_RSP => 0x23
      | .CIP_REQ => 0x04 | .CIP_RES => 0x24
      | .PROP_END_APDU_REQ => 0x05 | .PROP_END_APDU_RSP => 0x25
      | .CHIP_RESET_REQ => 0x06 | .CHIP_RESET_RES => 0x26
      | .ATR_REQ => 0x07 | .ATR_RES => 0x27
      | .RELEASE_REQ => 0x08 | .RELEASE_RES => 0x28
      | .DEEP_PWR_DOWN_REQ => 0x09 | .DEEP_PWR_DOWN_RES => 0x29
      | .COLD_RESET_REQ => 0x0A | .COLD_RESET_RES => 0x2A
      | .SWR_REQ => 0x0F | .SWR_RSP => 0x2F
      | .INTF_RESET_REQ => 0x0F | .INTF_RESET_RSP => 0x2F
      | .INVALID_REQ_RES => 0x3F
    PH_PROTO_7816_S_RESYNCH := 0x00
    PH_PROTO_7816_S_RESET := 0x0F
    PH_PROTO_7816_S_END_OF_APDU := 0x05
    PH_PROTO_7816_S_GET_ATR := 0x07
    PH_PROTO_7816_S_DEEP_PWR_DOWN := 0x09
    PH_PROTO_7816_S_WTX := 0x03
    PH_PROTO_7816_S_CHIP_RST := 0x06
    PH_PROTO_7816_S_SWR := 0x0F
    PH_PROTO_7816_S_RELEASE := 0x08
    PH_PROTO_7816_S_GET_CIP := 0x04
    PH_PROTO_7816_S_COLD_RST := 0x0A
    zeroSFrameType := .RESYNCH_REQ
    zeroErrCode := .NO_ERROR
    RECOVERY_COUNTER_MAX := 255
    WTX_COUNTER_MAX := 4294967295 }

/-- The all-zero protocol instance, the initial value of the global
`phNxpEseProto7816_3_Var`, for the sample configuration. -/
def zeroVar : phNxpEseProto7816_t :=
  let tx : phNxpEseProto7816_NextTx_Info_t :=
    { IframeInfo := iFrameInfo_zero
      RframeInfo := { seqNo := 0, errCode := .NO_ERROR }
      SframeInfo := { sFrameType := .RESYNCH_REQ }
      FrameType := .IFRAME }
  { phNxpEseLastTx_Cntx := tx
    phNxpEseNextTx_Cntx := tx
    phNxpEseRx_Cntx :=
      { lastRcvdIframeInfo := iFrameInfo_zero
        lastRcvdRframeInfo := { seqNo := 0, errCode := .NO_ERROR }
        lastRcvdSframeInfo := { sFrameType := .RESYNCH_REQ }
        lastRcvdFrameType := .IFRAME
        pRsp := .NULL
        responseBytesRcvd := 0 }
    phNxpEseProto7816_nextTransceiveState := .IDLE_STATE
    phNxpEseProto7816_CurrentState := .PH_NXP_ESE_PROTO_7816_IDLE
    recoveryCounter := 0
    timeoutCounter := 0
    wtx_counter := 0
    wtx_counter_limit := 0
    rnack_retry_counter := 0
    rnack_retry_limit := 0
    lastSentNonErrorframeType := .IFRAME }

/-- A freshly reset session for the sample configuration with the given limits and an
empty response descriptor. -/
def freshSession (wtx_counter_limit rnack_retry_limit : Nat) : Session :=
  { phNxpEseProto7816_3_Var :=
      (ResetProtoParams sampleConsts
        { zeroVar with
          wtx_counter_limit := wtx_counter_limit
          rnack_retry_limit := rnack_retry_limit }).2
    rsp := { len := 0, p_data := none } }

/-- A block is well framed for dialect `d`: it starts with NAD `0x5A` and its last two
bytes are the CRC trailer of `ComputeCRC` over all bytes before them. -/
def Framed (d : Dialect) (f : List Nat) : Prop :=
  f.getD 0 0 = 0x5A ∧ 2 ≤ f.length ∧
    f.drop (f.length - 2)
      = crcTrailer (ComputeCRC d (some (f.take (f.length - 2))) 0 (f.length - 2))

/-- The protocol instance as `phNxpEseProto7816_Transceive` leaves it before it calls
`TransceiveProcess`: state `TRANSCEIVE`, the command installed in the next-to-send I
context, `pRsp` set, and the first fragment computed. -/
def installCmd (v : phNxpEseProto7816_t) (cmd : phNxpEse_data) : phNxpEseProto7816_t :=
  (SetFirstIframeContxt
    { v with
      phNxpEseProto7816_CurrentState := .PH_NXP_ESE_PROTO_7816_TRANSCEIVE
      phNxpEseNextTx_Cntx.IframeInfo.p_data := cmd.p_data
      phNxpEseNextTx_Cntx.IframeInfo.totalDataLen := cmd.len
      phNxpEseRx_Cntx.pRsp := .caller }).2

/-- The protocol instance after the fragment contexts 0..k were produced one after the
other: the first by `SetFirstIframeContxt` inside `Transceive`, each further one by
`SetNextIframeContxt` after the previous context was sent (`TransceiveProcess` copies the
next-to-send context into the last-sent one) and acknowledged. -/
def fragVar (v : phNxpEseProto7816_t) (cmd : phNxpEse_data) : Nat → phNxpEseProto7816_t
  | 0 => installCmd v cmd
  | k + 1 =>
    (SetNextIframeContxt
      { fragVar v cmd k with phNxpEseLastTx_Cntx := (fragVar v cmd k).phNxpEseNextTx_Cntx }).2

/-- The k-th I-block context of a command (k counted from 0). -/
def fragCtx (v : phNxpEseProto7816_t) (cmd : phNxpEse_data) (k : Nat) : iFrameInfo_t :=
  (fragVar v cmd k).phNxpEseNextTx_Cntx.IframeInfo

/-- The number of fragments of a command of `len` bytes with maximum fragment size
`ifsc`: the ceiling of `len / ifsc`. -/
def fragCount (len ifsc : Nat) : Nat := (len + ifsc - 1) / ifsc

/-- A received frame is accepted by the CRC check and long enough to be decoded. -/
def GoodFrame (K : Consts) (d : Dialect) (r : List Nat) : Prop :=
  CheckCRC K.MAX_APDU_BUFFER d r.length (some r) = true ∧ PH_PROTO_7816_INF_FILED d ≤ r.length

/-- A peer that keeps a chained command going and then answers it: every chained I-block
(M = 1) is written successfully and answered by an error-free R-block whose sequence bit N
differs from the S bit of that I-block (PCB bits 7..6 = 10, both error bits clear), and
every non-chained I-block (M = 0) is written
successfully and answered by a non-chained I-block that carries the sequence number the
host expects next, that is, one that differs from `rxSeq`, the sequence number of the
last I-block the host received before the exchange. -/
def AckingPeer (K : Consts) (d : Dialect) (rxSeq : Nat) (tr : Transport) : Prop :=
  ∀ (hist : List (List Nat)) (f : List Nat), isIBlock f = true →
    (mBit f = 1 → ∃ r, tr (hist ++ [f]) = .received r ∧ GoodFrame K d r ∧
        pcbOf r &&& 0x80 ≠ 0 ∧ pcbOf r &&& 0x40 = 0 ∧
        pcbOf r &&& 0x01 = 0 ∧ pcbOf r &&& 0x02 = 0 ∧
        (pcbOf r &&& 0x10) >>> 4 ≠ sBit f) ∧
    (mBit f = 0 → ∃ r, tr (hist ++ [f]) = .received r ∧ GoodFrame K d r ∧
        pcbOf r &&& 0x80 = 0 ∧ pcbOf r &&& 0x20 = 0 ∧ (pcbOf r &&& 0x40) >>> 6 ≠ rxSeq)

/-- A list of bits alternates: each entry is the complement of the one before it. -/
def Alternates : List Nat → Prop
  | a :: b :: rest => b = a ^^^ 1 ∧ Alternates (b :: rest)
  | _ => True

/-- A peer written as a function of the block it answers: an R-ACK with the next sequence
number for a chained I-block, the response I-block `90 00` with sequence bit `s` for any
other block. -/
def ackingTransport (d : Dialect) (s : Nat) : Transport := fun hist =>
  let f := hist.getLastD []
  let len0 : List Nat :=
    match d with
    | .T1oI2C_UM11225 => [0x00]
    | .T1oI2C_GP1_0 => [0x00, 0x00]
  let len2 : List Nat :=
    match d with
    | .T1oI2C_UM11225 => [0x02]
    | .T1oI2C_GP1_0 => [0x00, 0x02]
  if isIBlock f = true ∧ mBit f = 1 then
    .received (withCRC d ([0x5A, 0x80 ||| ((sBit f ^^^ 1) <<< 4)] ++ len0))
  else .received (withCRC d ([0x5A, s <<< 6] ++ len2 ++ [0x90, 0x00]))

/-- The error code `e` of an R-block as the specification lists it: 0 for an R-ACK, 1 for
a NACK for a parity error, 2 for a NACK for another error, 3 for SOF-missed or undefined;
an R-NACK sent while the error code of the context is `NO_ERROR` carries 0. -/
def specRErr (t : rFrameTypes_t) (errCode : RFrameError) : Nat :=
  match t, errCode with
  | .RACK, _ => 0
  | .RNACK, .NO_ERROR => 0
  | .RNACK, .PARITY_ERROR => 1
  | .RNACK, .OTHER_ERROR => 2
  | .RNACK, .SOF_MISSED_ERROR => 3
  | .RNACK, .UNDEFINED_ERROR => 3

/-- The LEN field of an I-block with `n` INF bytes as the specification lays it out: one
byte in Dialect-A, two bytes big-endian in Dialect-B. -/
def specLen (d : Dialect) (n : Nat) : List Nat :=
  match d with
  | .T1oI2C_UM11225 => [n]
  | .T1oI2C_GP1_0 => [n / 256, n % 256]

/-- A freshly reset session of the sample configuration (limits 3 and 3) after
`SetIfscSize(IFSC_Size)`, with an empty response descriptor. -/
def sessionWithIfsc (IFSC_Size : Nat) : Session :=
  { freshSession 3 3 with
    phNxpEseProto7816_3_Var :=
      (SetIfscSize IFSC_Size (freshSession 3 3).phNxpEseProto7816_3_Var).2 }

/-- A ten-byte response buffer. -/
def rspBuf10 : phNxpEse_data := { len := 10, p_data := some (List.replicate 10 0) }

/-- The seven-byte command of the two-fragment scenario. -/
def cmd7 : phNxpEse_data := { len := 7, p_data := some [0x01, 0x02, 0x03, 0x04, 0x05, 0x06, 0x07] }

/-- A Dialect-A peer that first rejects the chained I-block with an R-NACK for a parity
error, then acknowledges its retransmission, then answers the final I-block. -/
def nackOncePeer : Transport :=
  scripted
    [.received (withCRC .T1oI2C_UM11225 [0x5A, 0x81, 0x00]),
     .received (withCRC .T1oI2C_UM11225 [0x5A, 0x90, 0x00]),
     .received (withCRC .T1oI2C_UM11225 [0x5A, 0x00, 0x02, 0x90, 0x00])]

/-- A Dialect-A peer that acknowledges the chained I-block, acknowledges the final
non-chained I-block as well, and then answers with the response I-block. -/
def ackTwicePeer : Transport :=
  scripted
    [.received (withCRC .T1oI2C_UM11225 [0x5A, 0x90, 0x00]),
     .received (withCRC .T1oI2C_UM11225 [0x5A, 0x80, 0x00]),
     .received (withCRC .T1oI2C_UM11225 [0x5A, 0x00, 0x02, 0x90, 0x00])]

/-! ## Views of the session used by the invariants -/

/-- The response assembly: the caller's response descriptor and the cursor
`responseBytesRcvd` into its buffer. -/
def asm (w : Session) : phNxpEse_data × Nat :=
  (w.rsp, w.phNxpEseProto7816_3_Var.phNxpEseRx_Cntx.responseBytesRcvd)

/-- The two limits configured at `Open`: `wtx_counter_limit` and `rnack_retry_limit`. -/
def limits (w : Session) : Nat × Nat :=
  (w.phNxpEseProto7816_3_Var.wtx_counter_limit, w.phNxpEseProto7816_3_Var.rnack_retry_limit)

/-- One step of the response assembly: either nothing changes, or `n` bytes of `src` are
stored at the cursor, within the capacity `len` of the descriptor, and the cursor advances
by `n`. -/
def AsmStep (a b : phNxpEse_data × Nat) : Prop :=
  b = a ∨
    ∃ (dst src : List Nat) (n : Nat),
      a.1.p_data = some dst ∧ n ≤ src.length ∧ a.2 + n ≤ a.1.len ∧ a.2 + n ≤ UINT_MAX ∧
      b = ({ a.1 with p_data := some (memmove dst a.2 src n) }, a.2 + n)

/-- The S-block subtype code of the reset response of a dialect: Interface-Reset response
in Dialect-A, Software-Reset response in Dialect-B. -/
def resetRspCode (K : Consts) : Dialect → Nat
  | .T1oI2C_UM11225 => K.sFrameCode .INTF_RESET_RSP
  | .T1oI2C_GP1_0 => K.sFrameCode .SWR_RSP

/-- A frame is the reset response of dialect `d`: an S-block (PCB bits 7 and 6 set) whose
subtype is the reset-response code. -/
def isResetRsp (K : Consts) (d : Dialect) (r : List Nat) : Prop :=
  pcbOf r &&& 0x80 ≠ 0 ∧ pcbOf r &&& 0x40 ≠ 0 ∧ pcbOf r &&& 0x3F = resetRspCode K d

/-- The fields of the protocol instance that only response assembly, a reset or `Open`
change: the cursor `responseBytesRcvd` and the two configured limits. -/
def rxView (v : phNxpEseProto7816_t) : Nat × Nat × Nat :=
  (v.phNxpEseRx_Cntx.responseBytesRcvd, v.wtx_counter_limit, v.rnack_retry_limit)

/-- A peer that never sends the reset response of the dialect. -/
def NoResetRsp (K : Consts) (d : Dialect) (tr : Transport) : Prop :=
  ∀ hist r, tr hist = .received r → ¬ isResetRsp K d r

/-- A peer from which no frame arrives that passes the CRC check: every read fails or
delivers a corrupted frame. -/
def NoValidFrame (K : Consts) (d : Dialect) (tr : Transport) : Prop :=
  ∀ hist r, tr hist = .received r → CheckCRC K.MAX_APDU_BUFFER d r.length (some r) = false

/-- The five-byte command of the short round trip. -/
def cmd5 : phNxpEse_data := { len := 5, p_data := some [0x00, 0xA4, 0x04, 0x00, 0x00] }

/-- A one-byte response buffer. -/
def rspBuf1 : phNxpEse_data := { len := 1, p_data := some [0] }

/-- A Dialect-B peer that answers the command with a chained I-block carrying `AA BB` and
answers the R-ACK with a Software-Reset response (subtype code of the sample
configuration). -/
def resetMidwayPeer : Transport :=
  scripted
    [.received (withCRC .T1oI2C_GP1_0 [0x5A, 0x20, 0x00, 0x02, 0xAA, 0xBB]),
     .received (withCRC .T1oI2C_GP1_0 [0x5A, 0xEF, 0x00, 0x00])]

/-- A Dialect-A peer that answers the command with a chained I-block carrying `AA BB` and
then falls silent: every later read fails. -/
def partialThenSilentPeer : Transport :=
  scripted [.received (withCRC .T1oI2C_UM11225 [0x5A, 0x20, 0x02, 0xAA, 0xBB])]

/-- A Dialect-A peer that answers the command with the non-chained I-block `90 00`. -/
def okPeer : Transport :=
  scripted [.received (withCRC .T1oI2C_UM11225 [0x5A, 0x00, 0x02, 0x90, 0x00])]

/-- A Dialect-A peer that answers every block with the same empty I-block with S = 1, the
sequence number the host has already received after a reset. -/
def wrongSeqPeer : Transport := fun _ =>
  .received (withCRC .T1oI2C_UM11225 [0x5A, 0x40, 0x00])

/-- A peer that never answers: every write succeeds and every read fails. -/
def silentPeer : Transport := fun _ => .readFailed

/-- A Dialect-A peer for `Open`: it answers the Resync request with a Resync response and
the ATR request with an ATR response carrying three bytes (subtype codes of the sample
configuration). -/
def openPeer : Transport :=
  scripted
    [.received (withCRC .T1oI2C_UM11225 [0x5A, 0xE0, 0x00]),
     .received (withCRC .T1oI2C_UM11225 [0x5A, 0xE7, 0x03, 0x11, 0x22, 0x33])]

/-- A Dialect-A peer that answers the first block with an Interface-Reset response
without payload (subtype code of the sample configuration). -/
def intfResetPeer : Transport :=
  scripted [.received (withCRC .T1oI2C_UM11225 [0x5A, 0xEF, 0x00])]

/-- An `Open` configuration with both limits 3 and the interface reset requested. -/
def sampleInit : phNxpEseProto7816InitParam_t :=
  { wtx_counter_limit := 3, rnack_retry_limit := 3, interfaceReset := true }

/-! ## The I2C port (`phNxpEsePal_i2c.c`) -/

/-- The return values of the platform driver `axI2CWrite` as `phPalEse_i2c_write` tells
them apart: `I2C_OK`, `I2C_NACK_ON_ADDRESS`, or any other code. -/
inductive I2CResult where
  | I2C_OK
  | I2C_NACK_ON_ADDRESS
  | other
  deriving DecidableEq, Repr

/-- One call of `axI2CWrite`: the buffer `pBuffer` points to at the time of the call and
the length argument. -/
abbrev I2CAttempt := List Nat × Int

/-- The platform driver behind `axI2CWrite` (declared in `sm_i2c.h`, outside the sources):
from the write attempts of the current `phPalEse_i2c_write` call, the current one last, to
the result of the current one.  The driver reads the buffer and does not change it. -/
abbrev I2CDriver := List I2CAttempt → I2CResult

/-- The `do ... while (ret != I2C_OK)` loop of `phPalEse_i2c_write` with the `unsigned int`
variable `retryCount`; `MAX_RETRY_COUNT` is a macro of a header outside the sources.
Returns the `int` result and the attempts made; `none` when the loop has not ended within
`fuel` iterations. -/
def phPalEse_i2c_write_loop (MAX_RETRY_COUNT : Nat) (drv : I2CDriver) (pBuffer : List Nat)
    (nNbBytesToWrite : Int) : Nat → Nat → List I2CAttempt → Option (Int × List I2CAttempt)
  | 0, _, _ => none
  | fuel + 1, retryCount, log =>
    let log1 := log ++ [(pBuffer, nNbBytesToWrite)]
    let ret := drv log1
    if ret ≠ .I2C_OK then
      if ret = .I2C_NACK_ON_ADDRESS ∧ retryCount < MAX_RETRY_COUNT then
        phPalEse_i2c_write_loop MAX_RETRY_COUNT drv pBuffer nNbBytesToWrite fuel
          ((retryCount + 1) % 4294967296) log1
      else some (-1, log1)
    else some (nNbBytesToWrite, log1)

/-- The function `phPalEse_i2c_write(pDevHandle, pBuffer, nNbBytesToWrite)`: the store
`pBuffer[0] = 0x5A` followed by the write loop. -/
def phPalEse_i2c_write (MAX_RETRY_COUNT : Nat) (drv : I2CDriver) (fuel : Nat)
    (pBuffer : List Nat) (nNbBytesToWrite : Int) : Option (Int × List I2CAttempt) :=
  phPalEse_i2c_write_loop MAX_RETRY_COUNT drv (pBuffer.set 0 0x5A) nNbBytesToWrite fuel 0 []

/-- A driver that answers the first `k` attempts with `I2C_NACK_ON_ADDRESS` and the next
one with `I2C_OK`. -/
def nackThenOk (k : Nat) : I2CDriver :=
  fun log => if log.length ≤ k then .I2C_NACK_ON_ADDRESS else .I2C_OK

/-! ## Further observations and sample scenarios -/

/-- The block `phNxpEseProto7816_SendSFrame` hands to the transport for the S-block type
`t` in dialect `d`; empty when the `switch` does not handle `t`. -/
def sFrameOf (K : Consts) (d : Dialect) (t : SFrameType) : List Nat :=
  match SendSFrame_switch K d t with
  | none => []
  | some (frame_len, p_framebuff, pcb_byte) =>
    (SendSFrame_frame d frame_len p_framebuff pcb_byte).take frame_len

/-- The reset request of a dialect: Interface-Reset in Dialect-A, Software-Reset in
Dialect-B. -/
def resetReq : Dialect → SFrameType
  | .T1oI2C_UM11225 => .INTF_RESET_REQ
  | .T1oI2C_GP1_0 => .SWR_REQ

/-- The next step that sends the reset request of a dialect. -/
def resetStep : Dialect → TransceiveState
  | .T1oI2C_UM11225 => .SEND_S_INTF_RST
  | .T1oI2C_GP1_0 => .SEND_S_SWR

/-- The end-of-session request `Close` sends: Prop-End-APDU in Dialect-A, Release in
Dialect-B. -/
def closeReq : Dialect → SFrameType
  | .T1oI2C_UM11225 => .PROP_END_APDU_REQ
  | .T1oI2C_GP1_0 => .RELEASE_REQ

/-- The PCB type code of the end-of-session request of a dialect. -/
def closeCode (K : Consts) : Dialect → Nat
  | .T1oI2C_UM11225 => K.PH_PROTO_7816_S_END_OF_APDU
  | .T1oI2C_GP1_0 => K.PH_PROTO_7816_S_RELEASE

/-- A received frame is an S-block whose subtype is WTX-REQ, and the `switch` of
`DecodeFrame` reaches `case WTX_REQ` for it (the labels before it have other values). -/
def IsWtxReq (K : Consts) (r : List Nat) : Prop :=
  pcbOf r &&& 0x80 ≠ 0 ∧ pcbOf r &&& 0x40 ≠ 0 ∧
  pcbOf r &&& 0x3F = K.sFrameCode .WTX_REQ ∧
  K.sFrameCode .WTX_REQ ≠ K.sFrameCode .RESYNCH_RSP ∧
  K.sFrameCode .WTX_REQ ≠ K.sFrameCode .IFSC_RES ∧
  K.sFrameCode .WTX_REQ ≠ K.sFrameCode .ABORT_RES

/-- The S-block subtypes with a `case` label in `DecodeFrame` for dialect `d`. -/
def handledSubtypes : Dialect → List SFrameType
  | .T1oI2C_UM11225 =>
    [.RESYNCH_RSP, .IFSC_RES, .ABORT_RES, .WTX_REQ, .INTF_RESET_RSP, .PROP_END_APDU_RSP,
     .ATR_RES, .CHIP_RESET_RES, .DEEP_PWR_DOWN_RES]
  | .T1oI2C_GP1_0 =>
    [.RESYNCH_RSP, .IFSC_RES, .ABORT_RES, .WTX_REQ, .SWR_RSP, .RELEASE_RES, .CIP_RES,
     .COLD_RESET_RES, .DEEP_PWR_DOWN_RES]

/-- A Dialect-A peer that answers the I-block with a WTX request, answers the WTX response
with a second WTX request and answers the Interface-Reset request with an Interface-Reset
response (subtype codes of the sample configuration). -/
def wtxTwicePeer : Transport :=
  scripted
    [.received (withCRC .T1oI2C_UM11225 [0x5A, 0xC3, 0x01, 0x01]),
     .received (withCRC .T1oI2C_UM11225 [0x5A, 0xC3, 0x01, 0x01]),
     .received (withCRC .T1oI2C_UM11225 [0x5A, 0xEF, 0x00])]

/-- A Dialect-A peer that answers every block with the error-free R-block `5A 80 00`,
whose sequence bit N is 0. -/
def sameAckPeer : Transport := fun _ => .received (withCRC .T1oI2C_UM11225 [0x5A, 0x80, 0x00])

/-- A Dialect-A peer that answers every block with the S-block `5A E4 00`, whose subtype
(0x24 in the sample configuration, the CIP response of Dialect-B) has no `case` label in
Dialect-A. -/
def unknownSPeer : Transport := fun _ => .received (withCRC .T1oI2C_UM11225 [0x5A, 0xE4, 0x00])

/-- A Dialect-A peer that answers the first block with the S-block `5A E4 00` of an
unhandled subtype and the second with the non-chained I-block `90 00`. -/
def unknownSOncePeer : Transport :=
  scripted
    [.received (withCRC .T1oI2C_UM11225 [0x5A, 0xE4, 0x00]),
     .received (withCRC .T1oI2C_UM11225 [0x5A, 0x00, 0x02, 0x90, 0x00])]

/-- A Dialect-A peer that answers the command with a chained I-block carrying `AA BB`,
answers the R-ACK with an error-free R-block whose sequence bit is 0, and answers the next
block with the non-chained I-block `90 00` (S = 1). -/
def ackAfterChainPeer : Transport :=
  scripted
    [.received (withCRC .T1oI2C_UM11225 [0x5A, 0x20, 0x02, 0xAA, 0xBB]),
     .received (withCRC .T1oI2C_UM11225 [0x5A, 0x80, 0x00]),
     .received (withCRC .T1oI2C_UM11225 [0x5A, 0x40, 0x02, 0x90, 0x00])]

/-- A Dialect-A peer that answers the end-of-session request with the Prop-End-APDU
response (subtype code of the sample configuration). -/
def closePeer : Transport :=
  scripted [.received (withCRC .T1oI2C_UM11225 [0x5A, 0xE5, 0x00])]

/-- A freshly reset session in which a `Transceive` has installed the caller's one-byte
response buffer. -/
def oneByteSession : Session :=
  { freshSession 3 3 with
    rsp := rspBuf1
    phNxpEseProto7816_3_Var.phNxpEseRx_Cntx.pRsp := .caller }

/-- A freshly reset session whose recovery counter is 4, past the frame retry limit 3 of
the sample configuration (the value it has after the escalation of the recovery-exhaustion
scenario). -/
def pastBudgetSession : Session :=
  { freshSession 3 3 with phNxpEseProto7816_3_Var.recoveryCounter := 4 }

/-- The session right after `TransceiveProcess` sent the I-block of `cmd5`: the command
is installed in a freshly reset session with the ten-byte response buffer, and the
last-sent context is the next-to-send context. -/
def sentSession : Session :=
  { phNxpEseProto7816_3_Var :=
      { installCmd (freshSession 3 3).phNxpEseProto7816_3_Var cmd5 with
        lastSentNonErrorframeType := .IFRAME
        phNxpEseLastTx_Cntx :=
          (installCmd (freshSession 3 3).phNxpEseProto7816_3_Var cmd5).phNxpEseNextTx_Cntx }
    rsp := rspBuf10 }

/-- A received S-block whose subtype has no `case` label in `DecodeFrame` for dialect `d`:
the two top bits of the PCB are set and its low six bits differ from the code of every
handled subtype. -/
def UnhandledS (K : Consts) (d : Dialect) (r : List Nat) : Prop :=
  pcbOf r &&& 0x80 ≠ 0 ∧ pcbOf r &&& 0x40 ≠ 0 ∧
  ∀ t ∈ handledSubtypes d, pcbOf r &&& 0x3F ≠ K.sFrameCode t

/-- A received frame after which `DecodeFrame` schedules nothing: in every session whose
last-sent I context has sequence number `s` it returns TRUE and leaves the next step and
the next-to-send context as they were. -/
def Stutters (K : Consts) (d : Dialect) (s : Nat) (r : List Nat) : Prop :=
  GoodFrame K d r ∧
  ∀ W : Session, W.phNxpEseProto7816_3_Var.phNxpEseLastTx_Cntx.IframeInfo.seqNo = s →
    ∃ W' : Session,
      (∀ fuel, DecodeFrame K d fuel (some r) r.length W = some (true, W')) ∧
      W'.phNxpEseProto7816_3_Var.phNxpEseProto7816_nextTransceiveState
        = W.phNxpEseProto7816_3_Var.phNxpEseProto7816_nextTransceiveState ∧
      W'.phNxpEseProto7816_3_Var.phNxpEseNextTx_Cntx
        = W.phNxpEseProto7816_3_Var.phNxpEseNextTx_Cntx

/-- The PCB type code of the reset request of a dialect. -/
def resetCode (K : Consts) : Dialect → Nat
  | .T1oI2C_UM11225 => K.PH_PROTO_7816_S_RESET
  | .T1oI2C_GP1_0 => K.PH_PROTO_7816_S_SWR

/-- The end-of-session response of a dialect: Prop-End-APDU response in Dialect-A, Release
response in Dialect-B. -/
def closeRsp : Dialect → SFrameType
  | .T1oI2C_UM11225 => .PROP_END_APDU_RSP
  | .T1oI2C_GP1_0 => .RELEASE_RES

/-- A received frame is the end-of-session response of the dialect with LEN 0, and the
`switch` of `DecodeFrame` reaches its `case` label (the labels before it have other
values). -/
def IsCloseRsp (K : Consts) (d : Dialect) (r : List Nat) : Prop :=
  pcbOf r &&& 0x80 ≠ 0 ∧ pcbOf r &&& 0x40 ≠ 0 ∧
  pcbOf r &&& 0x3F = K.sFrameCode (closeRsp d) ∧
  r.getD PH_PROPTO_7816_FRAME_LENGTH_OFFSET 0 = 0 ∧
  K.sFrameCode (closeRsp d) ≠ K.sFrameCode .RESYNCH_RSP ∧
  K.sFrameCode (closeRsp d) ≠ K.sFrameCode .IFSC_RES ∧
  K.sFrameCode (closeRsp d) ≠ K.sFrameCode .ABORT_RES ∧
  K.sFrameCode (closeRsp d) ≠ K.sFrameCode .WTX_REQ ∧
  K.sFrameCode (closeRsp d) ≠ resetRspCode K d

/-- The step of `TransceiveProcess` that sends the end-of-session request of a dialect. -/
def closeStep : Dialect → TransceiveState
  | .T1oI2C_UM11225 => .SEND_S_EOS
  | .T1oI2C_GP1_0 => .SEND_S_RELEASE

/-- A Dialect-B peer that answers the end-of-session request with the Release response
(subtype code of the sample configuration). -/
def releasePeer : Transport :=
  scripted [.received (withCRC .T1oI2C_GP1_0 [0x5A, 0xE8, 0x00, 0x00])]

/-- The session as `phNxpEseProto7816_Close` prepares it, in state Idle, before it calls
`TransceiveProcess`: `pRsp` NULL, current state `DEINIT`, recovery and WTX counters 0, and
the end-of-session request of the dialect scheduled. -/
def closeSession (d : Dialect) (w : Session) : Session :=
  { w with
    phNxpEseProto7816_3_Var :=
      { w.phNxpEseProto7816_3_Var with
        phNxpEseRx_Cntx.pRsp := .NULL
        phNxpEseProto7816_CurrentState := .PH_NXP_ESE_PROTO_7816_DEINIT
        recoveryCounter := 0
        wtx_counter := 0
        phNxpEseNextTx_Cntx.FrameType := .SFRAME
        phNxpEseNextTx_Cntx.SframeInfo.sFrameType := closeReq d
        phNxpEseProto7816_nextTransceiveState := closeStep d } }

/-! ## Counters and reachable states -/

/-- A session in which the host has retransmitted an R-NACK once after a read failure:
a freshly reset session with R-NACK counter 1 and timeout counter 1. -/
def retriedSession : Session :=
  { freshSession 3 3 with
    phNxpEseProto7816_3_Var.rnack_retry_counter := 1
    phNxpEseProto7816_3_Var.timeoutCounter := 1 }

/-- A Dialect-A peer that stays silent twice, then sends the frame `5A 00 00 FF FF`, whose
CRC trailer is wrong, and stays silent afterwards. -/
def badCrcPeer : Transport :=
  scripted [.readFailed, .readFailed, .received [0x5A, 0x00, 0x00, 0xFF, 0xFF]]

/-- A Dialect-A peer that answers the first block with the two-byte frame `00 00`, which
passes the CRC check (the CRC of no bytes is 0), and the second with the non-chained
I-block `90 00`. -/
def shortFramePeer : Transport :=
  scripted
    [.received [0x00, 0x00],
     .received (withCRC .T1oI2C_UM11225 [0x5A, 0x00, 0x02, 0x90, 0x00])]

/-- A Dialect-A S-response (Prop-End-APDU response of the sample configuration) with LEN 2
and INF `00 FF`: the walk of `DecodeSFrameData` starts at offset 2, steps to 3, adds the
byte `FF` at index 4 and is at offset 2 again. -/
def loopingSRsp : List Nat := withCRC .T1oI2C_UM11225 [0x5A, 0xE5, 0x02, 0x00, 0xFF]

/-- A Dialect-B S-response (Release response of the sample configuration) with LEN 2 and
INF `00 FF`: the walk starts at offset 3, steps to 4, adds the byte `FF` at index 5 and is
at offset 3 again. -/
def loopingSRspB : List Nat := withCRC .T1oI2C_GP1_0 [0x5A, 0xE8, 0x00, 0x02, 0x00, 0xFF]

/-- A Dialect-A peer that answers every block with `loopingSRsp`. -/
def loopingPeer : Transport := fun _ => .received loopingSRsp

/-- A Dialect-A peer that answers the first block with an Interface-Reset response
carrying the two INF bytes `AA BB` (subtype code of the sample configuration). -/
def atrResetPeer : Transport :=
  scripted [.received (withCRC .T1oI2C_UM11225 [0x5A, 0xEF, 0x02, 0xAA, 0xBB])]

/-- A Dialect-A peer that answers the first block with an ATR response carrying the two
INF bytes `AA BB` (subtype code of the sample configuration). -/
def atrPeer : Transport :=
  scripted [.received (withCRC .T1oI2C_UM11225 [0x5A, 0xE7, 0x02, 0xAA, 0xBB])]

/-- A Dialect-A peer that answers the I-block and each of the three R-NACKs with the empty
I-block `5A 40 00`, whose sequence bit repeats the last received sequence number of a
freshly reset session, and answers the Interface-Reset request with an Interface-Reset
response without payload. -/
def escalationPeer : Transport :=
  scripted
    [.received (withCRC .T1oI2C_UM11225 [0x5A, 0x40, 0x00]),
     .received (withCRC .T1oI2C_UM11225 [0x5A, 0x40, 0x00]),
     .received (withCRC .T1oI2C_UM11225 [0x5A, 0x40, 0x00]),
     .received (withCRC .T1oI2C_UM11225 [0x5A, 0x40, 0x00]),
     .received (withCRC .T1oI2C_UM11225 [0x5A, 0xEF, 0x00])]

/-- The S-block subtype of the reset response of a dialect: `INTF_RESET_RSP` in Dialect-A,
`SWR_RSP` in Dialect-B. -/
def resetRsp : Dialect → SFrameType
  | .T1oI2C_UM11225 => .INTF_RESET_RSP
  | .T1oI2C_GP1_0 => .SWR_RSP

/-- Whether the reset-response `case` stores the INF of the response with
`SaveRxframeData`: `case INTF_RESET_RSP` does, `case SWR_RSP` does not. -/
def resetRspSaves : Dialect → Bool
  | .T1oI2C_UM11225 => true
  | .T1oI2C_GP1_0 => false

/-- A received frame is the reset response of the dialect, and the `switch` of
`DecodeFrame` reaches its `case` label (the labels before it have other values). -/
def ReachesResetRsp (K : Consts) (d : Dialect) (r : List Nat) : Prop :=
  isResetRsp K d r ∧
  resetRspCode K d ≠ K.sFrameCode .RESYNCH_RSP ∧
  resetRspCode K d ≠ K.sFrameCode .IFSC_RES ∧
  resetRspCode K d ≠ K.sFrameCode .ABORT_RES ∧
  resetRspCode K d ≠ K.sFrameCode .WTX_REQ

/-- The session in which a received S-block is handled: the received frame type is
recorded and, for every subtype but WTX-REQ, the WTX counter cleared. -/
def sReceived (w : Session) : Session :=
  { w with
    phNxpEseProto7816_3_Var :=
      { w.phNxpEseProto7816_3_Var with
        wtx_counter := 0
        phNxpEseRx_Cntx.lastRcvdFrameType := .SFRAME } }

/-- The session after the recovery budget was used up on unexpected-sequence I-blocks: the
command of `sentSession` is sent, the recovery counter stands at the frame-retry limit 3,
and one more unexpected I-block has run the escalation
`RecoverySteps(); recoveryCounter++`. -/
def escalatedSession : Session :=
  DecodeFrame_escalate sampleConsts .T1oI2C_UM11225
    { sentSession with phNxpEseProto7816_3_Var.recoveryCounter := 3 }

/-- The counters and limits of the two retry budgets and of the waiting-time extension:
recovery counter, WTX counter, R-NACK counter and R-NACK limit. -/
def ctrView (v : phNxpEseProto7816_t) : Nat × Nat × Nat × Nat :=
  (v.recoveryCounter, v.wtx_counter, v.rnack_retry_counter, v.rnack_retry_limit)

/-- What one decoded frame may do to the recovery counter: it does not grow, or it grows
by one, and then the next step is `IDLE_STATE` if the counter was already above the
frame-retry limit. -/
def RecoveryStep (K : Consts) (w x : Session) : Prop :=
  x.phNxpEseProto7816_3_Var.recoveryCounter ≤ w.phNxpEseProto7816_3_Var.recoveryCounter ∨
  (x.phNxpEseProto7816_3_Var.recoveryCounter = w.phNxpEseProto7816_3_Var.recoveryCounter + 1 ∧
    (K.PH_PROTO_7816_FRAME_RETRY_COUNT < w.phNxpEseProto7816_3_Var.recoveryCounter →
      x.phNxpEseProto7816_3_Var.phNxpEseProto7816_nextTransceiveState = .IDLE_STATE))

/-- What one decoded frame may do to the R-NACK budget: the limit stays, and the counter
stays or is cleared. -/
def RnackStep (w x : Session) : Prop :=
  x.phNxpEseProto7816_3_Var.rnack_retry_limit = w.phNxpEseProto7816_3_Var.rnack_retry_limit ∧
  (x.phNxpEseProto7816_3_Var.rnack_retry_counter
      = w.phNxpEseProto7816_3_Var.rnack_retry_counter ∨
    x.phNxpEseProto7816_3_Var.rnack_retry_counter = 0)

/-- The R-NACK budget is respected in a session: the R-NACK counter is at most the
R-NACK limit. -/
def RnackWithin (w : Session) : Prop :=
  w.phNxpEseProto7816_3_Var.rnack_retry_counter ≤ w.phNxpEseProto7816_3_Var.rnack_retry_limit

/-- The sessions reachable from `Open`: the session in which a call of `Open` returns, and
the session in which any further call of a public function of the protocol returns,
whatever the peer does (`tr`), whatever was handed to the transport before (`hist`) and
whatever the arguments are.  The functions compiled for one dialect only are available in
that dialect. -/
inductive Reachable (K : Consts) (d : Dialect) : Session → Prop
  | opened (tr : Transport) (fuel : Nat) (w : Session) (hist : List (List Nat))
      (initParam : phNxpEseProto7816InitParam_t) (AtrRsp : phNxpEse_data)
      (x : Bool × Session × List (List Nat)) :
      Open K d tr fuel w hist initParam AtrRsp = some x → Reachable K d x.2.1
  | transceive (tr : Transport) (fuel : Nat) (w : Session) (hist : List (List Nat))
      (pCmd pRsp : Option phNxpEse_data) (x : Bool × Session × List (List Nat)) :
      Reachable K d w → Transceive K d tr fuel w hist pCmd pRsp = some x →
      Reachable K d x.2.1
  | close (tr : Transport) (fuel : Nat) (w : Session) (hist : List (List Nat))
      (x : Bool × Session × List (List Nat)) :
      Reachable K d w → Close K d tr fuel w hist = some x → Reachable K d x.2.1
  | resetProtoParams (w : Session) :
      Reachable K d w →
      Reachable K d
        { w with phNxpEseProto7816_3_Var := (ResetProtoParams K w.phNxpEseProto7816_3_Var).2 }
  | reset (w : Session) :
      Reachable K d w →
      Reachable K d { w with phNxpEseProto7816_3_Var := (Reset K w.phNxpEseProto7816_3_Var).2 }
  | setIfscSize (IFSC_Size : Nat) (w : Session) :
      Reachable K d w →
      Reachable K d
        { w with
          phNxpEseProto7816_3_Var := (SetIfscSize IFSC_Size w.phNxpEseProto7816_3_Var).2 }
  | wtxRsp (tr : Transport) (hist : List (List Nat)) (w : Session) :
      Reachable K d w → Reachable K d (WTXRsp K d tr hist w).2.1
  | sendRSync (tr : Transport) (hist : List (List Nat)) (w : Session) :
      Reachable K d w → Reachable K d (SendRSync K d tr hist w).2.1
  | deepPwrDown (tr : Transport) (fuel : Nat) (w : Session) (hist : List (List Nat))
      (x : Bool × Session × List (List Nat)) :
      Reachable K d w → Deep_Pwr_Down K d tr fuel w hist = some x → Reachable K d x.2.1
  | intfReset (tr : Transport) (fuel : Nat) (w : Session) (hist : List (List Nat))
      (AtrRsp : Option phNxpEse_data) (x : Bool × Session × List (List Nat)) :
      d = .T1oI2C_UM11225 → Reachable K d w →
      IntfReset K tr fuel w hist AtrRsp = some x → Reachable K d x.2.1
  | chipReset (tr : Transport) (fuel : Nat) (w : Session) (hist : List (List Nat))
      (x : Bool × Session × List (List Nat)) :
      d = .T1oI2C_UM11225 → Reachable K d w →
      ChipReset K tr fuel w hist = some x → Reachable K d x.2.1
  | getAtr (tr : Transport) (fuel : Nat) (w : Session) (hist : List (List Nat))
      (pRsp : Option phNxpEse_data) (x : Bool × Session × List (List Nat)) :
      d = .T1oI2C_UM11225 → Reachable K d w →
      GetAtr K tr fuel w hist pRsp = some x → Reachable K d x.2.1
  | softReset (tr : Transport) (fuel : Nat) (w : Session) (hist : List (List Nat))
      (x : Bool × Session × List (List Nat)) :
      d = .T1oI2C_GP1_0 → Reachable K d w →
      SoftReset K tr fuel w hist = some x → Reachable K d x.2.1
  | coldReset (tr : Transport) (fuel : Nat) (w : Session) (hist : List (List Nat))
      (x : Bool × Session × List (List Nat)) :
      d = .T1oI2C_GP1_0 → Reachable K d w →
      ColdReset K tr fuel w hist = some x → Reachable K d x.2.1
  | getCip (tr : Transport) (fuel : Nat) (w : Session) (hist : List (List Nat))
      (pRsp : Option phNxpEse_data) (x : Bool × Session × List (List Nat)) :
      d = .T1oI2C_GP1_0 → Reachable K d w →
      GetCip K tr fuel w hist pRsp = some x → Reachable K d x.2.1

/-- A Dialect-A peer that answers the first block with the frame `5A 00 00 FF FF`, whose
CRC trailer is wrong, and whose transport then fails to write the next block. -/
def badCrcThenFailPeer : Transport :=
  scripted [.received [0x5A, 0x00, 0x00, 0xFF, 0xFF], .writeFailed]

/-- The session in which the host waits for the answer to a command after one WTX request:
the command of `sentSession` was sent and the WTX counter stands at 1. -/
def waitingSession : Session :=
  { sentSession with phNxpEseProto7816_3_Var.wtx_counter := 1 }

/-- A Dialect-A peer that answers the I-block with a WTX request, the WTX response with the
three-byte frame `5A <crc>` (good CRC, shorter than header plus CRC), the repeated WTX
response with a second WTX request, and the Interface-Reset request with an
Interface-Reset response. -/
def wtxShortPeer : Transport :=
  scripted
    [.received (withCRC .T1oI2C_UM11225 [0x5A, 0xC3, 0x01, 0x01]),
     .received (withCRC .T1oI2C_UM11225 [0x5A]),
     .received (withCRC .T1oI2C_UM11225 [0x5A, 0xC3, 0x01, 0x01]),
     .received (withCRC .T1oI2C_UM11225 [0x5A, 0xEF, 0x00])]

/-- One store of the response assembly from the source `src`: either nothing changes, or
the first `n` bytes of `src` are stored at the cursor, within the capacity `len` of the
descriptor, and the cursor advances by `n`. -/
def AsmStore (src : List Nat) (n : Nat) (a b : phNxpEse_data × Nat) : Prop :=
  b = a ∨
    ∃ dst : List Nat,
      a.1.p_data = some dst ∧ a.2 + n ≤ a.1.len ∧ a.2 + n ≤ UINT_MAX ∧
      b = ({ a.1 with p_data := some (memmove dst a.2 src n) }, a.2 + n)

theorem crcBit_eq (c : Nat) :
    crcBit c = if c % 2 = 1 then ((c / 2) ^^^ 0x8408) % 65536 else c / 2 := by
  simp [crcBit, Nat.shiftRight_eq_div_pow]

theorem xor_poly_lt {x : Nat} (h : x < 32768) : x ^^^ 0x8408 < 65536 :=
  Nat.xor_lt_two_pow (n := 16) (by omega) (by norm_num)

theorem crcBit_lt {c : Nat} (h : c < 65536) : crcBit c < 65536 := by
  rw [crcBit_eq]
  split
  · exact Nat.mod_lt _ (by norm_num)
  · omega

theorem xor_poly_testBit {x : Nat} (h : x < 32768) : (x ^^^ 0x8408).testBit 15 = true := by
  have h1 : x.testBit 15 = false := Nat.testBit_lt_two_pow (i := 15) (by omega)
  have h2 : (0x8408 : Nat).testBit 15 = true := by decide
  rw [Nat.testBit_xor, h1, h2]; rfl

theorem crcBit_inj {a b : Nat} (ha : a < 65536) (hb : b < 65536)
    (h : crcBit a = crcBit b) : a = b := by
  have ha2 : a / 2 < 32768 := by omega
  have hb2 : b / 2 < 32768 := by omega
  have la : (a / 2).testBit 15 = false := Nat.testBit_lt_two_pow (i := 15) (by omega)
  have lb : (b / 2).testBit 15 = false := Nat.testBit_lt_two_pow (i := 15) (by omega)
  rw [crcBit_eq, crcBit_eq] at h
  by_cases pa : a % 2 = 1 <;> by_cases pb : b % 2 = 1
  · simp only [pa, pb, if_true] at h
    rw [Nat.mod_eq_of_lt (xor_poly_lt ha2), Nat.mod_eq_of_lt (xor_poly_lt hb2)] at h
    have := Nat.xor_left_injective h
    omega
  · simp only [pa, pb, if_true, if_false] at h
    rw [Nat.mod_eq_of_lt (xor_poly_lt ha2)] at h
    have := xor_poly_testBit ha2
    rw [h, lb] at this
    exact absurd this (by decide)
  · simp only [pa, pb, if_true, if_false] at h
    rw [Nat.mod_eq_of_lt (xor_poly_lt hb2)] at h
    have := xor_poly_testBit hb2
    rw [← h, la] at this
    exact absurd this (by decide)
  · simp only [pa, pb, if_false] at h
    omega

theorem iterate_crcBit_lt (n : Nat) {c : Nat} (h : c < 65536) :
    Nat.iterate crcBit n c < 65536 := by
  induction n generalizing c with
  | zero => simpa using h
  | succ n ih => exact ih (crcBit_lt h)

theorem iterate_crcBit_inj (n : Nat) {a b : Nat} (ha : a < 65536) (hb : b < 65536)
    (h : Nat.iterate crcBit n a = Nat.iterate crcBit n b) : a = b := by
  induction n generalizing a b with
  | zero => simpa using h
  | succ n ih => exact crcBit_inj ha hb (ih (crcBit_lt ha) (crcBit_lt hb) h)

theorem crcByte_lt (c b : Nat) : crcByte c b < 65536 :=
  iterate_crcBit_lt 8 (Nat.mod_lt _ (by norm_num))

theorem crcByte_inj_left {c1 c2 b : Nat} (h1 : c1 < 65536) (h2 : c2 < 65536) (hb : b < 65536)
    (h : crcByte c1 b = crcByte c2 b) : c1 = c2 := by
  have := iterate_crcBit_inj 8 (Nat.mod_lt _ (by norm_num)) (Nat.mod_lt _ (by norm_num)) h
  rw [Nat.mod_eq_of_lt (Nat.xor_lt_two_pow (n := 16) h1 hb),
    Nat.mod_eq_of_lt (Nat.xor_lt_two_pow (n := 16) h2 hb)] at this
  exact Nat.xor_left_injective this

theorem crcByte_inj_right {c b1 b2 : Nat} (hc : c < 65536) (h1 : b1 < 65536) (h2 : b2 < 65536)
    (h : crcByte c b1 = crcByte c b2) : b1 = b2 := by
  have := iterate_crcBit_inj 8 (Nat.mod_lt _ (by norm_num)) (Nat.mod_lt _ (by norm_num)) h
  rw [Nat.mod_eq_of_lt (Nat.xor_lt_two_pow (n := 16) hc h1),
    Nat.mod_eq_of_lt (Nat.xor_lt_two_pow (n := 16) hc h2)] at this
  exact Nat.xor_right_injective this


theorem getD_append_add (b t : List Nat) (k : Nat) :
    (b ++ t).getD (b.length + k) 0 = t.getD k 0 := by
  induction b with
  | nil => simp
  | cons x xs ih =>
    have : (x :: xs).length + k = (xs.length + k) + 1 := by simp; omega
    rw [List.cons_append, this, List.getD_cons_succ, ih]

theorem ComputeCRC_loop_eq_foldl (buf : List Nat) (n i c : Nat) (h : i + n ≤ buf.length) :
    ComputeCRC_loop buf n i c = ((buf.drop i).take n).foldl crcByte c := by
  induction n generalizing i c with
  | zero => simp [ComputeCRC_loop]
  | succ n ih =>
    have hi : i < buf.length := by omega
    rw [ComputeCRC_loop, ih (i + 1) _ (by omega), List.drop_eq_getElem_cons hi,
      List.take_succ_cons, List.foldl_cons, List.getD_eq_getElem _ _ hi]

theorem ComputeCRC_loop_prefix (b t : List Nat) (c : Nat) :
    ComputeCRC_loop (b ++ t) b.length 0 c = b.foldl crcByte c := by
  rw [ComputeCRC_loop_eq_foldl _ _ _ _ (by simp)]
  simp

theorem foldl_crcByte_lt (l : List Nat) {c : Nat} (h : c < 65536) :
    l.foldl crcByte c < 65536 := by
  induction l generalizing c with
  | nil => simpa using h
  | cons x xs ih => exact ih (crcByte_lt c x)

theorem swapBits_eq {x : Nat} (h : x < 65536) :
    ((x &&& 0xFF) <<< 8) ||| ((x >>> 8) &&& 0xFF) = swapBytes x := by
  have e : (0xFF : Nat) = 2 ^ 8 - 1 := by norm_num
  rw [e, Nat.and_pow_two_sub_one_eq_mod, Nat.and_pow_two_sub_one_eq_mod, Nat.shiftLeft_eq,
    Nat.shiftRight_eq_div_pow, Nat.mul_comm, ← Nat.mul_add_lt_is_or (Nat.mod_lt _ (by norm_num))]
  unfold swapBytes
  have : x / 2 ^ 8 % 2 ^ 8 = x / 256 := by
    norm_num; omega
  rw [this]; norm_num; omega

theorem trailer_join {x : Nat} (h : x < 65536) :
    ((x >>> 8) <<< 8 ||| (x &&& 0xFF)) % 65536 = x := by
  have e : (0xFF : Nat) = 2 ^ 8 - 1 := by norm_num
  rw [e, Nat.and_pow_two_sub_one_eq_mod, Nat.shiftLeft_eq, Nat.shiftRight_eq_div_pow,
    Nat.mul_comm, ← Nat.mul_add_lt_is_or (Nat.mod_lt _ (by norm_num))]
  omega

theorem xor_ffff_lt {x : Nat} (h : x < 65536) : x ^^^ 0xFFFF < 65536 :=
  Nat.xor_lt_two_pow (n := 16) h (by norm_num)

theorem ComputeCRC_some (d : Dialect) (b t : List Nat) :
    ComputeCRC d (some (b ++ t)) 0 b.length =
      match d with
      | .T1oI2C_UM11225 => swapBytes (b.foldl crcByte 0xFFFF ^^^ 0xFFFF)
      | .T1oI2C_GP1_0 => b.foldl crcByte 0xFFFF ^^^ 0xFFFF := by
  have hlt := xor_ffff_lt (foldl_crcByte_lt b (c := 0xFFFF) (by norm_num))
  cases d <;> simp only [ComputeCRC, Nat.sub_zero, ComputeCRC_loop_prefix]
  exact swapBits_eq hlt

theorem swapBytes_lt {x : Nat} (h : x < 65536) : swapBytes x < 65536 := by
  unfold swapBytes; omega

theorem swapBytes_inj {x y : Nat} (hx : x < 65536) (hy : y < 65536)
    (h : swapBytes x = swapBytes y) : x = y := by
  unfold swapBytes at h; omega

theorem ComputeCRC_lt (d : Dialect) (b t : List Nat) :
    ComputeCRC d (some (b ++ t)) 0 b.length < 65536 := by
  have hlt := xor_ffff_lt (foldl_crcByte_lt b (c := 0xFFFF) (by norm_num))
  rw [ComputeCRC_some]
  cases d
  · exact swapBytes_lt hlt
  · exact hlt

theorem CheckCRC_roundtrip (MAX_APDU_BUFFER : Nat) (d : Dialect) (b : List Nat)
    (h : b.length + 2 < MAX_APDU_BUFFER) :
    CheckCRC MAX_APDU_BUFFER d (b.length + 2)
      (some (b ++ [ComputeCRC d (some b) 0 b.length >>> 8,
                   ComputeCRC d (some b) 0 b.length &&& 0xFF])) = true := by
  have hlt : ComputeCRC d (some b) 0 b.length < 65536 := by
    simpa using ComputeCRC_lt d b []
  have hc : ∀ t, ComputeCRC d (some (b ++ t)) 0 b.length = ComputeCRC d (some b) 0 b.length := by
    intro t
    have := ComputeCRC_some d b t
    have h2 := ComputeCRC_some d b []
    simp only [List.append_nil] at h2
    rw [this, h2]
  simp only [CheckCRC, h, not_true_eq_false, if_false, ge_iff_le, Nat.le_add_left,
    Nat.add_sub_cancel, hc]
  have g1 : (b ++ [ComputeCRC d (some b) 0 b.length >>> 8,
      ComputeCRC d (some b) 0 b.length &&& 0xFF]).getD b.length 0
      = ComputeCRC d (some b) 0 b.length >>> 8 := by
    have := getD_append_add b [ComputeCRC d (some b) 0 b.length >>> 8,
      ComputeCRC d (some b) 0 b.length &&& 0xFF] 0
    rw [Nat.add_zero] at this
    rw [this]; rfl
  have g2 : (b ++ [ComputeCRC d (some b) 0 b.length >>> 8,
      ComputeCRC d (some b) 0 b.length &&& 0xFF]).getD (b.length + 2 - 1) 0
      = ComputeCRC d (some b) 0 b.length &&& 0xFF := by
    have := getD_append_add b [ComputeCRC d (some b) 0 b.length >>> 8,
      ComputeCRC d (some b) 0 b.length &&& 0xFF] 1
    rw [show b.length + 2 - 1 = b.length + 1 by omega, this]; rfl
  rw [g1, g2, trailer_join hlt]
  simp


theorem foldl_crcByte_inj (l : List Nat) (hl : ∀ x ∈ l, x < 65536) {c1 c2 : Nat}
    (h1 : c1 < 65536) (h2 : c2 < 65536)
    (h : l.foldl crcByte c1 = l.foldl crcByte c2) : c1 = c2 := by
  induction l generalizing c1 c2 with
  | nil => simpa using h
  | cons x xs ih =>
    have hx : x < 65536 := hl x (by simp)
    have := ih (fun y hy => hl y (by simp [hy])) (crcByte_lt c1 x) (crcByte_lt c2 x) h
    exact crcByte_inj_left h1 h2 hx this

theorem foldl_crcByte_set_ne (l : List Nat) (hl : ∀ x ∈ l, x < 65536) (i y : Nat)
    (hi : i < l.length) (hy : y < 65536) (hne : y ≠ l.getD i 0) {c : Nat} (hc : c < 65536) :
    (l.set i y).foldl crcByte c ≠ l.foldl crcByte c := by
  induction l generalizing i c with
  | nil => simp at hi
  | cons x xs ih =>
    have hx : x < 65536 := hl x (by simp)
    have hxs : ∀ z ∈ xs, z < 65536 := fun z hz => hl z (by simp [hz])
    cases i with
    | zero =>
      intro h
      simp only [List.set_cons_zero, List.foldl_cons] at h
      have := foldl_crcByte_inj xs hxs (crcByte_lt c y) (crcByte_lt c x) h
      exact hne (by simpa using crcByte_inj_right hc hy hx this)
    | succ j =>
      simp only [List.set_cons_succ, List.foldl_cons]
      exact ih hxs j (by simpa using hi) (by simpa using hne) (crcByte_lt c x)

theorem ComputeCRC_set_ne (d : Dialect) (b : List Nat) (hb : ∀ x ∈ b, x < 256) (i y : Nat)
    (hi : i < b.length) (hy : y < 256) (hne : y ≠ b.getD i 0) (t : List Nat) :
    ComputeCRC d (some (b.set i y ++ t)) 0 b.length ≠ ComputeCRC d (some b) 0 b.length := by
  have hb' : ∀ x ∈ b, x < 65536 := fun x hx => by have := hb x hx; omega
  have hne' := foldl_crcByte_set_ne b hb' i y hi (by omega) hne (c := 0xFFFF) (by norm_num)
  have e1 := ComputeCRC_some d (b.set i y) t
  have e2 := ComputeCRC_some d b []
  rw [List.length_set] at e1
  rw [List.append_nil] at e2
  rw [e1, e2]
  have l1 := xor_ffff_lt (foldl_crcByte_lt (b.set i y) (c := 0xFFFF) (by norm_num))
  have l2 := xor_ffff_lt (foldl_crcByte_lt b (c := 0xFFFF) (by norm_num))
  have hx : (b.set i y).foldl crcByte 0xFFFF ^^^ 0xFFFF ≠ b.foldl crcByte 0xFFFF ^^^ 0xFFFF :=
    fun h => hne' (Nat.xor_left_injective h)
  cases d
  · exact fun h => hx (swapBytes_inj l1 l2 h)
  · exact hx

theorem flip_ne (x k : Nat) : x ^^^ (1 <<< k) ≠ x := by
  intro h
  have h0 : x ^^^ (1 <<< k) = x ^^^ 0 := by simpa using h
  have := Nat.xor_right_injective h0
  rw [Nat.shiftLeft_eq, Nat.one_mul] at this
  exact absurd this (Nat.pos_iff_ne_zero.mp (Nat.two_pow_pos k))

theorem flip_lt {x k : Nat} (hx : x < 256) (hk : k < 8) : x ^^^ (1 <<< k) < 256 := by
  apply Nat.xor_lt_two_pow (n := 8) hx
  rw [Nat.shiftLeft_eq, Nat.one_mul]
  exact Nat.pow_lt_pow_right (by norm_num) hk

theorem CheckCRC_flip (MAX_APDU_BUFFER : Nat) (d : Dialect) (b : List Nat) (i k : Nat)
    (hb : ∀ x ∈ b, x < 256) (hlen : 1 ≤ b.length) (h : b.length + 2 < MAX_APDU_BUFFER)
    (hi : i < b.length) (hk : k < 8) :
    CheckCRC MAX_APDU_BUFFER d (b.length + 2)
      (some (b.set i (b.getD i 0 ^^^ (1 <<< k)) ++
        [ComputeCRC d (some b) 0 b.length >>> 8,
         ComputeCRC d (some b) 0 b.length &&& 0xFF])) = false := by
  have hlt : ComputeCRC d (some b) 0 b.length < 65536 := by
    simpa using ComputeCRC_lt d b []
  have hbi : b.getD i 0 < 256 := by
    rw [List.getD_eq_getElem _ _ hi]; exact hb _ (List.getElem_mem _)
  have hne := ComputeCRC_set_ne d b hb i (b.getD i 0 ^^^ (1 <<< k)) hi (flip_lt hbi hk)
    (flip_ne _ _) [ComputeCRC d (some b) 0 b.length >>> 8,
         ComputeCRC d (some b) 0 b.length &&& 0xFF]
  have hl : (b.set i (b.getD i 0 ^^^ (1 <<< k))).length = b.length := List.length_set _ _ _
  have g1 := getD_append_add (b.set i (b.getD i 0 ^^^ (1 <<< k)))
    [ComputeCRC d (some b) 0 b.length >>> 8, ComputeCRC d (some b) 0 b.length &&& 0xFF] 0
  have g2 := getD_append_add (b.set i (b.getD i 0 ^^^ (1 <<< k)))
    [ComputeCRC d (some b) 0 b.length >>> 8, ComputeCRC d (some b) 0 b.length &&& 0xFF] 1
  rw [hl] at g1 g2
  rw [Nat.add_zero] at g1
  simp only [CheckCRC, h, not_true_eq_false, if_false, ge_iff_le, Nat.le_add_left,
    Nat.add_sub_cancel, show b.length + 2 - 1 = b.length + 1 by omega, g1, g2]
  simp only [List.getD_cons_zero, List.getD_cons_succ, trailer_join hlt]
  rw [if_pos (Ne.symm hne)]


theorem refCrcShift_lt {c : Nat} (h : c < 65536) (bit : Bool) : refCrcShift c bit < 65536 := by
  unfold refCrcShift
  split
  · exact xor_poly_lt (by omega)
  · omega

theorem crcBit_xor (c b : Nat) (hc : c < 65536) (hb : b < 65536) :
    crcBit (c ^^^ b) = refCrcShift c (b.testBit 0) ^^^ (b / 2) := by
  have hc2 : c / 2 < 32768 := by omega
  have hb2 : b / 2 < 32768 := by omega
  have hx : c / 2 ^^^ b / 2 < 32768 := Nat.xor_lt_two_pow (n := 15) hc2 hb2
  rw [crcBit_eq, Nat.xor_div_two, Nat.xor_mod_two_eq]
  unfold refCrcShift
  rw [Nat.testBit_zero]
  by_cases p : (c + b) % 2 = 1
  · have q : (c % 2 = 1) ≠ (decide (b % 2 = 1) = true) := by
      simp only [decide_eq_true_eq, ne_eq, eq_iff_iff]; omega
    rw [if_pos p, if_pos q, Nat.mod_eq_of_lt (xor_poly_lt hx), Nat.xor_assoc, Nat.xor_assoc,
      Nat.xor_comm (b / 2)]
  · have q : ¬ ((c % 2 = 1) ≠ (decide (b % 2 = 1) = true)) := by
      simp only [decide_eq_true_eq, ne_eq, eq_iff_iff, not_not]; omega
    rw [if_neg p, if_neg q]

theorem iterate_crcBit_xor (n : Nat) (c b : Nat) (hc : c < 65536) (hb : b < 65536) (hbn : b < 2 ^ n) :
    Nat.iterate crcBit n (c ^^^ b)
      = ((List.range n).map fun k => b.testBit k).foldl refCrcShift c := by
  induction n generalizing c b with
  | zero =>
    have : b = 0 := by simpa using hbn
    simp [this]
  | succ n ih =>
    rw [Function.iterate_succ_apply, crcBit_xor c b hc hb,
      ih _ (b / 2) (refCrcShift_lt hc _) (by omega) (by rw [Nat.pow_succ] at hbn; omega),
      List.range_succ_eq_map, List.map_cons, List.foldl_cons, List.map_map]
    congr 2
    funext k
    simp [Nat.testBit_succ]

theorem crcByte_eq_ref (c b : Nat) (hc : c < 65536) (hb : b < 256) :
    crcByte c b = (bitsLsbFirst b).foldl refCrcShift c := by
  unfold crcByte bitsLsbFirst
  rw [Nat.mod_eq_of_lt (Nat.xor_lt_two_pow (n := 16) hc (by omega))]
  exact iterate_crcBit_xor 8 c b hc (by omega) (by simpa using hb)

theorem foldl_crcByte_eq_ref (l : List Nat) (hl : ∀ x ∈ l, x < 256) (c : Nat) (hc : c < 65536) :
    l.foldl crcByte c = l.foldl (fun reg b => (bitsLsbFirst b).foldl refCrcShift reg) c := by
  induction l generalizing c with
  | nil => rfl
  | cons x xs ih =>
    rw [List.foldl_cons, List.foldl_cons, ← crcByte_eq_ref c x hc (hl x (by simp))]
    exact ih (fun y hy => hl y (by simp [hy])) _ (crcByte_lt c x)

theorem ComputeCRC_eq_ref (d : Dialect) (buf : List Nat) (n : Nat) (hn : n ≤ buf.length)
    (hb : ∀ x ∈ buf, x < 256) :
    ComputeCRC d (some buf) 0 n =
      match d with
      | .T1oI2C_UM11225 => swapBytes (crc16X25 (buf.take n))
      | .T1oI2C_GP1_0 => crc16X25 (buf.take n) := by
  have e := ComputeCRC_some d (buf.take n) (buf.drop n)
  rw [List.take_append_drop, List.length_take, Nat.min_eq_left hn] at e
  have hr := foldl_crcByte_eq_ref (buf.take n) (fun x hx => hb x (List.mem_of_mem_take hx))
    0xFFFF (by norm_num)
  rw [e]
  unfold crcTrailer crc16X25 at *
  cases d <;> simp only [hr]

theorem swapBytes_trailer {x : Nat} (hx : x < 65536) :
    crcTrailer (swapBytes x) = (crcTrailer x).reverse := by
  have e : (0xFF : Nat) = 2 ^ 8 - 1 := by norm_num
  unfold crcTrailer swapBytes
  rw [e]
  simp only [Nat.and_pow_two_sub_one_eq_mod, Nat.shiftRight_eq_div_pow, List.reverse_cons,
    List.reverse_nil, List.nil_append, List.singleton_append]
  have h1 : (x % 256 * 256 + x / 256) / 256 = x % 256 := by omega
  have h2 : (x % 256 * 256 + x / 256) % 256 = x / 256 := by omega
  norm_num
  rw [h1, h2]
  constructor <;> omega

theorem crc16X25_lt (l : List Nat) (hl : ∀ x ∈ l, x < 256) : crc16X25 l < 65536 := by
  unfold crc16X25
  rw [← foldl_crcByte_eq_ref l hl 0xFFFF (by norm_num)]
  exact xor_ffff_lt (foldl_crcByte_lt l (by norm_num))

theorem ComputeCRC_refines :
    (∀ (buf : List Nat) (n : Nat), n ≤ buf.length → (∀ x ∈ buf, x < 256) →
      ComputeCRC .T1oI2C_GP1_0 (some buf) 0 n = crc16X25 (buf.take n) ∧
      ComputeCRC .T1oI2C_UM11225 (some buf) 0 n = swapBytes (crc16X25 (buf.take n)) ∧
      crcTrailer (ComputeCRC .T1oI2C_UM11225 (some buf) 0 n)
        = (crcTrailer (ComputeCRC .T1oI2C_GP1_0 (some buf) 0 n)).reverse) ∧
    crc16X25 [0x31, 0x32, 0x33, 0x34, 0x35, 0x36, 0x37, 0x38, 0x39] = 0x906E ∧
    ComputeCRC .T1oI2C_GP1_0 (some [0x31, 0x32, 0x33, 0x34, 0x35, 0x36, 0x37, 0x38, 0x39]) 0 9
      = 0x906E ∧
    ComputeCRC .T1oI2C_UM11225 (some [0x31, 0x32, 0x33, 0x34, 0x35, 0x36, 0x37, 0x38, 0x39]) 0 9
      = 0x6E90 := by
  refine ⟨?_, by decide!, by decide!, by decide!⟩
  intro buf n hn hb
  have hA := ComputeCRC_eq_ref .T1oI2C_UM11225 buf n hn hb
  have hB := ComputeCRC_eq_ref .T1oI2C_GP1_0 buf n hn hb
  simp only at hA hB
  refine ⟨hB, hA, ?_⟩
  rw [hA, hB]
  exact swapBytes_trailer (crc16X25_lt _ (fun x hx => hb x (List.mem_of_mem_take hx)))


/-! ## Senders -/

theorem ComputeCRC_take (d : Dialect) (buf : List Nat) (n : Nat) (h : n ≤ buf.length) :
    ComputeCRC d (some buf) 0 n = ComputeCRC d (some (buf.take n)) 0 n := by
  have e1 := ComputeCRC_some d (buf.take n) (buf.drop n)
  have e2 := ComputeCRC_some d (buf.take n) []
  rw [List.take_append_drop, List.length_take, Nat.min_eq_left h] at e1
  rw [List.append_nil, List.length_take, Nat.min_eq_left h] at e2
  rw [e1, e2]

theorem set_set_take (buf : List Nat) (m x y : Nat) (h : m + 2 ≤ buf.length) :
    ((buf.set m x).set (m + 1) y).take (m + 2) = buf.take m ++ [x, y] := by
  induction m generalizing buf with
  | zero =>
    match buf, h with
    | a :: b :: rest, _ => simp
  | succ m ih =>
    match buf, h with
    | a :: rest, h =>
      have := ih rest (by simpa using h)
      simp only [List.set_cons_succ, List.take_succ_cons, List.cons_append, this]

theorem framed_of_append (d : Dialect) (body : List Nat) (h0 : body.getD 0 0 = 0x5A)
    (hb : 1 ≤ body.length) :
    Framed d (body ++ crcTrailer (ComputeCRC d (some body) 0 body.length)) := by
  have hl : (body ++ crcTrailer (ComputeCRC d (some body) 0 body.length)).length
      = body.length + 2 := by simp [crcTrailer]
  refine ⟨?_, by omega, ?_⟩
  · match body, hb with
    | a :: rest, _ => simpa using h0
  · rw [hl, Nat.add_sub_cancel, List.drop_left, List.take_left]

theorem framed_of_sets (d : Dialect) (buf : List Nat) (n : Nat) (hn : 3 ≤ n)
    (hl : n ≤ buf.length) (h0 : buf.getD 0 0 = 0x5A) :
    Framed d
      (((buf.set (n - 2) ((ComputeCRC d (some buf) 0 (n - 2) >>> 8) &&& 0xFF)).set (n - 1)
        (ComputeCRC d (some buf) 0 (n - 2) &&& 0xFF)).take n) := by
  obtain ⟨m, rfl⟩ : ∃ m, n = m + 2 := ⟨n - 2, by omega⟩
  have hm : (buf.take m).length = m := by rw [List.length_take]; omega
  simp only [Nat.add_sub_cancel, show m + 2 - 1 = m + 1 by omega]
  rw [set_set_take buf m _ _ hl, ComputeCRC_take d buf m (by omega)]
  have := framed_of_append d (buf.take m)
    (by match buf, m, hn with
        | a :: rest, k + 1, _ => simpa using h0) (by omega)
  rw [hm] at this
  exact this

theorem SendRawFrame_hist (tr : Transport) (hist : List (List Nat)) (n : Nat) (p : List Nat) :
    (SendRawFrame tr hist n p).2 = hist ++ [p.take n] := by
  simp only [SendRawFrame]
  cases tr (hist ++ [List.take n p]) <;> rfl

theorem readBytes_length (p : Option (List Nat)) (off n : Nat) :
    (readBytes p off n).length = n := by
  simp [readBytes]

theorem SendIframe_len_length (d : Dialect) (n : Nat) :
    (SendIframe_len d n).length + 2 = PH_PROTO_7816_HEADER_LEN d := by
  cases d <;> rfl

theorem SendIframe_frame_eq (d : Dialect) (seqNo : Nat) (c : iFrameInfo_t) :
    SendIframe_frame d seqNo c =
      withCRC d ([SEND_PACKET_SOF, SendIframe_pcb seqNo c] ++ SendIframe_len d c.sendDataLen ++
        readBytes c.p_data c.dataOffset c.sendDataLen) := by
  have hl := SendIframe_len_length d c.sendDataLen
  have : ([SEND_PACKET_SOF, SendIframe_pcb seqNo c] ++ SendIframe_len d c.sendDataLen ++
        readBytes c.p_data c.dataOffset c.sendDataLen).length
      = c.sendDataLen + PH_PROTO_7816_HEADER_LEN d + PH_PROTO_7816_CRC_LEN - 2 := by
    simp only [List.length_append, List.length_cons, List.length_nil, readBytes_length,
      PH_PROTO_7816_CRC_LEN]
    omega
  unfold SendIframe_frame withCRC crcTrailer
  simp only [this]

theorem SendIframe_frame_length (d : Dialect) (seqNo : Nat) (c : iFrameInfo_t) :
    (SendIframe_frame d seqNo c).length
      = c.sendDataLen + PH_PROTO_7816_HEADER_LEN d + PH_PROTO_7816_CRC_LEN := by
  have hl := SendIframe_len_length d c.sendDataLen
  rw [SendIframe_frame_eq]
  simp only [withCRC, crcTrailer, List.length_append, List.length_cons, List.length_nil,
    readBytes_length, PH_PROTO_7816_CRC_LEN]
  omega

theorem SendIframe_frame_framed (d : Dialect) (seqNo : Nat) (c : iFrameInfo_t) :
    Framed d (SendIframe_frame d seqNo c) := by
  rw [SendIframe_frame_eq]
  exact framed_of_append d _ (by simp [SEND_PACKET_SOF]) (by simp)

/-- The guards of `phNxpEseProto7816_SendIframe` under which a block is handed to the
transport. -/
theorem SendIframe_hist (K : Consts) (d : Dialect) (tr : Transport) (hist : List (List Nat))
    (w : Session) (c : iFrameInfo_t) :
    (SendIframe K d tr hist w c).2.2 =
      if 0 < c.sendDataLen ∧
          c.sendDataLen ≤ UINT_MAX - (PH_PROTO_7816_HEADER_LEN d + PH_PROTO_7816_CRC_LEN) ∧
          c.sendDataLen ≤ K.MAX_APDU_BUFFER - PH_PROPTO_7816_INF_BYTE_OFFSET d ∧
          c.sendDataLen + PH_PROTO_7816_HEADER_LEN d + PH_PROTO_7816_CRC_LEN - 1
            < K.MAX_APDU_BUFFER
      then hist ++ [SendIframe_frame d
        w.phNxpEseProto7816_3_Var.phNxpEseNextTx_Cntx.IframeInfo.seqNo c]
      else hist := by
  unfold SendIframe
  by_cases h0 : 0 = c.sendDataLen
  · have : ¬ 0 < c.sendDataLen := by omega
    simp [h0, this]
  · have h0' : 0 < c.sendDataLen := by omega
    by_cases h1 : c.sendDataLen ≤ UINT_MAX - (PH_PROTO_7816_HEADER_LEN d + PH_PROTO_7816_CRC_LEN)
    · by_cases h2 : c.sendDataLen ≤ K.MAX_APDU_BUFFER - PH_PROPTO_7816_INF_BYTE_OFFSET d
      · by_cases h3 : c.sendDataLen + PH_PROTO_7816_HEADER_LEN d + PH_PROTO_7816_CRC_LEN - 1
            < K.MAX_APDU_BUFFER
        · have ht := SendIframe_frame_length d
            w.phNxpEseProto7816_3_Var.phNxpEseNextTx_Cntx.IframeInfo.seqNo c
          simp only [h0, h0', h1, h2, h3, if_false, not_true_eq_false, and_self, if_true,
            SendRawFrame_hist]
          rw [List.take_of_length_le (by omega)]
        · simp [h0, h1, h2, h3]
      · simp [h0, h1, h2]
    · simp [h0, h1]

theorem sendRframe_hist (d : Dialect) (tr : Transport) (hist : List (List Nat))
    (w : Session) (t : rFrameTypes_t) :
    (sendRframe d tr hist w t).2.2 = hist ++ [sendRframe_frame d w t] := by
  simp only [sendRframe, SendRawFrame_hist]
  rw [List.take_of_length_le (Nat.le_refl _)]

theorem sendRframe_frame_framed (d : Dialect) (w : Session) (t : rFrameTypes_t) :
    Framed d (sendRframe_frame d w t) := by
  cases d
  · have := framed_of_sets .T1oI2C_UM11225
      ([0x5A, 0x80, 0x00, 0x00, 0x00].set PH_PROPTO_7816_PCB_OFFSET (sendRframe_pcb w t)) 5
      (by norm_num) (by simp) (by simp [PH_PROPTO_7816_PCB_OFFSET])
    rw [List.take_of_length_le (by simp)] at this
    exact this
  · have := framed_of_sets .T1oI2C_GP1_0
      ([0x5A, 0x80, 0x00, 0x00, 0x00, 0x00].set PH_PROPTO_7816_PCB_OFFSET (sendRframe_pcb w t)) 6
      (by norm_num) (by simp) (by simp [PH_PROPTO_7816_PCB_OFFSET])
    rw [List.take_of_length_le (by simp)] at this
    exact this

theorem SendSFrame_hist (K : Consts) (d : Dialect) (tr : Transport) (hist : List (List Nat))
    (w : Session) (s : sFrameInfo_t) :
    (SendSFrame K d tr hist w s).2.2 =
      match SendSFrame_switch K d s.sFrameType with
      | none => hist
      | some (frame_len, p_framebuff, pcb_byte) =>
        hist ++ [(SendSFrame_frame d frame_len p_framebuff pcb_byte).take frame_len] := by
  unfold SendSFrame
  cases h : SendSFrame_switch K d s.sFrameType with
  | none => rfl
  | some x => obtain ⟨a, b, c⟩ := x; simp only [SendRawFrame_hist]

theorem SendSFrame_switch_shape (K : Consts) (d : Dialect) (t : SFrameType)
    (frame_len : Nat) (p_framebuff : List Nat) (pcb_byte : Nat)
    (h : SendSFrame_switch K d t = some (frame_len, p_framebuff, pcb_byte)) :
    3 ≤ frame_len ∧ frame_len ≤ 7 ∧ p_framebuff.length = 7 := by
  cases d <;> cases t <;>
    simp only [SendSFrame_switch, Option.some.injEq, Prod.mk.injEq] at h
  all_goals
    first
    | (obtain ⟨h1, h2, _⟩ := h
       subst h1
       subst h2
       simp [PH_PROTO_7816_HEADER_LEN, PH_PROTO_7816_CRC_LEN])
    | cases h

theorem SendSFrame_frame_framed (d : Dialect) (frame_len : Nat) (p_framebuff : List Nat)
    (pcb_byte : Nat) (h1 : 3 ≤ frame_len) (h2 : frame_len ≤ 7) (h3 : p_framebuff.length = 7) :
    Framed d ((SendSFrame_frame d frame_len p_framebuff pcb_byte).take frame_len) := by
  unfold SendSFrame_frame
  apply framed_of_sets d _ frame_len h1
  · simp [h3, h2]
  · match p_framebuff, h3 with
    | a :: b :: rest, _ => simp [PH_PROPTO_7816_NAD_OFFSET, PH_PROPTO_7816_PCB_OFFSET]

/-- C4: every block a sender hands to the transport is well framed: it starts with NAD
`0x5A` and ends with the two bytes `(crc >> 8) & 0xFF`, `crc & 0xFF` of `ComputeCRC` over
all bytes before them.  `SendIframe` hands over exactly one block when its guards pass and
none otherwise, `sendRframe` always one, `SendSFrame` one for every S-block type its
`switch` handles and none otherwise. -/
theorem C4_outbound_blocks_framed (K : Consts) (d : Dialect) (tr : Transport)
    (hist : List (List Nat)) (w : Session) :
    (∀ c : iFrameInfo_t,
      (SendIframe K d tr hist w c).2.2 = hist ∨
        ∃ f, (SendIframe K d tr hist w c).2.2 = hist ++ [f] ∧ Framed d f) ∧
    (∀ t : rFrameTypes_t,
      ∃ f, (sendRframe d tr hist w t).2.2 = hist ++ [f] ∧ Framed d f) ∧
    (∀ s : sFrameInfo_t,
      (SendSFrame_switch K d s.sFrameType = none ∧ (SendSFrame K d tr hist w s).2.2 = hist) ∨
        ∃ f, (SendSFrame K d tr hist w s).2.2 = hist ++ [f] ∧ Framed d f) := by
  refine ⟨?_, ?_, ?_⟩
  · intro c
    rw [SendIframe_hist]
    split
    · exact Or.inr ⟨_, rfl, SendIframe_frame_framed d _ c⟩
    · exact Or.inl rfl
  · intro t
    exact ⟨_, sendRframe_hist d tr hist w t, sendRframe_frame_framed d w t⟩
  · intro s
    rw [SendSFrame_hist]
    cases h : SendSFrame_switch K d s.sFrameType with
    | none => exact Or.inl ⟨rfl, rfl⟩
    | some x =>
      obtain ⟨a, b, c⟩ := x
      obtain ⟨h1, h2, h3⟩ := SendSFrame_switch_shape K d s.sFrameType a b c h
      exact Or.inr ⟨_, rfl, SendSFrame_frame_framed d a b c h1 h2 h3⟩

theorem readBytes_eq_slice (cmd : List Nat) (off n : Nat) (h : off + n ≤ cmd.length) :
    readBytes (some cmd) off n = (cmd.drop off).take n := by
  apply List.ext_getElem
  · simp [readBytes]; omega
  · intro i h1 h2
    simp only [readBytes, List.length_map, List.length_range] at h1
    simp only [readBytes, Option.getD_some, List.getElem_map, List.getElem_range,
      List.getElem_take, List.getElem_drop]
    rw [List.getD_eq_getElem _ _ (by omega)]

theorem SendIframe_pcb_eq (S : Nat) (c : iFrameInfo_t) (hS : S ≤ 1) :
    SendIframe_pcb S c = (S <<< 6) ||| ((if c.isChained then 1 else 0) <<< 5) ∧
      ((S <<< 6) ||| ((if c.isChained then 1 else 0) <<< 5)) &&& 0x9F = 0 := by
  have : S = 0 ∨ S = 1 := by omega
  unfold SendIframe_pcb PH_PROTO_7816_CHAINING
  rcases this with rfl | rfl <;> cases c.isChained <;> decide

theorem SendIframe_len_eq (d : Dialect) (n : Nat) (h : n ≤ 254) :
    SendIframe_len d n = specLen d n := by
  have e : (0xff : Nat) = 2 ^ 8 - 1 := by norm_num
  cases d
  · simp only [SendIframe_len, specLen]
    rw [Nat.mod_eq_of_lt (by omega)]
  · simp only [SendIframe_len, specLen]
    rw [Nat.mod_eq_of_lt (by omega : n < 65536), e, Nat.and_pow_two_sub_one_eq_mod,
      Nat.and_pow_two_sub_one_eq_mod, Nat.shiftRight_eq_div_pow]
    have h1 : n / 2 ^ 8 = 0 := by norm_num; omega
    have h2 : n / 256 = 0 := by omega
    rw [h1, h2]

theorem SendIframe_emits (K : Consts) (d : Dialect) (tr : Transport) (hist : List (List Nat))
    (w : Session) (c : iFrameInfo_t) (h1 : 1 ≤ c.sendDataLen)
    (h2 : c.sendDataLen + PH_PROTO_7816_HEADER_LEN d + PH_PROTO_7816_CRC_LEN
      ≤ K.MAX_APDU_BUFFER) (h3 : c.sendDataLen ≤ UINT_MAX - 6) :
    (SendIframe K d tr hist w c).2.2 = hist ++ [SendIframe_frame d
        w.phNxpEseProto7816_3_Var.phNxpEseNextTx_Cntx.IframeInfo.seqNo c] := by
  rw [SendIframe_hist, if_pos]
  have : PH_PROTO_7816_HEADER_LEN d = PH_PROPTO_7816_INF_BYTE_OFFSET d := by cases d <;> rfl
  have : PH_PROTO_7816_HEADER_LEN d ≤ 4 := by cases d <;> decide
  simp only [PH_PROTO_7816_CRC_LEN, UINT_MAX] at *
  omega

theorem SendIframe_layout (K : Consts) (d : Dialect) (tr : Transport) (hist : List (List Nat))
    (w : Session) (c : iFrameInfo_t) (cmd : List Nat)
    (hp : c.p_data = some cmd) (hslice : c.dataOffset + c.sendDataLen ≤ cmd.length)
    (h1 : 1 ≤ c.sendDataLen) (h254 : c.sendDataLen ≤ 254)
    (hfit : c.sendDataLen + PH_PROTO_7816_HEADER_LEN d + PH_PROTO_7816_CRC_LEN
      ≤ K.MAX_APDU_BUFFER)
    (hS : w.phNxpEseProto7816_3_Var.phNxpEseNextTx_Cntx.IframeInfo.seqNo ≤ 1) :
    (SendIframe K d tr hist w c).2.2 = hist ++
      [withCRC d
        ([0x5A, (w.phNxpEseProto7816_3_Var.phNxpEseNextTx_Cntx.IframeInfo.seqNo <<< 6) |||
            ((if c.isChained then 1 else 0) <<< 5)] ++
          specLen d c.sendDataLen ++ (cmd.drop c.dataOffset).take c.sendDataLen)] ∧
    ((w.phNxpEseProto7816_3_Var.phNxpEseNextTx_Cntx.IframeInfo.seqNo <<< 6) |||
        ((if c.isChained then 1 else 0) <<< 5)) &&& 0x9F = 0 := by
  obtain ⟨e1, e2⟩ := SendIframe_pcb_eq _ c hS
  refine ⟨?_, e2⟩
  rw [SendIframe_emits K d tr hist w c h1 hfit (by simp only [UINT_MAX]; omega),
    SendIframe_frame_eq, e1, SendIframe_len_eq d _ h254, hp,
    readBytes_eq_slice cmd _ _ hslice]
  rfl

/-! ## The transceive loop: unfolding and history -/

theorem TransceiveProcess_loop_succ (K : Consts) (d : Dialect) (tr : Transport) (fuel : Nat)
    (status : Bool) (w : Session) (hist : List (List Nat)) :
    TransceiveProcess_loop K d tr (fuel + 1) status w hist =
      if w.phNxpEseProto7816_3_Var.phNxpEseProto7816_nextTransceiveState = .IDLE_STATE then
        some (status, w, hist)
      else if (TransceiveProcess_send K d tr hist status w).1 = true then
        (ProcessResponse K d fuel (GetRawFrame tr (TransceiveProcess_send K d tr hist status w).2.2)
          { (TransceiveProcess_send K d tr hist status w).2.1 with
            phNxpEseProto7816_3_Var.phNxpEseLastTx_Cntx :=
              (TransceiveProcess_send K d tr hist status w).2.1.phNxpEseProto7816_3_Var.phNxpEseNextTx_Cntx }).bind
          fun p => TransceiveProcess_loop K d tr fuel p.1 p.2
            (TransceiveProcess_send K d tr hist status w).2.2
      else
        TransceiveProcess_loop K d tr fuel false
          { (TransceiveProcess_send K d tr hist status w).2.1 with
            phNxpEseProto7816_3_Var.phNxpEseProto7816_nextTransceiveState := .IDLE_STATE }
          (TransceiveProcess_send K d tr hist status w).2.2 := by
  rw [TransceiveProcess_loop]
  split
  · rfl
  · rcases h : TransceiveProcess_send K d tr hist status w with ⟨st, w1, hist1⟩
    cases st
    · simp
    · simp only [if_true]
      cases ProcessResponse K d fuel (GetRawFrame tr hist1)
        { w1 with
          phNxpEseProto7816_3_Var.phNxpEseLastTx_Cntx :=
            w1.phNxpEseProto7816_3_Var.phNxpEseNextTx_Cntx } with
      | none => rfl
      | some p => rfl

theorem TransceiveProcess_send_hist (K : Consts) (d : Dialect) (tr : Transport)
    (hist : List (List Nat)) (status : Bool) (w : Session) :
    ∃ l, (TransceiveProcess_send K d tr hist status w).2.2 = hist ++ l := by
  have hI : ∀ c, ∃ l, (SendIframe K d tr hist w c).2.2 = hist ++ l := by
    intro c
    rw [SendIframe_hist]
    split
    · exact ⟨_, rfl⟩
    · exact ⟨[], by simp⟩
  have hR : ∀ t, ∃ l, (sendRframe d tr hist w t).2.2 = hist ++ l :=
    fun t => ⟨_, sendRframe_hist d tr hist w t⟩
  have hS : ∀ s, ∃ l, (SendSFrame K d tr hist w s).2.2 = hist ++ l := by
    intro s
    rw [SendSFrame_hist]
    split
    · exact ⟨[], by simp⟩
    · exact ⟨_, rfl⟩
  unfold TransceiveProcess_send
  split <;> first
    | with_reducible exact hI _
    | with_reducible exact hR _
    | with_reducible exact hS _
    | exact ⟨[], by simp⟩

theorem TransceiveProcess_loop_hist (K : Consts) (d : Dialect) (tr : Transport) (fuel : Nat) :
    ∀ (status : Bool) (w : Session) (hist : List (List Nat)) r,
      TransceiveProcess_loop K d tr fuel status w hist = some r → ∃ l, r.2.2 = hist ++ l := by
  induction fuel with
  | zero => intro status w hist r h; simp [TransceiveProcess_loop] at h
  | succ fuel ih =>
    intro status w hist r h
    rw [TransceiveProcess_loop_succ] at h
    obtain ⟨l0, hl0⟩ := TransceiveProcess_send_hist K d tr hist status w
    split at h
    · cases h; exact ⟨[], by simp⟩
    · split at h
      · cases hp : ProcessResponse K d fuel
            (GetRawFrame tr (TransceiveProcess_send K d tr hist status w).2.2)
            { (TransceiveProcess_send K d tr hist status w).2.1 with
              phNxpEseProto7816_3_Var.phNxpEseLastTx_Cntx :=
                (TransceiveProcess_send K d tr hist status w).2.1.phNxpEseProto7816_3_Var.phNxpEseNextTx_Cntx } with
        | none => rw [hp] at h; cases h
        | some p =>
          rw [hp] at h
          obtain ⟨l1, hl1⟩ := ih _ _ _ _ h
          exact ⟨l0 ++ l1, by rw [hl1, hl0, List.append_assoc]⟩
      · obtain ⟨l1, hl1⟩ := ih _ _ _ _ h
        exact ⟨l0 ++ l1, by rw [hl1, hl0, List.append_assoc]⟩

theorem TransceiveProcess_send_IFRAME (K : Consts) (d : Dialect) (tr : Transport)
    (hist : List (List Nat)) (status : Bool) (w : Session)
    (h : w.phNxpEseProto7816_3_Var.phNxpEseProto7816_nextTransceiveState = .SEND_IFRAME) :
    TransceiveProcess_send K d tr hist status w =
      SendIframe K d tr hist w w.phNxpEseProto7816_3_Var.phNxpEseNextTx_Cntx.IframeInfo := by
  unfold TransceiveProcess_send
  rw [h]

/-- When the next step is `SEND_IFRAME` and the guards of `SendIframe` pass, whatever the
loop returns starts with the earlier blocks followed by that I-block. -/
theorem TransceiveProcess_loop_first (K : Consts) (d : Dialect) (tr : Transport) (fuel : Nat)
    (status : Bool) (w : Session) (hist : List (List Nat)) r
    (hst : w.phNxpEseProto7816_3_Var.phNxpEseProto7816_nextTransceiveState = .SEND_IFRAME)
    (h1 : 1 ≤ w.phNxpEseProto7816_3_Var.phNxpEseNextTx_Cntx.IframeInfo.sendDataLen)
    (h2 : w.phNxpEseProto7816_3_Var.phNxpEseNextTx_Cntx.IframeInfo.sendDataLen
        + PH_PROTO_7816_HEADER_LEN d + PH_PROTO_7816_CRC_LEN ≤ K.MAX_APDU_BUFFER)
    (h3 : w.phNxpEseProto7816_3_Var.phNxpEseNextTx_Cntx.IframeInfo.sendDataLen ≤ UINT_MAX - 6)
    (h : TransceiveProcess_loop K d tr fuel status w hist = some r) :
    ∃ l, r.2.2 = hist ++ [SendIframe_frame d
        w.phNxpEseProto7816_3_Var.phNxpEseNextTx_Cntx.IframeInfo.seqNo
        w.phNxpEseProto7816_3_Var.phNxpEseNextTx_Cntx.IframeInfo] ++ l := by
  cases fuel with
  | zero => simp [TransceiveProcess_loop] at h
  | succ fuel =>
    rw [TransceiveProcess_loop_succ, if_neg (by rw [hst]; decide),
      TransceiveProcess_send_IFRAME K d tr hist status w hst] at h
    have he := SendIframe_emits K d tr hist w _ h1 h2 h3
    split at h
    · cases hp : ProcessResponse K d fuel
          (GetRawFrame tr (SendIframe K d tr hist w
            w.phNxpEseProto7816_3_Var.phNxpEseNextTx_Cntx.IframeInfo).2.2)
          { (SendIframe K d tr hist w
              w.phNxpEseProto7816_3_Var.phNxpEseNextTx_Cntx.IframeInfo).2.1 with
            phNxpEseProto7816_3_Var.phNxpEseLastTx_Cntx :=
              (SendIframe K d tr hist w
                w.phNxpEseProto7816_3_Var.phNxpEseNextTx_Cntx.IframeInfo).2.1.phNxpEseProto7816_3_Var.phNxpEseNextTx_Cntx } with
      | none => rw [hp] at h; cases h
      | some p =>
        rw [hp] at h
        obtain ⟨l1, hl1⟩ := TransceiveProcess_loop_hist K d tr fuel _ _ _ _ h
        exact ⟨l1, by rw [hl1, he]⟩
    · obtain ⟨l1, hl1⟩ := TransceiveProcess_loop_hist K d tr fuel _ _ _ _ h
      exact ⟨l1, by rw [hl1, he]⟩

theorem Transceive_some (K : Consts) (d : Dialect) (tr : Transport) (fuel : Nat) (w : Session)
    (hist : List (List Nat)) (cmd rsp : phNxpEse_data)
    (hidle : w.phNxpEseProto7816_3_Var.phNxpEseProto7816_CurrentState
      = .PH_NXP_ESE_PROTO_7816_IDLE) :
    Transceive K d tr fuel w hist (some cmd) (some rsp) =
      (TransceiveProcess_loop K d tr fuel false
        { phNxpEseProto7816_3_Var := installCmd w.phNxpEseProto7816_3_Var cmd, rsp := rsp }
        hist).bind fun r =>
          if r.2.1.phNxpEseProto7816_3_Var.phNxpEseRx_Cntx.responseBytesRcvd > UINT32_MAX then
            some (false, r.2.1, r.2.2)
          else
            some (r.1,
              { r.2.1 with
                rsp.len := r.2.1.phNxpEseProto7816_3_Var.phNxpEseRx_Cntx.responseBytesRcvd
                phNxpEseProto7816_3_Var.phNxpEseProto7816_CurrentState :=
                  .PH_NXP_ESE_PROTO_7816_IDLE },
              r.2.2) := by
  simp only [Transceive, hidle, ne_eq, not_true_eq_false, if_false, TransceiveProcess, installCmd]
  cases TransceiveProcess_loop K d tr fuel false _ hist with
  | none => rfl
  | some r => obtain ⟨a, b, c⟩ := r; rfl

theorem Transceive_hist (K : Consts) (d : Dialect) (tr : Transport) (fuel : Nat) (w : Session)
    (hist : List (List Nat)) (cmd rsp : phNxpEse_data) r
    (hidle : w.phNxpEseProto7816_3_Var.phNxpEseProto7816_CurrentState
      = .PH_NXP_ESE_PROTO_7816_IDLE)
    (h : Transceive K d tr fuel w hist (some cmd) (some rsp) = some r) :
    ∃ r', TransceiveProcess_loop K d tr fuel false
        { phNxpEseProto7816_3_Var := installCmd w.phNxpEseProto7816_3_Var cmd, rsp := rsp }
        hist = some r' ∧ r.2.2 = r'.2.2 := by
  rw [Transceive_some K d tr fuel w hist cmd rsp hidle] at h
  cases hl : TransceiveProcess_loop K d tr fuel false
        { phNxpEseProto7816_3_Var := installCmd w.phNxpEseProto7816_3_Var cmd, rsp := rsp }
        hist with
  | none => rw [hl] at h; cases h
  | some r' =>
    rw [hl] at h
    simp only [Option.some_bind] at h
    refine ⟨r', rfl, ?_⟩
    split at h <;> cases h <;> rfl

/-- C9: for an I-block context with payload length 1..254 that lies inside the command
buffer and fits the frame buffer, `SendIframe` hands to the transport NAD `0x5A`, then
PCB `(S << 6) | (M << 5)` (S the sequence number of the next-to-send context, M the
chaining flag; all other PCB bits 0), then LEN (one byte in Dialect-A, two bytes
big-endian in Dialect-B), then the payload, then the two CRC bytes.  In a freshly reset
Dialect-A session whose default IFSC is at least 5 and whose frame buffer holds 10 bytes,
whatever `Transceive` returns for the command `00 A4 04 00 00`, the first block it handed
to the transport is `5A 00 05 00 A4 04 00 00 1E 3C`; and with IFSC 254, a 260-byte frame
buffer and a peer that replies with the I-block `5A 00 02 90 00 <crc>`, `Transceive`
returns TRUE having handed exactly that one block to the transport. -/
theorem C9_iblock_wire_layout (K : Consts) :
    (∀ (d : Dialect) (tr : Transport) (hist : List (List Nat)) (w : Session)
      (c : iFrameInfo_t) (cmd : List Nat),
      c.p_data = some cmd → c.dataOffset + c.sendDataLen ≤ cmd.length →
      1 ≤ c.sendDataLen → c.sendDataLen ≤ 254 →
      c.sendDataLen + PH_PROTO_7816_HEADER_LEN d + PH_PROTO_7816_CRC_LEN
        ≤ K.MAX_APDU_BUFFER →
      w.phNxpEseProto7816_3_Var.phNxpEseNextTx_Cntx.IframeInfo.seqNo ≤ 1 →
      (SendIframe K d tr hist w c).2.2 = hist ++
        [withCRC d
          ([0x5A, (w.phNxpEseProto7816_3_Var.phNxpEseNextTx_Cntx.IframeInfo.seqNo <<< 6) |||
              ((if c.isChained then 1 else 0) <<< 5)] ++
            specLen d c.sendDataLen ++ (cmd.drop c.dataOffset).take c.sendDataLen)] ∧
      ((w.phNxpEseProto7816_3_Var.phNxpEseNextTx_Cntx.IframeInfo.seqNo <<< 6) |||
          ((if c.isChained then 1 else 0) <<< 5)) &&& 0x9F = 0) ∧
    (∀ (v : phNxpEseProto7816_t) (rsp0 rsp : phNxpEse_data) (tr : Transport) (fuel : Nat) r,
      5 ≤ K.IFSC_SIZE_SEND → 10 ≤ K.MAX_APDU_BUFFER →
      Transceive K .T1oI2C_UM11225 tr fuel
        { phNxpEseProto7816_3_Var := (ResetProtoParams K v).2, rsp := rsp0 } []
        (some { len := 5, p_data := some [0x00, 0xA4, 0x04, 0x00, 0x00] }) (some rsp) = some r →
      r.2.2.head? = some [0x5A, 0x00, 0x05, 0x00, 0xA4, 0x04, 0x00, 0x00, 0x1E, 0x3C]) ∧
    (Transceive sampleConsts .T1oI2C_UM11225
        (scripted [.received (withCRC .T1oI2C_UM11225 [0x5A, 0x00, 0x02, 0x90, 0x00])]) 4
        (freshSession 3 3) []
        (some { len := 5, p_data := some [0x00, 0xA4, 0x04, 0x00, 0x00] })
        (some rspBuf10)).map (fun r => (r.1, r.2.2))
      = some (true, [[0x5A, 0x00, 0x05, 0x00, 0xA4, 0x04, 0x00, 0x00, 0x1E, 0x3C]]) := by
  refine ⟨fun d tr hist w c cmd hp hs h1 h254 hfit hS =>
    SendIframe_layout K d tr hist w c cmd hp hs h1 h254 hfit hS, ?_, by decide!⟩
  intro v rsp0 rsp tr fuel r hifsc hmax h
  obtain ⟨r', hr', e⟩ := Transceive_hist K _ tr fuel _ [] _ rsp r rfl h
  have hctx : (installCmd (ResetProtoParams K v).2
      { len := 5, p_data := some [0x00, 0xA4, 0x04, 0x00, 0x00] }).phNxpEseNextTx_Cntx.IframeInfo
      = { isChained := false, p_data := some [0x00, 0xA4, 0x04, 0x00, 0x00], seqNo := 0,
          maxDataLen := K.IFSC_SIZE_SEND, dataOffset := 0, totalDataLen := 5,
          sendDataLen := 5 } := by
    have : ¬ 5 > K.IFSC_SIZE_SEND := by omega
    simp [installCmd, SetFirstIframeContxt, ResetProtoParams, iFrameInfo_zero, this,
      PH_PROTO_7816_VALUE_ONE]
  have hst : (installCmd (ResetProtoParams K v).2
      { len := 5, p_data := some [0x00, 0xA4, 0x04, 0x00, 0x00] }).phNxpEseProto7816_nextTransceiveState
      = .SEND_IFRAME := by
    simp only [installCmd, SetFirstIframeContxt]
    split <;> rfl
  obtain ⟨l, hl⟩ := TransceiveProcess_loop_first K .T1oI2C_UM11225 tr fuel false _ [] r' hst
    (by rw [hctx]; exact Nat.le_of_ble_eq_true rfl)
    (by rw [hctx]; simp only [PH_PROTO_7816_HEADER_LEN, PH_PROTO_7816_CRC_LEN]; omega)
    (by rw [hctx]; exact Nat.le_of_ble_eq_true rfl) hr'
  rw [e, hl, hctx]
  simp only [List.nil_append, List.singleton_append, List.head?_cons, Option.some.injEq]
  rw [SendIframe_frame_eq]
  have hpcb : SendIframe_pcb 0
      { isChained := false, p_data := some [0x00, 0xA4, 0x04, 0x00, 0x00], seqNo := 0,
        maxDataLen := K.IFSC_SIZE_SEND, dataOffset := 0, totalDataLen := 5,
        sendDataLen := 5 } = 0 := by
    simp only [SendIframe_pcb, Bool.false_eq_true, if_false]
    decide
  dsimp only
  rw [hpcb]
  decide!

theorem sendRframe_pcb_eq (w : Session) (t : rFrameTypes_t)
    (hs : w.phNxpEseProto7816_3_Var.phNxpEseRx_Cntx.lastRcvdIframeInfo.seqNo ≤ 1) :
    sendRframe_pcb w t =
      0x80 ||| ((w.phNxpEseProto7816_3_Var.phNxpEseRx_Cntx.lastRcvdIframeInfo.seqNo ^^^ 1) <<< 4)
        ||| specRErr t w.phNxpEseProto7816_3_Var.phNxpEseNextTx_Cntx.RframeInfo.errCode ∧
    (0x80 ||| ((w.phNxpEseProto7816_3_Var.phNxpEseRx_Cntx.lastRcvdIframeInfo.seqNo ^^^ 1) <<< 4)
        ||| specRErr t w.phNxpEseProto7816_3_Var.phNxpEseNextTx_Cntx.RframeInfo.errCode)
      &&& 0x6C = 0 := by
  have h : w.phNxpEseProto7816_3_Var.phNxpEseRx_Cntx.lastRcvdIframeInfo.seqNo = 0 ∨
      w.phNxpEseProto7816_3_Var.phNxpEseRx_Cntx.lastRcvdIframeInfo.seqNo = 1 := by omega
  unfold sendRframe_pcb
  rcases h with h | h <;> rw [h] <;> cases t <;>
    cases w.phNxpEseProto7816_3_Var.phNxpEseNextTx_Cntx.RframeInfo.errCode <;> decide

theorem sendRframe_frame_shape (d : Dialect) (w : Session) (t : rFrameTypes_t) :
    pcbOf (sendRframe_frame d w t) = sendRframe_pcb w t ∧
    (sendRframe_frame d w t).length = PH_PROTO_7816_HEADER_LEN d + PH_PROTO_7816_CRC_LEN ∧
    ((sendRframe_frame d w t).drop 2).take (PH_PROTO_7816_HEADER_LEN d - 2)
      = List.replicate (PH_PROTO_7816_HEADER_LEN d - 2) 0 := by
  cases d <;>
    simp [sendRframe_frame, pcbOf, PH_PROPTO_7816_PCB_OFFSET, PH_PROTO_7816_HEADER_LEN,
      PH_PROTO_7816_CRC_LEN, List.replicate]

/-- C10: when the sequence number of the last received I-block is 0 or 1, the block
`sendRframe` hands to the transport has PCB `0x80 | (n << 4) | e` with bits 6, 5, 3 and 2
clear, where `n` is that sequence number xor 1 and `e` is 0 for an R-ACK, 1 for a NACK for
parity, 2 for a NACK for another error and 3 for SOF-missed or undefined; its LEN field is
zero and it has no INF.  After `ResetProtoParams`, the R-NACK that `ProcessResponse`
schedules for a parity error has PCB `0x81`. -/
theorem C10_rblock_wire_encoding :
    (∀ (d : Dialect) (tr : Transport) (hist : List (List Nat)) (w : Session)
      (t : rFrameTypes_t),
      w.phNxpEseProto7816_3_Var.phNxpEseRx_Cntx.lastRcvdIframeInfo.seqNo ≤ 1 →
      ∃ f, (sendRframe d tr hist w t).2.2 = hist ++ [f] ∧
        pcbOf f =
          0x80 |||
            ((w.phNxpEseProto7816_3_Var.phNxpEseRx_Cntx.lastRcvdIframeInfo.seqNo ^^^ 1) <<< 4)
            ||| specRErr t w.phNxpEseProto7816_3_Var.phNxpEseNextTx_Cntx.RframeInfo.errCode ∧
        pcbOf f &&& 0x6C = 0 ∧
        f.length = PH_PROTO_7816_HEADER_LEN d + PH_PROTO_7816_CRC_LEN ∧
        (f.drop 2).take (PH_PROTO_7816_HEADER_LEN d - 2)
          = List.replicate (PH_PROTO_7816_HEADER_LEN d - 2) 0) ∧
    (∀ (K : Consts) (d : Dialect) (tr : Transport) (hist : List (List Nat))
      (v : phNxpEseProto7816_t) (rsp : phNxpEse_data),
      ∃ f, (sendRframe d tr hist
          { phNxpEseProto7816_3_Var :=
              ProcessResponse_rnack .PARITY_ERROR (ResetProtoParams K v).2,
            rsp := rsp } .RNACK).2.2 = hist ++ [f] ∧ pcbOf f = 0x81) := by
  constructor
  · intro d tr hist w t hs
    obtain ⟨e1, e2⟩ := sendRframe_pcb_eq w t hs
    obtain ⟨s1, s2, s3⟩ := sendRframe_frame_shape d w t
    exact ⟨_, sendRframe_hist d tr hist w t, by rw [s1, e1], by rw [s1, e1, e2], s2, s3⟩
  · intro K d tr hist v rsp
    refine ⟨_, sendRframe_hist d tr hist _ _, ?_⟩
    rw [(sendRframe_frame_shape d _ _).1]
    simp only [sendRframe_pcb, ProcessResponse_rnack, ResetProtoParams, sendRframe_errBits,
      PH_PROTO_7816_VALUE_ONE]
    decide

/-! ## Fragmentation -/

theorem installCmd_ctx (v : phNxpEseProto7816_t) (cmd : phNxpEse_data) :
    (installCmd v cmd).phNxpEseNextTx_Cntx.IframeInfo =
      if cmd.len > v.phNxpEseNextTx_Cntx.IframeInfo.maxDataLen then
        { v.phNxpEseNextTx_Cntx.IframeInfo with
          isChained := true, p_data := cmd.p_data, dataOffset := 0,
          seqNo := (v.phNxpEseLastTx_Cntx.IframeInfo.seqNo ^^^ 1) % 256,
          sendDataLen := v.phNxpEseNextTx_Cntx.IframeInfo.maxDataLen,
          totalDataLen := cmd.len - v.phNxpEseNextTx_Cntx.IframeInfo.maxDataLen }
      else
        { v.phNxpEseNextTx_Cntx.IframeInfo with
          isChained := false, p_data := cmd.p_data, dataOffset := 0,
          seqNo := (v.phNxpEseLastTx_Cntx.IframeInfo.seqNo ^^^ 1) % 256,
          sendDataLen := cmd.len, totalDataLen := cmd.len } := by
  simp only [installCmd, SetFirstIframeContxt]
  split <;> rfl

theorem SetNext_ctx (v : phNxpEseProto7816_t)
    (h : ¬ UINT_MAX - v.phNxpEseLastTx_Cntx.IframeInfo.dataOffset
      < v.phNxpEseLastTx_Cntx.IframeInfo.maxDataLen) :
    (SetNextIframeContxt v).2.phNxpEseNextTx_Cntx.IframeInfo =
      if v.phNxpEseLastTx_Cntx.IframeInfo.totalDataLen
          > v.phNxpEseLastTx_Cntx.IframeInfo.maxDataLen then
        { isChained := true
          p_data := v.phNxpEseLastTx_Cntx.IframeInfo.p_data
          seqNo := (v.phNxpEseLastTx_Cntx.IframeInfo.seqNo ^^^ 1) % 256
          maxDataLen := v.phNxpEseLastTx_Cntx.IframeInfo.maxDataLen
          dataOffset := v.phNxpEseLastTx_Cntx.IframeInfo.dataOffset
            + v.phNxpEseLastTx_Cntx.IframeInfo.maxDataLen
          totalDataLen := v.phNxpEseLastTx_Cntx.IframeInfo.totalDataLen
            - v.phNxpEseLastTx_Cntx.IframeInfo.maxDataLen
          sendDataLen := v.phNxpEseLastTx_Cntx.IframeInfo.maxDataLen }
      else
        { isChained := false
          p_data := v.phNxpEseLastTx_Cntx.IframeInfo.p_data
          seqNo := (v.phNxpEseLastTx_Cntx.IframeInfo.seqNo ^^^ 1) % 256
          maxDataLen := v.phNxpEseLastTx_Cntx.IframeInfo.maxDataLen
          dataOffset := v.phNxpEseLastTx_Cntx.IframeInfo.dataOffset
            + v.phNxpEseLastTx_Cntx.IframeInfo.maxDataLen
          totalDataLen := v.phNxpEseNextTx_Cntx.IframeInfo.totalDataLen
          sendDataLen := v.phNxpEseLastTx_Cntx.IframeInfo.totalDataLen } := by
  simp only [SetNextIframeContxt, h, if_false]
  split <;> rfl

theorem fragCtx_succ (v : phNxpEseProto7816_t) (cmd : phNxpEse_data) (k : Nat)
    (h : ¬ UINT_MAX - (fragCtx v cmd k).dataOffset < (fragCtx v cmd k).maxDataLen) :
    fragCtx v cmd (k + 1) =
      if (fragCtx v cmd k).totalDataLen > (fragCtx v cmd k).maxDataLen then
        { isChained := true
          p_data := (fragCtx v cmd k).p_data
          seqNo := ((fragCtx v cmd k).seqNo ^^^ 1) % 256
          maxDataLen := (fragCtx v cmd k).maxDataLen
          dataOffset := (fragCtx v cmd k).dataOffset + (fragCtx v cmd k).maxDataLen
          totalDataLen := (fragCtx v cmd k).totalDataLen - (fragCtx v cmd k).maxDataLen
          sendDataLen := (fragCtx v cmd k).maxDataLen }
      else
        { isChained := false
          p_data := (fragCtx v cmd k).p_data
          seqNo := ((fragCtx v cmd k).seqNo ^^^ 1) % 256
          maxDataLen := (fragCtx v cmd k).maxDataLen
          dataOffset := (fragCtx v cmd k).dataOffset + (fragCtx v cmd k).maxDataLen
          totalDataLen := (fragCtx v cmd k).totalDataLen
          sendDataLen := (fragCtx v cmd k).totalDataLen } := by
  unfold fragCtx at *
  rw [fragVar, SetNext_ctx _ h]

theorem frag_inv (v : phNxpEseProto7816_t) (cmd : phNxpEse_data) (hU : cmd.len ≤ UINT_MAX)
    (k : Nat) (hk : k * v.phNxpEseNextTx_Cntx.IframeInfo.maxDataLen < cmd.len) :
    (fragCtx v cmd k).dataOffset = k * v.phNxpEseNextTx_Cntx.IframeInfo.maxDataLen ∧
    (fragCtx v cmd k).maxDataLen = v.phNxpEseNextTx_Cntx.IframeInfo.maxDataLen ∧
    (fragCtx v cmd k).p_data = cmd.p_data ∧
    (fragCtx v cmd k).seqNo < 256 ∧
    (if (k + 1) * v.phNxpEseNextTx_Cntx.IframeInfo.maxDataLen < cmd.len then
      (fragCtx v cmd k).isChained = true ∧
      (fragCtx v cmd k).sendDataLen = v.phNxpEseNextTx_Cntx.IframeInfo.maxDataLen ∧
      (fragCtx v cmd k).totalDataLen
        = cmd.len - (k + 1) * v.phNxpEseNextTx_Cntx.IframeInfo.maxDataLen
    else
      (fragCtx v cmd k).isChained = false ∧
      (fragCtx v cmd k).sendDataLen
        = cmd.len - k * v.phNxpEseNextTx_Cntx.IframeInfo.maxDataLen ∧
      (fragCtx v cmd k).totalDataLen
        = cmd.len - k * v.phNxpEseNextTx_Cntx.IframeInfo.maxDataLen) := by
  induction k with
  | zero =>
    have e := installCmd_ctx v cmd
    unfold fragCtx
    rw [fragVar, e]
    by_cases h : cmd.len > v.phNxpEseNextTx_Cntx.IframeInfo.maxDataLen
    · have h' : (0 + 1) * v.phNxpEseNextTx_Cntx.IframeInfo.maxDataLen < cmd.len := by omega
      rw [if_pos h, if_pos h']
      refine ⟨by simp, rfl, rfl, Nat.mod_lt _ (by norm_num), rfl, rfl, by simp⟩
    · have h' : ¬ (0 + 1) * v.phNxpEseNextTx_Cntx.IframeInfo.maxDataLen < cmd.len := by omega
      rw [if_neg h, if_neg h']
      refine ⟨by simp, rfl, rfl, Nat.mod_lt _ (by norm_num), rfl, by simp, by simp⟩
  | succ k ih =>
    have hmul : (k + 1) * v.phNxpEseNextTx_Cntx.IframeInfo.maxDataLen
        = k * v.phNxpEseNextTx_Cntx.IframeInfo.maxDataLen
          + v.phNxpEseNextTx_Cntx.IframeInfo.maxDataLen := Nat.succ_mul _ _
    have hmul2 : (k + 1 + 1) * v.phNxpEseNextTx_Cntx.IframeInfo.maxDataLen
        = (k + 1) * v.phNxpEseNextTx_Cntx.IframeInfo.maxDataLen
          + v.phNxpEseNextTx_Cntx.IframeInfo.maxDataLen := Nat.succ_mul _ _
    obtain ⟨i1, i2, i3, i4, i5⟩ := ih (by omega)
    rw [if_pos hk] at i5
    obtain ⟨j1, j2, j3⟩ := i5
    have hov : ¬ UINT_MAX - (fragCtx v cmd k).dataOffset < (fragCtx v cmd k).maxDataLen := by
      rw [i1, i2]; omega
    rw [fragCtx_succ v cmd k hov]
    by_cases h : (k + 1 + 1) * v.phNxpEseNextTx_Cntx.IframeInfo.maxDataLen < cmd.len
    · have h' : (fragCtx v cmd k).totalDataLen > (fragCtx v cmd k).maxDataLen := by
        rw [j3, i2]; omega
      rw [if_pos h', if_pos h]
      refine ⟨?_, i2, i3, Nat.mod_lt _ (by norm_num), rfl, i2, ?_⟩
      · show (fragCtx v cmd k).dataOffset + (fragCtx v cmd k).maxDataLen = _
        rw [i1, i2]; omega
      · show (fragCtx v cmd k).totalDataLen - (fragCtx v cmd k).maxDataLen = _
        rw [j3, i2]; omega
    · have h' : ¬ (fragCtx v cmd k).totalDataLen > (fragCtx v cmd k).maxDataLen := by
        rw [j3, i2]; omega
      rw [if_neg h', if_neg h]
      refine ⟨?_, i2, i3, Nat.mod_lt _ (by norm_num), rfl, ?_, ?_⟩
      · show (fragCtx v cmd k).dataOffset + (fragCtx v cmd k).maxDataLen = _
        rw [i1, i2]; omega
      · show (fragCtx v cmd k).totalDataLen = _
        rw [j3]
      · show (fragCtx v cmd k).totalDataLen = _
        rw [j3]

theorem fragCount_lt_iff (L m k : Nat) (hm : 1 ≤ m) :
    k + 1 < fragCount L m ↔ (k + 1) * m < L := by
  unfold fragCount
  rw [Nat.lt_iff_add_one_le, Nat.le_div_iff_mul_le (by omega)]
  have : (k + 1 + 1) * m = (k + 1) * m + m := Nat.succ_mul _ _
  omega

theorem fragCount_pos_iff (L m k : Nat) (hm : 1 ≤ m) :
    k < fragCount L m ↔ k * m < L := by
  cases k with
  | zero =>
    unfold fragCount
    rw [Nat.lt_iff_add_one_le, Nat.le_div_iff_mul_le (by omega)]
    omega
  | succ k => exact fragCount_lt_iff L m k hm

/-- The shape of the fragment contexts of a command. -/
theorem frag_shape (v : phNxpEseProto7816_t) (cmd : phNxpEse_data)
    (hm : 1 ≤ v.phNxpEseNextTx_Cntx.IframeInfo.maxDataLen) (hU : cmd.len ≤ UINT_MAX) :
    (∀ k, k < fragCount cmd.len v.phNxpEseNextTx_Cntx.IframeInfo.maxDataLen →
      (fragCtx v cmd k).dataOffset = k * v.phNxpEseNextTx_Cntx.IframeInfo.maxDataLen ∧
      (k + 1 < fragCount cmd.len v.phNxpEseNextTx_Cntx.IframeInfo.maxDataLen →
        (fragCtx v cmd k).isChained = true ∧
        (fragCtx v cmd k).sendDataLen = v.phNxpEseNextTx_Cntx.IframeInfo.maxDataLen) ∧
      (k + 1 = fragCount cmd.len v.phNxpEseNextTx_Cntx.IframeInfo.maxDataLen →
        (fragCtx v cmd k).isChained = false ∧
        (fragCtx v cmd k).sendDataLen
          = cmd.len - k * v.phNxpEseNextTx_Cntx.IframeInfo.maxDataLen ∧
        1 ≤ (fragCtx v cmd k).sendDataLen ∧
        (fragCtx v cmd k).sendDataLen ≤ v.phNxpEseNextTx_Cntx.IframeInfo.maxDataLen)) ∧
    (cmd.len ≤ v.phNxpEseNextTx_Cntx.IframeInfo.maxDataLen →
      (fragCtx v cmd 0).isChained = false ∧ (fragCtx v cmd 0).sendDataLen = cmd.len ∧
      (fragCtx v cmd 0).dataOffset = 0 ∧
      (1 ≤ cmd.len → fragCount cmd.len v.phNxpEseNextTx_Cntx.IframeInfo.maxDataLen = 1)) ∧
    (cmd.len > v.phNxpEseNextTx_Cntx.IframeInfo.maxDataLen →
      2 ≤ fragCount cmd.len v.phNxpEseNextTx_Cntx.IframeInfo.maxDataLen) := by
  refine ⟨?_, ?_, ?_⟩
  · intro k hk
    have hk' := (fragCount_pos_iff _ _ k hm).mp hk
    obtain ⟨i1, _, _, _, i5⟩ := frag_inv v cmd hU k hk'
    refine ⟨i1, ?_, ?_⟩
    · intro h
      rw [if_pos ((fragCount_lt_iff _ _ k hm).mp h)] at i5
      exact ⟨i5.1, i5.2.1⟩
    · intro h
      have hn : ¬ (k + 1) * v.phNxpEseNextTx_Cntx.IframeInfo.maxDataLen < cmd.len := by
        rw [← fragCount_lt_iff _ _ k hm]; omega
      rw [if_neg hn] at i5
      have hmul : (k + 1) * v.phNxpEseNextTx_Cntx.IframeInfo.maxDataLen
          = k * v.phNxpEseNextTx_Cntx.IframeInfo.maxDataLen
            + v.phNxpEseNextTx_Cntx.IframeInfo.maxDataLen := Nat.succ_mul _ _
      refine ⟨i5.1, i5.2.1, ?_, ?_⟩ <;> rw [i5.2.1] <;> omega
  · intro h
    have e := installCmd_ctx v cmd
    have hn : ¬ cmd.len > v.phNxpEseNextTx_Cntx.IframeInfo.maxDataLen := by omega
    rw [if_neg hn] at e
    unfold fragCtx
    rw [fragVar, e]
    refine ⟨rfl, rfl, rfl, ?_⟩
    intro h1
    have h2 : ¬ (0 + 1) < fragCount cmd.len v.phNxpEseNextTx_Cntx.IframeInfo.maxDataLen := by
      rw [fragCount_lt_iff _ _ 0 hm]; omega
    have h3 := (fragCount_pos_iff cmd.len _ 0 hm).mpr (by omega)
    omega
  · intro h
    have := (fragCount_lt_iff cmd.len _ 0 hm).mpr (by omega)
    omega

/-! ## One exchange of the transceive loop with an acknowledging peer -/

theorem CheckCRC_true_lt (M : Nat) (d : Dialect) (n : Nat) (r : List Nat)
    (h : CheckCRC M d n (some r) = true) : n < M := by
  unfold CheckCRC at h
  by_contra hn
  simp [hn] at h

theorem HEADER_LEN_le_INF_FILED (d : Dialect) :
    PH_PROTO_7816_HEADER_LEN d ≤ PH_PROTO_7816_INF_FILED d := by
  cases d <;> decide

theorem seqbit_le (pcb : Nat) : (pcb &&& 0x10) >>> 4 ≤ 1 := by
  have : pcb &&& 0x10 ≤ 0x10 := Nat.and_le_right
  rw [Nat.shiftRight_eq_div_pow]
  omega

theorem DecodeFrame_R_block (K : Consts) (d : Dialect) (fuel : Nat) (r : List Nat)
    (w : Session) (hg : GoodFrame K d r)
    (h80 : pcbOf r &&& 0x80 ≠ 0) (h40 : pcbOf r &&& 0x40 = 0) :
    DecodeFrame K d fuel (some r) r.length w = some (DecodeFrame_R K d (pcbOf r) w) := by
  have h1 := CheckCRC_true_lt _ _ _ _ hg.1
  have h2 := hg.2
  have h3 := HEADER_LEN_le_INF_FILED d
  have h4 : ¬ r.length < PH_PROTO_7816_INF_FILED d := by omega
  have h40' : 0x40 &&& pcbOf r = 0 := by rw [Nat.and_comm]; exact h40
  unfold pcbOf at h80 h40'
  simp only [DecodeFrame, h1, not_true_eq_false, if_false, ge_iff_le,
    Nat.le_trans h3 h2, h4, h80, ne_eq, not_false_eq_true, h40', and_self, if_true, pcbOf]

theorem DecodeFrame_I_block (K : Consts) (d : Dialect) (fuel : Nat) (r : List Nat)
    (w : Session) (hg : GoodFrame K d r) (h80 : pcbOf r &&& 0x80 = 0) :
    DecodeFrame K d fuel (some r) r.length w
      = some (DecodeFrame_I K d r r.length (pcbOf r) w) := by
  have h1 := CheckCRC_true_lt _ _ _ _ hg.1
  have h2 := hg.2
  have h3 := HEADER_LEN_le_INF_FILED d
  have h4 : ¬ r.length < PH_PROTO_7816_INF_FILED d := by omega
  unfold pcbOf at h80
  simp only [DecodeFrame, h1, not_true_eq_false, if_false, ge_iff_le,
    Nat.le_trans h3 h2, h4, h80, if_true, pcbOf]

theorem ProcessResponse_good (K : Consts) (d : Dialect) (fuel : Nat) (r : List Nat)
    (w : Session) (hg : GoodFrame K d r) :
    ProcessResponse K d fuel (some r) w =
      DecodeFrame K d fuel (some r) r.length
        { w with
          phNxpEseProto7816_3_Var :=
            { w.phNxpEseProto7816_3_Var with
              timeoutCounter := PH_PROTO_7816_VALUE_ZERO
              rnack_retry_counter := PH_PROTO_7816_VALUE_ZERO } } := by
  simp only [ProcessResponse, hg.1, if_true]

/-- Decoding an error-free R-block whose sequence bit differs from the last-sent I-block:
the next fragment context is computed and `SEND_IFRAME` scheduled. -/
theorem DecodeFrame_R_ack (K : Consts) (d : Dialect) (pcb : Nat) (w : Session)
    (h1 : pcb &&& 0x01 = 0) (h2 : pcb &&& 0x02 = 0)
    (hseq : (pcb &&& 0x10) >>> 4 ≠ w.phNxpEseProto7816_3_Var.phNxpEseLastTx_Cntx.IframeInfo.seqNo)
    (hov : ¬ UINT_MAX - w.phNxpEseProto7816_3_Var.phNxpEseLastTx_Cntx.IframeInfo.dataOffset
      < w.phNxpEseProto7816_3_Var.phNxpEseLastTx_Cntx.IframeInfo.maxDataLen) :
    (DecodeFrame_R K d pcb w).1 = true ∧
    (DecodeFrame_R K d pcb w).2.phNxpEseProto7816_3_Var.phNxpEseProto7816_nextTransceiveState
      = .SEND_IFRAME ∧
    (DecodeFrame_R K d pcb w).2.phNxpEseProto7816_3_Var.phNxpEseNextTx_Cntx.IframeInfo
      = (SetNextIframeContxt w.phNxpEseProto7816_3_Var).2.phNxpEseNextTx_Cntx.IframeInfo ∧
    (DecodeFrame_R K d pcb w).2.phNxpEseProto7816_3_Var.phNxpEseRx_Cntx.lastRcvdIframeInfo
      = w.phNxpEseProto7816_3_Var.phNxpEseRx_Cntx.lastRcvdIframeInfo ∧
    (DecodeFrame_R K d pcb w).2.phNxpEseProto7816_3_Var.phNxpEseLastTx_Cntx.IframeInfo
      = w.phNxpEseProto7816_3_Var.phNxpEseLastTx_Cntx.IframeInfo := by
  have hb := seqbit_le pcb
  have hs : (0 ||| (pcb &&& 0x10) >>> 4) % 256
      ≠ w.phNxpEseProto7816_3_Var.phNxpEseLastTx_Cntx.IframeInfo.seqNo := by
    rw [Nat.zero_or, Nat.mod_eq_of_lt (by omega)]
    exact hseq
  simp only [DecodeFrame_R, h1, h2, and_self, if_true, ResetRecovery, hs, ne_eq,
    not_false_eq_true]
  refine ⟨trivial, trivial, ?_, ?_, ?_⟩
  · rw [SetNext_ctx _ hov, SetNext_ctx]
    exact hov
  · simp only [SetNextIframeContxt, hov, if_false]
    split <;> rfl
  · simp only [SetNextIframeContxt, hov, if_false]
    split <;> rfl

/-- Decoding a non-chained I-block with the expected sequence number: the next step is
`IDLE_STATE`, whether or not the payload fits the response buffer. -/
theorem DecodeFrame_I_final (K : Consts) (d : Dialect) (buf : List Nat) (n pcb : Nat)
    (w : Session) (h20 : pcb &&& 0x20 = 0)
    (hseq : (pcb &&& 0x40) >>> 6
      ≠ w.phNxpEseProto7816_3_Var.phNxpEseRx_Cntx.lastRcvdIframeInfo.seqNo) :
    (DecodeFrame_I K d buf n pcb w).2.phNxpEseProto7816_3_Var.phNxpEseProto7816_nextTransceiveState
      = .IDLE_STATE := by
  have hs : w.phNxpEseProto7816_3_Var.phNxpEseRx_Cntx.lastRcvdIframeInfo.seqNo
      ≠ (pcb &&& 0x40) >>> 6 := fun h => hseq h.symm
  simp only [DecodeFrame_I, hs, ne_eq, not_false_eq_true, if_true, h20, not_true_eq_false,
    if_false, ResetRecovery]
  have hsave : ∀ (p : Option (List Nat)) (m : Nat) (x : Session),
      (SaveRxframeData p m x).2.phNxpEseProto7816_3_Var.phNxpEseProto7816_nextTransceiveState
        = x.phNxpEseProto7816_3_Var.phNxpEseProto7816_nextTransceiveState := by
    intro p m x
    unfold SaveRxframeData
    cases p with
    | none => rfl
    | some src =>
      dsimp only
      cases x.phNxpEseProto7816_3_Var.phNxpEseRx_Cntx.pRsp with
      | NULL => rfl
      | caller =>
        dsimp only
        cases x.rsp.p_data with
        | none => rfl
        | some dst =>
          dsimp only
          split_ifs <;> rfl
  split <;> rw [hsave]

theorem SendIframe_frame_pcb (d : Dialect) (S : Nat) (c : iFrameInfo_t) :
    pcbOf (SendIframe_frame d S c) = SendIframe_pcb S c := by
  rw [SendIframe_frame_eq]
  simp [pcbOf, withCRC, PH_PROPTO_7816_PCB_OFFSET]

theorem SendIframe_frame_bits (d : Dialect) (S : Nat) (c : iFrameInfo_t) (hS : S ≤ 1) :
    isIBlock (SendIframe_frame d S c) = true ∧
    mBit (SendIframe_frame d S c) = (if c.isChained then 1 else 0) ∧
    sBit (SendIframe_frame d S c) = S := by
  have h : S = 0 ∨ S = 1 := by omega
  unfold isIBlock mBit sBit
  rw [SendIframe_frame_pcb]
  unfold SendIframe_pcb PH_PROTO_7816_CHAINING
  rcases h with rfl | rfl <;> cases c.isChained <;> decide

theorem SendIframe_eq (K : Consts) (d : Dialect) (tr : Transport) (hist : List (List Nat))
    (w : Session) (c : iFrameInfo_t) (h1 : 1 ≤ c.sendDataLen)
    (h2 : c.sendDataLen + PH_PROTO_7816_HEADER_LEN d + PH_PROTO_7816_CRC_LEN
      ≤ K.MAX_APDU_BUFFER)
    (h3 : c.sendDataLen ≤ UINT_MAX - (PH_PROTO_7816_HEADER_LEN d + PH_PROTO_7816_CRC_LEN)) :
    SendIframe K d tr hist w c =
      ((SendRawFrame tr hist
          (c.sendDataLen + PH_PROTO_7816_HEADER_LEN d + PH_PROTO_7816_CRC_LEN)
          (SendIframe_frame d
            w.phNxpEseProto7816_3_Var.phNxpEseNextTx_Cntx.IframeInfo.seqNo c)).1,
        { w with phNxpEseProto7816_3_Var.lastSentNonErrorframeType := .IFRAME },
        hist ++ [SendIframe_frame d
          w.phNxpEseProto7816_3_Var.phNxpEseNextTx_Cntx.IframeInfo.seqNo c]) := by
  have e1 : PH_PROTO_7816_HEADER_LEN d = PH_PROPTO_7816_INF_BYTE_OFFSET d := by cases d <;> rfl
  have e2 : PH_PROTO_7816_HEADER_LEN d ≤ 4 := by cases d <;> decide
  have g0 : ¬ 0 = c.sendDataLen := by omega
  have g1 := h3
  have g2 : c.sendDataLen ≤ K.MAX_APDU_BUFFER - PH_PROPTO_7816_INF_BYTE_OFFSET d := by
    simp only [PH_PROTO_7816_CRC_LEN] at *; omega
  have g3 : c.sendDataLen + PH_PROTO_7816_HEADER_LEN d + PH_PROTO_7816_CRC_LEN - 1
      < K.MAX_APDU_BUFFER := by
    simp only [PH_PROTO_7816_CRC_LEN] at *; omega
  have ht := SendIframe_frame_length d
    w.phNxpEseProto7816_3_Var.phNxpEseNextTx_Cntx.IframeInfo.seqNo c
  simp only [SendIframe, g0, g1, g2, g3, if_false, not_true_eq_false, SendRawFrame_hist]
  rw [List.take_of_length_le (by omega)]

theorem SendRawFrame_ok (tr : Transport) (hist : List (List Nat)) (n : Nat) (p r : List Nat)
    (h : tr (hist ++ [p.take n]) = .received r) : (SendRawFrame tr hist n p).1 = true := by
  simp only [SendRawFrame, h]

theorem SetNext_congr (v1 v2 : phNxpEseProto7816_t)
    (hl : v1.phNxpEseLastTx_Cntx.IframeInfo = v2.phNxpEseLastTx_Cntx.IframeInfo)
    (hn : v1.phNxpEseNextTx_Cntx.IframeInfo.totalDataLen
      = v2.phNxpEseNextTx_Cntx.IframeInfo.totalDataLen)
    (hov : ¬ UINT_MAX - v1.phNxpEseLastTx_Cntx.IframeInfo.dataOffset
      < v1.phNxpEseLastTx_Cntx.IframeInfo.maxDataLen) :
    (SetNextIframeContxt v1).2.phNxpEseNextTx_Cntx.IframeInfo
      = (SetNextIframeContxt v2).2.phNxpEseNextTx_Cntx.IframeInfo := by
  rw [SetNext_ctx v1 hov, SetNext_ctx v2 (by rw [← hl]; exact hov), hl, hn]

/-- One exchange: a chained I-block is sent and the peer acknowledges it. -/
theorem loop_step_ack (K : Consts) (d : Dialect) (tr : Transport) (rxSeq fuel : Nat)
    (status : Bool) (w : Session) (hist : List (List Nat))
    (hpeer : AckingPeer K d rxSeq tr)
    (hst : w.phNxpEseProto7816_3_Var.phNxpEseProto7816_nextTransceiveState = .SEND_IFRAME)
    (hch : w.phNxpEseProto7816_3_Var.phNxpEseNextTx_Cntx.IframeInfo.isChained = true)
    (h1 : 1 ≤ w.phNxpEseProto7816_3_Var.phNxpEseNextTx_Cntx.IframeInfo.sendDataLen)
    (h2 : w.phNxpEseProto7816_3_Var.phNxpEseNextTx_Cntx.IframeInfo.sendDataLen
        + PH_PROTO_7816_HEADER_LEN d + PH_PROTO_7816_CRC_LEN ≤ K.MAX_APDU_BUFFER)
    (h3 : w.phNxpEseProto7816_3_Var.phNxpEseNextTx_Cntx.IframeInfo.sendDataLen
      ≤ UINT_MAX - (PH_PROTO_7816_HEADER_LEN d + PH_PROTO_7816_CRC_LEN))
    (hS : w.phNxpEseProto7816_3_Var.phNxpEseNextTx_Cntx.IframeInfo.seqNo ≤ 1)
    (hov : ¬ UINT_MAX - w.phNxpEseProto7816_3_Var.phNxpEseNextTx_Cntx.IframeInfo.dataOffset
      < w.phNxpEseProto7816_3_Var.phNxpEseNextTx_Cntx.IframeInfo.maxDataLen) :
    ∃ w' : Session,
      TransceiveProcess_loop K d tr (fuel + 1) status w hist =
        TransceiveProcess_loop K d tr fuel true w'
          (hist ++ [SendIframe_frame d
            w.phNxpEseProto7816_3_Var.phNxpEseNextTx_Cntx.IframeInfo.seqNo
            w.phNxpEseProto7816_3_Var.phNxpEseNextTx_Cntx.IframeInfo]) ∧
      w'.phNxpEseProto7816_3_Var.phNxpEseProto7816_nextTransceiveState = .SEND_IFRAME ∧
      w'.phNxpEseProto7816_3_Var.phNxpEseNextTx_Cntx.IframeInfo =
        (SetNextIframeContxt
          { w.phNxpEseProto7816_3_Var with
            phNxpEseLastTx_Cntx := w.phNxpEseProto7816_3_Var.phNxpEseNextTx_Cntx }).2.phNxpEseNextTx_Cntx.IframeInfo ∧
      w'.phNxpEseProto7816_3_Var.phNxpEseRx_Cntx.lastRcvdIframeInfo
        = w.phNxpEseProto7816_3_Var.phNxpEseRx_Cntx.lastRcvdIframeInfo := by
  obtain ⟨b1, b2, b3⟩ := SendIframe_frame_bits d _
    w.phNxpEseProto7816_3_Var.phNxpEseNextTx_Cntx.IframeInfo hS
  rw [hch, if_pos rfl] at b2
  obtain ⟨r, hr, hg, p80, p40, p01, p02, pseq⟩ := (hpeer hist _ b1).1 b2
  rw [b3] at pseq
  have hlen := SendIframe_frame_length d
    w.phNxpEseProto7816_3_Var.phNxpEseNextTx_Cntx.IframeInfo.seqNo
    w.phNxpEseProto7816_3_Var.phNxpEseNextTx_Cntx.IframeInfo
  have hsend := SendIframe_eq K d tr hist w _ h1 h2 h3
  have hok := SendRawFrame_ok tr hist
    (w.phNxpEseProto7816_3_Var.phNxpEseNextTx_Cntx.IframeInfo.sendDataLen
      + PH_PROTO_7816_HEADER_LEN d + PH_PROTO_7816_CRC_LEN)
    (SendIframe_frame d w.phNxpEseProto7816_3_Var.phNxpEseNextTx_Cntx.IframeInfo.seqNo
      w.phNxpEseProto7816_3_Var.phNxpEseNextTx_Cntx.IframeInfo) r
    (by rw [List.take_of_length_le (by omega)]; exact hr)
  rw [hok] at hsend
  have hget : GetRawFrame tr (hist ++ [SendIframe_frame d
      w.phNxpEseProto7816_3_Var.phNxpEseNextTx_Cntx.IframeInfo.seqNo
      w.phNxpEseProto7816_3_Var.phNxpEseNextTx_Cntx.IframeInfo]) = some r := by
    simp only [GetRawFrame, hr]
  rw [TransceiveProcess_loop_succ, if_neg (by rw [hst]; decide),
    TransceiveProcess_send_IFRAME K d tr hist status w hst, hsend]
  simp only [if_true, hget]
  rw [ProcessResponse_good K d fuel r _ hg, DecodeFrame_R_block K d fuel r _ hg p80 p40]
  simp only [Option.some_bind]
  obtain ⟨a1, a2, a3, a4, a5⟩ := DecodeFrame_R_ack K d (pcbOf r)
    { phNxpEseProto7816_3_Var :=
        { ({ w with phNxpEseProto7816_3_Var.lastSentNonErrorframeType := .IFRAME } : Session).phNxpEseProto7816_3_Var with
          phNxpEseLastTx_Cntx := w.phNxpEseProto7816_3_Var.phNxpEseNextTx_Cntx
          timeoutCounter := PH_PROTO_7816_VALUE_ZERO
          rnack_retry_counter := PH_PROTO_7816_VALUE_ZERO },
      rsp := w.rsp } p01 p02 pseq hov
  refine ⟨_, ?_, a2, ?_, a4⟩
  · rw [a1]
  · rw [a3]
    exact SetNext_congr _ _ rfl rfl hov

/-- The last exchange: a non-chained I-block is sent and the peer answers with the
response I-block; the loop ends. -/
theorem loop_step_final (K : Consts) (d : Dialect) (tr : Transport) (fuel : Nat)
    (status : Bool) (w : Session) (hist : List (List Nat))
    (hpeer : AckingPeer K d
      w.phNxpEseProto7816_3_Var.phNxpEseRx_Cntx.lastRcvdIframeInfo.seqNo tr)
    (hst : w.phNxpEseProto7816_3_Var.phNxpEseProto7816_nextTransceiveState = .SEND_IFRAME)
    (hch : w.phNxpEseProto7816_3_Var.phNxpEseNextTx_Cntx.IframeInfo.isChained = false)
    (h1 : 1 ≤ w.phNxpEseProto7816_3_Var.phNxpEseNextTx_Cntx.IframeInfo.sendDataLen)
    (h2 : w.phNxpEseProto7816_3_Var.phNxpEseNextTx_Cntx.IframeInfo.sendDataLen
        + PH_PROTO_7816_HEADER_LEN d + PH_PROTO_7816_CRC_LEN ≤ K.MAX_APDU_BUFFER)
    (h3 : w.phNxpEseProto7816_3_Var.phNxpEseNextTx_Cntx.IframeInfo.sendDataLen
      ≤ UINT_MAX - (PH_PROTO_7816_HEADER_LEN d + PH_PROTO_7816_CRC_LEN))
    (hS : w.phNxpEseProto7816_3_Var.phNxpEseNextTx_Cntx.IframeInfo.seqNo ≤ 1) :
    ∃ (b : Bool) (w' : Session),
      TransceiveProcess_loop K d tr (fuel + 2) status w hist =
        some (b, w', hist ++ [SendIframe_frame d
            w.phNxpEseProto7816_3_Var.phNxpEseNextTx_Cntx.IframeInfo.seqNo
            w.phNxpEseProto7816_3_Var.phNxpEseNextTx_Cntx.IframeInfo]) := by
  obtain ⟨b1, b2, b3⟩ := SendIframe_frame_bits d _
    w.phNxpEseProto7816_3_Var.phNxpEseNextTx_Cntx.IframeInfo hS
  rw [hch] at b2
  obtain ⟨r, hr, hg, p80, p20, pseq⟩ := (hpeer hist _ b1).2 b2
  have hlen := SendIframe_frame_length d
    w.phNxpEseProto7816_3_Var.phNxpEseNextTx_Cntx.IframeInfo.seqNo
    w.phNxpEseProto7816_3_Var.phNxpEseNextTx_Cntx.IframeInfo
  have hsend := SendIframe_eq K d tr hist w _ h1 h2 h3
  have hok := SendRawFrame_ok tr hist
    (w.phNxpEseProto7816_3_Var.phNxpEseNextTx_Cntx.IframeInfo.sendDataLen
      + PH_PROTO_7816_HEADER_LEN d + PH_PROTO_7816_CRC_LEN)
    (SendIframe_frame d w.phNxpEseProto7816_3_Var.phNxpEseNextTx_Cntx.IframeInfo.seqNo
      w.phNxpEseProto7816_3_Var.phNxpEseNextTx_Cntx.IframeInfo) r
    (by rw [List.take_of_length_le (by omega)]; exact hr)
  rw [hok] at hsend
  have hget : GetRawFrame tr (hist ++ [SendIframe_frame d
      w.phNxpEseProto7816_3_Var.phNxpEseNextTx_Cntx.IframeInfo.seqNo
      w.phNxpEseProto7816_3_Var.phNxpEseNextTx_Cntx.IframeInfo]) = some r := by
    simp only [GetRawFrame, hr]
  rw [TransceiveProcess_loop_succ, if_neg (by rw [hst]; decide),
    TransceiveProcess_send_IFRAME K d tr hist status w hst, hsend]
  simp only [if_true, hget]
  rw [ProcessResponse_good K d (fuel + 1) r _ hg, DecodeFrame_I_block K d (fuel + 1) r _ hg p80]
  simp only [Option.some_bind]
  have hidle := DecodeFrame_I_final K d r r.length (pcbOf r)
    { phNxpEseProto7816_3_Var :=
        { ({ w with phNxpEseProto7816_3_Var.lastSentNonErrorframeType := .IFRAME } : Session).phNxpEseProto7816_3_Var with
          phNxpEseLastTx_Cntx := w.phNxpEseProto7816_3_Var.phNxpEseNextTx_Cntx
          timeoutCounter := PH_PROTO_7816_VALUE_ZERO
          rnack_retry_counter := PH_PROTO_7816_VALUE_ZERO },
      rsp := w.rsp } p20 pseq
  rw [TransceiveProcess_loop_succ, if_pos hidle]
  exact ⟨_, _, rfl⟩

/-- The blocks of fragments `k`, `k+1`, ..., `k+j` of a command. -/
theorem fragCtx_chain_step (v : phNxpEseProto7816_t) (cmd : phNxpEse_data) (k : Nat)
    (u : phNxpEseProto7816_t)
    (hu : u.phNxpEseNextTx_Cntx.IframeInfo = fragCtx v cmd k)
    (hov : ¬ UINT_MAX - (fragCtx v cmd k).dataOffset < (fragCtx v cmd k).maxDataLen) :
    (SetNextIframeContxt
      { u with phNxpEseLastTx_Cntx := u.phNxpEseNextTx_Cntx }).2.phNxpEseNextTx_Cntx.IframeInfo
      = fragCtx v cmd (k + 1) := by
  show _ = (fragVar v cmd (k + 1)).phNxpEseNextTx_Cntx.IframeInfo
  rw [fragVar]
  apply SetNext_congr
  · exact hu
  · show u.phNxpEseNextTx_Cntx.IframeInfo.totalDataLen = (fragCtx v cmd k).totalDataLen
    rw [hu]
  · show ¬ UINT_MAX - u.phNxpEseNextTx_Cntx.IframeInfo.dataOffset
      < u.phNxpEseNextTx_Cntx.IframeInfo.maxDataLen
    rw [hu]; exact hov

theorem fragCtx_seq (v : phNxpEseProto7816_t) (cmd : phNxpEse_data)
    (hU : cmd.len ≤ UINT_MAX) (hs : v.phNxpEseLastTx_Cntx.IframeInfo.seqNo ≤ 1) (k : Nat)
    (hk : k * v.phNxpEseNextTx_Cntx.IframeInfo.maxDataLen < cmd.len) :
    (fragCtx v cmd k).seqNo = (v.phNxpEseLastTx_Cntx.IframeInfo.seqNo + 1 + k) % 2 := by
  have hx : ∀ s : Nat, s ≤ 1 → (s ^^^ 1) % 256 = (s + 1) % 2 := by
    intro s h
    have : s = 0 ∨ s = 1 := by omega
    rcases this with rfl | rfl <;> decide
  induction k with
  | zero =>
    have e := installCmd_ctx v cmd
    unfold fragCtx
    rw [fragVar, e]
    split <;> exact hx _ hs
  | succ k ih =>
    have hmul : (k + 1) * v.phNxpEseNextTx_Cntx.IframeInfo.maxDataLen
        = k * v.phNxpEseNextTx_Cntx.IframeInfo.maxDataLen
          + v.phNxpEseNextTx_Cntx.IframeInfo.maxDataLen := Nat.succ_mul _ _
    have ih' := ih (by omega)
    obtain ⟨i1, i2, _, _, _⟩ := frag_inv v cmd hU k (by omega)
    have hov : ¬ UINT_MAX - (fragCtx v cmd k).dataOffset < (fragCtx v cmd k).maxDataLen := by
      rw [i1, i2]; omega
    rw [fragCtx_succ v cmd k hov]
    have hle : (fragCtx v cmd k).seqNo ≤ 1 := by rw [ih']; omega
    have := hx _ hle
    split <;> (show ((fragCtx v cmd k).seqNo ^^^ 1) % 256 = _; rw [this, ih']; omega)

/-- The I-block of fragment `k` of a command. -/
theorem chain (K : Consts) (d : Dialect) (tr : Transport) (v : phNxpEseProto7816_t)
    (cmd : phNxpEse_data) (rxSeq : Nat)
    (hpeer : AckingPeer K d rxSeq tr)
    (hm : 1 ≤ v.phNxpEseNextTx_Cntx.IframeInfo.maxDataLen)
    (hfit : v.phNxpEseNextTx_Cntx.IframeInfo.maxDataLen
      + PH_PROTO_7816_HEADER_LEN d + PH_PROTO_7816_CRC_LEN ≤ K.MAX_APDU_BUFFER)
    (hMAX : K.MAX_APDU_BUFFER ≤ UINT_MAX)
    (hU : cmd.len ≤ UINT_MAX) (hs : v.phNxpEseLastTx_Cntx.IframeInfo.seqNo ≤ 1) :
    ∀ (j k : Nat) (status : Bool) (w : Session) (hist : List (List Nat)),
      k + j + 1 = fragCount cmd.len v.phNxpEseNextTx_Cntx.IframeInfo.maxDataLen →
      w.phNxpEseProto7816_3_Var.phNxpEseProto7816_nextTransceiveState = .SEND_IFRAME →
      w.phNxpEseProto7816_3_Var.phNxpEseNextTx_Cntx.IframeInfo = fragCtx v cmd k →
      w.phNxpEseProto7816_3_Var.phNxpEseRx_Cntx.lastRcvdIframeInfo.seqNo = rxSeq →
      ∃ (b : Bool) (w' : Session),
        TransceiveProcess_loop K d tr (j + 2) status w hist =
          some (b, w', hist ++ (List.range' k (j + 1)).map fun i =>
            SendIframe_frame d (fragCtx v cmd i).seqNo (fragCtx v cmd i)) := by
  intro j
  induction j with
  | zero =>
    intro k status w hist hk hst hctx hrx
    have hk1 : k < fragCount cmd.len v.phNxpEseNextTx_Cntx.IframeInfo.maxDataLen := by omega
    obtain ⟨_, _, hlast⟩ := (frag_shape v cmd hm hU).1 k hk1
    obtain ⟨l1, l2, l3, l4⟩ := hlast (by omega)
    have hseq := fragCtx_seq v cmd hU hs k ((fragCount_pos_iff _ _ k hm).mp hk1)
    rw [← hctx] at l1 l2 l3 l4 hseq
    rw [← hrx] at hpeer
    obtain ⟨b, w', h⟩ := loop_step_final K d tr 0 status w hist hpeer hst l1 l3
      (by omega) (by omega) (by rw [hseq]; omega)
    refine ⟨b, w', ?_⟩
    rw [h, hctx]
    simp [List.range'_one]
  | succ j ih =>
    intro k status w hist hk hst hctx hrx
    have hk1 : k < fragCount cmd.len v.phNxpEseNextTx_Cntx.IframeInfo.maxDataLen := by omega
    have hk' := (fragCount_pos_iff _ _ k hm).mp hk1
    obtain ⟨i1, i2, _, _, _⟩ := frag_inv v cmd hU k hk'
    obtain ⟨_, hmid, _⟩ := (frag_shape v cmd hm hU).1 k hk1
    obtain ⟨l1, l2⟩ := hmid (by omega)
    have hseq := fragCtx_seq v cmd hU hs k hk'
    have hnext := (fragCount_lt_iff _ _ k hm).mp (by omega :
      k + 1 < fragCount cmd.len v.phNxpEseNextTx_Cntx.IframeInfo.maxDataLen)
    have hmul : (k + 1) * v.phNxpEseNextTx_Cntx.IframeInfo.maxDataLen
        = k * v.phNxpEseNextTx_Cntx.IframeInfo.maxDataLen
          + v.phNxpEseNextTx_Cntx.IframeInfo.maxDataLen := Nat.succ_mul _ _
    have hov : ¬ UINT_MAX - (fragCtx v cmd k).dataOffset < (fragCtx v cmd k).maxDataLen := by
      rw [i1, i2]; omega
    have hov' := hov
    rw [← hctx] at l1 l2 hseq hov'
    obtain ⟨w1, e1, s1, c1, r1⟩ := loop_step_ack K d tr rxSeq (j + 2) status w hist hpeer hst l1
      (by omega) (by omega) (by omega) (by rw [hseq]; omega) hov'
    rw [fragCtx_chain_step v cmd k _ hctx hov] at c1
    obtain ⟨b, w', h⟩ := ih (k + 1) true w1 _ (by omega) s1 c1 (by rw [r1]; exact hrx)
    refine ⟨b, w', ?_⟩
    rw [show j + 1 + 2 = (j + 2) + 1 by omega, e1, h, hctx, List.append_assoc]
    rfl

/-! ## A whole transceive with an acknowledging peer -/

theorem installCmd_state (v : phNxpEseProto7816_t) (cmd : phNxpEse_data) :
    (installCmd v cmd).phNxpEseProto7816_nextTransceiveState = .SEND_IFRAME ∧
    (installCmd v cmd).phNxpEseRx_Cntx.lastRcvdIframeInfo
      = v.phNxpEseRx_Cntx.lastRcvdIframeInfo := by
  simp only [installCmd, SetFirstIframeContxt]
  split <;> exact ⟨rfl, rfl⟩

/-- With an acknowledging peer, `Transceive` returns, and the blocks it handed to the
transport are exactly the I-blocks of the fragments 0, 1, ..., `fragCount - 1`. -/
theorem Transceive_acking (K : Consts) (d : Dialect) (tr : Transport) (w : Session)
    (cmd rsp : phNxpEse_data)
    (hidle : w.phNxpEseProto7816_3_Var.phNxpEseProto7816_CurrentState
      = .PH_NXP_ESE_PROTO_7816_IDLE)
    (hcmd : 1 ≤ cmd.len) (hU : cmd.len ≤ UINT_MAX)
    (hm : 1 ≤ w.phNxpEseProto7816_3_Var.phNxpEseNextTx_Cntx.IframeInfo.maxDataLen)
    (hfit : w.phNxpEseProto7816_3_Var.phNxpEseNextTx_Cntx.IframeInfo.maxDataLen
      + PH_PROTO_7816_HEADER_LEN d + PH_PROTO_7816_CRC_LEN ≤ K.MAX_APDU_BUFFER)
    (hMAX : K.MAX_APDU_BUFFER ≤ UINT_MAX)
    (hs : w.phNxpEseProto7816_3_Var.phNxpEseLastTx_Cntx.IframeInfo.seqNo ≤ 1)
    (hpeer : AckingPeer K d
      w.phNxpEseProto7816_3_Var.phNxpEseRx_Cntx.lastRcvdIframeInfo.seqNo tr) :
    ∃ (b : Bool) (w' : Session),
      Transceive K d tr
        (fragCount cmd.len w.phNxpEseProto7816_3_Var.phNxpEseNextTx_Cntx.IframeInfo.maxDataLen + 1)
        w [] (some cmd) (some rsp) =
      some (b, w',
        (List.range
          (fragCount cmd.len
            w.phNxpEseProto7816_3_Var.phNxpEseNextTx_Cntx.IframeInfo.maxDataLen)).map fun i =>
          SendIframe_frame d (fragCtx w.phNxpEseProto7816_3_Var cmd i).seqNo
            (fragCtx w.phNxpEseProto7816_3_Var cmd i)) := by
  have hn : 0 < fragCount cmd.len
      w.phNxpEseProto7816_3_Var.phNxpEseNextTx_Cntx.IframeInfo.maxDataLen :=
    (fragCount_pos_iff _ _ 0 hm).mpr (by omega)
  obtain ⟨n, hn'⟩ : ∃ n, fragCount cmd.len
      w.phNxpEseProto7816_3_Var.phNxpEseNextTx_Cntx.IframeInfo.maxDataLen = n + 1 :=
    ⟨_, (Nat.succ_pred_eq_of_pos hn).symm⟩
  obtain ⟨s1, s2⟩ := installCmd_state w.phNxpEseProto7816_3_Var cmd
  obtain ⟨b, w', h⟩ := chain K d tr w.phNxpEseProto7816_3_Var cmd _ hpeer hm hfit hMAX hU hs
    n 0 false { phNxpEseProto7816_3_Var := installCmd w.phNxpEseProto7816_3_Var cmd, rsp := rsp }
    [] (by omega) s1 rfl (by rw [s2])
  rw [Transceive_some K d tr _ w [] cmd rsp hidle, hn', h]
  simp only [Option.some_bind, List.nil_append, List.range_eq_range']
  split <;> exact ⟨_, _, rfl⟩

/-! ## Payloads, counts and sequence bits of the emitted I-blocks -/

theorem infOf_SendIframe_frame (d : Dialect) (S : Nat) (c : iFrameInfo_t) :
    infOf d (SendIframe_frame d S c) = readBytes c.p_data c.dataOffset c.sendDataLen := by
  have hl := SendIframe_len_length d c.sendDataLen
  have hlen := SendIframe_frame_length d S c
  have e1 : PH_PROTO_7816_HEADER_LEN d = PH_PROPTO_7816_INF_BYTE_OFFSET d := by cases d <;> rfl
  unfold infOf
  rw [hlen]
  rw [SendIframe_frame_eq]
  unfold withCRC
  have hpre : ([SEND_PACKET_SOF, SendIframe_pcb S c] ++ SendIframe_len d c.sendDataLen).length
      = PH_PROPTO_7816_INF_BYTE_OFFSET d := by
    simp only [List.length_append, List.length_cons, List.length_nil]
    omega
  rw [List.append_assoc, List.append_assoc, ← List.append_assoc [SEND_PACKET_SOF, _],
    ← hpre, List.drop_left]
  have hr : c.sendDataLen + PH_PROTO_7816_HEADER_LEN d + PH_PROTO_7816_CRC_LEN
      - PH_PROTO_7816_INF_FILED d = (readBytes c.p_data c.dataOffset c.sendDataLen).length := by
    rw [readBytes_length]
    unfold PH_PROTO_7816_INF_FILED
    omega
  rw [hr, List.take_left]

theorem slices_join (m : Nat) :
    ∀ (n : Nat) (bytes : List Nat), bytes.length ≤ n * m →
      ((List.range n).map fun i => (bytes.drop (i * m)).take m).flatten = bytes := by
  intro n
  induction n with
  | zero =>
    intro bytes h
    have : bytes = [] := List.eq_nil_of_length_eq_zero (by omega)
    simp [this]
  | succ n ih =>
    intro bytes h
    have hmul : (n + 1) * m = n * m + m := Nat.succ_mul _ _
    rw [List.range_succ_eq_map, List.map_cons, List.flatten_cons, List.map_map]
    have hd := ih (bytes.drop m) (by rw [List.length_drop]; omega)
    have hf : ((fun i => List.take m (List.drop (i * m) bytes)) ∘ Nat.succ)
        = fun i => List.take m (List.drop (i * m) (bytes.drop m)) := by
      funext i
      simp only [Function.comp, List.drop_drop]
      have : Nat.succ i * m = m + i * m := by rw [Nat.succ_mul]; omega
      rw [this]
    rw [hf, hd]
    simp

theorem fragCtx_slice (v : phNxpEseProto7816_t) (bytes : List Nat)
    (hm : 1 ≤ v.phNxpEseNextTx_Cntx.IframeInfo.maxDataLen) (hU : bytes.length ≤ UINT_MAX)
    (k : Nat) (hk : k < fragCount bytes.length v.phNxpEseNextTx_Cntx.IframeInfo.maxDataLen) :
    readBytes (fragCtx v { len := bytes.length, p_data := some bytes } k).p_data
        (fragCtx v { len := bytes.length, p_data := some bytes } k).dataOffset
        (fragCtx v { len := bytes.length, p_data := some bytes } k).sendDataLen
      = (bytes.drop (k * v.phNxpEseNextTx_Cntx.IframeInfo.maxDataLen)).take
          v.phNxpEseNextTx_Cntx.IframeInfo.maxDataLen := by
  have hk' := (fragCount_pos_iff _ _ k hm).mp hk
  obtain ⟨i1, _, i3, _, i5⟩ :=
    frag_inv v { len := bytes.length, p_data := some bytes } hU k hk'
  have hmul : (k + 1) * v.phNxpEseNextTx_Cntx.IframeInfo.maxDataLen
      = k * v.phNxpEseNextTx_Cntx.IframeInfo.maxDataLen
        + v.phNxpEseNextTx_Cntx.IframeInfo.maxDataLen := Nat.succ_mul _ _
  rw [i3, i1]
  by_cases h : (k + 1) * v.phNxpEseNextTx_Cntx.IframeInfo.maxDataLen < bytes.length
  · rw [if_pos h] at i5
    rw [i5.2.1, readBytes_eq_slice _ _ _ (by dsimp only at *; omega)]
  · rw [if_neg h] at i5
    rw [i5.2.1, readBytes_eq_slice _ _ _ (by dsimp only at *; omega)]
    dsimp only
    rw [List.take_of_length_le (by rw [List.length_drop]),
      List.take_of_length_le (by rw [List.length_drop]; omega)]

/-! ## The sample acknowledging peer -/

theorem CheckCRC_withCRC (M : Nat) (d : Dialect) (body : List Nat)
    (h : body.length + 2 < M) :
    CheckCRC M d (withCRC d body).length (some (withCRC d body)) = true := by
  have hlt : ComputeCRC d (some body) 0 body.length < 65536 := by
    simpa using ComputeCRC_lt d body []
  have e : (0xFF : Nat) = 2 ^ 8 - 1 := by norm_num
  have hhi : (ComputeCRC d (some body) 0 body.length >>> 8) &&& 0xFF
      = ComputeCRC d (some body) 0 body.length >>> 8 := by
    rw [e, Nat.and_pow_two_sub_one_eq_mod, Nat.shiftRight_eq_div_pow]
    exact Nat.mod_eq_of_lt (by omega)
  have := CheckCRC_roundtrip M d body h
  unfold withCRC crcTrailer
  rw [hhi]
  simpa using this

theorem sBit_le (f : List Nat) : sBit f ≤ 1 := by
  unfold sBit
  have : pcbOf f &&& 0x40 ≤ 0x40 := Nat.and_le_right
  rw [Nat.shiftRight_eq_div_pow]
  omega

theorem withCRC_length (d : Dialect) (body : List Nat) :
    (withCRC d body).length = body.length + 2 := by
  simp [withCRC, crcTrailer]

theorem pcbOf_withCRC (d : Dialect) (a b : Nat) (rest : List Nat) :
    pcbOf (withCRC d ([a, b] ++ rest)) = b := by
  simp [pcbOf, withCRC, PH_PROPTO_7816_PCB_OFFSET]

/-- The sample peer is an acknowledging peer for a host that last received sequence
number `rxSeq`, when its response I-block carries the other sequence bit. -/
theorem ackingTransport_acking (K : Consts) (d : Dialect) (s rxSeq : Nat)
    (hK : 9 ≤ K.MAX_APDU_BUFFER) (hs : s ≤ 1) (hne : s ≠ rxSeq) :
    AckingPeer K d rxSeq (ackingTransport d s) := by
  intro hist f hI
  have hlast : (hist ++ [f]).getLastD [] = f := List.getLastD_concat _ _ _
  constructor
  · intro hM
    have hsb := sBit_le f
    have hcases : sBit f = 0 ∨ sBit f = 1 := by omega
    have htr : ackingTransport d s (hist ++ [f]) = .received
        (withCRC d ([0x5A, 0x80 ||| ((sBit f ^^^ 1) <<< 4)] ++
          (match d with
            | .T1oI2C_UM11225 => [0x00]
            | .T1oI2C_GP1_0 => [0x00, 0x00]))) := by
      simp only [ackingTransport, hlast, hI, hM, and_self, if_true]
    refine ⟨_, htr, ⟨?_, ?_⟩, ?_⟩
    · apply CheckCRC_withCRC
      cases d <;> simp <;> omega
    · rw [withCRC_length]
      cases d <;> simp [PH_PROTO_7816_INF_FILED, PH_PROTO_7816_HEADER_LEN, PH_PROTO_7816_CRC_LEN]
    · rw [pcbOf_withCRC]
      rcases hcases with h | h <;> rw [h] <;> decide
  · intro hM
    have hs' : s = 0 ∨ s = 1 := by omega
    have hnot : ¬ (isIBlock f = true ∧ mBit f = 1) := by rw [hM]; simp
    have htr : ackingTransport d s (hist ++ [f]) = .received
        (withCRC d ([0x5A, s <<< 6] ++
          ((match d with
            | .T1oI2C_UM11225 => [0x02]
            | .T1oI2C_GP1_0 => [0x00, 0x02]) ++ [0x90, 0x00]))) := by
      simp only [ackingTransport, hlast, hnot, if_false, List.append_assoc]
    refine ⟨_, htr, ⟨?_, ?_⟩, ?_⟩
    · apply CheckCRC_withCRC
      cases d <;> simp <;> omega
    · rw [withCRC_length]
      cases d <;> simp [PH_PROTO_7816_INF_FILED, PH_PROTO_7816_HEADER_LEN, PH_PROTO_7816_CRC_LEN]
    · rw [pcbOf_withCRC]
      refine ⟨?_, ?_, ?_⟩
      · rcases hs' with h | h <;> rw [h] <;> decide
      · rcases hs' with h | h <;> rw [h] <;> decide
      · have : (s <<< 6 &&& 0x40) >>> 6 = s := by
          rcases hs' with h | h <;> rw [h] <;> decide
        rw [this]; exact hne

theorem iBlocks_frames (d : Dialect) (v : phNxpEseProto7816_t) (cmd : phNxpEse_data)
    (hm : 1 ≤ v.phNxpEseNextTx_Cntx.IframeInfo.maxDataLen) (hU : cmd.len ≤ UINT_MAX)
    (hs : v.phNxpEseLastTx_Cntx.IframeInfo.seqNo ≤ 1) :
    iBlocks ((List.range (fragCount cmd.len v.phNxpEseNextTx_Cntx.IframeInfo.maxDataLen)).map
        fun i => SendIframe_frame d (fragCtx v cmd i).seqNo (fragCtx v cmd i))
      = (List.range (fragCount cmd.len v.phNxpEseNextTx_Cntx.IframeInfo.maxDataLen)).map
        fun i => SendIframe_frame d (fragCtx v cmd i).seqNo (fragCtx v cmd i) := by
  unfold iBlocks
  rw [List.filter_eq_self]
  intro f hf
  obtain ⟨i, hi, rfl⟩ := List.mem_map.mp hf
  have hi' := (fragCount_pos_iff _ _ i hm).mp (List.mem_range.mp hi)
  have hseq := fragCtx_seq v cmd hU hs i hi'
  exact (SendIframe_frame_bits d _ _ (by rw [hseq]; omega)).1

theorem sBits_frames (d : Dialect) (v : phNxpEseProto7816_t) (cmd : phNxpEse_data)
    (hm : 1 ≤ v.phNxpEseNextTx_Cntx.IframeInfo.maxDataLen) (hU : cmd.len ≤ UINT_MAX)
    (hs : v.phNxpEseLastTx_Cntx.IframeInfo.seqNo ≤ 1) :
    ((List.range (fragCount cmd.len v.phNxpEseNextTx_Cntx.IframeInfo.maxDataLen)).map
        fun i => SendIframe_frame d (fragCtx v cmd i).seqNo (fragCtx v cmd i)).map sBit
      = (List.range (fragCount cmd.len v.phNxpEseNextTx_Cntx.IframeInfo.maxDataLen)).map
        fun i => (v.phNxpEseLastTx_Cntx.IframeInfo.seqNo + 1 + i) % 2 := by
  rw [List.map_map]
  apply List.map_congr_left
  intro i hi
  have hi' := (fragCount_pos_iff _ _ i hm).mp (List.mem_range.mp hi)
  have hseq := fragCtx_seq v cmd hU hs i hi'
  simp only [Function.comp]
  rw [(SendIframe_frame_bits d _ _ (by rw [hseq]; omega)).2.2, hseq]

theorem alternates_range (a : Nat) :
    ∀ (n k : Nat), Alternates ((List.range' k n).map fun i => (a + i) % 2) := by
  intro n
  induction n with
  | zero => intro k; simp [Alternates]
  | succ n ih =>
    intro k
    cases n with
    | zero => simp [Alternates]
    | succ n =>
      have h := ih (k + 1)
      have hx : (a + (k + 1)) % 2 = ((a + k) % 2) ^^^ 1 := by
        have : (a + k) % 2 = 0 ∨ (a + k) % 2 = 1 := by omega
        rcases this with h0 | h1
        · rw [h0]; show _ = 1; omega
        · rw [h1]; show _ = 0; omega
      simp only [List.range'_succ, List.map_cons, Alternates] at h ⊢
      exact ⟨hx, h⟩

theorem seq_flips (v : phNxpEseProto7816_t)
    (h : v.phNxpEseLastTx_Cntx.IframeInfo.seqNo < 256) :
    (SetFirstIframeContxt v).2.phNxpEseNextTx_Cntx.IframeInfo.seqNo
      = v.phNxpEseLastTx_Cntx.IframeInfo.seqNo ^^^ 1 ∧
    (SetNextIframeContxt v).2.phNxpEseNextTx_Cntx.IframeInfo.seqNo
      = v.phNxpEseLastTx_Cntx.IframeInfo.seqNo ^^^ 1 := by
  have hlt : v.phNxpEseLastTx_Cntx.IframeInfo.seqNo ^^^ 1 < 256 :=
    Nat.xor_lt_two_pow (n := 8) h (by norm_num)
  constructor
  · simp only [SetFirstIframeContxt]
    split <;> exact Nat.mod_eq_of_lt hlt
  · simp only [SetNextIframeContxt]
    split
    · exact Nat.mod_eq_of_lt hlt
    · split <;> exact Nat.mod_eq_of_lt hlt

/-! ## Properties of the specification -/

/-- C1: CRC round trip.  For every byte string `b` with `|b| + 2 < MAX_APDU_BUFFER`, the
frame `b` followed by the two bytes `ComputeCRC(b, 0, |b|) >> 8` and
`ComputeCRC(b, 0, |b|) & 0xFF` is accepted by `CheckCRC`, in both dialects. -/
theorem C1_crc_round_trip (MAX_APDU_BUFFER : Nat) (d : Dialect) (b : List Nat)
    (h : b.length + 2 < MAX_APDU_BUFFER) :
    CheckCRC MAX_APDU_BUFFER d (b.length + 2)
      (some (b ++ [ComputeCRC d (some b) 0 b.length >>> 8,
                   ComputeCRC d (some b) 0 b.length &&& 0xFF])) = true :=
  CheckCRC_roundtrip MAX_APDU_BUFFER d b h

theorem C1_crc_round_trip_witness :
    CheckCRC 260 .T1oI2C_UM11225 ([0x5A, 0x00, 0x02, 0x90, 0x00].length + 2)
      (some ([0x5A, 0x00, 0x02, 0x90, 0x00] ++
        [ComputeCRC .T1oI2C_UM11225 (some [0x5A, 0x00, 0x02, 0x90, 0x00]) 0
            [0x5A, 0x00, 0x02, 0x90, 0x00].length >>> 8,
         ComputeCRC .T1oI2C_UM11225 (some [0x5A, 0x00, 0x02, 0x90, 0x00]) 0
            [0x5A, 0x00, 0x02, 0x90, 0x00].length &&& 0xFF])) = true :=
  C1_crc_round_trip 260 .T1oI2C_UM11225 [0x5A, 0x00, 0x02, 0x90, 0x00] (by decide)

/-- C2: CRC error detection.  For every byte string `b` (all entries below 256) with
`|b| >= 1` and `|b| + 2 < MAX_APDU_BUFFER`, every byte position `i` and every bit `k < 8`,
the frame `b ‖ crc(b)` with bit `k` of byte `i` of `b` flipped is rejected by `CheckCRC`. -/
theorem C2_crc_single_bit_error (MAX_APDU_BUFFER : Nat) (d : Dialect) (b : List Nat)
    (i k : Nat) (hb : ∀ x ∈ b, x < 256) (hlen : 1 ≤ b.length)
    (h : b.length + 2 < MAX_APDU_BUFFER) (hi : i < b.length) (hk : k < 8) :
    CheckCRC MAX_APDU_BUFFER d (b.length + 2)
      (some (b.set i (b.getD i 0 ^^^ (1 <<< k)) ++
        [ComputeCRC d (some b) 0 b.length >>> 8,
         ComputeCRC d (some b) 0 b.length &&& 0xFF])) = false :=
  CheckCRC_flip MAX_APDU_BUFFER d b i k hb hlen h hi hk

theorem C2_crc_single_bit_error_witness :
    CheckCRC 260 .T1oI2C_GP1_0 ([0x5A, 0x00, 0x00, 0x02, 0x90, 0x00].length + 2)
      (some ([0x5A, 0x00, 0x00, 0x02, 0x90, 0x00].set 4
          ([0x5A, 0x00, 0x00, 0x02, 0x90, 0x00].getD 4 0 ^^^ (1 <<< 7)) ++
        [ComputeCRC .T1oI2C_GP1_0 (some [0x5A, 0x00, 0x00, 0x02, 0x90, 0x00]) 0
            [0x5A, 0x00, 0x00, 0x02, 0x90, 0x00].length >>> 8,
         ComputeCRC .T1oI2C_GP1_0 (some [0x5A, 0x00, 0x00, 0x02, 0x90, 0x00]) 0
            [0x5A, 0x00, 0x00, 0x02, 0x90, 0x00].length &&& 0xFF])) = false :=
  C2_crc_single_bit_error 260 .T1oI2C_GP1_0 [0x5A, 0x00, 0x00, 0x02, 0x90, 0x00] 4 7
    (by decide) (by decide) (by decide) (by decide) (by decide)

/-- C3: `ComputeCRC(buf, 0, n)` over a byte buffer equals the reference CRC-16/X-25
(bit-reflected, polynomial `0x8408`, initial value `0xFFFF`, final XOR `0xFFFF`) of
`buf[0..n)` in Dialect-B and that value with its two bytes exchanged in Dialect-A, so the
Dialect-A trailer on the wire is the Dialect-B trailer reversed; for the ASCII bytes
`123456789` the reference value is `0x906E`, Dialect-B returns `0x906E` and Dialect-A
returns `0x6E90`. -/
theorem C3_crc_is_x25 :
    (∀ (buf : List Nat) (n : Nat), n ≤ buf.length → (∀ x ∈ buf, x < 256) →
      ComputeCRC .T1oI2C_GP1_0 (some buf) 0 n = crc16X25 (buf.take n) ∧
      ComputeCRC .T1oI2C_UM11225 (some buf) 0 n = swapBytes (crc16X25 (buf.take n)) ∧
      crcTrailer (ComputeCRC .T1oI2C_UM11225 (some buf) 0 n)
        = (crcTrailer (ComputeCRC .T1oI2C_GP1_0 (some buf) 0 n)).reverse) ∧
    crc16X25 [0x31, 0x32, 0x33, 0x34, 0x35, 0x36, 0x37, 0x38, 0x39] = 0x906E ∧
    ComputeCRC .T1oI2C_GP1_0 (some [0x31, 0x32, 0x33, 0x34, 0x35, 0x36, 0x37, 0x38, 0x39]) 0 9
      = 0x906E ∧
    ComputeCRC .T1oI2C_UM11225 (some [0x31, 0x32, 0x33, 0x34, 0x35, 0x36, 0x37, 0x38, 0x39]) 0 9
      = 0x6E90 :=
  ComputeCRC_refines

theorem C3_crc_is_x25_witness :
    ComputeCRC .T1oI2C_GP1_0 (some [0x5A, 0xC0, 0x00, 0x00, 0x11]) 0 4
      = crc16X25 ([0x5A, 0xC0, 0x00, 0x00, 0x11].take 4) ∧
    ComputeCRC .T1oI2C_UM11225 (some [0x5A, 0xC0, 0x00, 0x00, 0x11]) 0 4
      = swapBytes (crc16X25 ([0x5A, 0xC0, 0x00, 0x00, 0x11].take 4)) ∧
    crcTrailer (ComputeCRC .T1oI2C_UM11225 (some [0x5A, 0xC0, 0x00, 0x00, 0x11]) 0 4)
      = (crcTrailer (ComputeCRC .T1oI2C_GP1_0 (some [0x5A, 0xC0, 0x00, 0x00, 0x11]) 0 4)).reverse :=
  C3_crc_is_x25.1 [0x5A, 0xC0, 0x00, 0x00, 0x11] 4 (by decide) (by decide)

/-- C5: chaining completeness.  For every command of at least one byte and every maximum
fragment size IFSC >= 1 that fits the frame buffer, in an Idle session, with a peer that
answers each chained I-block with an error-free R-block whose N differs from the sent S
and answers the final I-block with a non-chained I-block carrying the sequence number the
host expects, `Transceive` returns, and the concatenation, in emission order, of the INF
fields of the I-blocks it handed to the transport equals the command. -/
theorem C5_chaining_completeness (K : Consts) (d : Dialect) (tr : Transport) (w : Session)
    (bytes : List Nat) (rsp : phNxpEse_data)
    (hcmd : 1 ≤ bytes.length) (hU : bytes.length ≤ UINT_MAX)
    (hidle : w.phNxpEseProto7816_3_Var.phNxpEseProto7816_CurrentState
      = .PH_NXP_ESE_PROTO_7816_IDLE)
    (hm : 1 ≤ w.phNxpEseProto7816_3_Var.phNxpEseNextTx_Cntx.IframeInfo.maxDataLen)
    (hfit : w.phNxpEseProto7816_3_Var.phNxpEseNextTx_Cntx.IframeInfo.maxDataLen
      + PH_PROTO_7816_HEADER_LEN d + PH_PROTO_7816_CRC_LEN ≤ K.MAX_APDU_BUFFER)
    (hMAX : K.MAX_APDU_BUFFER ≤ UINT_MAX)
    (hs : w.phNxpEseProto7816_3_Var.phNxpEseLastTx_Cntx.IframeInfo.seqNo ≤ 1)
    (hpeer : AckingPeer K d
      w.phNxpEseProto7816_3_Var.phNxpEseRx_Cntx.lastRcvdIframeInfo.seqNo tr) :
    ∃ (fuel : Nat) (r : Bool × Session × List (List Nat)),
      Transceive K d tr fuel w [] (some { len := bytes.length, p_data := some bytes })
        (some rsp) = some r ∧
      ((iBlocks r.2.2).map (infOf d)).flatten = bytes := by
  obtain ⟨b, w', h⟩ := Transceive_acking K d tr w
    { len := bytes.length, p_data := some bytes } rsp hidle hcmd hU hm hfit hMAX hs hpeer
  refine ⟨_, _, h, ?_⟩
  dsimp only
  rw [iBlocks_frames d _ _ hm hU hs, List.map_map]
  have hcongr : (List.range (fragCount bytes.length
        w.phNxpEseProto7816_3_Var.phNxpEseNextTx_Cntx.IframeInfo.maxDataLen)).map
        (infOf d ∘ fun i => SendIframe_frame d
          (fragCtx w.phNxpEseProto7816_3_Var
            { len := bytes.length, p_data := some bytes } i).seqNo
          (fragCtx w.phNxpEseProto7816_3_Var
            { len := bytes.length, p_data := some bytes } i))
      = (List.range (fragCount bytes.length
        w.phNxpEseProto7816_3_Var.phNxpEseNextTx_Cntx.IframeInfo.maxDataLen)).map
        fun i => (bytes.drop
          (i * w.phNxpEseProto7816_3_Var.phNxpEseNextTx_Cntx.IframeInfo.maxDataLen)).take
          w.phNxpEseProto7816_3_Var.phNxpEseNextTx_Cntx.IframeInfo.maxDataLen := by
    apply List.map_congr_left
    intro i hi
    simp only [Function.comp]
    rw [infOf_SendIframe_frame]
    exact fragCtx_slice _ bytes hm hU i (List.mem_range.mp hi)
  rw [hcongr]
  apply slices_join
  have := (fragCount_pos_iff bytes.length
    w.phNxpEseProto7816_3_Var.phNxpEseNextTx_Cntx.IframeInfo.maxDataLen
    (fragCount bytes.length
      w.phNxpEseProto7816_3_Var.phNxpEseNextTx_Cntx.IframeInfo.maxDataLen) hm)
  omega

theorem C5_chaining_completeness_witness :
    ∃ (fuel : Nat) (r : Bool × Session × List (List Nat)),
      Transceive sampleConsts .T1oI2C_UM11225 (ackingTransport .T1oI2C_UM11225 0) fuel
        (sessionWithIfsc 4) []
        (some { len := [0x01, 0x02, 0x03, 0x04, 0x05, 0x06, 0x07].length,
                p_data := some [0x01, 0x02, 0x03, 0x04, 0x05, 0x06, 0x07] })
        (some rspBuf10) = some r ∧
      ((iBlocks r.2.2).map (infOf .T1oI2C_UM11225)).flatten
        = [0x01, 0x02, 0x03, 0x04, 0x05, 0x06, 0x07] :=
  C5_chaining_completeness sampleConsts .T1oI2C_UM11225 (ackingTransport .T1oI2C_UM11225 0)
    (sessionWithIfsc 4) [0x01, 0x02, 0x03, 0x04, 0x05, 0x06, 0x07] rspBuf10
    (by decide) (by decide) (by decide) (by decide) (by decide) (by decide) (by decide)
    (ackingTransport_acking sampleConsts .T1oI2C_UM11225 0 1 (by decide) (by decide) (by decide))

/-- C6 (as amended): ACK-driven progress.  For every command of at least one byte and
every maximum fragment size IFSC >= 1 that fits the frame buffer, in an Idle session, with
a peer that acknowledges each chained I-block with an error-free R-block whose N differs
from the sent S and answers the final non-chained I-block with a non-chained I-block
carrying the sequence number the host expects, `Transceive` returns and has handed exactly
ceil(|cmd| / IFSC) I-blocks to the transport. -/
theorem C6_ack_driven_progress (K : Consts) (d : Dialect) (tr : Transport) (w : Session)
    (cmd rsp : phNxpEse_data)
    (hcmd : 1 ≤ cmd.len) (hU : cmd.len ≤ UINT_MAX)
    (hidle : w.phNxpEseProto7816_3_Var.phNxpEseProto7816_CurrentState
      = .PH_NXP_ESE_PROTO_7816_IDLE)
    (hm : 1 ≤ w.phNxpEseProto7816_3_Var.phNxpEseNextTx_Cntx.IframeInfo.maxDataLen)
    (hfit : w.phNxpEseProto7816_3_Var.phNxpEseNextTx_Cntx.IframeInfo.maxDataLen
      + PH_PROTO_7816_HEADER_LEN d + PH_PROTO_7816_CRC_LEN ≤ K.MAX_APDU_BUFFER)
    (hMAX : K.MAX_APDU_BUFFER ≤ UINT_MAX)
    (hs : w.phNxpEseProto7816_3_Var.phNxpEseLastTx_Cntx.IframeInfo.seqNo ≤ 1)
    (hpeer : AckingPeer K d
      w.phNxpEseProto7816_3_Var.phNxpEseRx_Cntx.lastRcvdIframeInfo.seqNo tr) :
    ∃ (fuel : Nat) (r : Bool × Session × List (List Nat)),
      Transceive K d tr fuel w [] (some cmd) (some rsp) = some r ∧
      (iBlocks r.2.2).length
        = fragCount cmd.len
            w.phNxpEseProto7816_3_Var.phNxpEseNextTx_Cntx.IframeInfo.maxDataLen ∧
      r.2.2.length = (iBlocks r.2.2).length := by
  obtain ⟨b, w', h⟩ := Transceive_acking K d tr w cmd rsp hidle hcmd hU hm hfit hMAX hs hpeer
  refine ⟨_, _, h, ?_, ?_⟩
  · dsimp only
    rw [iBlocks_frames d _ _ hm hU hs, List.length_map, List.length_range]
  · dsimp only
    rw [iBlocks_frames d _ _ hm hU hs]

theorem C6_ack_driven_progress_witness :
    ∃ (fuel : Nat) (r : Bool × Session × List (List Nat)),
      Transceive sampleConsts .T1oI2C_GP1_0 (ackingTransport .T1oI2C_GP1_0 0) fuel
        (sessionWithIfsc 4) [] (some cmd7) (some rspBuf10) = some r ∧
      (iBlocks r.2.2).length
        = fragCount cmd7.len
            (sessionWithIfsc 4).phNxpEseProto7816_3_Var.phNxpEseNextTx_Cntx.IframeInfo.maxDataLen ∧
      r.2.2.length = (iBlocks r.2.2).length :=
  C6_ack_driven_progress sampleConsts .T1oI2C_GP1_0 (ackingTransport .T1oI2C_GP1_0 0)
    (sessionWithIfsc 4) cmd7 rspBuf10
    (by decide) (by decide) (by decide) (by decide) (by decide) (by decide) (by decide)
    (ackingTransport_acking sampleConsts .T1oI2C_GP1_0 0 1 (by decide) (by decide) (by decide))

set_option maxRecDepth 1000000 in
/-- C6 fails as stated, in two ways.  With IFSC = 300, which does not fit the 260-byte
frame buffer of the sample configuration, a 300-byte command and the acknowledging peer,
`Transceive` returns having handed no block at all to the transport, where the claim
promises ceil(300 / 300) = 1 I-block.  With IFSC = 4, a 7-byte command and a peer that
acknowledges the chained I-block and then also acknowledges the final non-chained I-block,
`Transceive` succeeds having handed 3 I-blocks to the transport, where the claim promises
ceil(7 / 4) = 2. -/
theorem C6_counterexample :
    ((Transceive sampleConsts .T1oI2C_UM11225 (ackingTransport .T1oI2C_UM11225 0) 10
        (sessionWithIfsc 300) []
        (some { len := 300, p_data := some (List.replicate 300 0x07) })
        (some rspBuf10)).map fun r => (r.1, (iBlocks r.2.2).length, r.2.2.length))
      = some (false, 0, 0) ∧
    fragCount 300 300 = 1 ∧
    ((Transceive sampleConsts .T1oI2C_UM11225 ackTwicePeer 10 (sessionWithIfsc 4) []
        (some cmd7) (some rspBuf10)).map fun r => (r.1, (iBlocks r.2.2).length))
      = some (true, 3) ∧
    fragCount 7 4 = 2 := by
  refine ⟨by decide!, by decide!, by decide!, by decide!⟩

/-- C7: the I-block contexts that `SetFirstIframeContxt` and `SetNextIframeContxt` produce
for a command of `len` bytes (at most `UINT_MAX`) with maximum fragment size `m >= 1`:
fragment k (counted from 0) of the ceil(len / m) fragments starts at offset `k * m`; every
fragment but the last has `sendDataLen = m` and the chaining flag set; the last has the
chaining flag clear and length `len - k * m`, which lies in `1..m`; when `len <= m` the
first context is a single non-chained fragment of length `len`, and when `len > m` there
are at least two fragments. -/
theorem C7_fragmentation_shape (v : phNxpEseProto7816_t) (cmd : phNxpEse_data)
    (hm : 1 ≤ v.phNxpEseNextTx_Cntx.IframeInfo.maxDataLen) (hU : cmd.len ≤ UINT_MAX) :
    (∀ k, k < fragCount cmd.len v.phNxpEseNextTx_Cntx.IframeInfo.maxDataLen →
      (fragCtx v cmd k).dataOffset = k * v.phNxpEseNextTx_Cntx.IframeInfo.maxDataLen ∧
      (k + 1 < fragCount cmd.len v.phNxpEseNextTx_Cntx.IframeInfo.maxDataLen →
        (fragCtx v cmd k).isChained = true ∧
        (fragCtx v cmd k).sendDataLen = v.phNxpEseNextTx_Cntx.IframeInfo.maxDataLen) ∧
      (k + 1 = fragCount cmd.len v.phNxpEseNextTx_Cntx.IframeInfo.maxDataLen →
        (fragCtx v cmd k).isChained = false ∧
        (fragCtx v cmd k).sendDataLen
          = cmd.len - k * v.phNxpEseNextTx_Cntx.IframeInfo.maxDataLen ∧
        1 ≤ (fragCtx v cmd k).sendDataLen ∧
        (fragCtx v cmd k).sendDataLen ≤ v.phNxpEseNextTx_Cntx.IframeInfo.maxDataLen)) ∧
    (cmd.len ≤ v.phNxpEseNextTx_Cntx.IframeInfo.maxDataLen →
      (fragCtx v cmd 0).isChained = false ∧ (fragCtx v cmd 0).sendDataLen = cmd.len ∧
      (fragCtx v cmd 0).dataOffset = 0 ∧
      (1 ≤ cmd.len → fragCount cmd.len v.phNxpEseNextTx_Cntx.IframeInfo.maxDataLen = 1)) ∧
    (cmd.len > v.phNxpEseNextTx_Cntx.IframeInfo.maxDataLen →
      2 ≤ fragCount cmd.len v.phNxpEseNextTx_Cntx.IframeInfo.maxDataLen) :=
  frag_shape v cmd hm hU

theorem C7_fragmentation_shape_witness :
    (fragCtx (sessionWithIfsc 4).phNxpEseProto7816_3_Var cmd7 1).dataOffset = 1 * 4 ∧
    (fragCtx (sessionWithIfsc 4).phNxpEseProto7816_3_Var cmd7 1).isChained = false ∧
    (fragCtx (sessionWithIfsc 4).phNxpEseProto7816_3_Var cmd7 1).sendDataLen = 7 - 1 * 4 ∧
    (fragCtx (sessionWithIfsc 4).phNxpEseProto7816_3_Var cmd7 0).isChained = true ∧
    (fragCtx (sessionWithIfsc 4).phNxpEseProto7816_3_Var cmd7 0).sendDataLen = 4 :=
  have h := C7_fragmentation_shape (sessionWithIfsc 4).phNxpEseProto7816_3_Var cmd7
    (by decide) (by decide)
  have h1 := h.1 1 (by decide)
  have h0 := h.1 0 (by decide)
  ⟨h1.1, (h1.2.2 (by decide)).1, (h1.2.2 (by decide)).2.1, (h0.2.1 (by decide)).1,
    (h0.2.1 (by decide)).2⟩

/-- C8 (as amended): sequence alternation.  In an Idle session whose last-sent sequence
number is 0 or 1, for every command of at least one byte and every IFSC >= 1 that fits
the frame buffer, with a peer that acknowledges each chained I-block and answers the final
I-block with the expected response I-block (so that no I-block is sent twice),
`Transceive` returns and the S bits (PCB bit 6) of the I-blocks it handed to the
transport, in emission order, are `s0, s0 xor 1, s0, ...` with `s0` the last-sent sequence
number xor 1; and in every state the context that `SetFirstIframeContxt` or
`SetNextIframeContxt` produces has `seqNo` equal to the last-sent I-block `seqNo` xor 1. -/
theorem C8_sequence_alternation :
    (∀ (K : Consts) (d : Dialect) (tr : Transport) (w : Session) (cmd rsp : phNxpEse_data),
      1 ≤ cmd.len → cmd.len ≤ UINT_MAX →
      w.phNxpEseProto7816_3_Var.phNxpEseProto7816_CurrentState
        = .PH_NXP_ESE_PROTO_7816_IDLE →
      1 ≤ w.phNxpEseProto7816_3_Var.phNxpEseNextTx_Cntx.IframeInfo.maxDataLen →
      w.phNxpEseProto7816_3_Var.phNxpEseNextTx_Cntx.IframeInfo.maxDataLen
        + PH_PROTO_7816_HEADER_LEN d + PH_PROTO_7816_CRC_LEN ≤ K.MAX_APDU_BUFFER →
      K.MAX_APDU_BUFFER ≤ UINT_MAX →
      w.phNxpEseProto7816_3_Var.phNxpEseLastTx_Cntx.IframeInfo.seqNo ≤ 1 →
      AckingPeer K d w.phNxpEseProto7816_3_Var.phNxpEseRx_Cntx.lastRcvdIframeInfo.seqNo tr →
      ∃ (fuel : Nat) (r : Bool × Session × List (List Nat)),
        Transceive K d tr fuel w [] (some cmd) (some rsp) = some r ∧
        (iBlocks r.2.2).map sBit
          = (List.range (fragCount cmd.len
              w.phNxpEseProto7816_3_Var.phNxpEseNextTx_Cntx.IframeInfo.maxDataLen)).map
              (fun i =>
                ((w.phNxpEseProto7816_3_Var.phNxpEseLastTx_Cntx.IframeInfo.seqNo ^^^ 1) + i)
                  % 2) ∧
        Alternates ((iBlocks r.2.2).map sBit)) ∧
    (∀ v : phNxpEseProto7816_t, v.phNxpEseLastTx_Cntx.IframeInfo.seqNo < 256 →
      (SetFirstIframeContxt v).2.phNxpEseNextTx_Cntx.IframeInfo.seqNo
        = v.phNxpEseLastTx_Cntx.IframeInfo.seqNo ^^^ 1 ∧
      (SetNextIframeContxt v).2.phNxpEseNextTx_Cntx.IframeInfo.seqNo
        = v.phNxpEseLastTx_Cntx.IframeInfo.seqNo ^^^ 1) := by
  refine ⟨?_, seq_flips⟩
  intro K d tr w cmd rsp hcmd hU hidle hm hfit hMAX hs hpeer
  obtain ⟨b, w', h⟩ := Transceive_acking K d tr w cmd rsp hidle hcmd hU hm hfit hMAX hs hpeer
  have hbits := sBits_frames d w.phNxpEseProto7816_3_Var cmd hm hU hs
  have hx : ∀ i, (w.phNxpEseProto7816_3_Var.phNxpEseLastTx_Cntx.IframeInfo.seqNo + 1 + i) % 2
      = ((w.phNxpEseProto7816_3_Var.phNxpEseLastTx_Cntx.IframeInfo.seqNo ^^^ 1) + i) % 2 := by
    intro i
    have : w.phNxpEseProto7816_3_Var.phNxpEseLastTx_Cntx.IframeInfo.seqNo = 0 ∨
        w.phNxpEseProto7816_3_Var.phNxpEseLastTx_Cntx.IframeInfo.seqNo = 1 := by omega
    rcases this with h0 | h1
    · rw [h0]; show _ = (1 + i) % 2; omega
    · rw [h1]; show _ = (0 + i) % 2; omega
  have hbits' : (iBlocks (b, w', (List.range (fragCount cmd.len
        w.phNxpEseProto7816_3_Var.phNxpEseNextTx_Cntx.IframeInfo.maxDataLen)).map fun i =>
        SendIframe_frame d (fragCtx w.phNxpEseProto7816_3_Var cmd i).seqNo
          (fragCtx w.phNxpEseProto7816_3_Var cmd i)).2.2).map sBit
      = (List.range (fragCount cmd.len
          w.phNxpEseProto7816_3_Var.phNxpEseNextTx_Cntx.IframeInfo.maxDataLen)).map
          (fun i =>
            ((w.phNxpEseProto7816_3_Var.phNxpEseLastTx_Cntx.IframeInfo.seqNo ^^^ 1) + i)
              % 2) := by
    dsimp only
    rw [iBlocks_frames d _ _ hm hU hs, hbits]
    exact List.map_congr_left fun i _ => hx i
  refine ⟨_, _, h, hbits', ?_⟩
  rw [hbits', List.range_eq_range']
  exact alternates_range _ _ 0

theorem C8_sequence_alternation_witness :
    ∃ (fuel : Nat) (r : Bool × Session × List (List Nat)),
      Transceive sampleConsts .T1oI2C_UM11225 (ackingTransport .T1oI2C_UM11225 0) fuel
        (sessionWithIfsc 4) [] (some cmd7) (some rspBuf10) = some r ∧
      (iBlocks r.2.2).map sBit
        = (List.range (fragCount cmd7.len
            (sessionWithIfsc 4).phNxpEseProto7816_3_Var.phNxpEseNextTx_Cntx.IframeInfo.maxDataLen)).map
            (fun i =>
              (((sessionWithIfsc 4).phNxpEseProto7816_3_Var.phNxpEseLastTx_Cntx.IframeInfo.seqNo
                ^^^ 1) + i) % 2) ∧
      Alternates ((iBlocks r.2.2).map sBit) :=
  C8_sequence_alternation.1 sampleConsts .T1oI2C_UM11225 (ackingTransport .T1oI2C_UM11225 0)
    (sessionWithIfsc 4) cmd7 rspBuf10
    (by decide) (by decide) (by decide) (by decide) (by decide) (by decide) (by decide)
    (ackingTransport_acking sampleConsts .T1oI2C_UM11225 0 1 (by decide) (by decide) (by decide))

set_option maxRecDepth 1000000 in
/-- C8 fails as stated: in a freshly reset Dialect-A session with IFSC = 4 and the 7-byte
command, a peer that answers the chained I-block once with an R-NACK for a parity error
makes the host send that I-block again with the same sequence number; `Transceive`
succeeds, and the S bits of the three I-blocks it handed to the transport are 0, 0, 1,
which do not alternate. -/
theorem C8_counterexample :
    ((Transceive sampleConsts .T1oI2C_UM11225 nackOncePeer 10 (sessionWithIfsc 4) []
        (some cmd7) (some rspBuf10)).map fun r => (r.1, (iBlocks r.2.2).map sBit))
      = some (true, [0, 0, 1]) ∧
    ¬ Alternates [0, 0, 1] := by
  refine ⟨by decide!, ?_⟩
  simp [Alternates]

theorem C9_iblock_wire_layout_witness :
    (SendIframe sampleConsts .T1oI2C_GP1_0 (scripted []) [] (freshSession 3 3)
        { isChained := true, p_data := some [0x01, 0x02, 0x03, 0x04, 0x05, 0x06, 0x07],
          seqNo := 1, maxDataLen := 4, dataOffset := 0, totalDataLen := 3,
          sendDataLen := 4 }).2.2
      = [] ++ [withCRC .T1oI2C_GP1_0
          ([0x5A,
            ((freshSession 3 3).phNxpEseProto7816_3_Var.phNxpEseNextTx_Cntx.IframeInfo.seqNo
                <<< 6) ||| ((if true = true then 1 else 0) <<< 5)] ++
            specLen .T1oI2C_GP1_0 4 ++
            ([0x01, 0x02, 0x03, 0x04, 0x05, 0x06, 0x07].drop 0).take 4)] ∧
    (((freshSession 3 3).phNxpEseProto7816_3_Var.phNxpEseNextTx_Cntx.IframeInfo.seqNo <<< 6)
        ||| ((if true = true then 1 else 0) <<< 5)) &&& 0x9F = 0 :=
  (C9_iblock_wire_layout sampleConsts).1 .T1oI2C_GP1_0 (scripted []) [] (freshSession 3 3)
    { isChained := true, p_data := some [0x01, 0x02, 0x03, 0x04, 0x05, 0x06, 0x07],
      seqNo := 1, maxDataLen := 4, dataOffset := 0, totalDataLen := 3, sendDataLen := 4 }
    [0x01, 0x02, 0x03, 0x04, 0x05, 0x06, 0x07]
    rfl (by decide) (by decide) (by decide) (by decide) (by decide)

theorem C10_rblock_wire_encoding_witness :
    ∃ f, (sendRframe .T1oI2C_UM11225 (scripted []) [] (freshSession 3 3) .RACK).2.2
        = [] ++ [f] ∧
      pcbOf f =
        0x80 |||
          (((freshSession 3 3).phNxpEseProto7816_3_Var.phNxpEseRx_Cntx.lastRcvdIframeInfo.seqNo
            ^^^ 1) <<< 4)
          ||| specRErr .RACK
            (freshSession 3 3).phNxpEseProto7816_3_Var.phNxpEseNextTx_Cntx.RframeInfo.errCode ∧
      pcbOf f &&& 0x6C = 0 ∧
      f.length = PH_PROTO_7816_HEADER_LEN .T1oI2C_UM11225 + PH_PROTO_7816_CRC_LEN ∧
      (f.drop 2).take (PH_PROTO_7816_HEADER_LEN .T1oI2C_UM11225 - 2)
        = List.replicate (PH_PROTO_7816_HEADER_LEN .T1oI2C_UM11225 - 2) 0 :=
  C10_rblock_wire_encoding.1 .T1oI2C_UM11225 (scripted []) [] (freshSession 3 3) .RACK
    (by decide)

/-! ## What the senders and the decoder leave alone -/

theorem SendIframe_session (K : Consts) (d : Dialect) (tr : Transport) (hist : List (List Nat))
    (w : Session) (c : iFrameInfo_t) :
    (SendIframe K d tr hist w c).2.1 = w ∨
    (SendIframe K d tr hist w c).2.1
      = { w with phNxpEseProto7816_3_Var.lastSentNonErrorframeType := .IFRAME } := by
  unfold SendIframe
  dsimp only
  split_ifs <;> first | exact Or.inl rfl | exact Or.inr rfl

theorem sendRframe_session (d : Dialect) (tr : Transport) (hist : List (List Nat))
    (w : Session) (t : rFrameTypes_t) :
    (sendRframe d tr hist w t).2.1 = w ∨
    (sendRframe d tr hist w t).2.1
      = { w with phNxpEseProto7816_3_Var.lastSentNonErrorframeType := .RFRAME } := by
  cases t
  · exact Or.inr rfl
  · exact Or.inl rfl

theorem SendSFrame_session (K : Consts) (d : Dialect) (tr : Transport) (hist : List (List Nat))
    (w : Session) (s : sFrameInfo_t) :
    (SendSFrame K d tr hist w s).2.1
      = { w with phNxpEseProto7816_3_Var.lastSentNonErrorframeType := .SFRAME } := by
  unfold SendSFrame
  cases SendSFrame_switch K d s.sFrameType with
  | none => rfl
  | some x => rfl

/-- The `switch` of `TransceiveProcess` changes at most `lastSentNonErrorframeType` and,
in its `default` case, the next step. -/
theorem TransceiveProcess_send_session (K : Consts) (d : Dialect) (tr : Transport)
    (hist : List (List Nat)) (status : Bool) (w : Session) :
    ∃ (t : FrameType) (st : TransceiveState),
      (TransceiveProcess_send K d tr hist status w).2.1
        = { w with
            phNxpEseProto7816_3_Var.lastSentNonErrorframeType := t
            phNxpEseProto7816_3_Var.phNxpEseProto7816_nextTransceiveState := st } := by
  have hI : ∀ c, ∃ (t : FrameType) (st : TransceiveState),
      (SendIframe K d tr hist w c).2.1
        = { w with
            phNxpEseProto7816_3_Var.lastSentNonErrorframeType := t
            phNxpEseProto7816_3_Var.phNxpEseProto7816_nextTransceiveState := st } := by
    intro c
    rcases SendIframe_session K d tr hist w c with h | h
    · exact ⟨_, _, h.trans rfl⟩
    · exact ⟨_, _, h.trans rfl⟩
  have hR : ∀ t0, ∃ (t : FrameType) (st : TransceiveState),
      (sendRframe d tr hist w t0).2.1
        = { w with
            phNxpEseProto7816_3_Var.lastSentNonErrorframeType := t
            phNxpEseProto7816_3_Var.phNxpEseProto7816_nextTransceiveState := st } := by
    intro t0
    rcases sendRframe_session d tr hist w t0 with h | h
    · exact ⟨_, _, h.trans rfl⟩
    · exact ⟨_, _, h.trans rfl⟩
  have hS : ∀ s, ∃ (t : FrameType) (st : TransceiveState),
      (SendSFrame K d tr hist w s).2.1
        = { w with
            phNxpEseProto7816_3_Var.lastSentNonErrorframeType := t
            phNxpEseProto7816_3_Var.phNxpEseProto7816_nextTransceiveState := st } :=
    fun s => ⟨_, _, (SendSFrame_session K d tr hist w s).trans rfl⟩
  unfold TransceiveProcess_send
  split <;> first
    | with_reducible exact hI _
    | with_reducible exact hR _
    | with_reducible exact hS _
    | exact ⟨_, _, rfl⟩

theorem AsmStep_refl (a : phNxpEse_data × Nat) : AsmStep a a := Or.inl rfl

theorem AsmStore_refl (src : List Nat) (n : Nat) (a : phNxpEse_data × Nat) :
    AsmStore src n a a := Or.inl rfl

/-- A store of `n` bytes of a source that holds at least `n` bytes is a step of the
response assembly. -/
theorem AsmStep_of_store (src : List Nat) (n : Nat) (a b : phNxpEse_data × Nat)
    (hn : n ≤ src.length) (h : AsmStore src n a b) : AsmStep a b := by
  rcases h with h | ⟨dst, h1, h2, h3, h4⟩
  · exact Or.inl h
  · exact Or.inr ⟨dst, src, n, h1, hn, h2, h3, h4⟩

/-- A property of both branches of an `if` is a property of the `if`. -/
theorem ite_pred {α : Type} (P : α → Prop) (c : Prop) [Decidable c] (a b : α)
    (ha : P a) (hb : P b) : P (if c then a else b) := by
  split
  · exact ha
  · exact hb

theorem view_of_rxView (w : Session) (v : phNxpEseProto7816_t) (h : rxView v = rxView
    w.phNxpEseProto7816_3_Var) :
    asm { w with phNxpEseProto7816_3_Var := v } = asm w ∧
    limits { w with phNxpEseProto7816_3_Var := v } = limits w := by
  unfold rxView at h
  simp only [Prod.mk.injEq] at h
  obtain ⟨h1, h2, h3⟩ := h
  unfold asm limits
  simp only [h1, h2, h3, and_self]

theorem rxView_of_view (w x : Session) (h1 : asm x = asm w) (h2 : limits x = limits w) :
    rxView x.phNxpEseProto7816_3_Var = rxView w.phNxpEseProto7816_3_Var := by
  unfold asm at h1
  unfold limits at h2
  simp only [Prod.mk.injEq] at h1 h2
  unfold rxView
  rw [h1.2, h2.1, h2.2]

/-- The function `SaveRxframeData` either fails and changes nothing, or stores `n` bytes at
the cursor and advances the cursor by `n`. -/
theorem SaveRxframeData_cases (p : Option (List Nat)) (n : Nat) (w : Session)
    (hn : n ≤ UINT_MAX) :
    SaveRxframeData p n w = (false, w) ∨
    ∃ (src dst : List Nat),
      p = some src ∧ w.rsp.p_data = some dst ∧
      w.phNxpEseProto7816_3_Var.phNxpEseRx_Cntx.pRsp = .caller ∧
      w.phNxpEseProto7816_3_Var.phNxpEseRx_Cntx.responseBytesRcvd + n ≤ UINT_MAX ∧
      w.phNxpEseProto7816_3_Var.phNxpEseRx_Cntx.responseBytesRcvd + n ≤ w.rsp.len ∧
      SaveRxframeData p n w =
        (true, { w with
          rsp.p_data := some (memmove dst
            w.phNxpEseProto7816_3_Var.phNxpEseRx_Cntx.responseBytesRcvd src n)
          phNxpEseProto7816_3_Var.phNxpEseRx_Cntx.responseBytesRcvd :=
            w.phNxpEseProto7816_3_Var.phNxpEseRx_Cntx.responseBytesRcvd + n }) := by
  unfold SaveRxframeData
  cases p with
  | none => exact Or.inl rfl
  | some src =>
    dsimp only
    cases hp : w.phNxpEseProto7816_3_Var.phNxpEseRx_Cntx.pRsp with
    | NULL => exact Or.inl rfl
    | caller =>
      dsimp only
      cases hd : w.rsp.p_data with
      | none => exact Or.inl rfl
      | some dst =>
        dsimp only
        by_cases h1 : w.phNxpEseProto7816_3_Var.phNxpEseRx_Cntx.responseBytesRcvd > UINT_MAX - n
        · rw [if_pos h1]; exact Or.inl rfl
        · rw [if_neg h1]
          by_cases h2 : w.phNxpEseProto7816_3_Var.phNxpEseRx_Cntx.responseBytesRcvd + n > w.rsp.len
          · rw [if_pos h2]; exact Or.inl rfl
          · rw [if_neg h2]
            exact Or.inr ⟨src, dst, rfl, rfl, rfl, by omega, by omega, rfl⟩

theorem rxView_SetNext (v : phNxpEseProto7816_t) :
    rxView (SetNextIframeContxt v).2 = rxView v := by
  unfold SetNextIframeContxt
  lift_lets
  intros
  repeat' split
  all_goals rfl

theorem rxView_RecoverySteps (K : Consts) (d : Dialect) (v : phNxpEseProto7816_t) :
    rxView (RecoverySteps K d v).2 = rxView v := by
  unfold RecoverySteps
  split
  · cases d <;> rfl
  · rfl

theorem escalate_view (K : Consts) (d : Dialect) (w : Session) :
    asm (DecodeFrame_escalate K d w) = asm w ∧ limits (DecodeFrame_escalate K d w) = limits w := by
  have h := rxView_RecoverySteps K d w.phNxpEseProto7816_3_Var
  exact view_of_rxView w _ h

theorem DecodeFrame_R_view (K : Consts) (d : Dialect) (pcb : Nat) (w : Session) :
    asm (DecodeFrame_R K d pcb w).2 = asm w ∧ limits (DecodeFrame_R K d pcb w).2 = limits w := by
  unfold DecodeFrame_R
  lift_lets
  intro s6 s5 s4 v1 pL s3 s2 v2a v3a v4 v2 s1 s0 v3
  have h2 : rxView v2 = rxView w.phNxpEseProto7816_3_Var := by
    unfold v2
    split <;> rfl
  have h3 : rxView v3 = rxView w.phNxpEseProto7816_3_Var := by
    unfold v3
    repeat' split
    all_goals exact h2
  have h4 : rxView v4 = rxView w.phNxpEseProto7816_3_Var := rxView_SetNext v3a
  repeat' split
  · exact view_of_rxView w _ h4
  · exact view_of_rxView w _ rfl
  · exact view_of_rxView w _ h3
  · exact (escalate_view K d _).imp (fun h => h.trans (view_of_rxView w _ h2).1)
      (fun h => h.trans (view_of_rxView w _ h2).2)
  · exact view_of_rxView w _ rfl
  · exact (escalate_view K d _).imp (fun h => h.trans (view_of_rxView w _ rfl).1)
      (fun h => h.trans (view_of_rxView w _ rfl).2)
  · exact view_of_rxView w _ rfl

theorem SaveRxframeData_view (src : List Nat) (n : Nat) (w : Session)
    (hn : n ≤ UINT_MAX) :
    AsmStore src n (asm w) (asm (SaveRxframeData (some src) n w).2) ∧
    limits (SaveRxframeData (some src) n w).2 = limits w := by
  rcases SaveRxframeData_cases (some src) n w hn with h | ⟨src1, dst, hp, hd, _, hU, hcap, h⟩
  · rw [h]; exact ⟨AsmStore_refl _ _ _, rfl⟩
  · rw [h, ← Option.some.inj hp]
    exact ⟨Or.inr ⟨dst, hd, hcap, hU, rfl⟩, rfl⟩

theorem DecodeFrame_I_view (K : Consts) (d : Dialect) (buf : List Nat) (n pcb : Nat)
    (w : Session) (hn : n - PH_PROTO_7816_INF_FILED d ≤ UINT_MAX) :
    AsmStore (buf.drop (PH_PROPTO_7816_INF_BYTE_OFFSET d)) (n - PH_PROTO_7816_INF_FILED d)
      (asm w) (asm (DecodeFrame_I K d buf n pcb w).2) ∧
    limits (DecodeFrame_I K d buf n pcb w).2 = limits w := by
  unfold DecodeFrame_I
  lift_lets
  intro s14 s13 w1 inf w2 s12 s11 s10 w3 s9 s8 s7 s6 s5 w4a ra s4 s3 w4b rb s2 s1 s0
  have ha := SaveRxframeData_view (buf.drop (PH_PROPTO_7816_INF_BYTE_OFFSET d))
    (n - PH_PROTO_7816_INF_FILED d) w4a hn
  have hb := SaveRxframeData_view (buf.drop (PH_PROPTO_7816_INF_BYTE_OFFSET d))
    (n - PH_PROTO_7816_INF_FILED d) w4b hn
  repeat' split
  · exact ha
  · exact ha
  · exact hb
  · exact hb
  · exact ⟨AsmStore_refl _ _ _, rfl⟩
  · have := escalate_view K d w1
    exact ⟨Or.inl this.1, this.2⟩
theorem DecodeFrame_WTX_view (K : Consts) (d : Dialect) (w : Session) :
    asm (DecodeFrame_WTX K d w).2 = asm w ∧ limits (DecodeFrame_WTX K d w).2 = limits w := by
  unfold DecodeFrame_WTX
  lift_lets
  intros
  repeat' split
  · exact ⟨rfl, rfl⟩
  · exact escalate_view K d _
  · unfold DecodeFrame_wtxReset
    cases d <;> exact ⟨rfl, rfl⟩
  · exact ⟨rfl, rfl⟩

theorem rxView_ResetProtoParams (K : Consts) (v : phNxpEseProto7816_t) :
    rxView (ResetProtoParams K v).2 = (0, v.wtx_counter_limit, v.rnack_retry_limit) := rfl

theorem DecodeFrame_resetRsp_view (K : Consts) (d : Dialect) (t : SFrameType) (save : Bool)
    (buf : List Nat) (n : Nat) (w : Session)
    (hn : n - PH_PROTO_7816_INF_FILED d ≤ UINT_MAX) :
    limits (DecodeFrame_resetRsp K d t save buf n w).2 = limits w ∧
    (AsmStore (buf.drop (PH_PROPTO_7816_INF_BYTE_OFFSET d)) (n - PH_PROTO_7816_INF_FILED d)
        (asm w) (asm (DecodeFrame_resetRsp K d t save buf n w).2) ∨
      (asm (DecodeFrame_resetRsp K d t save buf n w).2).2 = 0) := by
  have hs := SaveRxframeData_view (buf.drop (PH_PROPTO_7816_INF_BYTE_OFFSET d))
    (n - PH_PROTO_7816_INF_FILED d) w hn
  unfold DecodeFrame_resetRsp
  lift_lets
  intro idle finish r
  have hfin : ∀ x : Session, limits (finish x).2 = limits x ∧
      (asm (finish x).2 = asm x ∨ (asm (finish x).2).2 = 0) := by
    intro x
    unfold finish
    split
    · exact ⟨rfl, Or.inl rfl⟩
    · exact ⟨rfl, Or.inr rfl⟩
  repeat' split
  · exact ⟨rfl, Or.inl (AsmStore_refl _ _ _)⟩
  · exact ⟨hs.2, Or.inl hs.1⟩
  · obtain ⟨f1, f2⟩ := hfin r.2
    refine ⟨f1.trans hs.2, ?_⟩
    rcases f2 with f2 | f2
    · exact Or.inl (f2 ▸ hs.1)
    · exact Or.inr f2
  · obtain ⟨f1, f2⟩ := hfin w
    refine ⟨f1, ?_⟩
    rcases f2 with f2 | f2
    · exact Or.inl (Or.inl f2)
    · exact Or.inr f2

theorem DecodeFrame_paramRsp_view (d : Dialect) (buf : List Nat) (n : Nat) (w : Session)
    (hn : n - PH_PROTO_7816_INF_FILED d ≤ UINT_MAX) :
    AsmStore (buf.drop (PH_PROPTO_7816_INF_BYTE_OFFSET d)) (n - PH_PROTO_7816_INF_FILED d)
      (asm w) (asm (DecodeFrame_paramRsp d buf n w).2) ∧
    limits (DecodeFrame_paramRsp d buf n w).2 = limits w := by
  have hs := SaveRxframeData_view (buf.drop (PH_PROPTO_7816_INF_BYTE_OFFSET d))
    (n - PH_PROTO_7816_INF_FILED d) w hn
  unfold DecodeFrame_paramRsp
  lift_lets
  intros
  split
  · exact hs
  · exact hs

/-- What decoding an S-block does to the response assembly and the limits: the limits stay,
and the assembly stays or stores the INF field of the block at the cursor, unless the
block is the reset response of the dialect, which may set the cursor back to 0. -/
theorem DecodeFrame_S_view (K : Consts) (d : Dialect) (fuel : Nat) (buf : List Nat)
    (n pcb : Nat) (w : Session) (x : Bool × Session)
    (hn : n - PH_PROTO_7816_INF_FILED d ≤ UINT_MAX)
    (h : DecodeFrame_S K d fuel buf n pcb w = some x) :
    limits x.2 = limits w ∧
    (AsmStore (buf.drop (PH_PROPTO_7816_INF_BYTE_OFFSET d)) (n - PH_PROTO_7816_INF_FILED d)
        (asm w) (asm x.2) ∨
      (pcb &&& 0x3F = resetRspCode K d ∧ (asm x.2).2 = 0)) := by
  revert h
  unfold DecodeFrame_S
  lift_lets
  intro frameType s2 s1 w1 s0 w2 setType plain h
  have hw2 : asm w2 = asm w ∧ limits w2 = limits w := by
    unfold w2
    split <;> exact ⟨rfl, rfl⟩
  have hplain : ∀ t y, plain t = some y → limits y.2 = limits w ∧
      AsmStore (buf.drop (PH_PROPTO_7816_INF_BYTE_OFFSET d)) (n - PH_PROTO_7816_INF_FILED d)
        (asm w) (asm y.2) := by
    intro t y hy
    unfold plain at hy
    simp only [Option.map_eq_some'] at hy
    obtain ⟨_, _, rfl⟩ := hy
    exact ⟨hw2.2, Or.inl hw2.1⟩
  have hdone : ∀ t, limits (true, DecodeFrame_sDone t w2).2 = limits w ∧
      AsmStore (buf.drop (PH_PROPTO_7816_INF_BYTE_OFFSET d)) (n - PH_PROTO_7816_INF_FILED d)
        (asm w) (asm (true, DecodeFrame_sDone t w2).2) :=
    fun t => ⟨hw2.2, Or.inl hw2.1⟩
  have hreset : ∀ t save, limits (DecodeFrame_resetRsp K d t save buf n w2).2 = limits w ∧
      (AsmStore (buf.drop (PH_PROPTO_7816_INF_BYTE_OFFSET d)) (n - PH_PROTO_7816_INF_FILED d)
          (asm w) (asm (DecodeFrame_resetRsp K d t save buf n w2).2) ∨
        (asm (DecodeFrame_resetRsp K d t save buf n w2).2).2 = 0) := by
    intro t save
    obtain ⟨a, b⟩ := DecodeFrame_resetRsp_view K d t save buf n w2 hn
    rw [hw2.1, hw2.2] at *
    exact ⟨a, b⟩
  have hparam : ∀ t, limits (DecodeFrame_paramRsp d buf n (setType t w2)).2 = limits w ∧
      AsmStore (buf.drop (PH_PROPTO_7816_INF_BYTE_OFFSET d)) (n - PH_PROTO_7816_INF_FILED d)
        (asm w) (asm (DecodeFrame_paramRsp d buf n (setType t w2)).2) := by
    intro t
    obtain ⟨a, b⟩ := DecodeFrame_paramRsp_view d buf n (setType t w2) hn
    have e1 : asm (setType t w2) = asm w := hw2.1
    have e2 : limits (setType t w2) = limits w := hw2.2
    rw [e1] at a
    rw [e2] at b
    exact ⟨b, a⟩
  have hwtx : limits (DecodeFrame_WTX K d w2).2 = limits w ∧
      AsmStore (buf.drop (PH_PROPTO_7816_INF_BYTE_OFFSET d)) (n - PH_PROTO_7816_INF_FILED d)
        (asm w) (asm (DecodeFrame_WTX K d w2).2) := by
    obtain ⟨a, b⟩ := DecodeFrame_WTX_view K d w2
    exact ⟨b.trans hw2.2, Or.inl (a.trans hw2.1)⟩
  by_cases c1 : frameType = K.sFrameCode .RESYNCH_RSP
  · rw [if_pos c1] at h
    rw [← Option.some.inj h]
    exact ⟨(hdone _).1, Or.inl (hdone _).2⟩
  rw [if_neg c1] at h
  by_cases c2 : frameType = K.sFrameCode .IFSC_RES
  · rw [if_pos c2] at h
    rw [← Option.some.inj h]
    exact ⟨(hdone _).1, Or.inl (hdone _).2⟩
  rw [if_neg c2] at h
  by_cases c3 : frameType = K.sFrameCode .ABORT_RES
  · rw [if_pos c3] at h
    rw [← Option.some.inj h]
    exact ⟨(hdone _).1, Or.inl (hdone _).2⟩
  rw [if_neg c3] at h
  by_cases c4 : frameType = K.sFrameCode .WTX_REQ
  · rw [if_pos c4] at h
    rw [← Option.some.inj h]
    exact ⟨hwtx.1, Or.inl hwtx.2⟩
  rw [if_neg c4] at h
  cases d
  · dsimp only at h
    by_cases c5 : frameType = K.sFrameCode .INTF_RESET_RSP
    · rw [if_pos c5] at h
      simp only [Option.map_eq_some'] at h
      obtain ⟨_, _, rfl⟩ := h
      refine ⟨(hreset _ _).1, ?_⟩
      rcases (hreset .INTF_RESET_RSP true).2 with a | a
      · exact Or.inl a
      · exact Or.inr ⟨c5, a⟩
    rw [if_neg c5] at h
    by_cases c6 : frameType = K.sFrameCode .PROP_END_APDU_RSP
    · rw [if_pos c6] at h
      obtain ⟨a, b⟩ := hplain _ _ h
      exact ⟨a, Or.inl b⟩
    rw [if_neg c6] at h
    by_cases c7 : frameType = K.sFrameCode .ATR_RES
    · rw [if_pos c7] at h
      simp only [Option.map_eq_some'] at h
      obtain ⟨_, _, rfl⟩ := h
      exact ⟨(hparam _).1, Or.inl (hparam _).2⟩
    rw [if_neg c7] at h
    by_cases c8 : frameType = K.sFrameCode .CHIP_RESET_RES
    · rw [if_pos c8] at h
      obtain ⟨a, b⟩ := hplain _ _ h
      exact ⟨a, Or.inl b⟩
    rw [if_neg c8] at h
    by_cases c9 : frameType = K.sFrameCode .DEEP_PWR_DOWN_RES
    · rw [if_pos c9] at h
      obtain ⟨a, b⟩ := hplain _ _ h
      exact ⟨a, Or.inl b⟩
    rw [if_neg c9] at h
    rw [← Option.some.inj h]
    exact ⟨hw2.2, Or.inl (Or.inl hw2.1)⟩
  · dsimp only at h
    by_cases c5 : frameType = K.sFrameCode .SWR_RSP
    · rw [if_pos c5] at h
      simp only [Option.map_eq_some'] at h
      obtain ⟨_, _, rfl⟩ := h
      refine ⟨(hreset _ _).1, ?_⟩
      rcases (hreset .SWR_RSP false).2 with a | a
      · exact Or.inl a
      · exact Or.inr ⟨c5, a⟩
    rw [if_neg c5] at h
    by_cases c6 : frameType = K.sFrameCode .RELEASE_RES
    · rw [if_pos c6] at h
      obtain ⟨a, b⟩ := hplain _ _ h
      exact ⟨a, Or.inl b⟩
    rw [if_neg c6] at h
    by_cases c7 : frameType = K.sFrameCode .CIP_RES
    · rw [if_pos c7] at h
      simp only [Option.map_eq_some'] at h
      obtain ⟨_, _, rfl⟩ := h
      exact ⟨(hparam _).1, Or.inl (hparam _).2⟩
    rw [if_neg c7] at h
    by_cases c8 : frameType = K.sFrameCode .COLD_RESET_RES
    · rw [if_pos c8] at h
      obtain ⟨a, b⟩ := hplain _ _ h
      exact ⟨a, Or.inl b⟩
    rw [if_neg c8] at h
    by_cases c9 : frameType = K.sFrameCode .DEEP_PWR_DOWN_RES
    · rw [if_pos c9] at h
      obtain ⟨a, b⟩ := hplain _ _ h
      exact ⟨a, Or.inl b⟩
    rw [if_neg c9] at h
    rw [← Option.some.inj h]
    exact ⟨hw2.2, Or.inl (Or.inl hw2.1)⟩

theorem INF_lengths (d : Dialect) (r : List Nat) :
    r.length - PH_PROTO_7816_INF_FILED d
      ≤ (r.drop (PH_PROPTO_7816_INF_BYTE_OFFSET d)).length := by
  rw [List.length_drop]
  cases d <;> simp only [PH_PROTO_7816_INF_FILED, PH_PROTO_7816_HEADER_LEN,
    PH_PROTO_7816_CRC_LEN, PH_PROPTO_7816_INF_BYTE_OFFSET] <;> omega

/-- What `DecodeFrame` does to the response assembly and the limits: the limits stay, and
the assembly stays or stores the INF field of the frame at the cursor, unless the frame is
the reset response of the dialect, which may set the cursor back to 0. -/
theorem DecodeFrame_view (K : Consts) (d : Dialect) (fuel : Nat) (r : List Nat)
    (w : Session) (x : Bool × Session) (hM : K.MAX_APDU_BUFFER ≤ UINT_MAX)
    (h : DecodeFrame K d fuel (some r) r.length w = some x) :
    limits x.2 = limits w ∧
    (AsmStore (r.drop (PH_PROPTO_7816_INF_BYTE_OFFSET d))
        (r.length - PH_PROTO_7816_INF_FILED d) (asm w) (asm x.2) ∨
      (isResetRsp K d r ∧ (asm x.2).2 = 0)) := by
  unfold DecodeFrame at h
  dsimp only at h
  by_cases c1 : r.length < K.MAX_APDU_BUFFER
  swap
  · rw [if_pos c1] at h
    rw [← Option.some.inj h]
    exact ⟨rfl, Or.inl (AsmStore_refl _ _ _)⟩
  rw [if_neg (not_not.mpr c1)] at h
  have hn : r.length - PH_PROTO_7816_INF_FILED d ≤ UINT_MAX := by omega
  by_cases c2 : r.length ≥ PH_PROTO_7816_HEADER_LEN d
  swap
  · rw [if_pos c2] at h
    rw [← Option.some.inj h]
    exact ⟨rfl, Or.inl (AsmStore_refl _ _ _)⟩
  rw [if_neg (not_not.mpr c2)] at h
  by_cases c3 : r.length < PH_PROTO_7816_INF_FILED d
  · rw [if_pos c3] at h
    rw [← Option.some.inj h]
    exact ⟨rfl, Or.inl (AsmStore_refl _ _ _)⟩
  rw [if_neg c3] at h
  by_cases c4 : r.getD PH_PROPTO_7816_PCB_OFFSET 0 &&& 0x80 = 0
  · rw [if_pos c4] at h
    rw [← Option.some.inj h]
    obtain ⟨a, b⟩ := DecodeFrame_I_view K d r r.length
      (r.getD PH_PROPTO_7816_PCB_OFFSET 0) w hn
    exact ⟨b, Or.inl a⟩
  rw [if_neg c4] at h
  by_cases c5 : r.getD PH_PROPTO_7816_PCB_OFFSET 0 &&& 0x80 ≠ 0 ∧
      0x40 &&& r.getD PH_PROPTO_7816_PCB_OFFSET 0 = 0
  · rw [if_pos c5] at h
    rw [← Option.some.inj h]
    obtain ⟨a, b⟩ := DecodeFrame_R_view K d (r.getD PH_PROPTO_7816_PCB_OFFSET 0) w
    exact ⟨b, Or.inl (Or.inl a)⟩
  rw [if_neg c5] at h
  by_cases c6 : 0x80 &&& r.getD PH_PROPTO_7816_PCB_OFFSET 0 ≠ 0 ∧
      0x40 &&& r.getD PH_PROPTO_7816_PCB_OFFSET 0 ≠ 0
  · rw [if_pos c6] at h
    obtain ⟨a, b⟩ := DecodeFrame_S_view K d fuel r r.length _ w x hn h
    refine ⟨a, ?_⟩
    rcases b with b | ⟨b1, b2⟩
    · exact Or.inl b
    · refine Or.inr ⟨⟨c4, ?_, b1⟩, b2⟩
      rw [Nat.and_comm]
      exact c6.2
  · rw [if_neg c6] at h
    rw [← Option.some.inj h]
    exact ⟨rfl, Or.inl (AsmStore_refl _ _ _)⟩

/-- What `ProcessResponse` does to the response assembly and the limits: the limits stay;
the assembly stays too unless a frame was read that passes the CRC check, in which case it
stays or stores the INF field of the frame at the cursor or, for the reset response of the
dialect, may go back to cursor 0. -/
theorem ProcessResponse_view (K : Consts) (d : Dialect) (fuel : Nat) (rd : Option (List Nat))
    (w : Session) (x : Bool × Session) (hM : K.MAX_APDU_BUFFER ≤ UINT_MAX)
    (h : ProcessResponse K d fuel rd w = some x) :
    limits x.2 = limits w ∧
    (asm x.2 = asm w ∨
      ∃ r, rd = some r ∧ CheckCRC K.MAX_APDU_BUFFER d r.length (some r) = true ∧
        (AsmStore (r.drop (PH_PROPTO_7816_INF_BYTE_OFFSET d))
        (r.length - PH_PROTO_7816_INF_FILED d) (asm w) (asm x.2) ∨
          (isResetRsp K d r ∧ (asm x.2).2 = 0))) := by
  unfold ProcessResponse at h
  cases rd with
  | some r =>
    dsimp only at h
    by_cases c1 : CheckCRC K.MAX_APDU_BUFFER d r.length (some r) = true
    · rw [if_pos c1] at h
      obtain ⟨a, b⟩ := DecodeFrame_view K d fuel r _ x hM h
      exact ⟨a, Or.inr ⟨r, rfl, c1, b⟩⟩
    · rw [if_neg c1] at h
      split at h <;> rw [← Option.some.inj h] <;> exact ⟨rfl, Or.inl rfl⟩
  | none =>
    dsimp only at h
    repeat' split at h
    all_goals rw [← Option.some.inj h]
    all_goals exact ⟨rfl, Or.inl rfl⟩

theorem GetRawFrame_some (tr : Transport) (hist : List (List Nat)) (r : List Nat)
    (h : GetRawFrame tr hist = some r) : tr hist = .received r := by
  unfold GetRawFrame at h
  split at h
  · rename_i p hp
    rw [hp, Option.some.inj h]
  · cases h

theorem TransceiveProcess_send_view (K : Consts) (d : Dialect) (tr : Transport)
    (hist : List (List Nat)) (status : Bool) (w : Session) :
    asm (TransceiveProcess_send K d tr hist status w).2.1 = asm w ∧
    limits (TransceiveProcess_send K d tr hist status w).2.1 = limits w := by
  obtain ⟨t, st, h⟩ := TransceiveProcess_send_session K d tr hist status w
  rw [h]
  exact ⟨rfl, rfl⟩

/-- An invariant `Q` of the history and the response assembly holds when the loop returns,
if `Q` is kept when the history grows and by every store of the INF field of a frame that
the peer delivered in answer to the history and that passes the CRC check, and holds for
every assembly with cursor 0 once the peer has sent a reset response; the limits are the
same as before the loop. -/
theorem TransceiveProcess_loop_store (K : Consts) (d : Dialect) (tr : Transport)
    (hM : K.MAX_APDU_BUFFER ≤ UINT_MAX)
    (Q : List (List Nat) → phNxpEse_data × Nat → Prop)
    (hmono : ∀ h l a, Q h a → Q (h ++ l) a)
    (hstep : ∀ h a b r, Q h a → tr h = .received r →
      CheckCRC K.MAX_APDU_BUFFER d r.length (some r) = true →
      AsmStore (r.drop (PH_PROPTO_7816_INF_BYTE_OFFSET d))
        (r.length - PH_PROTO_7816_INF_FILED d) a b → Q h b)
    (hreset : ∀ h b, (∃ hist r, tr hist = .received r ∧
        CheckCRC K.MAX_APDU_BUFFER d r.length (some r) = true ∧ isResetRsp K d r) →
      b.2 = 0 → Q h b)
    (fuel : Nat) :
    ∀ (status : Bool) (w : Session) (hist : List (List Nat)) x,
      Q hist (asm w) → TransceiveProcess_loop K d tr fuel status w hist = some x →
      Q x.2.2 (asm x.2.1) ∧ limits x.2.1 = limits w := by
  induction fuel with
  | zero => intro status w hist x _ h; simp [TransceiveProcess_loop] at h
  | succ fuel ih =>
    intro status w hist x hQ h
    rw [TransceiveProcess_loop_succ] at h
    obtain ⟨s1, s2⟩ := TransceiveProcess_send_view K d tr hist status w
    obtain ⟨l0, hl0⟩ := TransceiveProcess_send_hist K d tr hist status w
    have hQ0 : Q (TransceiveProcess_send K d tr hist status w).2.2 (asm w) := by
      rw [hl0]; exact hmono _ _ _ hQ
    split at h
    · rw [← Option.some.inj h]
      exact ⟨hQ, rfl⟩
    · split at h
      · cases hp : ProcessResponse K d fuel
            (GetRawFrame tr (TransceiveProcess_send K d tr hist status w).2.2)
            { (TransceiveProcess_send K d tr hist status w).2.1 with
              phNxpEseProto7816_3_Var.phNxpEseLastTx_Cntx :=
                (TransceiveProcess_send K d tr hist status w).2.1.phNxpEseProto7816_3_Var.phNxpEseNextTx_Cntx } with
        | none => rw [hp] at h; cases h
        | some p =>
          rw [hp] at h
          obtain ⟨v1, v2⟩ := ProcessResponse_view K d fuel _ _ p hM hp
          have hl : limits p.2 = limits w := v1.trans s2
          have hQp : Q (TransceiveProcess_send K d tr hist status w).2.2 (asm p.2) := by
            rcases v2 with v2 | ⟨r, hr, hcrc, v2 | ⟨hres, h0⟩⟩
            · rw [v2]; rw [← s1] at hQ0; exact hQ0
            · exact hstep _ _ _ r (by rw [← s1] at hQ0; exact hQ0)
                (GetRawFrame_some tr _ r hr) hcrc v2
            · exact hreset _ _ ⟨_, r, GetRawFrame_some tr _ r hr, hcrc, hres⟩ h0
          obtain ⟨q1, q2⟩ := ih _ _ _ _ hQp h
          exact ⟨q1, q2.trans hl⟩
      · have hQ1 : Q (TransceiveProcess_send K d tr hist status w).2.2
            (asm { (TransceiveProcess_send K d tr hist status w).2.1 with
              phNxpEseProto7816_3_Var.phNxpEseProto7816_nextTransceiveState := .IDLE_STATE }) := by
          have e : asm { (TransceiveProcess_send K d tr hist status w).2.1 with
              phNxpEseProto7816_3_Var.phNxpEseProto7816_nextTransceiveState := .IDLE_STATE }
              = asm w := s1
          rw [e]; exact hQ0
        obtain ⟨q1, q2⟩ := ih _ _ _ _ hQ1 h
        exact ⟨q1, q2.trans s2⟩

/-- An invariant `Q` of the response assembly holds when the loop returns, if `Q` is kept
by every assembly step that follows a frame passing the CRC check and holds for every
assembly with cursor 0 once the peer has sent a reset response; the limits are the same as
before the loop. -/
theorem TransceiveProcess_loop_view (K : Consts) (d : Dialect) (tr : Transport)
    (hM : K.MAX_APDU_BUFFER ≤ UINT_MAX) (Q : phNxpEse_data × Nat → Prop)
    (hstep : ∀ a b, Q a → AsmStep a b →
      (∃ hist r, tr hist = .received r ∧
        CheckCRC K.MAX_APDU_BUFFER d r.length (some r) = true) → Q b)
    (hreset : ∀ b, (∃ hist r, tr hist = .received r ∧
        CheckCRC K.MAX_APDU_BUFFER d r.length (some r) = true ∧ isResetRsp K d r) →
      b.2 = 0 → Q b)
    (fuel : Nat) :
    ∀ (status : Bool) (w : Session) (hist : List (List Nat)) x,
      Q (asm w) → TransceiveProcess_loop K d tr fuel status w hist = some x →
      Q (asm x.2.1) ∧ limits x.2.1 = limits w :=
  TransceiveProcess_loop_store K d tr hM (fun _ a => Q a)
    (fun _ _ _ hQ => hQ)
    (fun h a b r hQ hr hcrc hs =>
      hstep a b hQ (AsmStep_of_store _ _ a b (INF_lengths d r) hs) ⟨h, r, hr, hcrc⟩)
    (fun _ b hex hb => hreset b hex hb) fuel

/-! ## When the loop reports success -/

/-- When `ProcessResponse` returns TRUE a frame was read, and either it passed the CRC
check or an R-NACK is scheduled. -/
theorem ProcessResponse_status (K : Consts) (d : Dialect) (fuel : Nat)
    (rd : Option (List Nat)) (w : Session) (p : Bool × Session)
    (h : ProcessResponse K d fuel rd w = some p) (ht : p.1 = true) :
    ∃ r, rd = some r ∧
      (CheckCRC K.MAX_APDU_BUFFER d r.length (some r) = true ∨
        p.2.phNxpEseProto7816_3_Var.phNxpEseProto7816_nextTransceiveState = .SEND_R_NACK) := by
  unfold ProcessResponse at h
  cases rd with
  | some r =>
    dsimp only at h
    by_cases c1 : CheckCRC K.MAX_APDU_BUFFER d r.length (some r) = true
    · exact ⟨r, rfl, Or.inl c1⟩
    · rw [if_neg c1] at h
      split at h
      · rw [← Option.some.inj h]
        exact ⟨r, rfl, Or.inr rfl⟩
      · rw [← Option.some.inj h] at ht
        cases ht
  | none =>
    dsimp only at h
    repeat' split at h
    all_goals rw [← Option.some.inj h] at ht
    all_goals cases ht

/-- When the loop returns TRUE, the last block handed to the transport was answered by a
frame that passed the CRC check. -/
theorem TransceiveProcess_loop_true (K : Consts) (d : Dialect) (tr : Transport) (fuel : Nat) :
    ∀ (status : Bool) (w : Session) (hist : List (List Nat)) x,
      TransceiveProcess_loop K d tr fuel status w hist = some x →
      (status = true →
        (∃ r, tr hist = .received r ∧ CheckCRC K.MAX_APDU_BUFFER d r.length (some r) = true) ∨
        w.phNxpEseProto7816_3_Var.phNxpEseProto7816_nextTransceiveState = .SEND_R_NACK) →
      x.1 = true →
      (∃ r, tr x.2.2 = .received r ∧ CheckCRC K.MAX_APDU_BUFFER d r.length (some r) = true) ∧
      x.2.1.phNxpEseProto7816_3_Var.phNxpEseProto7816_nextTransceiveState = .IDLE_STATE := by
  induction fuel with
  | zero => intro status w hist x h; simp [TransceiveProcess_loop] at h
  | succ fuel ih =>
    intro status w hist x h hinv ht
    rw [TransceiveProcess_loop_succ] at h
    split at h
    · rename_i hidle
      rw [← Option.some.inj h] at ht ⊢
      rcases hinv ht with g | g
      · exact ⟨g, hidle⟩
      · rw [hidle] at g; cases g
    · split at h
      · cases hp : ProcessResponse K d fuel
            (GetRawFrame tr (TransceiveProcess_send K d tr hist status w).2.2)
            { (TransceiveProcess_send K d tr hist status w).2.1 with
              phNxpEseProto7816_3_Var.phNxpEseLastTx_Cntx :=
                (TransceiveProcess_send K d tr hist status w).2.1.phNxpEseProto7816_3_Var.phNxpEseNextTx_Cntx } with
        | none => rw [hp] at h; cases h
        | some p =>
          rw [hp] at h
          refine ih _ _ _ _ h ?_ ht
          intro hp1
          obtain ⟨r, hr, g⟩ := ProcessResponse_status K d fuel _ _ p hp hp1
          rcases g with g | g
          · exact Or.inl ⟨r, GetRawFrame_some tr _ r hr, g⟩
          · exact Or.inr g
      · exact ih _ _ _ _ h (fun hf => by cases hf) ht

/-! ## A single exchange: one I-block sent, one I-block received -/

/-- The session in which `ProcessResponse` decodes the answer to an I-block sent from
session `w`: the sent context has become the last-sent one and the timeout and R-NACK
counters are zero. -/
theorem loop_step_I (K : Consts) (d : Dialect) (tr : Transport) (fuel : Nat)
    (status : Bool) (w : Session) (hist : List (List Nat)) (r : List Nat)
    (hst : w.phNxpEseProto7816_3_Var.phNxpEseProto7816_nextTransceiveState = .SEND_IFRAME)
    (h1 : 1 ≤ w.phNxpEseProto7816_3_Var.phNxpEseNextTx_Cntx.IframeInfo.sendDataLen)
    (h2 : w.phNxpEseProto7816_3_Var.phNxpEseNextTx_Cntx.IframeInfo.sendDataLen
        + PH_PROTO_7816_HEADER_LEN d + PH_PROTO_7816_CRC_LEN ≤ K.MAX_APDU_BUFFER)
    (h3 : w.phNxpEseProto7816_3_Var.phNxpEseNextTx_Cntx.IframeInfo.sendDataLen
      ≤ UINT_MAX - (PH_PROTO_7816_HEADER_LEN d + PH_PROTO_7816_CRC_LEN))
    (hr : tr (hist ++ [SendIframe_frame d
        w.phNxpEseProto7816_3_Var.phNxpEseNextTx_Cntx.IframeInfo.seqNo
        w.phNxpEseProto7816_3_Var.phNxpEseNextTx_Cntx.IframeInfo]) = .received r)
    (hg : GoodFrame K d r) :
    TransceiveProcess_loop K d tr (fuel + 1) status w hist =
      (DecodeFrame K d fuel (some r) r.length
        { phNxpEseProto7816_3_Var :=
            { w.phNxpEseProto7816_3_Var with
              lastSentNonErrorframeType := .IFRAME
              phNxpEseLastTx_Cntx := w.phNxpEseProto7816_3_Var.phNxpEseNextTx_Cntx
              timeoutCounter := PH_PROTO_7816_VALUE_ZERO
              rnack_retry_counter := PH_PROTO_7816_VALUE_ZERO },
          rsp := w.rsp }).bind fun p =>
        TransceiveProcess_loop K d tr fuel p.1 p.2 (hist ++ [SendIframe_frame d
          w.phNxpEseProto7816_3_Var.phNxpEseNextTx_Cntx.IframeInfo.seqNo
          w.phNxpEseProto7816_3_Var.phNxpEseNextTx_Cntx.IframeInfo]) := by
  have hlen := SendIframe_frame_length d
    w.phNxpEseProto7816_3_Var.phNxpEseNextTx_Cntx.IframeInfo.seqNo
    w.phNxpEseProto7816_3_Var.phNxpEseNextTx_Cntx.IframeInfo
  have hsend := SendIframe_eq K d tr hist w _ h1 h2 h3
  have hok := SendRawFrame_ok tr hist
    (w.phNxpEseProto7816_3_Var.phNxpEseNextTx_Cntx.IframeInfo.sendDataLen
      + PH_PROTO_7816_HEADER_LEN d + PH_PROTO_7816_CRC_LEN)
    (SendIframe_frame d w.phNxpEseProto7816_3_Var.phNxpEseNextTx_Cntx.IframeInfo.seqNo
      w.phNxpEseProto7816_3_Var.phNxpEseNextTx_Cntx.IframeInfo) r
    (by rw [List.take_of_length_le (by omega)]; exact hr)
  rw [hok] at hsend
  have hget : GetRawFrame tr (hist ++ [SendIframe_frame d
      w.phNxpEseProto7816_3_Var.phNxpEseNextTx_Cntx.IframeInfo.seqNo
      w.phNxpEseProto7816_3_Var.phNxpEseNextTx_Cntx.IframeInfo]) = some r := by
    simp only [GetRawFrame, hr]
  rw [TransceiveProcess_loop_succ, if_neg (by rw [hst]; decide),
    TransceiveProcess_send_IFRAME K d tr hist status w hst, hsend]
  simp only [if_true, hget]
  rw [ProcessResponse_good K d fuel r _ hg]

/-- Decoding a non-chained I-block with the expected sequence number is one call of
`SaveRxframeData`, in a session whose next step is already `IDLE_STATE`. -/
theorem DecodeFrame_I_final_eq (K : Consts) (d : Dialect) (buf : List Nat) (n pcb : Nat)
    (w : Session) (h20 : pcb &&& 0x20 = 0)
    (hseq : (pcb &&& 0x40) >>> 6
      ≠ w.phNxpEseProto7816_3_Var.phNxpEseRx_Cntx.lastRcvdIframeInfo.seqNo) :
    ∃ w4 : Session,
      DecodeFrame_I K d buf n pcb w
        = SaveRxframeData (some (buf.drop (PH_PROPTO_7816_INF_BYTE_OFFSET d)))
            (n - PH_PROTO_7816_INF_FILED d) w4 ∧
      w4.rsp = w.rsp ∧
      w4.phNxpEseProto7816_3_Var.phNxpEseRx_Cntx.responseBytesRcvd
        = w.phNxpEseProto7816_3_Var.phNxpEseRx_Cntx.responseBytesRcvd ∧
      w4.phNxpEseProto7816_3_Var.phNxpEseRx_Cntx.pRsp
        = w.phNxpEseProto7816_3_Var.phNxpEseRx_Cntx.pRsp ∧
      w4.phNxpEseProto7816_3_Var.phNxpEseProto7816_nextTransceiveState = .IDLE_STATE := by
  have hs : w.phNxpEseProto7816_3_Var.phNxpEseRx_Cntx.lastRcvdIframeInfo.seqNo
      ≠ (pcb &&& 0x40) >>> 6 := fun h => hseq h.symm
  unfold DecodeFrame_I
  lift_lets
  intro s14 s13 w1 inf w2 s12 s11 s10 w3 s9 s8 s7 s6 s5 w4a ra s4 s3 w4b rb s2 s1 s0
  refine ⟨w4b, ?_, rfl, rfl, rfl, rfl⟩
  rw [if_pos hs, if_neg (not_not.mpr h20)]
  show (if rb.1 = false then (false, rb.2) else (true, rb.2)) = rb
  cases h : rb.1
  · rw [if_pos rfl]; exact Prod.ext h.symm rfl
  · rw [if_neg (by simp)]; exact Prod.ext h.symm rfl

theorem SaveRxframeData_state (p : Option (List Nat)) (m : Nat) (x : Session) :
    (SaveRxframeData p m x).2.phNxpEseProto7816_3_Var.phNxpEseProto7816_nextTransceiveState
      = x.phNxpEseProto7816_3_Var.phNxpEseProto7816_nextTransceiveState := by
  unfold SaveRxframeData
  cases p with
  | none => rfl
  | some src =>
    dsimp only
    cases x.phNxpEseProto7816_3_Var.phNxpEseRx_Cntx.pRsp with
    | NULL => rfl
    | caller =>
      dsimp only
      cases x.rsp.p_data with
      | none => rfl
      | some dst =>
        dsimp only
        split_ifs <;> rfl

theorem SaveRxframeData_ok (src dst : List Nat) (n : Nat) (x : Session)
    (hp : x.phNxpEseProto7816_3_Var.phNxpEseRx_Cntx.pRsp = .caller)
    (hd : x.rsp.p_data = some dst)
    (h1 : x.phNxpEseProto7816_3_Var.phNxpEseRx_Cntx.responseBytesRcvd + n ≤ UINT_MAX)
    (h2 : x.phNxpEseProto7816_3_Var.phNxpEseRx_Cntx.responseBytesRcvd + n ≤ x.rsp.len) :
    SaveRxframeData (some src) n x =
      (true, { x with
        rsp.p_data := some (memmove dst
          x.phNxpEseProto7816_3_Var.phNxpEseRx_Cntx.responseBytesRcvd src n)
        phNxpEseProto7816_3_Var.phNxpEseRx_Cntx.responseBytesRcvd :=
          x.phNxpEseProto7816_3_Var.phNxpEseRx_Cntx.responseBytesRcvd + n }) := by
  unfold SaveRxframeData
  simp only [hp, hd]
  rw [if_neg (by omega), if_neg (by omega)]

theorem SaveRxframeData_fail (src : List Nat) (n : Nat) (x : Session)
    (h : x.rsp.p_data = none ∨
      x.rsp.len < x.phNxpEseProto7816_3_Var.phNxpEseRx_Cntx.responseBytesRcvd + n) :
    SaveRxframeData (some src) n x = (false, x) := by
  unfold SaveRxframeData
  dsimp only
  cases x.phNxpEseProto7816_3_Var.phNxpEseRx_Cntx.pRsp with
  | NULL => rfl
  | caller =>
    dsimp only
    cases hd : x.rsp.p_data with
    | none => rfl
    | some dst =>
      dsimp only
      rcases h with h | h
      · rw [hd] at h; cases h
      · repeat' split
        all_goals rfl

theorem installCmd_rx (v : phNxpEseProto7816_t) (cmd : phNxpEse_data) :
    (installCmd v cmd).phNxpEseRx_Cntx.pRsp = .caller ∧
    (installCmd v cmd).phNxpEseRx_Cntx.responseBytesRcvd = 0 ∧
    (installCmd v cmd).phNxpEseProto7816_CurrentState = .PH_NXP_ESE_PROTO_7816_TRANSCEIVE ∧
    (installCmd v cmd).wtx_counter_limit = v.wtx_counter_limit ∧
    (installCmd v cmd).rnack_retry_limit = v.rnack_retry_limit := by
  simp only [installCmd, SetFirstIframeContxt]
  split <;> exact ⟨rfl, rfl, rfl, rfl, rfl⟩

/-- A command that fits one I-block, answered by a non-chained I-block with the expected
sequence number: `Transceive` returns after this one exchange.  When the INF of the answer
fits the response buffer it is copied to the start of the buffer, `rsp.len` is its length
and the status is TRUE; when there is no buffer or the INF does not fit, the buffer is not
written, `rsp.len` is 0 and the status is FALSE. -/
theorem Transceive_single (K : Consts) (d : Dialect) (tr : Transport) (fuel : Nat)
    (w : Session) (cmd rsp : phNxpEse_data) (r : List Nat)
    (hidle : w.phNxpEseProto7816_3_Var.phNxpEseProto7816_CurrentState
      = .PH_NXP_ESE_PROTO_7816_IDLE)
    (hcmd : 1 ≤ cmd.len)
    (hle : cmd.len ≤ w.phNxpEseProto7816_3_Var.phNxpEseNextTx_Cntx.IframeInfo.maxDataLen)
    (hfit : cmd.len + PH_PROTO_7816_HEADER_LEN d + PH_PROTO_7816_CRC_LEN ≤ K.MAX_APDU_BUFFER)
    (hMAX : K.MAX_APDU_BUFFER ≤ UINT_MAX)
    (hr : tr [SendIframe_frame d (fragCtx w.phNxpEseProto7816_3_Var cmd 0).seqNo
      (fragCtx w.phNxpEseProto7816_3_Var cmd 0)] = .received r)
    (hg : GoodFrame K d r) (p80 : pcbOf r &&& 0x80 = 0) (p20 : pcbOf r &&& 0x20 = 0)
    (pseq : (pcbOf r &&& 0x40) >>> 6
      ≠ w.phNxpEseProto7816_3_Var.phNxpEseRx_Cntx.lastRcvdIframeInfo.seqNo) :
    ∃ (s : Bool) (w' : Session),
      Transceive K d tr (fuel + 2) w [] (some cmd) (some rsp)
        = some (s, w', [SendIframe_frame d (fragCtx w.phNxpEseProto7816_3_Var cmd 0).seqNo
            (fragCtx w.phNxpEseProto7816_3_Var cmd 0)]) ∧
      w'.phNxpEseProto7816_3_Var.phNxpEseProto7816_CurrentState
        = .PH_NXP_ESE_PROTO_7816_IDLE ∧
      (∀ dst, rsp.p_data = some dst → r.length - PH_PROTO_7816_INF_FILED d ≤ rsp.len →
        s = true ∧
        w'.rsp = { len := r.length - PH_PROTO_7816_INF_FILED d
                   p_data := some (memmove dst 0 (r.drop (PH_PROPTO_7816_INF_BYTE_OFFSET d))
                     (r.length - PH_PROTO_7816_INF_FILED d)) }) ∧
      ((rsp.p_data = none ∨ rsp.len < r.length - PH_PROTO_7816_INF_FILED d) →
        s = false ∧ w'.rsp = { rsp with len := 0 }) := by
  have hctx : (installCmd w.phNxpEseProto7816_3_Var cmd).phNxpEseNextTx_Cntx.IframeInfo.sendDataLen
      = cmd.len := by
    rw [installCmd_ctx, if_neg (by omega)]
  obtain ⟨s1, s2⟩ := installCmd_state w.phNxpEseProto7816_3_Var cmd
  obtain ⟨x1, x2, x3, _, _⟩ := installCmd_rx w.phNxpEseProto7816_3_Var cmd
  have hlt := CheckCRC_true_lt _ _ _ _ hg.1
  have hnU : r.length - PH_PROTO_7816_INF_FILED d ≤ UINT_MAX := by omega
  have hstep := loop_step_I K d tr (fuel + 1) false
    { phNxpEseProto7816_3_Var := installCmd w.phNxpEseProto7816_3_Var cmd, rsp := rsp } [] r
    s1 (by rw [hctx]; exact hcmd) (by rw [hctx]; exact hfit)
    (by rw [hctx]; simp only [PH_PROTO_7816_CRC_LEN] at hfit ⊢; omega) hr hg
  rw [DecodeFrame_I_block K d (fuel + 1) r _ hg p80] at hstep
  obtain ⟨w4, e4, r4, c4, q4, i4⟩ := DecodeFrame_I_final_eq K d r r.length (pcbOf r)
    { phNxpEseProto7816_3_Var :=
        { (installCmd w.phNxpEseProto7816_3_Var cmd) with
          lastSentNonErrorframeType := .IFRAME
          phNxpEseLastTx_Cntx := (installCmd w.phNxpEseProto7816_3_Var cmd).phNxpEseNextTx_Cntx
          timeoutCounter := PH_PROTO_7816_VALUE_ZERO
          rnack_retry_counter := PH_PROTO_7816_VALUE_ZERO },
      rsp := rsp } p20 (by rw [← s2] at pseq; exact pseq)
  rw [e4] at hstep
  simp only [Option.some_bind, List.nil_append] at hstep
  have r4' : w4.rsp = rsp := r4
  have c4' : w4.phNxpEseProto7816_3_Var.phNxpEseRx_Cntx.responseBytesRcvd = 0 := c4.trans x2
  have q4' : w4.phNxpEseProto7816_3_Var.phNxpEseRx_Cntx.pRsp = .caller := q4.trans x1
  have hinner : ∀ (p : Bool × Session) (hist : List (List Nat)),
      p.2.phNxpEseProto7816_3_Var.phNxpEseProto7816_nextTransceiveState = .IDLE_STATE →
      TransceiveProcess_loop K d tr (fuel + 1) p.1 p.2 hist = some (p.1, p.2, hist) := by
    intro p hist hp
    rw [TransceiveProcess_loop_succ, if_pos hp]
  rw [hinner _ _ (by rw [SaveRxframeData_state]; exact i4)] at hstep
  rw [Transceive_some K d tr (fuel + 2) w [] cmd rsp hidle, hstep]
  simp only [Option.some_bind]
  by_cases hc : ∃ dst, rsp.p_data = some dst ∧ r.length - PH_PROTO_7816_INF_FILED d ≤ rsp.len
  · obtain ⟨dst, hd, hcap⟩ := hc
    have hsave := SaveRxframeData_ok (r.drop (PH_PROPTO_7816_INF_BYTE_OFFSET d)) dst
      (r.length - PH_PROTO_7816_INF_FILED d) w4 q4' (by rw [r4']; exact hd)
      (by rw [c4']; omega) (by rw [c4', r4']; omega)
    rw [hsave, c4', r4']
    simp only [Nat.zero_add]
    rw [if_neg (by simp only [UINT32_MAX, UINT_MAX] at hnU ⊢; omega)]
    refine ⟨_, _, rfl, rfl, ?_, ?_⟩
    · intro dst' hd' _
      rw [hd] at hd'
      cases hd'
      exact ⟨rfl, rfl⟩
    · intro hbad
      rcases hbad with hbad | hbad
      · rw [hd] at hbad; cases hbad
      · omega
  · have hbad : rsp.p_data = none ∨ rsp.len < r.length - PH_PROTO_7816_INF_FILED d := by
      cases hd : rsp.p_data with
      | none => exact Or.inl rfl
      | some dst =>
        right
        by_contra hcon
        exact hc ⟨dst, hd, by omega⟩
    have hsave := SaveRxframeData_fail (r.drop (PH_PROPTO_7816_INF_BYTE_OFFSET d))
      (r.length - PH_PROTO_7816_INF_FILED d) w4
      (by rw [r4', c4', Nat.zero_add]; exact hbad)
    rw [hsave]
    dsimp only
    rw [c4', if_neg (by decide)]
    refine ⟨_, _, rfl, rfl, ?_, ?_⟩
    · intro dst hd hcap
      exact absurd ⟨dst, hd, hcap⟩ hc
    · intro _
      refine ⟨rfl, ?_⟩
      show ({ w4.rsp with len := 0 } : phNxpEse_data) = { rsp with len := 0 }
      rw [r4']

/-! ## Invariants of the response assembly during `Transceive` -/

theorem memmove_frame (dst src : List Nat) (off n : Nat) (h1 : off + n ≤ dst.length)
    (h2 : n ≤ src.length) :
    (memmove dst off src n).length = dst.length ∧
    (memmove dst off src n).drop (off + n) = dst.drop (off + n) ∧
    (memmove dst off src n).take off = dst.take off ∧
    ((memmove dst off src n).drop off).take n = src.take n := by
  have l1 : (dst.take off).length = off := by rw [List.length_take]; omega
  have l2 : (src.take n).length = n := by rw [List.length_take]; omega
  unfold memmove
  refine ⟨?_, ?_, ?_, ?_⟩
  · simp only [List.length_append, l1, l2, List.length_drop]; omega
  · rw [List.drop_append_eq_append_drop, List.drop_of_length_le (by
      rw [List.length_append, l1, l2]), List.nil_append, List.length_append, l1, l2,
      Nat.sub_self, List.drop_zero]
  · rw [List.append_assoc, List.take_append_eq_append_take, l1, Nat.sub_self, List.take_zero,
      List.append_nil, List.take_take, Nat.min_self]
  · rw [List.append_assoc, List.drop_append_eq_append_drop, l1, Nat.sub_self, List.drop_zero,
      List.drop_of_length_le (by rw [l1]), List.nil_append, List.take_append_eq_append_take,
      l2, Nat.sub_self, List.take_zero, List.append_nil, List.take_take, Nat.min_self]

/-- The result of the loop inside `Transceive`, and what `Transceive` makes of it. -/
theorem Transceive_result (K : Consts) (d : Dialect) (tr : Transport) (fuel : Nat) (w : Session)
    (hist : List (List Nat)) (cmd rsp : phNxpEse_data) (x : Bool × Session × List (List Nat))
    (hM : K.MAX_APDU_BUFFER ≤ UINT_MAX)
    (hidle : w.phNxpEseProto7816_3_Var.phNxpEseProto7816_CurrentState
      = .PH_NXP_ESE_PROTO_7816_IDLE)
    (h : Transceive K d tr fuel w hist (some cmd) (some rsp) = some x) :
    ∃ y, TransceiveProcess_loop K d tr fuel false
        { phNxpEseProto7816_3_Var := installCmd w.phNxpEseProto7816_3_Var cmd, rsp := rsp }
        hist = some y ∧
      x = (y.1,
        { y.2.1 with
          rsp.len := y.2.1.phNxpEseProto7816_3_Var.phNxpEseRx_Cntx.responseBytesRcvd
          phNxpEseProto7816_3_Var.phNxpEseProto7816_CurrentState :=
            .PH_NXP_ESE_PROTO_7816_IDLE },
        y.2.2) := by
  rw [Transceive_some K d tr fuel w hist cmd rsp hidle] at h
  cases hl : TransceiveProcess_loop K d tr fuel false
        { phNxpEseProto7816_3_Var := installCmd w.phNxpEseProto7816_3_Var cmd, rsp := rsp }
        hist with
  | none => rw [hl] at h; cases h
  | some y =>
    rw [hl] at h
    simp only [Option.some_bind] at h
    have hU := (TransceiveProcess_loop_view K d tr hM (fun a => a.2 ≤ UINT_MAX)
      (by
        intro a b ha hs _
        rcases hs with rfl | ⟨dst, src, n, _, _, _, hu, rfl⟩
        · exact ha
        · exact hu)
      (by intro b _ hb; show b.2 ≤ UINT_MAX; rw [hb]; exact Nat.zero_le _)
      fuel false _ hist y
      (by show (installCmd w.phNxpEseProto7816_3_Var cmd).phNxpEseRx_Cntx.responseBytesRcvd
            ≤ UINT_MAX
          rw [(installCmd_rx _ _).2.1]; exact Nat.zero_le _) hl).1
    have hU' : ¬ y.2.1.phNxpEseProto7816_3_Var.phNxpEseRx_Cntx.responseBytesRcvd > UINT32_MAX := by
      have : y.2.1.phNxpEseProto7816_3_Var.phNxpEseRx_Cntx.responseBytesRcvd ≤ UINT_MAX := hU
      simp only [UINT_MAX] at this
      simp only [UINT32_MAX]
      omega
    rw [if_neg hU'] at h
    exact ⟨y, rfl, (Option.some.inj h).symm⟩

/-! ## An I-block that does not fit the response buffer -/

/-- Decoding an I-block with the expected sequence number whose INF does not fit what is
left of the response buffer (or when there is no buffer): `DecodeFrame_I` returns FALSE,
the next step is `IDLE_STATE`, and neither the buffer nor the cursor changes. -/
theorem DecodeFrame_I_overflow (K : Consts) (d : Dialect) (buf : List Nat) (n pcb : Nat)
    (w : Session)
    (hseq : (pcb &&& 0x40) >>> 6
      ≠ w.phNxpEseProto7816_3_Var.phNxpEseRx_Cntx.lastRcvdIframeInfo.seqNo)
    (hov : w.rsp.p_data = none ∨
      w.rsp.len < w.phNxpEseProto7816_3_Var.phNxpEseRx_Cntx.responseBytesRcvd
        + (n - PH_PROTO_7816_INF_FILED d)) :
    (DecodeFrame_I K d buf n pcb w).1 = false ∧
    (DecodeFrame_I K d buf n pcb w).2.phNxpEseProto7816_3_Var.phNxpEseProto7816_nextTransceiveState
      = .IDLE_STATE ∧
    asm (DecodeFrame_I K d buf n pcb w).2 = asm w := by
  have hs : w.phNxpEseProto7816_3_Var.phNxpEseRx_Cntx.lastRcvdIframeInfo.seqNo
      ≠ (pcb &&& 0x40) >>> 6 := fun h => hseq h.symm
  unfold DecodeFrame_I
  lift_lets
  intro s14 s13 w1 inf w2 s12 s11 s10 w3 s9 s8 s7 s6 s5 w4a ra s4 s3 w4b rb s2 s1 s0
  have ha : ra = (false, w4a) :=
    SaveRxframeData_fail (buf.drop (PH_PROPTO_7816_INF_BYTE_OFFSET d))
      (n - PH_PROTO_7816_INF_FILED d) w4a hov
  have hb : rb = (false, w4b) :=
    SaveRxframeData_fail (buf.drop (PH_PROPTO_7816_INF_BYTE_OFFSET d))
      (n - PH_PROTO_7816_INF_FILED d) w4b hov
  rw [if_pos hs]
  split
  · rw [if_pos (by rw [ha])]
    refine ⟨rfl, rfl, ?_⟩
    show asm ra.2 = asm w
    rw [ha]
    rfl
  · rw [if_pos (by rw [hb])]
    refine ⟨rfl, ?_, ?_⟩
    · show rb.2.phNxpEseProto7816_3_Var.phNxpEseProto7816_nextTransceiveState = _
      rw [hb]
    · show asm rb.2 = asm w
      rw [hb]
      rfl

/-- An I-block that passes the CRC check, carries the expected sequence number and does
not fit the response buffer makes `ProcessResponse` return FALSE with next step
`IDLE_STATE`, so the loop stops and reports failure; nothing is written. -/
theorem ProcessResponse_overflow (K : Consts) (d : Dialect) (tr : Transport) (fuel : Nat)
    (r : List Nat) (w : Session) (hist : List (List Nat))
    (hg : GoodFrame K d r) (p80 : pcbOf r &&& 0x80 = 0)
    (hseq : (pcbOf r &&& 0x40) >>> 6
      ≠ w.phNxpEseProto7816_3_Var.phNxpEseRx_Cntx.lastRcvdIframeInfo.seqNo)
    (hov : w.rsp.p_data = none ∨
      w.rsp.len < w.phNxpEseProto7816_3_Var.phNxpEseRx_Cntx.responseBytesRcvd
        + (r.length - PH_PROTO_7816_INF_FILED d)) :
    ∃ w', ProcessResponse K d fuel (some r) w = some (false, w') ∧
      w'.phNxpEseProto7816_3_Var.phNxpEseProto7816_nextTransceiveState = .IDLE_STATE ∧
      asm w' = asm w ∧
      TransceiveProcess_loop K d tr (fuel + 1) false w' hist = some (false, w', hist) := by
  rw [ProcessResponse_good K d fuel r w hg, DecodeFrame_I_block K d fuel r _ hg p80]
  obtain ⟨o1, o2, o3⟩ := DecodeFrame_I_overflow K d r r.length (pcbOf r)
    { w with
      phNxpEseProto7816_3_Var :=
        { w.phNxpEseProto7816_3_Var with
          timeoutCounter := PH_PROTO_7816_VALUE_ZERO
          rnack_retry_counter := PH_PROTO_7816_VALUE_ZERO } } hseq hov
  refine ⟨_, ?_, o2, o3, ?_⟩
  · exact congrArg some (Prod.ext o1 rfl)
  · rw [TransceiveProcess_loop_succ, if_pos o2]

/-! ## Properties of `Transceive`: usage guard, result length, status -/

theorem Transceive_guard (K : Consts) (d : Dialect) (tr : Transport) (fuel : Nat)
    (w : Session) (hist : List (List Nat)) (pCmd pRsp : Option phNxpEse_data)
    (h : pCmd = none ∨ pRsp = none ∨
      w.phNxpEseProto7816_3_Var.phNxpEseProto7816_CurrentState
        ≠ .PH_NXP_ESE_PROTO_7816_IDLE) :
    Transceive K d tr fuel w hist pCmd pRsp = some (false, w, hist) := by
  unfold Transceive
  cases pCmd with
  | none => rfl
  | some cmd =>
    cases pRsp with
    | none => rfl
    | some rsp =>
      rcases h with h | h | h
      · cases h
      · cases h
      · dsimp only
        rw [if_pos h]

/-- C11: Transceive usage guard.  If `pCmd` is NULL, `pRsp` is NULL or the current state is
not Idle, `Transceive` returns FALSE, hands no block to the transport and leaves the whole
session (contexts, counters, current state, response descriptor) unchanged. -/
theorem C11_transceive_usage_guard (K : Consts) (d : Dialect) (tr : Transport) (fuel : Nat)
    (w : Session) (hist : List (List Nat)) (pCmd pRsp : Option phNxpEse_data)
    (h : pCmd = none ∨ pRsp = none ∨
      w.phNxpEseProto7816_3_Var.phNxpEseProto7816_CurrentState
        ≠ .PH_NXP_ESE_PROTO_7816_IDLE) :
    Transceive K d tr fuel w hist pCmd pRsp = some (false, w, hist) :=
  Transceive_guard K d tr fuel w hist pCmd pRsp h

theorem C11_transceive_usage_guard_witness :
    Transceive sampleConsts .T1oI2C_UM11225 okPeer 10 (freshSession 3 3) [] none
      (some rspBuf10) = some (false, freshSession 3 3, []) :=
  C11_transceive_usage_guard sampleConsts .T1oI2C_UM11225 okPeer 10 (freshSession 3 3) []
    none (some rspBuf10) (Or.inl rfl)

/-- Storing the INF field of a frame at the cursor extends the assembled prefix of the
buffer by that field, whose length is the frame length less header and CRC. -/
theorem memmove_inf (d : Dialect) (dst r : List Nat) (off : Nat)
    (h1 : off + (r.length - PH_PROTO_7816_INF_FILED d) ≤ dst.length) :
    (memmove dst off (r.drop (PH_PROPTO_7816_INF_BYTE_OFFSET d))
        (r.length - PH_PROTO_7816_INF_FILED d)).take
        (off + (r.length - PH_PROTO_7816_INF_FILED d)) = dst.take off ++ infOf d r ∧
    (infOf d r).length = r.length - PH_PROTO_7816_INF_FILED d := by
  obtain ⟨_, _, m3, m4⟩ := memmove_frame dst (r.drop (PH_PROPTO_7816_INF_BYTE_OFFSET d)) off
    (r.length - PH_PROTO_7816_INF_FILED d) h1 (INF_lengths d r)
  refine ⟨?_, ?_⟩
  · rw [List.take_add, m3, m4]
    rfl
  · unfold infOf
    rw [List.length_take]
    exact Nat.min_eq_left (INF_lengths d r)

/-- C12 (as amended): for every `Transceive` call that passes the usage guard and every
peer behaviour under which it returns, on return the current state is Idle and `rsp.len`
is the cursor `responseBytesRcvd`; when the peer sends no reset response during the call,
this is the number of response bytes assembled into the caller's buffer during the call:
there is a list of reads of the call (each made at a history that extends the history at
entry and is extended by the history at return, each delivering a frame that passes the
CRC check) such that the first `rsp.len` bytes of the buffer are the INF fields of these
frames one after the other and `rsp.len` is their total length; it is at most the capacity
the caller gave, and the buffer is unchanged from position `rsp.len` on.  Without a
buffer, nothing is assembled and `rsp.len` is 0. -/
theorem C12_transceive_return (K : Consts) (d : Dialect) (tr : Transport) (fuel : Nat)
    (w : Session) (hist : List (List Nat)) (cmd rsp : phNxpEse_data)
    (x : Bool × Session × List (List Nat))
    (hM : K.MAX_APDU_BUFFER ≤ UINT_MAX)
    (hidle : w.phNxpEseProto7816_3_Var.phNxpEseProto7816_CurrentState
      = .PH_NXP_ESE_PROTO_7816_IDLE)
    (h : Transceive K d tr fuel w hist (some cmd) (some rsp) = some x) :
    x.2.1.phNxpEseProto7816_3_Var.phNxpEseProto7816_CurrentState
      = .PH_NXP_ESE_PROTO_7816_IDLE ∧
    x.2.1.rsp.len = x.2.1.phNxpEseProto7816_3_Var.phNxpEseRx_Cntx.responseBytesRcvd ∧
    (NoResetRsp K d tr → ∀ buf0, rsp.p_data = some buf0 → rsp.len ≤ buf0.length →
      x.2.1.rsp.len ≤ rsp.len ∧
      ∃ buf, x.2.1.rsp.p_data = some buf ∧ buf.length = buf0.length ∧
        buf.drop x.2.1.rsp.len = buf0.drop x.2.1.rsp.len ∧
        ∃ reads : List (List (List Nat) × List Nat),
          (∀ p ∈ reads, hist <+: p.1 ∧ p.1 <+: x.2.2 ∧ tr p.1 = .received p.2 ∧
            CheckCRC K.MAX_APDU_BUFFER d p.2.length (some p.2) = true) ∧
          buf.take x.2.1.rsp.len = (reads.map fun p => infOf d p.2).flatten ∧
          x.2.1.rsp.len = ((reads.map fun p => infOf d p.2).flatten).length) ∧
    (NoResetRsp K d tr → rsp.p_data = none →
      x.2.1.rsp.len = 0 ∧ x.2.1.rsp.p_data = none) := by
  obtain ⟨y, hy, rfl⟩ := Transceive_result K d tr fuel w hist cmd rsp x hM hidle h
  refine ⟨rfl, rfl, ?_, ?_⟩
  · intro hno buf0 hb hcap
    have hQ := (TransceiveProcess_loop_store K d tr hM
      (fun h a => hist <+: h ∧ a.1.len = rsp.len ∧ a.2 ≤ rsp.len ∧
        ∃ buf, a.1.p_data = some buf ∧ buf.length = buf0.length ∧
          buf.drop a.2 = buf0.drop a.2 ∧
          ∃ reads : List (List (List Nat) × List Nat),
            (∀ p ∈ reads, hist <+: p.1 ∧ p.1 <+: h ∧ tr p.1 = .received p.2 ∧
              CheckCRC K.MAX_APDU_BUFFER d p.2.length (some p.2) = true) ∧
            buf.take a.2 = (reads.map fun p => infOf d p.2).flatten ∧
            a.2 = ((reads.map fun p => infOf d p.2).flatten).length)
      (by
        intro h l a ha
        obtain ⟨a0, a1, a2, buf, a3, a4, a5, reads, a6, a7, a8⟩ := ha
        refine ⟨a0.trans (List.prefix_append h l), a1, a2, buf, a3, a4, a5, reads, ?_, a7, a8⟩
        intro p hp
        obtain ⟨b1, b2, b3, b4⟩ := a6 p hp
        exact ⟨b1, b2.trans (List.prefix_append h l), b3, b4⟩)
      (by
        intro h a b r ha hr hcrc hs
        rcases hs with rfl | ⟨dst, hd, hc, _, rfl⟩
        · exact ha
        · obtain ⟨a0, a1, a2, buf, a3, a4, a5, reads, a6, a7, a8⟩ := ha
          rw [hd] at a3
          cases a3
          have hfit : a.2 + (r.length - PH_PROTO_7816_INF_FILED d) ≤ dst.length := by omega
          obtain ⟨m1, m2, _, _⟩ := memmove_frame dst
            (r.drop (PH_PROPTO_7816_INF_BYTE_OFFSET d)) a.2
            (r.length - PH_PROTO_7816_INF_FILED d) hfit (INF_lengths d r)
          obtain ⟨m5, m6⟩ := memmove_inf d dst r a.2 hfit
          refine ⟨a0, a1, by omega, _, rfl, m1.trans a4, ?_, reads ++ [(h, r)], ?_, ?_, ?_⟩
          · rw [m2, ← List.drop_drop, a5, List.drop_drop]
          · intro p hp
            rcases List.mem_append.mp hp with hp | hp
            · exact a6 p hp
            · rw [List.mem_singleton.mp hp]
              exact ⟨a0, List.prefix_rfl, hr, hcrc⟩
          · rw [m5, a7, List.map_append, List.flatten_append]
            simp only [List.map_cons, List.map_nil, List.flatten_cons, List.flatten_nil,
              List.append_nil]
          · rw [List.map_append, List.flatten_append, List.length_append, ← a8]
            simp only [List.map_cons, List.map_nil, List.flatten_cons, List.flatten_nil,
              List.append_nil, m6])
      (by
        intro h b hex _
        obtain ⟨hist1, r, hr, _, hres⟩ := hex
        exact absurd hres (hno hist1 r hr))
      fuel false
      { phNxpEseProto7816_3_Var := installCmd w.phNxpEseProto7816_3_Var cmd, rsp := rsp } hist y
      (by
        refine ⟨List.prefix_rfl, rfl, ?_, buf0, hb, rfl, rfl, [], ?_, ?_, ?_⟩
        · show (installCmd w.phNxpEseProto7816_3_Var cmd).phNxpEseRx_Cntx.responseBytesRcvd ≤ _
          rw [(installCmd_rx _ _).2.1]; exact Nat.zero_le _
        · intro p hp; cases hp
        · show buf0.take
            (installCmd w.phNxpEseProto7816_3_Var cmd).phNxpEseRx_Cntx.responseBytesRcvd = _
          rw [(installCmd_rx _ _).2.1]; rfl
        · show (installCmd w.phNxpEseProto7816_3_Var cmd).phNxpEseRx_Cntx.responseBytesRcvd = _
          rw [(installCmd_rx _ _).2.1]; rfl) hy).1
    obtain ⟨_, _, q2, buf, q3, q4, q5, reads, q6, q7, q8⟩ := hQ
    exact ⟨q2, buf, q3, q4, q5, reads, q6, q7, q8⟩
  · intro hno hb
    have hQ := (TransceiveProcess_loop_view K d tr hM (fun a => a.1.p_data = none ∧ a.2 = 0)
      (by
        intro a b ha hs _
        rcases hs with rfl | ⟨dst, src, n, hd, _, _, _, rfl⟩
        · exact ha
        · rw [ha.1] at hd; cases hd)
      (by
        intro b hex _
        obtain ⟨hist1, r, hr, _, hres⟩ := hex
        exact absurd hres (hno hist1 r hr))
      fuel false
      { phNxpEseProto7816_3_Var := installCmd w.phNxpEseProto7816_3_Var cmd, rsp := rsp } hist y
      ⟨hb, (installCmd_rx _ _).2.1⟩ hy).1
    exact ⟨hQ.2, hQ.1⟩

/-- The peer of the short round trip never sends a reset response. -/
theorem okPeer_NoResetRsp : NoResetRsp sampleConsts .T1oI2C_UM11225 okPeer := by
  intro hist r hr
  unfold okPeer scripted at hr
  cases hn : hist.length - 1 with
  | zero =>
    rw [hn] at hr
    have e : withCRC .T1oI2C_UM11225 [0x5A, 0x00, 0x02, 0x90, 0x00] = r :=
      Outcome.received.inj hr
    rw [← e]
    unfold isResetRsp
    decide!
  | succ k =>
    rw [hn] at hr
    cases hr

theorem C12_transceive_return_witness :
    ∃ x, Transceive sampleConsts .T1oI2C_UM11225 okPeer 10 (freshSession 3 3) []
        (some cmd5) (some rspBuf10) = some x ∧
      x.2.1.phNxpEseProto7816_3_Var.phNxpEseProto7816_CurrentState
        = .PH_NXP_ESE_PROTO_7816_IDLE ∧
      x.2.1.rsp.len = x.2.1.phNxpEseProto7816_3_Var.phNxpEseRx_Cntx.responseBytesRcvd ∧
      x.2.1.rsp.len ≤ rspBuf10.len ∧
      ∃ buf, x.2.1.rsp.p_data = some buf ∧ buf.length = (List.replicate 10 0).length ∧
        buf.drop x.2.1.rsp.len = (List.replicate 10 0).drop x.2.1.rsp.len ∧
        ∃ reads : List (List (List Nat) × List Nat),
          (∀ p ∈ reads, [] <+: p.1 ∧ p.1 <+: x.2.2 ∧ okPeer p.1 = .received p.2 ∧
            CheckCRC sampleConsts.MAX_APDU_BUFFER .T1oI2C_UM11225 p.2.length (some p.2)
              = true) ∧
          buf.take x.2.1.rsp.len
            = (reads.map fun p => infOf .T1oI2C_UM11225 p.2).flatten ∧
          x.2.1.rsp.len
            = ((reads.map fun p => infOf .T1oI2C_UM11225 p.2).flatten).length := by
  have hs : (Transceive sampleConsts .T1oI2C_UM11225 okPeer 10 (freshSession 3 3) []
      (some cmd5) (some rspBuf10)).isSome = true := by decide!
  obtain ⟨x, hx⟩ := Option.isSome_iff_exists.mp hs
  have c := C12_transceive_return sampleConsts .T1oI2C_UM11225 okPeer 10
    (freshSession 3 3) [] cmd5 rspBuf10 x (by decide) (by decide) hx
  exact ⟨x, hx, c.1, c.2.1, c.2.2.1 okPeer_NoResetRsp (List.replicate 10 0) rfl (by decide)⟩

/-- C12 fails as stated: in a freshly reset Dialect-B session, the peer answers the
command with a chained I-block carrying the two bytes `AA BB`, which are assembled at the
start of the caller's ten-byte buffer, and then answers the R-ACK with a Software-Reset
response, on which the protocol parameters are reset.  `Transceive` passes the usage
guard and returns TRUE in state Idle with `rsp.len = 0`, although two response bytes were
assembled into the caller's buffer during the call. -/
theorem C12_counterexample :
    ((Transceive sampleConsts .T1oI2C_GP1_0 resetMidwayPeer 10 (freshSession 3 3) []
        (some cmd5) (some rspBuf10)).map fun x =>
          (x.1, x.2.1.phNxpEseProto7816_3_Var.phNxpEseProto7816_CurrentState,
            x.2.1.rsp.len, x.2.1.rsp.p_data))
      = some (true, .PH_NXP_ESE_PROTO_7816_IDLE, 0,
          some [0xAA, 0xBB, 0, 0, 0, 0, 0, 0, 0, 0]) ∧
    rspBuf10.p_data = some [0, 0, 0, 0, 0, 0, 0, 0, 0, 0] ∧
    (freshSession 3 3).phNxpEseProto7816_3_Var.phNxpEseProto7816_CurrentState
      = .PH_NXP_ESE_PROTO_7816_IDLE := by
  refine ⟨by decide!, by decide, by decide⟩

/-- C13 (as amended): whenever `Transceive` passes the usage guard and returns without a
frame that passes the CRC check having arrived during the call (the command could not be
sent, a write failed, every read failed or every frame was corrupted), it returns FALSE,
`rsp.len` is 0 and the response buffer is untouched. -/
theorem C13_failure_length (K : Consts) (d : Dialect) (tr : Transport) (fuel : Nat)
    (w : Session) (hist : List (List Nat)) (cmd rsp : phNxpEse_data)
    (x : Bool × Session × List (List Nat))
    (hM : K.MAX_APDU_BUFFER ≤ UINT_MAX)
    (hidle : w.phNxpEseProto7816_3_Var.phNxpEseProto7816_CurrentState
      = .PH_NXP_ESE_PROTO_7816_IDLE)
    (hbad : NoValidFrame K d tr)
    (h : Transceive K d tr fuel w hist (some cmd) (some rsp) = some x) :
    x.1 = false ∧ x.2.1.rsp.len = 0 ∧ x.2.1.rsp.p_data = rsp.p_data := by
  obtain ⟨y, hy, rfl⟩ := Transceive_result K d tr fuel w hist cmd rsp x hM hidle h
  have hQ := (TransceiveProcess_loop_view K d tr hM (fun a => a = (rsp, 0))
    (by
      intro a b _ _ hex
      obtain ⟨hist', r, hr, hc⟩ := hex
      rw [hbad hist' r hr] at hc
      cases hc)
    (by
      intro b hex _
      obtain ⟨hist', r, hr, hc, _⟩ := hex
      rw [hbad hist' r hr] at hc
      cases hc)
    fuel false
    { phNxpEseProto7816_3_Var := installCmd w.phNxpEseProto7816_3_Var cmd, rsp := rsp } hist y
    (by
      show (rsp, (installCmd w.phNxpEseProto7816_3_Var cmd).phNxpEseRx_Cntx.responseBytesRcvd)
        = (rsp, 0)
      rw [(installCmd_rx _ _).2.1]) hy).1
  have h1 : y.2.1.rsp = rsp := congrArg Prod.fst hQ
  have h2 : y.2.1.phNxpEseProto7816_3_Var.phNxpEseRx_Cntx.responseBytesRcvd = 0 :=
    congrArg Prod.snd hQ
  refine ⟨?_, h2, ?_⟩
  swap
  · show y.2.1.rsp.p_data = rsp.p_data
    rw [h1]
  cases hs : y.1 with
  | false => rfl
  | true =>
    obtain ⟨⟨r, hr, hc⟩, _⟩ := TransceiveProcess_loop_true K d tr fuel false _ hist y hy
      (fun hf => by cases hf) hs
    rw [hbad _ r hr] at hc
    cases hc

theorem C13_failure_length_witness :
    ∃ x, Transceive sampleConsts .T1oI2C_UM11225 silentPeer 10 (freshSession 3 3) []
        (some cmd5) (some rspBuf10) = some x ∧
      x.1 = false ∧ x.2.1.rsp.len = 0 ∧ x.2.1.rsp.p_data = rspBuf10.p_data := by
  have hs : (Transceive sampleConsts .T1oI2C_UM11225 silentPeer 10 (freshSession 3 3) []
      (some cmd5) (some rspBuf10)).isSome = true := by decide!
  obtain ⟨x, hx⟩ := Option.isSome_iff_exists.mp hs
  exact ⟨x, hx, C13_failure_length sampleConsts .T1oI2C_UM11225 silentPeer 10
    (freshSession 3 3) [] cmd5 rspBuf10 x (by decide) (by decide)
    (fun hist r h => by cases h) hx⟩

/-- C13 fails as stated: in a freshly reset Dialect-A session the peer answers the command
with a chained I-block carrying two bytes and then falls silent; the host sends its R-ACK,
retransmits it once after the read timeout and gives up.  `Transceive` returns FALSE and
`rsp.len` is 2, the number of bytes assembled before the failure. -/
theorem C13_counterexample :
    ((Transceive sampleConsts .T1oI2C_UM11225 partialThenSilentPeer 10 (freshSession 3 3) []
        (some cmd5) (some rspBuf10)).map fun x => (x.1, x.2.1.rsp.len))
      = some (false, 2) := by
  decide!

/-- `Transceive` returns TRUE only if its send/decode loop ended at next step IDLE right
after the last block handed to the transport was answered by a frame that passed the CRC
check; so it returns FALSE whenever that last block met a write failure, a read failure or
a corrupted frame (the R-NACK and timeout budgets).  It does return TRUE when a command
that fits one I-block is answered by a non-chained I-block with the expected sequence
number whose INF fits the response buffer. -/
theorem Transceive_success_condition :
    (∀ (K : Consts) (d : Dialect) (tr : Transport) (fuel : Nat) (w : Session)
      (hist : List (List Nat)) (cmd rsp : phNxpEse_data) (x : Bool × Session × List (List Nat)),
      Transceive K d tr fuel w hist (some cmd) (some rsp) = some x → x.1 = true →
      (∃ r, tr x.2.2 = .received r ∧
        CheckCRC K.MAX_APDU_BUFFER d r.length (some r) = true) ∧
      x.2.1.phNxpEseProto7816_3_Var.phNxpEseProto7816_nextTransceiveState = .IDLE_STATE) ∧
    (∀ (K : Consts) (d : Dialect) (tr : Transport) (fuel : Nat) (w : Session)
      (hist : List (List Nat)) (cmd rsp : phNxpEse_data) (x : Bool × Session × List (List Nat)),
      Transceive K d tr fuel w hist (some cmd) (some rsp) = some x →
      (tr x.2.2 = .writeFailed ∨ tr x.2.2 = .readFailed ∨
        ∃ r, tr x.2.2 = .received r ∧
          CheckCRC K.MAX_APDU_BUFFER d r.length (some r) = false) →
      x.1 = false) ∧
    (∀ (K : Consts) (d : Dialect) (tr : Transport) (fuel : Nat) (w : Session)
      (cmd rsp : phNxpEse_data) (r dst : List Nat),
      w.phNxpEseProto7816_3_Var.phNxpEseProto7816_CurrentState
        = .PH_NXP_ESE_PROTO_7816_IDLE →
      1 ≤ cmd.len →
      cmd.len ≤ w.phNxpEseProto7816_3_Var.phNxpEseNextTx_Cntx.IframeInfo.maxDataLen →
      cmd.len + PH_PROTO_7816_HEADER_LEN d + PH_PROTO_7816_CRC_LEN ≤ K.MAX_APDU_BUFFER →
      K.MAX_APDU_BUFFER ≤ UINT_MAX →
      tr [SendIframe_frame d (fragCtx w.phNxpEseProto7816_3_Var cmd 0).seqNo
        (fragCtx w.phNxpEseProto7816_3_Var cmd 0)] = .received r →
      GoodFrame K d r → pcbOf r &&& 0x80 = 0 → pcbOf r &&& 0x20 = 0 →
      (pcbOf r &&& 0x40) >>> 6
        ≠ w.phNxpEseProto7816_3_Var.phNxpEseRx_Cntx.lastRcvdIframeInfo.seqNo →
      rsp.p_data = some dst → r.length - PH_PROTO_7816_INF_FILED d ≤ rsp.len →
      ∃ w', Transceive K d tr (fuel + 2) w [] (some cmd) (some rsp)
        = some (true, w', [SendIframe_frame d (fragCtx w.phNxpEseProto7816_3_Var cmd 0).seqNo
            (fragCtx w.phNxpEseProto7816_3_Var cmd 0)])) := by
  have hmain : ∀ (K : Consts) (d : Dialect) (tr : Transport) (fuel : Nat) (w : Session)
      (hist : List (List Nat)) (cmd rsp : phNxpEse_data) (x : Bool × Session × List (List Nat)),
      Transceive K d tr fuel w hist (some cmd) (some rsp) = some x → x.1 = true →
      (∃ r, tr x.2.2 = .received r ∧
        CheckCRC K.MAX_APDU_BUFFER d r.length (some r) = true) ∧
      x.2.1.phNxpEseProto7816_3_Var.phNxpEseProto7816_nextTransceiveState = .IDLE_STATE := by
    intro K d tr fuel w hist cmd rsp x h ht
    by_cases hidle : w.phNxpEseProto7816_3_Var.phNxpEseProto7816_CurrentState
        = .PH_NXP_ESE_PROTO_7816_IDLE
    · rw [Transceive_some K d tr fuel w hist cmd rsp hidle] at h
      cases hl : TransceiveProcess_loop K d tr fuel false
          { phNxpEseProto7816_3_Var := installCmd w.phNxpEseProto7816_3_Var cmd, rsp := rsp }
          hist with
      | none => rw [hl] at h; cases h
      | some y =>
        rw [hl] at h
        simp only [Option.some_bind] at h
        split at h
        · rw [← Option.some.inj h] at ht; cases ht
        · rw [← Option.some.inj h] at ht ⊢
          exact TransceiveProcess_loop_true K d tr fuel false _ hist y hl
            (fun hf => by cases hf) ht
    · rw [Transceive_guard K d tr fuel w hist (some cmd) (some rsp) (Or.inr (Or.inr hidle))] at h
      rw [← Option.some.inj h] at ht
      cases ht
  refine ⟨hmain, ?_, ?_⟩
  · intro K d tr fuel w hist cmd rsp x h hbad
    cases hx : x.1 with
    | false => rfl
    | true =>
      obtain ⟨⟨r, hr, hc⟩, _⟩ := hmain K d tr fuel w hist cmd rsp x h hx
      rcases hbad with hb | hb | ⟨r', hb, hc'⟩
      · rw [hb] at hr; cases hr
      · rw [hb] at hr; cases hr
      · rw [hb] at hr
        cases hr
        rw [hc] at hc'
        cases hc'
  · intro K d tr fuel w cmd rsp r dst hidle hcmd hle hfit hMAX hr hg p80 p20 pseq hd hcap
    obtain ⟨s, w', h, _, hok, _⟩ := Transceive_single K d tr fuel w cmd rsp r hidle hcmd hle
      hfit hMAX hr hg p80 p20 pseq
    rw [(hok dst hd hcap).1] at h
    exact ⟨w', h⟩

set_option maxRecDepth 1000000 in
/-- C14: the code at the failing input.  In a freshly reset Dialect-A session (frame retry
limit 3) the peer answers every block with an I-block that repeats the sequence number the
host has already received.  The host sends the I-block and three R-NACKs, then
`RecoverySteps` schedules an Interface-Reset request; the peer answers that request with
the same I-block, `recoveryCounter` (now 4) is past the limit, `RecoverySteps` only
schedules IDLE and `DecodeFrame` keeps its status TRUE.  `Transceive` returns TRUE with an
empty response after five blocks, although the loop ended because the recovery budget was
exhausted. -/
theorem C14_recovery_exhausted_success :
    ((Transceive sampleConsts .T1oI2C_UM11225 wrongSeqPeer 10 (freshSession 3 3) []
        (some cmd5) (some rspBuf10)).map fun x =>
          (x.1, x.2.1.rsp.len, x.2.1.phNxpEseProto7816_3_Var.recoveryCounter,
            x.2.2.map pcbOf))
      = some (true, 0, 5, [0x00, 0x82, 0x82, 0x82, 0xCF]) ∧
    sampleConsts.PH_PROTO_7816_FRAME_RETRY_COUNT = 3 := by
  refine ⟨by decide!, rfl⟩

/-- C15: response assembly bound.  With a response buffer `dst` of capacity `rsp.len`
installed, `SaveRxframeData(src, n)` either has `responseBytesRcvd + n <= rsp.len`,
stores exactly the first `n` bytes of `src` at offset `responseBytesRcvd` (every other
byte of the buffer is kept), adds `n` to `responseBytesRcvd` and returns TRUE; or has
`responseBytesRcvd + n > rsp.len`, returns FALSE and changes nothing.  Hence
`responseBytesRcvd <= rsp.len` is kept by every call; an I-block with the expected
sequence number that does not fit makes `ProcessResponse` return FALSE with next step
IDLE, on which the loop stops with FALSE; and a `Transceive` whose answer does not fit
returns FALSE with `rsp.len = 0` and the buffer untouched. -/
theorem C15_response_assembly_bound :
    (∀ (src dst : List Nat) (n : Nat) (w : Session),
      w.phNxpEseProto7816_3_Var.phNxpEseRx_Cntx.pRsp = .caller →
      w.rsp.p_data = some dst → w.rsp.len ≤ dst.length → w.rsp.len ≤ UINT_MAX →
      n ≤ src.length →
      (w.phNxpEseProto7816_3_Var.phNxpEseRx_Cntx.responseBytesRcvd + n ≤ w.rsp.len →
        ∃ buf,
          SaveRxframeData (some src) n w =
            (true, { w with
              rsp.p_data := some buf
              phNxpEseProto7816_3_Var.phNxpEseRx_Cntx.responseBytesRcvd :=
                w.phNxpEseProto7816_3_Var.phNxpEseRx_Cntx.responseBytesRcvd + n }) ∧
          buf.length = dst.length ∧
          buf.take w.phNxpEseProto7816_3_Var.phNxpEseRx_Cntx.responseBytesRcvd
            = dst.take w.phNxpEseProto7816_3_Var.phNxpEseRx_Cntx.responseBytesRcvd ∧
          (buf.drop w.phNxpEseProto7816_3_Var.phNxpEseRx_Cntx.responseBytesRcvd).take n
            = src.take n ∧
          buf.drop (w.phNxpEseProto7816_3_Var.phNxpEseRx_Cntx.responseBytesRcvd + n)
            = dst.drop (w.phNxpEseProto7816_3_Var.phNxpEseRx_Cntx.responseBytesRcvd + n)) ∧
      (w.phNxpEseProto7816_3_Var.phNxpEseRx_Cntx.responseBytesRcvd + n > w.rsp.len →
        SaveRxframeData (some src) n w = (false, w))) ∧
    (∀ (p : Option (List Nat)) (n : Nat) (w : Session), n ≤ UINT_MAX →
      w.phNxpEseProto7816_3_Var.phNxpEseRx_Cntx.responseBytesRcvd ≤ w.rsp.len →
      (SaveRxframeData p n w).2.phNxpEseProto7816_3_Var.phNxpEseRx_Cntx.responseBytesRcvd
        ≤ (SaveRxframeData p n w).2.rsp.len) ∧
    (∀ (K : Consts) (d : Dialect) (tr : Transport) (fuel : Nat) (r : List Nat) (w : Session)
      (hist : List (List Nat)),
      GoodFrame K d r → pcbOf r &&& 0x80 = 0 →
      (pcbOf r &&& 0x40) >>> 6
        ≠ w.phNxpEseProto7816_3_Var.phNxpEseRx_Cntx.lastRcvdIframeInfo.seqNo →
      w.rsp.len < w.phNxpEseProto7816_3_Var.phNxpEseRx_Cntx.responseBytesRcvd
        + (r.length - PH_PROTO_7816_INF_FILED d) →
      ∃ w', ProcessResponse K d fuel (some r) w = some (false, w') ∧
        w'.phNxpEseProto7816_3_Var.phNxpEseProto7816_nextTransceiveState = .IDLE_STATE ∧
        asm w' = asm w ∧
        TransceiveProcess_loop K d tr (fuel + 1) false w' hist = some (false, w', hist)) ∧
    (∀ (K : Consts) (d : Dialect) (tr : Transport) (fuel : Nat) (w : Session)
      (cmd rsp : phNxpEse_data) (r : List Nat),
      w.phNxpEseProto7816_3_Var.phNxpEseProto7816_CurrentState
        = .PH_NXP_ESE_PROTO_7816_IDLE →
      1 ≤ cmd.len →
      cmd.len ≤ w.phNxpEseProto7816_3_Var.phNxpEseNextTx_Cntx.IframeInfo.maxDataLen →
      cmd.len + PH_PROTO_7816_HEADER_LEN d + PH_PROTO_7816_CRC_LEN ≤ K.MAX_APDU_BUFFER →
      K.MAX_APDU_BUFFER ≤ UINT_MAX →
      tr [SendIframe_frame d (fragCtx w.phNxpEseProto7816_3_Var cmd 0).seqNo
        (fragCtx w.phNxpEseProto7816_3_Var cmd 0)] = .received r →
      GoodFrame K d r → pcbOf r &&& 0x80 = 0 → pcbOf r &&& 0x20 = 0 →
      (pcbOf r &&& 0x40) >>> 6
        ≠ w.phNxpEseProto7816_3_Var.phNxpEseRx_Cntx.lastRcvdIframeInfo.seqNo →
      rsp.len < r.length - PH_PROTO_7816_INF_FILED d →
      ∃ w', Transceive K d tr (fuel + 2) w [] (some cmd) (some rsp)
          = some (false, w', [SendIframe_frame d (fragCtx w.phNxpEseProto7816_3_Var cmd 0).seqNo
              (fragCtx w.phNxpEseProto7816_3_Var cmd 0)]) ∧
        w'.rsp = { rsp with len := 0 }) := by
  refine ⟨?_, ?_, ?_, ?_⟩
  · intro src dst n w hp hd hcap hU hn
    refine ⟨?_, ?_⟩
    · intro hfit
      obtain ⟨m1, m2, m3, m4⟩ := memmove_frame dst src
        w.phNxpEseProto7816_3_Var.phNxpEseRx_Cntx.responseBytesRcvd n (by omega) hn
      exact ⟨_, SaveRxframeData_ok src dst n w hp hd (by omega) hfit, m1, m3, m4, m2⟩
    · intro hov
      exact SaveRxframeData_fail src n w (Or.inr hov)
  · intro p n w hn hinv
    rcases SaveRxframeData_cases p n w hn with h | ⟨src, dst, _, _, _, _, hc, h⟩
    · rw [h]; exact hinv
    · rw [h]; exact hc
  · intro K d tr fuel r w hist hg p80 hseq hov
    exact ProcessResponse_overflow K d tr fuel r w hist hg p80 hseq (Or.inr hov)
  · intro K d tr fuel w cmd rsp r hidle hcmd hle hfit hMAX hr hg p80 p20 pseq hov
    obtain ⟨s, w', h, _, _, hbad⟩ := Transceive_single K d tr fuel w cmd rsp r hidle hcmd hle
      hfit hMAX hr hg p80 p20 pseq
    obtain ⟨b1, b2⟩ := hbad (Or.inr hov)
    rw [b1] at h
    exact ⟨w', h, b2⟩

theorem C15_response_assembly_bound_witness :
    (({ (freshSession 3 3) with
        rsp := rspBuf10
        phNxpEseProto7816_3_Var.phNxpEseRx_Cntx.pRsp := .caller } : Session).phNxpEseProto7816_3_Var.phNxpEseRx_Cntx.responseBytesRcvd
        + 2 ≤ rspBuf10.len →
      ∃ buf,
        SaveRxframeData (some [0x90, 0x00]) 2
          { (freshSession 3 3) with
            rsp := rspBuf10
            phNxpEseProto7816_3_Var.phNxpEseRx_Cntx.pRsp := .caller } =
          (true, { ({ (freshSession 3 3) with
              rsp := rspBuf10
              phNxpEseProto7816_3_Var.phNxpEseRx_Cntx.pRsp := .caller } : Session) with
            rsp.p_data := some buf
            phNxpEseProto7816_3_Var.phNxpEseRx_Cntx.responseBytesRcvd := 0 + 2 }) ∧
        buf.length = (List.replicate 10 0).length ∧
        buf.take 0 = (List.replicate 10 0).take 0 ∧
        (buf.drop 0).take 2 = [0x90, 0x00].take 2 ∧
        buf.drop (0 + 2) = (List.replicate 10 0).drop (0 + 2)) ∧
    (({ (freshSession 3 3) with
        rsp := rspBuf10
        phNxpEseProto7816_3_Var.phNxpEseRx_Cntx.pRsp := .caller } : Session).phNxpEseProto7816_3_Var.phNxpEseRx_Cntx.responseBytesRcvd
        + 2 > rspBuf10.len →
      SaveRxframeData (some [0x90, 0x00]) 2
          { (freshSession 3 3) with
            rsp := rspBuf10
            phNxpEseProto7816_3_Var.phNxpEseRx_Cntx.pRsp := .caller } =
        (false, { (freshSession 3 3) with
            rsp := rspBuf10
            phNxpEseProto7816_3_Var.phNxpEseRx_Cntx.pRsp := .caller })) :=
  C15_response_assembly_bound.1 [0x90, 0x00] (List.replicate 10 0) 2
    { (freshSession 3 3) with
      rsp := rspBuf10
      phNxpEseProto7816_3_Var.phNxpEseRx_Cntx.pRsp := .caller }
    rfl rfl (by decide) (by decide) (by decide)

/-! ## Reset and Open -/

/-- After `ResetProtoParams`, the context `Transceive` installs for a command has sequence
number 0, and its sending length is the command length, or the default IFSC when the
command is longer. -/
theorem installCmd_after_reset (K : Consts) (v : phNxpEseProto7816_t) (cmd : phNxpEse_data) :
    (installCmd (ResetProtoParams K v).2 cmd).phNxpEseNextTx_Cntx.IframeInfo.seqNo = 0 ∧
    (installCmd (ResetProtoParams K v).2 cmd).phNxpEseNextTx_Cntx.IframeInfo.sendDataLen
      = if cmd.len > K.IFSC_SIZE_SEND then K.IFSC_SIZE_SEND else cmd.len := by
  rw [installCmd_ctx]
  have e : (ResetProtoParams K v).2.phNxpEseNextTx_Cntx.IframeInfo.maxDataLen
      = K.IFSC_SIZE_SEND := rfl
  have e2 : (ResetProtoParams K v).2.phNxpEseLastTx_Cntx.IframeInfo.seqNo = 1 := rfl
  have e3 : (1 ^^^ 1) % 256 = 0 := by decide
  rw [e, e2, e3]
  split
  · exact ⟨rfl, rfl⟩
  · exact ⟨rfl, rfl⟩

/-- C16: state after Reset.  `Reset` is `ResetProtoParams`, which returns TRUE and, from any
prior state, leaves: sequence number 1 in the next-to-send I context, the last-sent I
context and the last-received I-block; recovery, timeout, WTX and R-NACK retry counters 0;
last-sent, next-to-send and last-received frame types Invalid; last sent non-error frame
type Unknown; current state Idle and next step IDLE.  Consequently the context that the
next `Transceive` installs has sequence number 0, and for a non-empty command whose first
fragment fits the frame buffer (and whose length leaves room for header and CRC in 32-bit
arithmetic) the first block that `Transceive` hands to the transport is an I-block with
S = 0; in the sample session the single-exchange scenario returns TRUE
with one block emitted, whose S bit is 0. -/
theorem C16_reset_state (K : Consts) (v : phNxpEseProto7816_t) :
    Reset K v = ResetProtoParams K v ∧
    (ResetProtoParams K v).1 = true ∧
    (ResetProtoParams K v).2.phNxpEseNextTx_Cntx.IframeInfo.seqNo = 1 ∧
    (ResetProtoParams K v).2.phNxpEseLastTx_Cntx.IframeInfo.seqNo = 1 ∧
    (ResetProtoParams K v).2.phNxpEseRx_Cntx.lastRcvdIframeInfo.seqNo = 1 ∧
    (ResetProtoParams K v).2.recoveryCounter = 0 ∧
    (ResetProtoParams K v).2.timeoutCounter = 0 ∧
    (ResetProtoParams K v).2.wtx_counter = 0 ∧
    (ResetProtoParams K v).2.rnack_retry_counter = 0 ∧
    (ResetProtoParams K v).2.phNxpEseLastTx_Cntx.FrameType = .INVALID ∧
    (ResetProtoParams K v).2.phNxpEseNextTx_Cntx.FrameType = .INVALID ∧
    (ResetProtoParams K v).2.phNxpEseRx_Cntx.lastRcvdFrameType = .INVALID ∧
    (ResetProtoParams K v).2.lastSentNonErrorframeType = .UNKNOWN ∧
    (ResetProtoParams K v).2.phNxpEseProto7816_CurrentState = .PH_NXP_ESE_PROTO_7816_IDLE ∧
    (ResetProtoParams K v).2.phNxpEseProto7816_nextTransceiveState = .IDLE_STATE ∧
    (∀ cmd : phNxpEse_data,
      (installCmd (ResetProtoParams K v).2 cmd).phNxpEseNextTx_Cntx.IframeInfo.seqNo = 0) ∧
    (∀ (d : Dialect) (tr : Transport) (fuel : Nat) (rsp0 cmd rsp : phNxpEse_data)
        (x : Bool × Session × List (List Nat)),
      1 ≤ cmd.len → 1 ≤ K.IFSC_SIZE_SEND →
      min cmd.len K.IFSC_SIZE_SEND + PH_PROTO_7816_HEADER_LEN d + PH_PROTO_7816_CRC_LEN
        ≤ K.MAX_APDU_BUFFER →
      min cmd.len K.IFSC_SIZE_SEND ≤ UINT_MAX - 6 →
      Transceive K d tr fuel
        { phNxpEseProto7816_3_Var := (ResetProtoParams K v).2, rsp := rsp0 } []
        (some cmd) (some rsp) = some x →
      ∃ f l, x.2.2 = f :: l ∧ isIBlock f = true ∧ sBit f = 0) ∧
    ((Transceive sampleConsts .T1oI2C_UM11225 okPeer 4 (freshSession 3 3) [] (some cmd5)
        (some rspBuf10)).map fun x => (x.1, x.2.2.map isIBlock, x.2.2.map sBit))
      = some (true, [true], [0]) := by
  refine ⟨rfl, rfl, rfl, rfl, rfl, rfl, rfl, rfl, rfl, rfl, rfl, rfl, rfl, rfl, rfl,
    fun cmd => (installCmd_after_reset K v cmd).1, ?_, by decide!⟩
  intro d tr fuel rsp0 cmd rsp x hc hi hfit hM h
  obtain ⟨r', hr', e⟩ := Transceive_hist K d tr fuel _ [] cmd rsp x rfl h
  have hs := (installCmd_after_reset K v cmd).2
  have hq := (installCmd_after_reset K v cmd).1
  have hH : PH_PROTO_7816_HEADER_LEN d ≤ 4 := by cases d <;> decide
  have hC : PH_PROTO_7816_CRC_LEN = 2 := rfl
  have hU : UINT_MAX = 4294967295 := rfl
  have hlen : (installCmd (ResetProtoParams K v).2 cmd).phNxpEseNextTx_Cntx.IframeInfo.sendDataLen
      = min cmd.len K.IFSC_SIZE_SEND := by
    rw [hs]
    by_cases c : cmd.len > K.IFSC_SIZE_SEND
    · rw [if_pos c]; omega
    · rw [if_neg c]; omega
  clear hs
  have g1 : 1 ≤ (installCmd (ResetProtoParams K v).2
      cmd).phNxpEseNextTx_Cntx.IframeInfo.sendDataLen := by
    rw [hlen]; omega
  have g2 : (installCmd (ResetProtoParams K v).2
      cmd).phNxpEseNextTx_Cntx.IframeInfo.sendDataLen
        + PH_PROTO_7816_HEADER_LEN d + PH_PROTO_7816_CRC_LEN ≤ K.MAX_APDU_BUFFER := by
    rw [hlen]; exact hfit
  have g3 : (installCmd (ResetProtoParams K v).2
      cmd).phNxpEseNextTx_Cntx.IframeInfo.sendDataLen ≤ UINT_MAX - 6 := by
    rw [hlen]; exact hM
  obtain ⟨l, hl⟩ := TransceiveProcess_loop_first K d tr fuel false
    { phNxpEseProto7816_3_Var := installCmd (ResetProtoParams K v).2 cmd, rsp := rsp } [] r'
    (installCmd_state _ cmd).1 g1 g2 g3 hr'
  refine ⟨_, l, by rw [e, hl]; rfl, ?_⟩
  have hb := SendIframe_frame_bits d
    (installCmd (ResetProtoParams K v).2 cmd).phNxpEseNextTx_Cntx.IframeInfo.seqNo
    (installCmd (ResetProtoParams K v).2 cmd).phNxpEseNextTx_Cntx.IframeInfo (by rw [hq]; omega)
  exact ⟨hb.1, by rw [hb.2.2, hq]⟩

theorem C16_reset_state_witness :
    ∃ x, Transceive sampleConsts .T1oI2C_UM11225 okPeer 4
        { phNxpEseProto7816_3_Var := (ResetProtoParams sampleConsts zeroVar).2,
          rsp := rspBuf10 } [] (some cmd5) (some rspBuf10) = some x ∧
      ∃ f l, x.2.2 = f :: l ∧ isIBlock f = true ∧ sBit f = 0 := by
  have hs : (Transceive sampleConsts .T1oI2C_UM11225 okPeer 4
      { phNxpEseProto7816_3_Var := (ResetProtoParams sampleConsts zeroVar).2,
        rsp := rspBuf10 } [] (some cmd5) (some rspBuf10)).isSome = true := by decide!
  obtain ⟨x, hx⟩ := Option.isSome_iff_exists.mp hs
  exact ⟨x, hx, (C16_reset_state sampleConsts zeroVar).2.2.2.2.2.2.2.2.2.2.2.2.2.2.2.2.1
    .T1oI2C_UM11225 okPeer 4 rspBuf10 cmd5 rspBuf10 x (by decide) (by decide) (by decide)
    (by decide) hx⟩

/-- An S-request API call leaves both configured limits as they were. -/
theorem sRequest_limits (K : Consts) (d : Dialect) (tr : Transport) (fuel : Nat) (w : Session)
    (hist : List (List Nat)) (t : SFrameType) (st : TransceiveState) (clearRsp : Bool)
    (x : Bool × Session × List (List Nat)) (hM : K.MAX_APDU_BUFFER ≤ UINT_MAX)
    (h : sRequest K d tr fuel w hist t st clearRsp = some x) :
    limits x.2.1 = limits w := by
  unfold sRequest TransceiveProcess at h
  dsimp only at h
  split at h
  · cases h
  · rename_i status w2 hist2 hl
    rw [← Option.some.inj h]
    exact (TransceiveProcess_loop_view K d tr hM (fun _ => True) (fun _ _ _ _ _ => trivial)
      (fun _ _ _ => trivial) fuel false _ hist _ trivial hl).2

/-- An S-request API call that collects a payload leaves both configured limits as they
were. -/
theorem sFetch_limits (K : Consts) (d : Dialect) (tr : Transport) (fuel : Nat) (w : Session)
    (hist : List (List Nat)) (t : SFrameType) (st : TransceiveState)
    (pRsp : Option phNxpEse_data)
    (x : Bool × Session × List (List Nat)) (hM : K.MAX_APDU_BUFFER ≤ UINT_MAX)
    (h : sFetch K d tr fuel w hist t st pRsp = some x) :
    limits x.2.1 = limits w := by
  unfold sFetch TransceiveProcess at h
  cases pRsp with
  | none => rw [← Option.some.inj h]
  | some rsp =>
    dsimp only at h
    split at h
    · cases h
    · rename_i status w2 hist2 hl
      rw [← Option.some.inj h]
      exact (TransceiveProcess_loop_view K d tr hM (fun _ => True) (fun _ _ _ _ _ => trivial)
        (fun _ _ _ => trivial) fuel false _ hist _ trivial hl).2

/-- Whenever `Open` returns, both limits are the values of its configuration. -/
theorem Open_limits (K : Consts) (d : Dialect) (tr : Transport) (fuel : Nat) (w : Session)
    (hist : List (List Nat)) (initParam : phNxpEseProto7816InitParam_t)
    (AtrRsp : phNxpEse_data) (x : Bool × Session × List (List Nat))
    (hM : K.MAX_APDU_BUFFER ≤ UINT_MAX)
    (h : Open K d tr fuel w hist initParam AtrRsp = some x) :
    limits x.2.1 = (initParam.wtx_counter_limit, initParam.rnack_retry_limit) := by
  unfold Open at h
  dsimp only at h
  split at h
  · cases h
  · rename_i status w2 hist2 hr
    have h2 : limits w2 = (initParam.wtx_counter_limit, initParam.rnack_retry_limit) :=
      sRequest_limits K d tr fuel _ hist _ _ _ (status, w2, hist2) hM hr
    split at h
    · cases d with
      | T1oI2C_UM11225 =>
        dsimp only at h
        cases hg : GetAtr K tr fuel w2 hist2 (some w2.rsp) with
        | none => rw [hg] at h; cases h
        | some y =>
          rw [hg] at h
          rw [← Option.some.inj h]
          exact (sFetch_limits K _ tr fuel w2 hist2 _ _ _ y hM hg).trans h2
      | T1oI2C_GP1_0 =>
        dsimp only at h
        cases hg : GetCip K tr fuel w2 hist2 (some w2.rsp) with
        | none => rw [hg] at h; cases h
        | some y =>
          rw [hg] at h
          rw [← Option.some.inj h]
          exact (sFetch_limits K _ tr fuel w2 hist2 _ _ _ y hM hg).trans h2
    · rw [← Option.some.inj h]
      exact h2

/-- C17: the configured limits are preserved.  For every state, `wtx_counter_limit` and
`rnack_retry_limit` after `ResetProtoParams` equal their values before it; and whenever
`Open` returns (with or without the interface reset, in either dialect, whatever the peer
replies), they equal the values supplied in its configuration.  In the sample scenario
`Open` returns TRUE with both limits 3, as configured. -/
theorem C17_limits_preserved :
    (∀ (K : Consts) (v : phNxpEseProto7816_t),
      (ResetProtoParams K v).2.wtx_counter_limit = v.wtx_counter_limit ∧
      (ResetProtoParams K v).2.rnack_retry_limit = v.rnack_retry_limit) ∧
    (∀ (K : Consts) (d : Dialect) (tr : Transport) (fuel : Nat) (w : Session)
        (hist : List (List Nat)) (initParam : phNxpEseProto7816InitParam_t)
        (AtrRsp : phNxpEse_data) (x : Bool × Session × List (List Nat)),
      K.MAX_APDU_BUFFER ≤ UINT_MAX →
      Open K d tr fuel w hist initParam AtrRsp = some x →
      x.2.1.phNxpEseProto7816_3_Var.wtx_counter_limit = initParam.wtx_counter_limit ∧
      x.2.1.phNxpEseProto7816_3_Var.rnack_retry_limit = initParam.rnack_retry_limit) ∧
    ((Open sampleConsts .T1oI2C_UM11225 openPeer 10 (sessionWithIfsc 4) [] sampleInit
        rspBuf10).map fun x =>
          (x.1, x.2.1.phNxpEseProto7816_3_Var.wtx_counter_limit,
            x.2.1.phNxpEseProto7816_3_Var.rnack_retry_limit))
      = some (true, 3, 3) := by
  refine ⟨fun K v => ⟨rfl, rfl⟩, ?_, by decide!⟩
  intro K d tr fuel w hist initParam AtrRsp x hM h
  have hl := Open_limits K d tr fuel w hist initParam AtrRsp x hM h
  exact ⟨congrArg Prod.fst hl, congrArg Prod.snd hl⟩

theorem C17_limits_preserved_witness :
    ∃ x, Open sampleConsts .T1oI2C_GP1_0 silentPeer 10 (freshSession 7 9) [] sampleInit
        rspBuf10 = some x ∧
      x.2.1.phNxpEseProto7816_3_Var.wtx_counter_limit = sampleInit.wtx_counter_limit ∧
      x.2.1.phNxpEseProto7816_3_Var.rnack_retry_limit = sampleInit.rnack_retry_limit := by
  have hs : (Open sampleConsts .T1oI2C_GP1_0 silentPeer 10 (freshSession 7 9) [] sampleInit
      rspBuf10).isSome = true := by decide!
  obtain ⟨x, hx⟩ := Option.isSome_iff_exists.mp hs
  exact ⟨x, hx, C17_limits_preserved.2.1 sampleConsts .T1oI2C_GP1_0 silentPeer 10
    (freshSession 7 9) [] sampleInit rspBuf10 x (by decide) hx⟩

/-- A reset response that is accepted leaves the default IFSC as maximum fragment size:
the handler of `INTF_RESET_RSP` and `SWR_RSP` returns TRUE only after it has run
`ResetProtoParams`. -/
theorem DecodeFrame_resetRsp_ifsc (K : Consts) (d : Dialect) (t : SFrameType) (save : Bool)
    (buf : List Nat) (n : Nat) (w : Session)
    (h : (DecodeFrame_resetRsp K d t save buf n w).1 = true) :
    (DecodeFrame_resetRsp K d t save buf n w).2.phNxpEseProto7816_3_Var.phNxpEseNextTx_Cntx.IframeInfo.maxDataLen
      = K.IFSC_SIZE_SEND := by
  revert h
  unfold DecodeFrame_resetRsp
  lift_lets
  intro idle finish r
  have hfin : ∀ x : Session, (finish x).1 = true →
      (finish x).2.phNxpEseProto7816_3_Var.phNxpEseNextTx_Cntx.IframeInfo.maxDataLen
        = K.IFSC_SIZE_SEND := by
    intro x
    unfold finish
    split
    · intro h; cases h
    · intro _; rfl
  repeat' split
  · intro h; cases h
  · intro h; cases h
  · exact hfin r.2
  · exact hfin w

/-- C18 (amended): a successful interface/soft reset installs the default IFSC.  For every
value n installed with `SetIfscSize(n)` (a `uint16_t`), the maximum fragment size of the
next-to-send I context is n before the reset, and after `ResetProtoParams` it is
`IFSC_SIZE_SEND`; the same holds after every Interface-Reset or Software-Reset response
that the decoder accepts.  It is therefore still n exactly when n is `IFSC_SIZE_SEND`. -/
theorem C18_reset_installs_default_ifsc (K : Consts) (n : Nat) (v : phNxpEseProto7816_t)
    (hn : n ≤ 65535) :
    (SetIfscSize n v).2.phNxpEseNextTx_Cntx.IframeInfo.maxDataLen = n ∧
    (ResetProtoParams K (SetIfscSize n v).2).2.phNxpEseNextTx_Cntx.IframeInfo.maxDataLen
      = K.IFSC_SIZE_SEND ∧
    (∀ (d : Dialect) (t : SFrameType) (save : Bool) (buf : List Nat) (len : Nat)
        (rsp : phNxpEse_data),
      (DecodeFrame_resetRsp K d t save buf len
        { phNxpEseProto7816_3_Var := (SetIfscSize n v).2, rsp := rsp }).1 = true →
      (DecodeFrame_resetRsp K d t save buf len
        { phNxpEseProto7816_3_Var := (SetIfscSize n v).2,
          rsp := rsp }).2.phNxpEseProto7816_3_Var.phNxpEseNextTx_Cntx.IframeInfo.maxDataLen
        = K.IFSC_SIZE_SEND) ∧
    ((ResetProtoParams K (SetIfscSize n v).2).2.phNxpEseNextTx_Cntx.IframeInfo.maxDataLen = n
      ↔ n = K.IFSC_SIZE_SEND) := by
  have e1 : (SetIfscSize n v).2.phNxpEseNextTx_Cntx.IframeInfo.maxDataLen = n % 65536 := rfl
  have e2 : (ResetProtoParams K (SetIfscSize n v).2).2.phNxpEseNextTx_Cntx.IframeInfo.maxDataLen
      = K.IFSC_SIZE_SEND := rfl
  refine ⟨by rw [e1]; omega, e2, ?_, by rw [e2]; exact eq_comm⟩
  intro d t save buf len rsp h
  exact DecodeFrame_resetRsp_ifsc K d t save buf len _ h

theorem C18_reset_installs_default_ifsc_witness :
    4 ≤ 65535 ∧
    (SetIfscSize 4 zeroVar).2.phNxpEseNextTx_Cntx.IframeInfo.maxDataLen = 4 ∧
    (ResetProtoParams sampleConsts
        (SetIfscSize 4 zeroVar).2).2.phNxpEseNextTx_Cntx.IframeInfo.maxDataLen
      = sampleConsts.IFSC_SIZE_SEND :=
  ⟨by decide, (C18_reset_installs_default_ifsc sampleConsts 4 zeroVar (by decide)).1,
    (C18_reset_installs_default_ifsc sampleConsts 4 zeroVar (by decide)).2.1⟩

/-- C18 fails as stated: in a Dialect-A session in which `SetIfscSize(4)` installed the
maximum fragment size 4, `IntfReset` sends the Interface-Reset request, the peer answers
with an Interface-Reset response, the call returns TRUE, and the maximum fragment size of
the next-to-send I context is then 254 (the default of the sample configuration), not 4;
the same holds for `ResetProtoParams` alone. -/
theorem C18_counterexample :
    (sessionWithIfsc 4).phNxpEseProto7816_3_Var.phNxpEseNextTx_Cntx.IframeInfo.maxDataLen = 4 ∧
    ((IntfReset sampleConsts intfResetPeer 10 (sessionWithIfsc 4) [] (some rspBuf10)).map
        fun x => (x.1, x.2.1.phNxpEseProto7816_3_Var.phNxpEseNextTx_Cntx.IframeInfo.maxDataLen,
          x.2.2.map pcbOf))
      = some (true, 254, [0xCF]) ∧
    (ResetProtoParams sampleConsts
      (sessionWithIfsc 4).phNxpEseProto7816_3_Var).2.phNxpEseNextTx_Cntx.IframeInfo.maxDataLen
      = 254 := by
  refine ⟨by decide, by decide!, by decide⟩

/-- The state in which `Open` starts its exchanges does not depend on the state before the
call: everything but the two limits is reset, and the limits are overwritten. -/
theorem Open_independent (K : Consts) (d : Dialect) (tr : Transport) (fuel : Nat)
    (w1 w2 : Session) (hist : List (List Nat)) (initParam : phNxpEseProto7816InitParam_t)
    (AtrRsp : phNxpEse_data) :
    Open K d tr fuel w1 hist initParam AtrRsp = Open K d tr fuel w2 hist initParam AtrRsp :=
  rfl

/-- C19: idempotent Open.  For every prior protocol state and every configuration, with
the same transport (a peer that gives the same replies to the same blocks), the same
response descriptor and the same iteration bound, the result of `Open` (status, protocol
state, response, blocks emitted) does not depend on the protocol state before the call;
hence an `Open` run in the state that a first `Open` left returns the same state as that
first `Open`.  In the sample scenario `Open` does return, and so does the second one with
the same result. -/
theorem C19_open_idempotent :
    (∀ (K : Consts) (d : Dialect) (tr : Transport) (fuel : Nat) (w1 w2 : Session)
        (hist : List (List Nat)) (initParam : phNxpEseProto7816InitParam_t)
        (AtrRsp : phNxpEse_data),
      Open K d tr fuel w1 hist initParam AtrRsp = Open K d tr fuel w2 hist initParam AtrRsp) ∧
    (∀ (K : Consts) (d : Dialect) (tr : Transport) (fuel : Nat) (w : Session)
        (hist : List (List Nat)) (initParam : phNxpEseProto7816InitParam_t)
        (AtrRsp : phNxpEse_data) (x : Bool × Session × List (List Nat)),
      Open K d tr fuel w hist initParam AtrRsp = some x →
      Open K d tr fuel x.2.1 hist initParam AtrRsp = some x) ∧
    ((Open sampleConsts .T1oI2C_UM11225 openPeer 10 (sessionWithIfsc 4) [] sampleInit
        rspBuf10).bind fun x =>
          (Open sampleConsts .T1oI2C_UM11225 openPeer 10 x.2.1 [] sampleInit rspBuf10).map
            fun y => (x.1, decide (y = x), y.2.1.rsp.len, y.2.2.map pcbOf))
      = some (true, true, 3, [0xC0, 0xC7]) := by
  refine ⟨Open_independent, ?_, by decide!⟩
  intro K d tr fuel w hist initParam AtrRsp x h
  rw [Open_independent K d tr fuel x.2.1 w hist initParam AtrRsp]
  exact h

theorem C19_open_idempotent_witness :
    ∃ x, Open sampleConsts .T1oI2C_UM11225 openPeer 10 (sessionWithIfsc 4) [] sampleInit
        rspBuf10 = some x ∧
      Open sampleConsts .T1oI2C_UM11225 openPeer 10 x.2.1 [] sampleInit rspBuf10 = some x := by
  have hs : (Open sampleConsts .T1oI2C_UM11225 openPeer 10 (sessionWithIfsc 4) [] sampleInit
      rspBuf10).isSome = true := by decide!
  obtain ⟨x, hx⟩ := Option.isSome_iff_exists.mp hs
  exact ⟨x, hx, C19_open_idempotent.2.1 sampleConsts .T1oI2C_UM11225 openPeer 10
    (sessionWithIfsc 4) [] sampleInit rspBuf10 x hx⟩

/-! ## Read failures -/

/-- A failed read after an I-block: FALSE, and an R-NACK for a parity error while the
R-NACK budget lasts, the give-up stores otherwise. -/
theorem ProcessResponse_none_I (K : Consts) (d : Dialect) (fuel : Nat) (w : Session)
    (hft : w.phNxpEseProto7816_3_Var.phNxpEseLastTx_Cntx.FrameType = .IFRAME) :
    ProcessResponse K d fuel none w =
      some (false,
        { w with
          phNxpEseProto7816_3_Var :=
            if w.phNxpEseProto7816_3_Var.rnack_retry_counter
                < w.phNxpEseProto7816_3_Var.rnack_retry_limit then
              ProcessResponse_rnack .PARITY_ERROR w.phNxpEseProto7816_3_Var
            else ProcessResponse_giveUp w.phNxpEseProto7816_3_Var }) := by
  unfold ProcessResponse
  dsimp only
  rw [if_neg (by rw [hft]; intro h; cases h.1), if_pos hft]
  by_cases c : w.phNxpEseProto7816_3_Var.rnack_retry_counter
      < w.phNxpEseProto7816_3_Var.rnack_retry_limit
  · rw [if_pos c, if_pos c]
  · rw [if_neg c, if_neg c]

/-- A failed read after an R-block: FALSE, and the block is scheduled again while the
timeout budget lasts, otherwise the loop is told to stop. -/
theorem ProcessResponse_none_R (K : Consts) (d : Dialect) (fuel : Nat) (w : Session)
    (hft : w.phNxpEseProto7816_3_Var.phNxpEseLastTx_Cntx.FrameType = .RFRAME) :
    ProcessResponse K d fuel none w =
      some (false,
        { w with
          phNxpEseProto7816_3_Var :=
            if w.phNxpEseProto7816_3_Var.timeoutCounter
                < K.PH_PROTO_7816_TIMEOUT_RETRY_COUNT then
              { w.phNxpEseProto7816_3_Var with
                timeoutCounter := w.phNxpEseProto7816_3_Var.timeoutCounter + 1
                phNxpEseNextTx_Cntx := w.phNxpEseProto7816_3_Var.phNxpEseLastTx_Cntx }
            else
              { w.phNxpEseProto7816_3_Var with
                phNxpEseProto7816_nextTransceiveState := .IDLE_STATE
                timeoutCounter := PH_PROTO_7816_VALUE_ZERO } }) := by
  unfold ProcessResponse
  dsimp only
  rw [if_neg (by rw [hft]; intro h; cases h.1), if_neg (by rw [hft]; intro h; cases h)]
  by_cases c : w.phNxpEseProto7816_3_Var.timeoutCounter < K.PH_PROTO_7816_TIMEOUT_RETRY_COUNT
  · rw [if_pos c, if_pos c]
  · rw [if_neg c, if_neg c]

/-- One iteration of the loop that sends the I-block of the next-to-send context while the
read that follows fails: the status becomes FALSE; while the R-NACK budget lasts an R-NACK
for a parity error is scheduled, otherwise the loop is told to stop. -/
theorem loop_step_I_silent (K : Consts) (d : Dialect) (tr : Transport) (fuel : Nat)
    (status : Bool) (w : Session) (hist : List (List Nat))
    (hst : w.phNxpEseProto7816_3_Var.phNxpEseProto7816_nextTransceiveState = .SEND_IFRAME)
    (hft : w.phNxpEseProto7816_3_Var.phNxpEseNextTx_Cntx.FrameType = .IFRAME)
    (h1 : 1 ≤ w.phNxpEseProto7816_3_Var.phNxpEseNextTx_Cntx.IframeInfo.sendDataLen)
    (h2 : w.phNxpEseProto7816_3_Var.phNxpEseNextTx_Cntx.IframeInfo.sendDataLen
        + PH_PROTO_7816_HEADER_LEN d + PH_PROTO_7816_CRC_LEN ≤ K.MAX_APDU_BUFFER)
    (h3 : w.phNxpEseProto7816_3_Var.phNxpEseNextTx_Cntx.IframeInfo.sendDataLen
      ≤ UINT_MAX - (PH_PROTO_7816_HEADER_LEN d + PH_PROTO_7816_CRC_LEN))
    (hr : tr (hist ++ [SendIframe_frame d
        w.phNxpEseProto7816_3_Var.phNxpEseNextTx_Cntx.IframeInfo.seqNo
        w.phNxpEseProto7816_3_Var.phNxpEseNextTx_Cntx.IframeInfo]) = .readFailed) :
    TransceiveProcess_loop K d tr (fuel + 1) status w hist =
      TransceiveProcess_loop K d tr fuel false
        { w with
          phNxpEseProto7816_3_Var :=
            if w.phNxpEseProto7816_3_Var.rnack_retry_counter
                < w.phNxpEseProto7816_3_Var.rnack_retry_limit then
              ProcessResponse_rnack .PARITY_ERROR
                { w.phNxpEseProto7816_3_Var with
                  lastSentNonErrorframeType := .IFRAME
                  phNxpEseLastTx_Cntx := w.phNxpEseProto7816_3_Var.phNxpEseNextTx_Cntx }
            else
              ProcessResponse_giveUp
                { w.phNxpEseProto7816_3_Var with
                  lastSentNonErrorframeType := .IFRAME
                  phNxpEseLastTx_Cntx := w.phNxpEseProto7816_3_Var.phNxpEseNextTx_Cntx } }
        (hist ++ [SendIframe_frame d
          w.phNxpEseProto7816_3_Var.phNxpEseNextTx_Cntx.IframeInfo.seqNo
          w.phNxpEseProto7816_3_Var.phNxpEseNextTx_Cntx.IframeInfo]) := by
  have hsend : TransceiveProcess_send K d tr hist status w =
      (true, { w with phNxpEseProto7816_3_Var.lastSentNonErrorframeType := .IFRAME },
        hist ++ [SendIframe_frame d
          w.phNxpEseProto7816_3_Var.phNxpEseNextTx_Cntx.IframeInfo.seqNo
          w.phNxpEseProto7816_3_Var.phNxpEseNextTx_Cntx.IframeInfo]) := by
    rw [TransceiveProcess_send_IFRAME K d tr hist status w hst, SendIframe_eq K d tr hist w _ h1 h2 h3]
    have hT : (SendIframe_frame d
          w.phNxpEseProto7816_3_Var.phNxpEseNextTx_Cntx.IframeInfo.seqNo
          w.phNxpEseProto7816_3_Var.phNxpEseNextTx_Cntx.IframeInfo).take
        (w.phNxpEseProto7816_3_Var.phNxpEseNextTx_Cntx.IframeInfo.sendDataLen
          + PH_PROTO_7816_HEADER_LEN d + PH_PROTO_7816_CRC_LEN)
        = SendIframe_frame d
          w.phNxpEseProto7816_3_Var.phNxpEseNextTx_Cntx.IframeInfo.seqNo
          w.phNxpEseProto7816_3_Var.phNxpEseNextTx_Cntx.IframeInfo := by
      apply List.take_of_length_le
      rw [SendIframe_frame_length]
    simp only [SendRawFrame, hT, hr]
  rw [TransceiveProcess_loop_succ, if_neg (by rw [hst]; decide), hsend]
  simp only [if_true]
  have hg : GetRawFrame tr (hist ++ [SendIframe_frame d
        w.phNxpEseProto7816_3_Var.phNxpEseNextTx_Cntx.IframeInfo.seqNo
        w.phNxpEseProto7816_3_Var.phNxpEseNextTx_Cntx.IframeInfo]) = none := by
    simp only [GetRawFrame, hr]
  rw [hg, ProcessResponse_none_I K d fuel _ hft]
  rfl

/-- One iteration of the loop that sends the scheduled R-NACK while the read that follows
fails: the status is FALSE; while the timeout budget lasts the timeout counter is
incremented and the R-NACK stays scheduled, otherwise the loop is told to stop. -/
theorem loop_step_nack_silent (K : Consts) (d : Dialect) (tr : Transport) (fuel : Nat)
    (status : Bool) (w : Session) (hist : List (List Nat))
    (hst : w.phNxpEseProto7816_3_Var.phNxpEseProto7816_nextTransceiveState = .SEND_R_NACK)
    (hft : w.phNxpEseProto7816_3_Var.phNxpEseNextTx_Cntx.FrameType = .RFRAME)
    (hr : tr (hist ++ [sendRframe_frame d w .RNACK]) = .readFailed) :
    TransceiveProcess_loop K d tr (fuel + 1) status w hist =
      TransceiveProcess_loop K d tr fuel false
        { w with
          phNxpEseProto7816_3_Var :=
            if w.phNxpEseProto7816_3_Var.timeoutCounter
                < K.PH_PROTO_7816_TIMEOUT_RETRY_COUNT then
              { w.phNxpEseProto7816_3_Var with
                phNxpEseLastTx_Cntx := w.phNxpEseProto7816_3_Var.phNxpEseNextTx_Cntx
                timeoutCounter := w.phNxpEseProto7816_3_Var.timeoutCounter + 1 }
            else
              { w.phNxpEseProto7816_3_Var with
                phNxpEseLastTx_Cntx := w.phNxpEseProto7816_3_Var.phNxpEseNextTx_Cntx
                phNxpEseProto7816_nextTransceiveState := .IDLE_STATE
                timeoutCounter := PH_PROTO_7816_VALUE_ZERO } }
        (hist ++ [sendRframe_frame d w .RNACK]) := by
  have hsend : TransceiveProcess_send K d tr hist status w =
      (true, w, hist ++ [sendRframe_frame d w .RNACK]) := by
    unfold TransceiveProcess_send
    rw [hst]
    simp only [sendRframe, SendRawFrame, List.take_of_length_le (Nat.le_refl _), hr]
  have hg : GetRawFrame tr (hist ++ [sendRframe_frame d w .RNACK]) = none := by
    simp only [GetRawFrame, hr]
  rw [TransceiveProcess_loop_succ, if_neg (by rw [hst]; decide), hsend]
  simp only [if_true]
  rw [hg, ProcessResponse_none_R K d fuel _ hft]
  simp only [Option.some_bind]

/-- With every read failing, a scheduled R-NACK is sent once and then once more for each
timeout retry that is left; then the loop returns FALSE.  The response assembly and the
limits are as before. -/
theorem loop_nack_silent (K : Consts) (d : Dialect) (tr : Transport)
    (hs : ∀ h, tr h = .readFailed) :
    ∀ (k fuel : Nat) (status : Bool) (w : Session) (hist : List (List Nat)),
      w.phNxpEseProto7816_3_Var.phNxpEseProto7816_nextTransceiveState = .SEND_R_NACK →
      w.phNxpEseProto7816_3_Var.phNxpEseNextTx_Cntx.FrameType = .RFRAME →
      w.phNxpEseProto7816_3_Var.timeoutCounter + k = K.PH_PROTO_7816_TIMEOUT_RETRY_COUNT →
      ∃ w', TransceiveProcess_loop K d tr (k + 2 + fuel) status w hist =
          some (false, w', hist ++ List.replicate (k + 1) (sendRframe_frame d w .RNACK)) ∧
        asm w' = asm w ∧ limits w' = limits w := by
  intro k
  induction k with
  | zero =>
    intro fuel status w hist hst hft hk
    have e : 0 + 2 + fuel = (fuel + 1) + 1 := by omega
    rw [e, loop_step_nack_silent K d tr (fuel + 1) status w hist hst hft (hs _),
      if_neg (by omega), TransceiveProcess_loop_succ, if_pos rfl]
    exact ⟨_, rfl, rfl, rfl⟩
  | succ k ih =>
    intro fuel status w hist hst hft hk
    have e : k + 1 + 2 + fuel = (k + 2 + fuel) + 1 := by omega
    rw [e, loop_step_nack_silent K d tr (k + 2 + fuel) status w hist hst hft (hs _),
      if_pos (by omega)]
    obtain ⟨w', h1, h2, h3⟩ := ih fuel false
      { w with
        phNxpEseProto7816_3_Var :=
          { w.phNxpEseProto7816_3_Var with
            phNxpEseLastTx_Cntx := w.phNxpEseProto7816_3_Var.phNxpEseNextTx_Cntx
            timeoutCounter := w.phNxpEseProto7816_3_Var.timeoutCounter + 1 } }
      (hist ++ [sendRframe_frame d w .RNACK]) hst hft
      (by show w.phNxpEseProto7816_3_Var.timeoutCounter + 1 + k = _; omega)
    refine ⟨w', ?_, h2, h3⟩
    rw [h1]
    have ef : sendRframe_frame d
        { w with
          phNxpEseProto7816_3_Var :=
            { w.phNxpEseProto7816_3_Var with
              phNxpEseLastTx_Cntx := w.phNxpEseProto7816_3_Var.phNxpEseNextTx_Cntx
              timeoutCounter := w.phNxpEseProto7816_3_Var.timeoutCounter + 1 } } .RNACK
        = sendRframe_frame d w .RNACK := rfl
    rw [ef, List.append_assoc, List.singleton_append, ← List.replicate_succ]

/-- What `Transceive` leaves untouched when it installs a command: the frame type of the
next-to-send context becomes `IFRAME`; the counters and limits are as before. -/
theorem installCmd_counters (v : phNxpEseProto7816_t) (cmd : phNxpEse_data) :
    (installCmd v cmd).phNxpEseNextTx_Cntx.FrameType = .IFRAME ∧
    (installCmd v cmd).rnack_retry_counter = v.rnack_retry_counter ∧
    (installCmd v cmd).rnack_retry_limit = v.rnack_retry_limit ∧
    (installCmd v cmd).timeoutCounter = v.timeoutCounter := by
  simp only [installCmd, SetFirstIframeContxt]
  split <;> exact ⟨rfl, rfl, rfl, rfl⟩

/-- C20 (amended): retry budget.  In an Idle session whose R-NACK retry counter and timeout
counter are 0 (sequence numbers 0 or 1), for every non-zero `rnack_retry_limit` and every
non-empty command whose first fragment fits the frame buffer, given a peer that silently
drops every response (every write succeeds, every read fails), `Transceive` returns once
the iteration bound is at least `PH_PROTO_7816_TIMEOUT_RETRY_COUNT + 3`; it returns FALSE
with `rsp.len = 0` in state Idle, and it has emitted exactly
`PH_PROTO_7816_TIMEOUT_RETRY_COUNT + 2` blocks: the I-block, then one R-NACK for a parity
error, then that R-NACK again once per timeout retry. -/
theorem C20_retry_budget (K : Consts) (d : Dialect) (tr : Transport) (fuel : Nat)
    (w : Session) (cmd rsp : phNxpEse_data)
    (hs : ∀ h, tr h = .readFailed)
    (hidle : w.phNxpEseProto7816_3_Var.phNxpEseProto7816_CurrentState
      = .PH_NXP_ESE_PROTO_7816_IDLE)
    (hcmd : 1 ≤ cmd.len)
    (hifsc : 1 ≤ w.phNxpEseProto7816_3_Var.phNxpEseNextTx_Cntx.IframeInfo.maxDataLen)
    (hfit : min cmd.len w.phNxpEseProto7816_3_Var.phNxpEseNextTx_Cntx.IframeInfo.maxDataLen
      + PH_PROTO_7816_HEADER_LEN d + PH_PROTO_7816_CRC_LEN ≤ K.MAX_APDU_BUFFER)
    (hU : min cmd.len w.phNxpEseProto7816_3_Var.phNxpEseNextTx_Cntx.IframeInfo.maxDataLen
      ≤ UINT_MAX - 6)
    (hlim : 1 ≤ w.phNxpEseProto7816_3_Var.rnack_retry_limit)
    (hcnt : w.phNxpEseProto7816_3_Var.rnack_retry_counter = 0)
    (htc : w.phNxpEseProto7816_3_Var.timeoutCounter = 0)
    (hseq : w.phNxpEseProto7816_3_Var.phNxpEseRx_Cntx.lastRcvdIframeInfo.seqNo ≤ 1)
    (hlast : w.phNxpEseProto7816_3_Var.phNxpEseLastTx_Cntx.IframeInfo.seqNo ≤ 1) :
    ∃ (w' : Session) (f n : List Nat),
      Transceive K d tr (K.PH_PROTO_7816_TIMEOUT_RETRY_COUNT + 3 + fuel) w []
          (some cmd) (some rsp)
        = some (false, w', f :: List.replicate (K.PH_PROTO_7816_TIMEOUT_RETRY_COUNT + 1) n) ∧
      (f :: List.replicate (K.PH_PROTO_7816_TIMEOUT_RETRY_COUNT + 1) n).length
        = K.PH_PROTO_7816_TIMEOUT_RETRY_COUNT + 2 ∧
      isIBlock f = true ∧
      pcbOf n = 0x80 |||
        ((w.phNxpEseProto7816_3_Var.phNxpEseRx_Cntx.lastRcvdIframeInfo.seqNo ^^^ 1) <<< 4)
          ||| 1 ∧
      w'.rsp = { rsp with len := 0 } ∧
      w'.phNxpEseProto7816_3_Var.phNxpEseProto7816_CurrentState
        = .PH_NXP_ESE_PROTO_7816_IDLE := by
  obtain ⟨c1, c2, c3, c4⟩ := installCmd_counters w.phNxpEseProto7816_3_Var cmd
  obtain ⟨r1, r2, _, _, _⟩ := installCmd_rx w.phNxpEseProto7816_3_Var cmd
  obtain ⟨s1, s2⟩ := installCmd_state w.phNxpEseProto7816_3_Var cmd
  have hctx := installCmd_ctx w.phNxpEseProto7816_3_Var cmd
  have hlen : (installCmd w.phNxpEseProto7816_3_Var cmd).phNxpEseNextTx_Cntx.IframeInfo.sendDataLen
      = min cmd.len w.phNxpEseProto7816_3_Var.phNxpEseNextTx_Cntx.IframeInfo.maxDataLen := by
    rw [hctx]
    by_cases c : cmd.len > w.phNxpEseProto7816_3_Var.phNxpEseNextTx_Cntx.IframeInfo.maxDataLen
    · rw [if_pos c]
      show w.phNxpEseProto7816_3_Var.phNxpEseNextTx_Cntx.IframeInfo.maxDataLen = _
      omega
    · rw [if_neg c]
      show cmd.len = _
      omega
  have hsq : (installCmd w.phNxpEseProto7816_3_Var cmd).phNxpEseNextTx_Cntx.IframeInfo.seqNo
      ≤ 1 := by
    have e : (installCmd w.phNxpEseProto7816_3_Var cmd).phNxpEseNextTx_Cntx.IframeInfo.seqNo
        = (w.phNxpEseProto7816_3_Var.phNxpEseLastTx_Cntx.IframeInfo.seqNo ^^^ 1) % 256 := by
      rw [hctx]
      split <;> rfl
    rw [e]
    have h01 : w.phNxpEseProto7816_3_Var.phNxpEseLastTx_Cntx.IframeInfo.seqNo = 0 ∨
        w.phNxpEseProto7816_3_Var.phNxpEseLastTx_Cntx.IframeInfo.seqNo = 1 := by omega
    rcases h01 with h | h <;> rw [h] <;> decide
  have hH : PH_PROTO_7816_HEADER_LEN d ≤ 4 := by cases d <;> decide
  have hC : PH_PROTO_7816_CRC_LEN = 2 := rfl
  have g1 : 1 ≤ (installCmd w.phNxpEseProto7816_3_Var
      cmd).phNxpEseNextTx_Cntx.IframeInfo.sendDataLen := by
    rw [hlen]; omega
  have g2 : (installCmd w.phNxpEseProto7816_3_Var
      cmd).phNxpEseNextTx_Cntx.IframeInfo.sendDataLen
        + PH_PROTO_7816_HEADER_LEN d + PH_PROTO_7816_CRC_LEN ≤ K.MAX_APDU_BUFFER := by
    rw [hlen]; exact hfit
  have g3 : (installCmd w.phNxpEseProto7816_3_Var
      cmd).phNxpEseNextTx_Cntx.IframeInfo.sendDataLen
        ≤ UINT_MAX - (PH_PROTO_7816_HEADER_LEN d + PH_PROTO_7816_CRC_LEN) := by
    rw [hlen]; omega
  have e : K.PH_PROTO_7816_TIMEOUT_RETRY_COUNT + 3 + fuel
      = (K.PH_PROTO_7816_TIMEOUT_RETRY_COUNT + 2 + fuel) + 1 := by omega
  have hstep := loop_step_I_silent K d tr (K.PH_PROTO_7816_TIMEOUT_RETRY_COUNT + 2 + fuel) false
    { phNxpEseProto7816_3_Var := installCmd w.phNxpEseProto7816_3_Var cmd, rsp := rsp } []
    s1 c1 g1 g2 g3 (hs _)
  rw [if_pos (by show (installCmd w.phNxpEseProto7816_3_Var cmd).rnack_retry_counter
      < (installCmd w.phNxpEseProto7816_3_Var cmd).rnack_retry_limit
                 rw [c2, c3]; omega)] at hstep
  obtain ⟨x, hx, ha, _⟩ := loop_nack_silent K d tr hs K.PH_PROTO_7816_TIMEOUT_RETRY_COUNT fuel
    false
    { phNxpEseProto7816_3_Var :=
        ProcessResponse_rnack .PARITY_ERROR
          { installCmd w.phNxpEseProto7816_3_Var cmd with
            lastSentNonErrorframeType := .IFRAME
            phNxpEseLastTx_Cntx :=
              (installCmd w.phNxpEseProto7816_3_Var cmd).phNxpEseNextTx_Cntx },
      rsp := rsp }
    ([] ++ [SendIframe_frame d
      (installCmd w.phNxpEseProto7816_3_Var cmd).phNxpEseNextTx_Cntx.IframeInfo.seqNo
      (installCmd w.phNxpEseProto7816_3_Var cmd).phNxpEseNextTx_Cntx.IframeInfo])
    rfl rfl
    (by show (installCmd w.phNxpEseProto7816_3_Var cmd).timeoutCounter + _ = _
        rw [c4, htc]; omega)
  rw [hx] at hstep
  rw [Transceive_some K d tr _ w [] cmd rsp hidle, e, hstep]
  simp only [Option.some_bind]
  have hrc : x.phNxpEseProto7816_3_Var.phNxpEseRx_Cntx.responseBytesRcvd = 0 := by
    have := congrArg Prod.snd ha
    exact this.trans r2
  have hrsp : x.rsp = rsp := congrArg Prod.fst ha
  rw [if_neg (by rw [hrc]; decide)]
  refine ⟨_, _, _, rfl, by simp, ?_, ?_, ?_, rfl⟩
  · exact (SendIframe_frame_bits d _ _ hsq).1
  · rw [(sendRframe_frame_shape d _ .RNACK).1]
    have hp := (sendRframe_pcb_eq
      { phNxpEseProto7816_3_Var :=
          ProcessResponse_rnack .PARITY_ERROR
            { installCmd w.phNxpEseProto7816_3_Var cmd with
              lastSentNonErrorframeType := .IFRAME
              phNxpEseLastTx_Cntx :=
                (installCmd w.phNxpEseProto7816_3_Var cmd).phNxpEseNextTx_Cntx },
        rsp := rsp } .RNACK
      (by show (installCmd w.phNxpEseProto7816_3_Var cmd).phNxpEseRx_Cntx.lastRcvdIframeInfo.seqNo
            ≤ 1
          rw [s2]; exact hseq)).1
    rw [hp]
    show 0x80 ||| (((installCmd w.phNxpEseProto7816_3_Var
      cmd).phNxpEseRx_Cntx.lastRcvdIframeInfo.seqNo ^^^ 1) <<< 4) ||| 1 = _
    rw [s2]
  · show ({ x.rsp with len := x.phNxpEseProto7816_3_Var.phNxpEseRx_Cntx.responseBytesRcvd }
      : phNxpEse_data) = _
    rw [hrsp, hrc]

theorem C20_retry_budget_witness :
    ∃ (w' : Session) (f n : List Nat),
      Transceive sampleConsts .T1oI2C_UM11225 silentPeer
          (sampleConsts.PH_PROTO_7816_TIMEOUT_RETRY_COUNT + 3 + 0) (freshSession 3 3) []
          (some cmd5) (some rspBuf10)
        = some (false, w',
            f :: List.replicate (sampleConsts.PH_PROTO_7816_TIMEOUT_RETRY_COUNT + 1) n) ∧
      (f :: List.replicate (sampleConsts.PH_PROTO_7816_TIMEOUT_RETRY_COUNT + 1) n).length
        = sampleConsts.PH_PROTO_7816_TIMEOUT_RETRY_COUNT + 2 ∧
      isIBlock f = true ∧
      pcbOf n = 0x80 |||
        (((freshSession 3 3).phNxpEseProto7816_3_Var.phNxpEseRx_Cntx.lastRcvdIframeInfo.seqNo
          ^^^ 1) <<< 4) ||| 1 ∧
      w'.rsp = { rspBuf10 with len := 0 } ∧
      w'.phNxpEseProto7816_3_Var.phNxpEseProto7816_CurrentState
        = .PH_NXP_ESE_PROTO_7816_IDLE :=
  C20_retry_budget sampleConsts .T1oI2C_UM11225 silentPeer 0 (freshSession 3 3) cmd5 rspBuf10
    (fun _ => rfl) rfl (by decide) (by decide) (by decide) (by decide) (by decide) rfl rfl
    (by decide) (by decide)

/-- C20 fails as stated: in a freshly reset Dialect-A session with `rnack_retry_limit = 1`
and the timeout retry limit 1 of the sample configuration, with a peer that drops every
response, `Transceive` of the five-byte command returns FALSE after it has emitted three
blocks (the I-block, an R-NACK with PCB `0x81`, and the same R-NACK again after the
timeout), more than `rnack_retry_limit + 1 = 2`. -/
theorem C20_counterexample :
    ((Transceive sampleConsts .T1oI2C_UM11225 silentPeer 10 (freshSession 3 1) []
        (some cmd5) (some rspBuf10)).map fun x => (x.1, x.2.2.length, x.2.2.map pcbOf))
      = some (false, 3, [0x00, 0x81, 0x81]) ∧
    (freshSession 3 1).phNxpEseProto7816_3_Var.rnack_retry_limit = 1 ∧
    sampleConsts.PH_PROTO_7816_TIMEOUT_RETRY_COUNT = 1 ∧
    ¬ (3 ≤ (freshSession 3 1).phNxpEseProto7816_3_Var.rnack_retry_limit + 1) := by
  refine ⟨by decide!, by decide, by decide, by decide⟩

/-! ## The I2C write -/

/-- Whatever the write loop returns: the result is the requested length or -1, and the
attempts made are one or more calls with the same buffer and length. -/
theorem phPalEse_i2c_write_loop_spec (M : Nat) (drv : I2CDriver) (buf : List Nat) (n : Int) :
    ∀ (fuel rc : Nat) (log : List I2CAttempt) (r : Int × List I2CAttempt),
      phPalEse_i2c_write_loop M drv buf n fuel rc log = some r →
      (r.1 = n ∨ r.1 = -1) ∧ ∃ k, r.2 = log ++ List.replicate (k + 1) (buf, n) := by
  intro fuel
  induction fuel with
  | zero => intro rc log r h; simp [phPalEse_i2c_write_loop] at h
  | succ fuel ih =>
    intro rc log r h
    rw [phPalEse_i2c_write_loop] at h
    by_cases c1 : drv (log ++ [(buf, n)]) ≠ .I2C_OK
    · rw [if_pos c1] at h
      by_cases c2 : drv (log ++ [(buf, n)]) = .I2C_NACK_ON_ADDRESS ∧ rc < M
      · rw [if_pos c2] at h
        obtain ⟨h1, k, h2⟩ := ih _ _ r h
        refine ⟨h1, k + 1, ?_⟩
        rw [h2, List.append_assoc, List.singleton_append, ← List.replicate_succ]
      · rw [if_neg c2] at h
        rw [← Option.some.inj h]
        exact ⟨Or.inr rfl, 0, rfl⟩
    · rw [if_neg c1] at h
      rw [← Option.some.inj h]
      exact ⟨Or.inl rfl, 0, rfl⟩

/-- The write loop ends: with `retryCount` at most `MAX_RETRY_COUNT` it returns within
`MAX_RETRY_COUNT - retryCount + 1` iterations. -/
theorem phPalEse_i2c_write_loop_returns (M : Nat) (drv : I2CDriver) (buf : List Nat) (n : Int)
    (hM : M ≤ UINT_MAX) :
    ∀ (k fuel rc : Nat) (log : List I2CAttempt), rc + k = M →
      ∃ r, phPalEse_i2c_write_loop M drv buf n (k + 1 + fuel) rc log = some r ∧
        r.2.length ≤ log.length + k + 1 := by
  have hU : UINT_MAX = 4294967295 := rfl
  intro k
  induction k with
  | zero =>
    intro fuel rc log hk
    have e : 0 + 1 + fuel = fuel + 1 := by omega
    rw [e, phPalEse_i2c_write_loop]
    by_cases c1 : drv (log ++ [(buf, n)]) ≠ .I2C_OK
    · rw [if_pos c1, if_neg (by omega)]
      exact ⟨_, rfl, by simp⟩
    · rw [if_neg c1]
      exact ⟨_, rfl, by simp⟩
  | succ k ih =>
    intro fuel rc log hk
    have e : k + 1 + 1 + fuel = (k + 1 + fuel) + 1 := by omega
    rw [e, phPalEse_i2c_write_loop]
    by_cases c1 : drv (log ++ [(buf, n)]) ≠ .I2C_OK
    · rw [if_pos c1]
      by_cases c2 : drv (log ++ [(buf, n)]) = .I2C_NACK_ON_ADDRESS ∧ rc < M
      · rw [if_pos c2]
        have e2 : (rc + 1) % 4294967296 = rc + 1 := Nat.mod_eq_of_lt (by omega)
        rw [e2]
        obtain ⟨r, h1, h2⟩ := ih fuel (rc + 1) (log ++ [(buf, n)]) (by omega)
        refine ⟨r, h1, ?_⟩
        simp only [List.length_append, List.length_singleton] at h2
        omega
      · rw [if_neg c2]
        exact ⟨_, rfl, by simp⟩
    · rw [if_neg c1]
      exact ⟨_, rfl, by simp⟩

/-- C24: defensive NAD overwrite.  For every buffer and length passed to
`phPalEse_i2c_write` and every behaviour of the driver: whenever the function returns, it
returns the requested length or -1, it has made at least one write attempt, and every
attempt was handed the requested length and a buffer of the caller's length whose first
byte (when the buffer has one) is `0x5A` and whose other bytes are the caller's.  The
function does return, after at most `MAX_RETRY_COUNT + 1` attempts, when
`MAX_RETRY_COUNT` is an `unsigned int` value. -/
theorem C24_nad_overwrite (M : Nat) (drv : I2CDriver) (pBuffer : List Nat) (n : Int) :
    (∀ (fuel : Nat) (r : Int × List I2CAttempt),
      phPalEse_i2c_write M drv fuel pBuffer n = some r →
      (r.1 = n ∨ r.1 = -1) ∧ r.2 ≠ [] ∧
      ∀ a ∈ r.2, a.2 = n ∧ a.1.length = pBuffer.length ∧
        (pBuffer ≠ [] → a.1.head? = some 0x5A) ∧ a.1.tail = pBuffer.tail) ∧
    (M ≤ UINT_MAX → ∀ fuel : Nat,
      ∃ r, phPalEse_i2c_write M drv (M + 1 + fuel) pBuffer n = some r ∧
        r.2.length ≤ M + 1) := by
  refine ⟨?_, ?_⟩
  · intro fuel r h
    obtain ⟨h1, k, h2⟩ := phPalEse_i2c_write_loop_spec M drv _ n fuel 0 [] r h
    refine ⟨h1, by rw [h2]; simp [List.replicate_succ], ?_⟩
    intro a ha
    rw [h2, List.nil_append] at ha
    have ea := List.eq_of_mem_replicate ha
    rw [ea]
    refine ⟨rfl, by simp, ?_, ?_⟩
    · intro hne
      cases pBuffer with
      | nil => exact absurd rfl hne
      | cons x xs => rfl
    · cases pBuffer with
      | nil => rfl
      | cons x xs => rfl
  · intro hM fuel
    obtain ⟨r, h1, h2⟩ := phPalEse_i2c_write_loop_returns M drv (pBuffer.set 0 0x5A) n hM
      M fuel 0 [] (by omega)
    exact ⟨r, h1, by simpa using h2⟩

theorem C24_nad_overwrite_witness :
    ∃ r, phPalEse_i2c_write 10 (nackThenOk 2) (10 + 1 + 0) [0x00, 0xC5, 0x00, 0x11, 0x22] 5
        = some r ∧
      r = (5, List.replicate 3 ([0x5A, 0xC5, 0x00, 0x11, 0x22], 5)) ∧ r.2.length ≤ 10 + 1 := by
  obtain ⟨r, h1, h2⟩ := (C24_nad_overwrite 10 (nackThenOk 2) [0x00, 0xC5, 0x00, 0x11, 0x22]
    5).2 (by decide) 0
  refine ⟨r, h1, ?_, h2⟩
  have e : phPalEse_i2c_write 10 (nackThenOk 2) (10 + 1 + 0) [0x00, 0xC5, 0x00, 0x11, 0x22] 5
      = some (5, List.replicate 3 ([0x5A, 0xC5, 0x00, 0x11, 0x22], 5)) := by decide
  rw [e] at h1
  exact (Option.some.inj h1).symm

/-! ## Zero-length command -/

/-- C23: zero-length command.  `Transceive` called in Idle with a command of length 0
(whatever its data pointer, and whether or not a response descriptor is given) returns
FALSE, hands no block to the transport, and the current state is Idle on return.  (The
iteration bound of the model must allow the one iteration the loop makes.) -/
theorem C23_zero_length_command (K : Consts) (d : Dialect) (tr : Transport) (fuel : Nat)
    (w : Session) (hist : List (List Nat)) (cmd : phNxpEse_data)
    (pRsp : Option phNxpEse_data)
    (hidle : w.phNxpEseProto7816_3_Var.phNxpEseProto7816_CurrentState
      = .PH_NXP_ESE_PROTO_7816_IDLE)
    (hz : cmd.len = 0) :
    ∃ w' : Session,
      Transceive K d tr (fuel + 2) w hist (some cmd) pRsp = some (false, w', hist) ∧
      w'.phNxpEseProto7816_3_Var.phNxpEseProto7816_CurrentState
        = .PH_NXP_ESE_PROTO_7816_IDLE := by
  cases pRsp with
  | none =>
    exact ⟨w, Transceive_guard K d tr (fuel + 2) w hist (some cmd) none (Or.inr (Or.inl rfl)),
      hidle⟩
  | some rsp =>
    have hctx := installCmd_ctx w.phNxpEseProto7816_3_Var cmd
    have hlen : (installCmd w.phNxpEseProto7816_3_Var
        cmd).phNxpEseNextTx_Cntx.IframeInfo.sendDataLen = 0 := by
      rw [hctx, if_neg (by omega)]
      exact hz
    obtain ⟨s1, _⟩ := installCmd_state w.phNxpEseProto7816_3_Var cmd
    obtain ⟨_, r2, _, _, _⟩ := installCmd_rx w.phNxpEseProto7816_3_Var cmd
    have hsend : TransceiveProcess_send K d tr hist false
        { phNxpEseProto7816_3_Var := installCmd w.phNxpEseProto7816_3_Var cmd, rsp := rsp }
        = (false,
            { phNxpEseProto7816_3_Var := installCmd w.phNxpEseProto7816_3_Var cmd, rsp := rsp },
            hist) := by
      rw [TransceiveProcess_send_IFRAME K d tr hist false _ s1]
      unfold SendIframe
      rw [if_pos (by rw [hlen])]
    rw [Transceive_some K d tr _ w hist cmd rsp hidle, TransceiveProcess_loop_succ,
      if_neg (by rw [s1]; decide), hsend]
    simp only [Bool.false_eq_true, if_false]
    rw [TransceiveProcess_loop_succ, if_pos rfl]
    simp only [Option.some_bind]
    rw [if_neg (by rw [r2]; decide)]
    exact ⟨_, rfl, rfl⟩

theorem C23_zero_length_command_witness :
    ∃ w' : Session,
      Transceive sampleConsts .T1oI2C_UM11225 okPeer (0 + 2) (freshSession 3 3) []
          (some { len := 0, p_data := some [] }) (some rspBuf10) = some (false, w', []) ∧
      w'.phNxpEseProto7816_3_Var.phNxpEseProto7816_CurrentState
        = .PH_NXP_ESE_PROTO_7816_IDLE :=
  C23_zero_length_command sampleConsts .T1oI2C_UM11225 okPeer 0 (freshSession 3 3) []
    { len := 0, p_data := some [] } (some rspBuf10) rfl rfl

/-! ## The decode decision table -/

theorem sbit_le (pcb : Nat) : (pcb &&& 0x40) >>> 6 ≤ 1 := by
  have : pcb &&& 0x40 ≤ 0x40 := Nat.and_le_right
  rw [Nat.shiftRight_eq_div_pow]
  omega

/-- Decoding an I-block with the expected sequence number whose INF fits the installed
response buffer. -/
theorem DecodeFrame_I_fits (K : Consts) (d : Dialect) (buf dst : List Nat) (n pcb : Nat)
    (w : Session)
    (hseq : (pcb &&& 0x40) >>> 6
      ≠ w.phNxpEseProto7816_3_Var.phNxpEseRx_Cntx.lastRcvdIframeInfo.seqNo)
    (hp : w.phNxpEseProto7816_3_Var.phNxpEseRx_Cntx.pRsp = .caller)
    (hd : w.rsp.p_data = some dst)
    (hU : w.rsp.len ≤ UINT_MAX)
    (hfit : w.phNxpEseProto7816_3_Var.phNxpEseRx_Cntx.responseBytesRcvd
      + (n - PH_PROTO_7816_INF_FILED d) ≤ w.rsp.len) :
    ∃ x : Session, DecodeFrame_I K d buf n pcb w = (true, x) ∧
    x.phNxpEseProto7816_3_Var.recoveryCounter = 0 ∧
    x.phNxpEseProto7816_3_Var.phNxpEseRx_Cntx.lastRcvdIframeInfo.seqNo
      = (pcb &&& 0x40) >>> 6 ∧
    asm x =
      ({ w.rsp with
          p_data := some (memmove dst
            w.phNxpEseProto7816_3_Var.phNxpEseRx_Cntx.responseBytesRcvd
            (buf.drop (PH_PROPTO_7816_INF_BYTE_OFFSET d)) (n - PH_PROTO_7816_INF_FILED d)) },
        w.phNxpEseProto7816_3_Var.phNxpEseRx_Cntx.responseBytesRcvd
          + (n - PH_PROTO_7816_INF_FILED d)) ∧
    x.phNxpEseProto7816_3_Var.phNxpEseProto7816_nextTransceiveState
      = (if pcb &&& 0x20 ≠ 0 then .SEND_R_ACK else .IDLE_STATE) := by
  have hs : w.phNxpEseProto7816_3_Var.phNxpEseRx_Cntx.lastRcvdIframeInfo.seqNo
      ≠ (pcb &&& 0x40) >>> 6 := fun h => hseq h.symm
  have hb := sbit_le pcb
  have hm : (0x00 ||| (pcb &&& 0x40) >>> 6) % 256 = (pcb &&& 0x40) >>> 6 := by
    rw [Nat.zero_or]
    exact Nat.mod_eq_of_lt (by omega)
  unfold DecodeFrame_I
  lift_lets
  intro s14 s13 w1 inf w2 s12 s11 s10 w3 s9 s8 s7 s6 s5 w4a ra s4 s3 w4b rb s2 s1 s0
  have ha : ra = (true, { w4a with
        rsp.p_data := some (memmove dst
          w4a.phNxpEseProto7816_3_Var.phNxpEseRx_Cntx.responseBytesRcvd
          (buf.drop (PH_PROPTO_7816_INF_BYTE_OFFSET d)) (n - PH_PROTO_7816_INF_FILED d))
        phNxpEseProto7816_3_Var.phNxpEseRx_Cntx.responseBytesRcvd :=
          w4a.phNxpEseProto7816_3_Var.phNxpEseRx_Cntx.responseBytesRcvd
            + (n - PH_PROTO_7816_INF_FILED d) }) :=
    SaveRxframeData_ok (buf.drop (PH_PROPTO_7816_INF_BYTE_OFFSET d)) dst
      (n - PH_PROTO_7816_INF_FILED d) w4a hp hd (Nat.le_trans hfit hU) hfit
  have hbb : rb = (true, { w4b with
        rsp.p_data := some (memmove dst
          w4b.phNxpEseProto7816_3_Var.phNxpEseRx_Cntx.responseBytesRcvd
          (buf.drop (PH_PROPTO_7816_INF_BYTE_OFFSET d)) (n - PH_PROTO_7816_INF_FILED d))
        phNxpEseProto7816_3_Var.phNxpEseRx_Cntx.responseBytesRcvd :=
          w4b.phNxpEseProto7816_3_Var.phNxpEseRx_Cntx.responseBytesRcvd
            + (n - PH_PROTO_7816_INF_FILED d) }) :=
    SaveRxframeData_ok (buf.drop (PH_PROPTO_7816_INF_BYTE_OFFSET d)) dst
      (n - PH_PROTO_7816_INF_FILED d) w4b hp hd (Nat.le_trans hfit hU) hfit
  have ea : ra.1 = true := by rw [ha]
  have eb : rb.1 = true := by rw [hbb]
  rw [if_pos hs]
  by_cases c : pcb &&& 0x20 ≠ 0
  · rw [if_pos c, if_pos c, if_neg (by rw [ea]; decide)]
    refine ⟨_, rfl, ?_, ?_, ?_, rfl⟩
    · show ra.2.phNxpEseProto7816_3_Var.recoveryCounter = 0
      rw [ha]; rfl
    · show ra.2.phNxpEseProto7816_3_Var.phNxpEseRx_Cntx.lastRcvdIframeInfo.seqNo = _
      rw [ha]; exact hm
    · show (ra.2.rsp, ra.2.phNxpEseProto7816_3_Var.phNxpEseRx_Cntx.responseBytesRcvd) = _
      rw [ha]; rfl
  · rw [if_neg c, if_neg c, if_neg (by rw [eb]; decide)]
    refine ⟨_, rfl, ?_, ?_, ?_, ?_⟩
    · show rb.2.phNxpEseProto7816_3_Var.recoveryCounter = 0
      rw [hbb]; rfl
    · show rb.2.phNxpEseProto7816_3_Var.phNxpEseRx_Cntx.lastRcvdIframeInfo.seqNo = _
      rw [hbb]; exact hm
    · show (rb.2.rsp, rb.2.phNxpEseProto7816_3_Var.phNxpEseRx_Cntx.responseBytesRcvd) = _
      rw [hbb]; rfl
    · show rb.2.phNxpEseProto7816_3_Var.phNxpEseProto7816_nextTransceiveState = _
      rw [hbb]

/-- Decoding an I-block with the expected sequence number whose INF cannot be stored: the
recovery counter and the last received sequence number are updated all the same. -/
theorem DecodeFrame_I_overflow_fields (K : Consts) (d : Dialect) (buf : List Nat) (n pcb : Nat)
    (w : Session)
    (hseq : (pcb &&& 0x40) >>> 6
      ≠ w.phNxpEseProto7816_3_Var.phNxpEseRx_Cntx.lastRcvdIframeInfo.seqNo)
    (hov : w.rsp.p_data = none ∨
      w.rsp.len < w.phNxpEseProto7816_3_Var.phNxpEseRx_Cntx.responseBytesRcvd
        + (n - PH_PROTO_7816_INF_FILED d)) :
    ∃ x : Session, DecodeFrame_I K d buf n pcb w = (false, x) ∧
    x.phNxpEseProto7816_3_Var.recoveryCounter = 0 ∧
    x.phNxpEseProto7816_3_Var.phNxpEseRx_Cntx.lastRcvdIframeInfo.seqNo
      = (pcb &&& 0x40) >>> 6 ∧
    asm x = asm w ∧
    x.phNxpEseProto7816_3_Var.phNxpEseProto7816_nextTransceiveState = .IDLE_STATE := by
  have hs : w.phNxpEseProto7816_3_Var.phNxpEseRx_Cntx.lastRcvdIframeInfo.seqNo
      ≠ (pcb &&& 0x40) >>> 6 := fun h => hseq h.symm
  have hb := sbit_le pcb
  have hm : (0x00 ||| (pcb &&& 0x40) >>> 6) % 256 = (pcb &&& 0x40) >>> 6 := by
    rw [Nat.zero_or]
    exact Nat.mod_eq_of_lt (by omega)
  unfold DecodeFrame_I
  lift_lets
  intro s14 s13 w1 inf w2 s12 s11 s10 w3 s9 s8 s7 s6 s5 w4a ra s4 s3 w4b rb s2 s1 s0
  have ha : ra = (false, w4a) :=
    SaveRxframeData_fail (buf.drop (PH_PROPTO_7816_INF_BYTE_OFFSET d))
      (n - PH_PROTO_7816_INF_FILED d) w4a hov
  have hb : rb = (false, w4b) :=
    SaveRxframeData_fail (buf.drop (PH_PROPTO_7816_INF_BYTE_OFFSET d))
      (n - PH_PROTO_7816_INF_FILED d) w4b hov
  have ea : ra.1 = false := by rw [ha]
  have eb : rb.1 = false := by rw [hb]
  rw [if_pos hs]
  by_cases c : pcb &&& 0x20 ≠ 0
  · rw [if_pos c, if_pos ea]
    refine ⟨_, rfl, ?_, ?_, ?_, ?_⟩
    · show ra.2.phNxpEseProto7816_3_Var.recoveryCounter = 0
      rw [ha]; rfl
    · show ra.2.phNxpEseProto7816_3_Var.phNxpEseRx_Cntx.lastRcvdIframeInfo.seqNo = _
      rw [ha]; exact hm
    · show (ra.2.rsp, ra.2.phNxpEseProto7816_3_Var.phNxpEseRx_Cntx.responseBytesRcvd) = _
      rw [ha]; rfl
    · rfl
  · rw [if_neg c, if_pos eb]
    refine ⟨_, rfl, ?_, ?_, ?_, ?_⟩
    · show rb.2.phNxpEseProto7816_3_Var.recoveryCounter = 0
      rw [hb]; rfl
    · show rb.2.phNxpEseProto7816_3_Var.phNxpEseRx_Cntx.lastRcvdIframeInfo.seqNo = _
      rw [hb]; exact hm
    · show (rb.2.rsp, rb.2.phNxpEseProto7816_3_Var.phNxpEseRx_Cntx.responseBytesRcvd) = _
      rw [hb]; rfl
    · show rb.2.phNxpEseProto7816_3_Var.phNxpEseProto7816_nextTransceiveState = _
      rw [hb]

/-- C26 (as amended): decoding an I-block whose S bit differs from the sequence number of
the last received I-block, with the caller's response buffer installed.  When the INF (the
bytes between the header and the CRC) fits the rest of the buffer: `DecodeFrame` returns
TRUE, `recoveryCounter` becomes 0, the last received sequence number becomes that S bit,
the INF is stored at the cursor `responseBytesRcvd`, which advances by its length, and the
next step is `SEND_R_ACK` when the chaining bit is 1 and `IDLE_STATE` when it is 0.  When
the INF does not fit: `DecodeFrame` returns FALSE, the two updates are made all the same,
nothing is appended and the next step is `IDLE_STATE`, whatever the chaining bit. -/
theorem C26_expected_iblock (K : Consts) (d : Dialect) (fuel : Nat) (r dst : List Nat)
    (w : Session) (hg : GoodFrame K d r) (h80 : pcbOf r &&& 0x80 = 0)
    (hseq : (pcbOf r &&& 0x40) >>> 6
      ≠ w.phNxpEseProto7816_3_Var.phNxpEseRx_Cntx.lastRcvdIframeInfo.seqNo)
    (hp : w.phNxpEseProto7816_3_Var.phNxpEseRx_Cntx.pRsp = .caller)
    (hd : w.rsp.p_data = some dst) (hU : w.rsp.len ≤ UINT_MAX) :
    (w.phNxpEseProto7816_3_Var.phNxpEseRx_Cntx.responseBytesRcvd
        + (r.length - PH_PROTO_7816_INF_FILED d) ≤ w.rsp.len →
      ∃ w' : Session, DecodeFrame K d fuel (some r) r.length w = some (true, w') ∧
        w'.phNxpEseProto7816_3_Var.recoveryCounter = 0 ∧
        w'.phNxpEseProto7816_3_Var.phNxpEseRx_Cntx.lastRcvdIframeInfo.seqNo
          = (pcbOf r &&& 0x40) >>> 6 ∧
        w'.rsp = { w.rsp with
          p_data := some
            (dst.take w.phNxpEseProto7816_3_Var.phNxpEseRx_Cntx.responseBytesRcvd
              ++ infOf d r
              ++ dst.drop (w.phNxpEseProto7816_3_Var.phNxpEseRx_Cntx.responseBytesRcvd
                + (r.length - PH_PROTO_7816_INF_FILED d))) } ∧
        w'.phNxpEseProto7816_3_Var.phNxpEseRx_Cntx.responseBytesRcvd
          = w.phNxpEseProto7816_3_Var.phNxpEseRx_Cntx.responseBytesRcvd
            + (r.length - PH_PROTO_7816_INF_FILED d) ∧
        w'.phNxpEseProto7816_3_Var.phNxpEseProto7816_nextTransceiveState
          = (if pcbOf r &&& 0x20 ≠ 0 then .SEND_R_ACK else .IDLE_STATE)) ∧
    (w.rsp.len < w.phNxpEseProto7816_3_Var.phNxpEseRx_Cntx.responseBytesRcvd
        + (r.length - PH_PROTO_7816_INF_FILED d) →
      ∃ w' : Session, DecodeFrame K d fuel (some r) r.length w = some (false, w') ∧
        w'.phNxpEseProto7816_3_Var.recoveryCounter = 0 ∧
        w'.phNxpEseProto7816_3_Var.phNxpEseRx_Cntx.lastRcvdIframeInfo.seqNo
          = (pcbOf r &&& 0x40) >>> 6 ∧
        asm w' = asm w ∧
        w'.phNxpEseProto7816_3_Var.phNxpEseProto7816_nextTransceiveState = .IDLE_STATE) := by
  rw [DecodeFrame_I_block K d fuel r w hg h80]
  refine ⟨?_, ?_⟩
  · intro hfit
    obtain ⟨x, e, a2, a3, a4, a5⟩ := DecodeFrame_I_fits K d r dst r.length (pcbOf r) w hseq
      hp hd hU hfit
    rw [e]
    exact ⟨x, rfl, a2, a3, congrArg Prod.fst a4, congrArg Prod.snd a4, a5⟩
  · intro hov
    obtain ⟨x, e, c1, c2, c3, c4⟩ := DecodeFrame_I_overflow_fields K d r r.length (pcbOf r) w
      hseq (Or.inr hov)
    rw [e]
    exact ⟨x, rfl, c1, c2, c3, c4⟩

theorem C26_expected_iblock_witness :
    (oneByteSession.phNxpEseProto7816_3_Var.phNxpEseRx_Cntx.responseBytesRcvd
        + ((withCRC .T1oI2C_UM11225 [0x5A, 0x00, 0x01, 0x90]).length
          - PH_PROTO_7816_INF_FILED .T1oI2C_UM11225) ≤ oneByteSession.rsp.len →
      ∃ w' : Session,
        DecodeFrame sampleConsts .T1oI2C_UM11225 4
          (some (withCRC .T1oI2C_UM11225 [0x5A, 0x00, 0x01, 0x90]))
          (withCRC .T1oI2C_UM11225 [0x5A, 0x00, 0x01, 0x90]).length oneByteSession
            = some (true, w') ∧
        w'.phNxpEseProto7816_3_Var.recoveryCounter = 0 ∧
        w'.phNxpEseProto7816_3_Var.phNxpEseRx_Cntx.lastRcvdIframeInfo.seqNo
          = (pcbOf (withCRC .T1oI2C_UM11225 [0x5A, 0x00, 0x01, 0x90]) &&& 0x40) >>> 6 ∧
        w'.rsp = { oneByteSession.rsp with
          p_data := some
            (([0] : List Nat).take
                oneByteSession.phNxpEseProto7816_3_Var.phNxpEseRx_Cntx.responseBytesRcvd
              ++ infOf .T1oI2C_UM11225 (withCRC .T1oI2C_UM11225 [0x5A, 0x00, 0x01, 0x90])
              ++ ([0] : List Nat).drop
                (oneByteSession.phNxpEseProto7816_3_Var.phNxpEseRx_Cntx.responseBytesRcvd
                  + ((withCRC .T1oI2C_UM11225 [0x5A, 0x00, 0x01, 0x90]).length
                    - PH_PROTO_7816_INF_FILED .T1oI2C_UM11225))) } ∧
        w'.phNxpEseProto7816_3_Var.phNxpEseRx_Cntx.responseBytesRcvd
          = oneByteSession.phNxpEseProto7816_3_Var.phNxpEseRx_Cntx.responseBytesRcvd
            + ((withCRC .T1oI2C_UM11225 [0x5A, 0x00, 0x01, 0x90]).length
              - PH_PROTO_7816_INF_FILED .T1oI2C_UM11225) ∧
        w'.phNxpEseProto7816_3_Var.phNxpEseProto7816_nextTransceiveState
          = (if pcbOf (withCRC .T1oI2C_UM11225 [0x5A, 0x00, 0x01, 0x90]) &&& 0x20 ≠ 0
              then .SEND_R_ACK else .IDLE_STATE)) ∧
    infOf .T1oI2C_UM11225 (withCRC .T1oI2C_UM11225 [0x5A, 0x00, 0x01, 0x90]) = [0x90] :=
  ⟨(C26_expected_iblock sampleConsts .T1oI2C_UM11225 4
      (withCRC .T1oI2C_UM11225 [0x5A, 0x00, 0x01, 0x90]) [0] oneByteSession
      ⟨by decide, by decide⟩ (by decide) (by decide) rfl rfl (by decide)).1,
    by decide⟩

/-- C26 fails as stated: a chained I-block with the expected sequence number (S = 0 after a
reset, M = 1) carrying the two bytes `AA BB` is decoded while the caller's response buffer
has capacity 1.  `DecodeFrame` returns FALSE, nothing is appended (the cursor stays 0 and
the buffer is unchanged) and the next step is `IDLE_STATE`, not `SEND_R_ACK`. -/
theorem C26_counterexample :
    ((DecodeFrame sampleConsts .T1oI2C_UM11225 4
        (some (withCRC .T1oI2C_UM11225 [0x5A, 0x20, 0x02, 0xAA, 0xBB]))
        (withCRC .T1oI2C_UM11225 [0x5A, 0x20, 0x02, 0xAA, 0xBB]).length oneByteSession).map
      fun x => (x.1, x.2.phNxpEseProto7816_3_Var.phNxpEseProto7816_nextTransceiveState,
        x.2.phNxpEseProto7816_3_Var.phNxpEseRx_Cntx.responseBytesRcvd, x.2.rsp.p_data))
      = some (false, .IDLE_STATE, 0, some [0]) ∧
    oneByteSession.phNxpEseProto7816_3_Var.phNxpEseRx_Cntx.lastRcvdIframeInfo.seqNo = 1 ∧
    oneByteSession.rsp = { len := 1, p_data := some [0] } := by
  refine ⟨by decide!, by decide, by decide⟩

/-- Decoding an I-block that repeats the last received sequence number. -/
theorem DecodeFrame_I_repeat (K : Consts) (d : Dialect) (buf : List Nat) (n pcb : Nat)
    (w : Session)
    (hseq : (pcb &&& 0x40) >>> 6
      = w.phNxpEseProto7816_3_Var.phNxpEseRx_Cntx.lastRcvdIframeInfo.seqNo) :
    ∃ x : Session, DecodeFrame_I K d buf n pcb w = (true, x) ∧
    asm x = asm w ∧
    x.phNxpEseProto7816_3_Var.recoveryCounter
      = (if w.phNxpEseProto7816_3_Var.recoveryCounter < K.PH_PROTO_7816_FRAME_RETRY_COUNT
          then w.phNxpEseProto7816_3_Var.recoveryCounter + 1
          else (w.phNxpEseProto7816_3_Var.recoveryCounter + 1)
            % (K.RECOVERY_COUNTER_MAX + 1)) ∧
    (w.phNxpEseProto7816_3_Var.recoveryCounter < K.PH_PROTO_7816_FRAME_RETRY_COUNT →
      x.phNxpEseProto7816_3_Var.phNxpEseProto7816_nextTransceiveState = .SEND_R_NACK ∧
      x.phNxpEseProto7816_3_Var.phNxpEseNextTx_Cntx.FrameType = .RFRAME ∧
      x.phNxpEseProto7816_3_Var.phNxpEseNextTx_Cntx.RframeInfo.errCode = .OTHER_ERROR) ∧
    (w.phNxpEseProto7816_3_Var.recoveryCounter = K.PH_PROTO_7816_FRAME_RETRY_COUNT →
      x.phNxpEseProto7816_3_Var.phNxpEseProto7816_nextTransceiveState = resetStep d ∧
      x.phNxpEseProto7816_3_Var.phNxpEseNextTx_Cntx.FrameType = .SFRAME ∧
      x.phNxpEseProto7816_3_Var.phNxpEseNextTx_Cntx.SframeInfo.sFrameType = resetReq d) ∧
    (K.PH_PROTO_7816_FRAME_RETRY_COUNT < w.phNxpEseProto7816_3_Var.recoveryCounter →
      x.phNxpEseProto7816_3_Var.phNxpEseProto7816_nextTransceiveState = .IDLE_STATE) := by
  unfold DecodeFrame_I
  lift_lets
  intro s14 s13 w1 inf w2 s12 s11 s10 w3 s9 s8 s7 s6 s5 w4a ra s4 s3 w4b rb s2 s1 s0
  rw [if_neg (by rw [not_not]; exact hseq.symm)]
  by_cases c : w.phNxpEseProto7816_3_Var.recoveryCounter < K.PH_PROTO_7816_FRAME_RETRY_COUNT
  · have c' : w1.phNxpEseProto7816_3_Var.recoveryCounter
        < K.PH_PROTO_7816_FRAME_RETRY_COUNT := c
    rw [if_pos c', if_pos c]
    exact ⟨_, rfl, rfl, rfl, fun _ => ⟨rfl, rfl, rfl⟩, fun h => by omega, fun h => by omega⟩
  · have c' : ¬ w1.phNxpEseProto7816_3_Var.recoveryCounter
        < K.PH_PROTO_7816_FRAME_RETRY_COUNT := c
    rw [if_neg c', if_neg c]
    unfold DecodeFrame_escalate RecoverySteps
    by_cases c2 : w.phNxpEseProto7816_3_Var.recoveryCounter ≤ K.PH_PROTO_7816_FRAME_RETRY_COUNT
    · have e : w1.phNxpEseProto7816_3_Var.recoveryCounter
          ≤ K.PH_PROTO_7816_FRAME_RETRY_COUNT := c2
      rw [if_pos e]
      cases d
      · exact ⟨_, rfl, rfl, rfl, fun h => absurd h c, fun _ => ⟨rfl, rfl, rfl⟩,
          fun h => by omega⟩
      · exact ⟨_, rfl, rfl, rfl, fun h => absurd h c, fun _ => ⟨rfl, rfl, rfl⟩,
          fun h => by omega⟩
    · have e : ¬ w1.phNxpEseProto7816_3_Var.recoveryCounter
          ≤ K.PH_PROTO_7816_FRAME_RETRY_COUNT := c2
      rw [if_neg e]
      exact ⟨_, rfl, rfl, rfl, fun h => absurd h c, fun h => by omega, fun _ => rfl⟩

/-- C27 (as amended): decoding an I-block whose S bit equals the sequence number of the
last received I-block.  `DecodeFrame` returns and nothing is appended to the response
assembly.  If `recoveryCounter` was below the frame retry limit, the next step is
`SEND_R_NACK` with error code "other" and `recoveryCounter` is incremented by 1; if it
was equal to the limit, the hard-recovery S-request of the dialect is scheduled
(`SEND_S_INTF_RST` in Dialect-A, `SEND_S_SWR` in Dialect-B); if it was already past the
limit, the next step is `IDLE_STATE`. -/
theorem C27_unexpected_iblock (K : Consts) (d : Dialect) (fuel : Nat) (r : List Nat)
    (w : Session) (hg : GoodFrame K d r) (h80 : pcbOf r &&& 0x80 = 0)
    (hseq : (pcbOf r &&& 0x40) >>> 6
      = w.phNxpEseProto7816_3_Var.phNxpEseRx_Cntx.lastRcvdIframeInfo.seqNo) :
    ∃ (s : Bool) (w' : Session), DecodeFrame K d fuel (some r) r.length w = some (s, w') ∧
      asm w' = asm w ∧
      (w.phNxpEseProto7816_3_Var.recoveryCounter < K.PH_PROTO_7816_FRAME_RETRY_COUNT →
        w'.phNxpEseProto7816_3_Var.phNxpEseProto7816_nextTransceiveState = .SEND_R_NACK ∧
        w'.phNxpEseProto7816_3_Var.phNxpEseNextTx_Cntx.FrameType = .RFRAME ∧
        w'.phNxpEseProto7816_3_Var.phNxpEseNextTx_Cntx.RframeInfo.errCode = .OTHER_ERROR ∧
        w'.phNxpEseProto7816_3_Var.recoveryCounter
          = w.phNxpEseProto7816_3_Var.recoveryCounter + 1) ∧
      (w.phNxpEseProto7816_3_Var.recoveryCounter = K.PH_PROTO_7816_FRAME_RETRY_COUNT →
        w'.phNxpEseProto7816_3_Var.phNxpEseProto7816_nextTransceiveState = resetStep d ∧
        w'.phNxpEseProto7816_3_Var.phNxpEseNextTx_Cntx.FrameType = .SFRAME ∧
        w'.phNxpEseProto7816_3_Var.phNxpEseNextTx_Cntx.SframeInfo.sFrameType = resetReq d) ∧
      (K.PH_PROTO_7816_FRAME_RETRY_COUNT < w.phNxpEseProto7816_3_Var.recoveryCounter →
        w'.phNxpEseProto7816_3_Var.phNxpEseProto7816_nextTransceiveState = .IDLE_STATE) := by
  rw [DecodeFrame_I_block K d fuel r w hg h80]
  obtain ⟨x, e, a2, a3, a4, a5, a6⟩ := DecodeFrame_I_repeat K d r r.length (pcbOf r) w hseq
  rw [e]
  exact ⟨_, _, rfl, a2,
    fun h => ⟨(a4 h).1, (a4 h).2.1, (a4 h).2.2, by rw [a3, if_pos h]⟩, a5, a6⟩

theorem C27_unexpected_iblock_witness :
    ∃ (s : Bool) (w' : Session),
      DecodeFrame sampleConsts .T1oI2C_UM11225 4
        (some (withCRC .T1oI2C_UM11225 [0x5A, 0x40, 0x00]))
        (withCRC .T1oI2C_UM11225 [0x5A, 0x40, 0x00]).length (freshSession 3 3)
          = some (s, w') ∧
      w'.phNxpEseProto7816_3_Var.phNxpEseProto7816_nextTransceiveState = .SEND_R_NACK ∧
      w'.phNxpEseProto7816_3_Var.phNxpEseNextTx_Cntx.RframeInfo.errCode = .OTHER_ERROR ∧
      w'.phNxpEseProto7816_3_Var.recoveryCounter = 1 := by
  obtain ⟨s, w', h1, _, h4, _, _⟩ := C27_unexpected_iblock sampleConsts .T1oI2C_UM11225 4
    (withCRC .T1oI2C_UM11225 [0x5A, 0x40, 0x00]) (freshSession 3 3)
    ⟨by decide, by decide⟩ (by decide) (by decide)
  exact ⟨s, w', h1, (h4 (by decide)).1, (h4 (by decide)).2.2.1, (h4 (by decide)).2.2.2⟩

/-- C27 fails as stated: with the frame retry limit 3 and `recoveryCounter = 4` (not below
the limit), decoding an I-block that repeats the last received sequence number schedules
`IDLE_STATE`, not the Interface-Reset request, and `recoveryCounter` becomes 5.  The
state is reached in a run: a peer that answers every block with that I-block draws the
I-block, three R-NACKs and the Interface-Reset request, after which the loop stops. -/
theorem C27_counterexample :
    ((DecodeFrame sampleConsts .T1oI2C_UM11225 4
        (some (withCRC .T1oI2C_UM11225 [0x5A, 0x40, 0x00]))
        (withCRC .T1oI2C_UM11225 [0x5A, 0x40, 0x00]).length pastBudgetSession).map
      fun x => (x.2.phNxpEseProto7816_3_Var.phNxpEseProto7816_nextTransceiveState,
        x.2.phNxpEseProto7816_3_Var.recoveryCounter))
      = some (.IDLE_STATE, 5) ∧
    pastBudgetSession.phNxpEseProto7816_3_Var.recoveryCounter = 4 ∧
    sampleConsts.PH_PROTO_7816_FRAME_RETRY_COUNT = 3 ∧
    pastBudgetSession.phNxpEseProto7816_3_Var.phNxpEseRx_Cntx.lastRcvdIframeInfo.seqNo = 1 ∧
    ((Transceive sampleConsts .T1oI2C_UM11225 wrongSeqPeer 10 (freshSession 3 3) []
        (some cmd5) (some rspBuf10)).map fun x =>
          (x.2.1.phNxpEseProto7816_3_Var.recoveryCounter, x.2.2.map pcbOf))
      = some (5, [0x00, 0x82, 0x82, 0x82, 0xCF]) := by
  refine ⟨by decide!, by decide, by decide, by decide, by decide!⟩

/-- Decoding an error-free R-block whose sequence bit equals the sequence number of the
last-sent I context: apart from the bookkeeping of the received block and the reset of the
recovery counter, nothing changes; in particular no next step is scheduled. -/
theorem DecodeFrame_R_same (K : Consts) (d : Dialect) (pcb : Nat) (w : Session)
    (h1 : pcb &&& 0x01 = 0) (h2 : pcb &&& 0x02 = 0)
    (hseq : (pcb &&& 0x10) >>> 4
      = w.phNxpEseProto7816_3_Var.phNxpEseLastTx_Cntx.IframeInfo.seqNo) :
    DecodeFrame_R K d pcb w =
      (true, { w with
        phNxpEseProto7816_3_Var :=
          { w.phNxpEseProto7816_3_Var with
            wtx_counter := 0
            phNxpEseRx_Cntx.lastRcvdFrameType := .RFRAME
            phNxpEseRx_Cntx.lastRcvdRframeInfo :=
              { seqNo := (pcb &&& 0x10) >>> 4, errCode := .NO_ERROR }
            recoveryCounter := 0 } }) := by
  have hb := seqbit_le pcb
  have hm : (0 ||| (pcb &&& 0x10) >>> 4) % 256 = (pcb &&& 0x10) >>> 4 := by
    rw [Nat.zero_or]
    exact Nat.mod_eq_of_lt (by omega)
  unfold DecodeFrame_R
  lift_lets
  intro s6 s5 s4 v1 pL s3 s2 v2a v3a v4 v2 s1 s0 v3
  rw [if_pos ⟨h1, h2⟩, if_neg (by
    rw [not_not]
    show (0 ||| (pcb &&& 0x10) >>> 4) % 256
      = w.phNxpEseProto7816_3_Var.phNxpEseLastTx_Cntx.IframeInfo.seqNo
    rw [hm]; exact hseq)]
  show (true, ({ phNxpEseProto7816_3_Var := _, rsp := _ } : Session)) = _
  unfold v3a v2a v1 ResetRecovery
  simp only [hm]

/-- Decoding an R-block that reports a parity or other error while retries remain and the
last-sent block was an I-block, as one equation: `v2` is the instance after the
bookkeeping of the received block. -/
theorem DecodeFrame_R_nack_I_eq (K : Consts) (d : Dialect) (pcb : Nat) (w : Session)
    (herr : (pcb &&& 0x01 ≠ 0 ∧ pcb &&& 0x02 = 0) ∨ (pcb &&& 0x01 = 0 ∧ pcb &&& 0x02 ≠ 0))
    (hrc : w.phNxpEseProto7816_3_Var.recoveryCounter < K.PH_PROTO_7816_FRAME_RETRY_COUNT)
    (hft : w.phNxpEseProto7816_3_Var.phNxpEseLastTx_Cntx.FrameType = .IFRAME) :
    ∃ v2 : phNxpEseProto7816_t,
      DecodeFrame_R K d pcb w =
        (true, { w with
          phNxpEseProto7816_3_Var :=
            { DecodeFrame_resendI v2 with recoveryCounter := v2.recoveryCounter + 1 } }) ∧
      v2.recoveryCounter = w.phNxpEseProto7816_3_Var.recoveryCounter ∧
      v2.phNxpEseLastTx_Cntx = w.phNxpEseProto7816_3_Var.phNxpEseLastTx_Cntx ∧
      v2.phNxpEseRx_Cntx.responseBytesRcvd
        = w.phNxpEseProto7816_3_Var.phNxpEseRx_Cntx.responseBytesRcvd ∧
      v2.phNxpEseRx_Cntx.lastRcvdRframeInfo.errCode
        = (if pcb &&& 0x01 = 0 ∧ pcb &&& 0x02 ≠ 0 then .OTHER_ERROR else .PARITY_ERROR) := by
  have hne : ¬ (pcb &&& 0x01 = 0 ∧ pcb &&& 0x02 = 0) := by
    rcases herr with h | h
    · exact fun c => h.1 c.1
    · exact fun c => h.2 c.2
  unfold DecodeFrame_R
  lift_lets
  intro s6 s5 s4 v1 pL s3 s2 v2a v3a v4 v2 s1 s0 v3
  have hv2 : v2.recoveryCounter = w.phNxpEseProto7816_3_Var.recoveryCounter ∧
      v2.phNxpEseLastTx_Cntx = w.phNxpEseProto7816_3_Var.phNxpEseLastTx_Cntx ∧
      v2.phNxpEseRx_Cntx.responseBytesRcvd
        = w.phNxpEseProto7816_3_Var.phNxpEseRx_Cntx.responseBytesRcvd ∧
      v2.phNxpEseRx_Cntx.lastRcvdRframeInfo.errCode
        = (if pcb &&& 0x01 = 0 ∧ pcb &&& 0x02 ≠ 0 then .OTHER_ERROR else .PARITY_ERROR) := by
    unfold v2
    split <;> exact ⟨rfl, rfl, rfl, rfl⟩
  have hv3 : v3 = DecodeFrame_resendI v2 := by
    unfold v3
    rw [if_pos (by rw [hv2.2.1]; exact hft)]
  refine ⟨v2, ?_, hv2⟩
  rw [if_neg hne, if_pos herr, if_pos (by rw [hv2.1]; exact hrc)]
  show (true, ({ w with
    phNxpEseProto7816_3_Var := { v3 with recoveryCounter := v3.recoveryCounter + 1 } }
      : Session)) = _
  rw [hv3]
  rfl

/-- The fields the retransmission after an R-NACK sets, read off the equation. -/
theorem DecodeFrame_R_nack_I (K : Consts) (d : Dialect) (pcb : Nat) (w : Session)
    (herr : (pcb &&& 0x01 ≠ 0 ∧ pcb &&& 0x02 = 0) ∨ (pcb &&& 0x01 = 0 ∧ pcb &&& 0x02 ≠ 0))
    (hrc : w.phNxpEseProto7816_3_Var.recoveryCounter < K.PH_PROTO_7816_FRAME_RETRY_COUNT)
    (hft : w.phNxpEseProto7816_3_Var.phNxpEseLastTx_Cntx.FrameType = .IFRAME) :
    ∃ x : Session, DecodeFrame_R K d pcb w = (true, x) ∧
      x.phNxpEseProto7816_3_Var.phNxpEseNextTx_Cntx
        = w.phNxpEseProto7816_3_Var.phNxpEseLastTx_Cntx ∧
      x.phNxpEseProto7816_3_Var.phNxpEseLastTx_Cntx
        = w.phNxpEseProto7816_3_Var.phNxpEseLastTx_Cntx ∧
      x.phNxpEseProto7816_3_Var.phNxpEseProto7816_nextTransceiveState = .SEND_IFRAME ∧
      x.phNxpEseProto7816_3_Var.recoveryCounter
        = w.phNxpEseProto7816_3_Var.recoveryCounter + 1 ∧
      x.phNxpEseProto7816_3_Var.phNxpEseRx_Cntx.lastRcvdRframeInfo.errCode
        = (if pcb &&& 0x01 = 0 ∧ pcb &&& 0x02 ≠ 0 then .OTHER_ERROR else .PARITY_ERROR) ∧
      asm x = asm w := by
  obtain ⟨v2, e, a1, a2, a3, a4⟩ := DecodeFrame_R_nack_I_eq K d pcb w herr hrc hft
  have heta : ({ w.phNxpEseProto7816_3_Var.phNxpEseLastTx_Cntx with FrameType := .IFRAME }
      : phNxpEseProto7816_NextTx_Info_t) = w.phNxpEseProto7816_3_Var.phNxpEseLastTx_Cntx := by
    rw [← hft]
  refine ⟨_, e, ?_, a2, rfl, ?_, a4, ?_⟩
  · show ({ v2.phNxpEseLastTx_Cntx with FrameType := .IFRAME }
      : phNxpEseProto7816_NextTx_Info_t) = _
    rw [a2]
    exact heta
  · show v2.recoveryCounter + 1 = _
    rw [a1]
  · show (w.rsp, v2.phNxpEseRx_Cntx.responseBytesRcvd) = _
    rw [a3]
    rfl

/-- One iteration of the loop that sends the I-block of the next-to-send context and reads
an error-free R-block whose sequence bit equals the sequence number of that I-block: the
loop goes on with status TRUE in a session whose next step is still `SEND_IFRAME` and
whose next-to-send context is unchanged. -/
theorem loop_step_same_ack (K : Consts) (d : Dialect) (tr : Transport) (fuel : Nat)
    (status : Bool) (w : Session) (hist : List (List Nat)) (r : List Nat)
    (hst : w.phNxpEseProto7816_3_Var.phNxpEseProto7816_nextTransceiveState = .SEND_IFRAME)
    (g1 : 1 ≤ w.phNxpEseProto7816_3_Var.phNxpEseNextTx_Cntx.IframeInfo.sendDataLen)
    (g2 : w.phNxpEseProto7816_3_Var.phNxpEseNextTx_Cntx.IframeInfo.sendDataLen
        + PH_PROTO_7816_HEADER_LEN d + PH_PROTO_7816_CRC_LEN ≤ K.MAX_APDU_BUFFER)
    (g3 : w.phNxpEseProto7816_3_Var.phNxpEseNextTx_Cntx.IframeInfo.sendDataLen ≤ UINT_MAX - 6)
    (hr : tr (hist ++ [SendIframe_frame d
        w.phNxpEseProto7816_3_Var.phNxpEseNextTx_Cntx.IframeInfo.seqNo
        w.phNxpEseProto7816_3_Var.phNxpEseNextTx_Cntx.IframeInfo]) = .received r)
    (hg : GoodFrame K d r)
    (h80 : pcbOf r &&& 0x80 ≠ 0) (h40 : pcbOf r &&& 0x40 = 0)
    (h1 : pcbOf r &&& 0x01 = 0) (h2 : pcbOf r &&& 0x02 = 0)
    (hseq : (pcbOf r &&& 0x10) >>> 4
      = w.phNxpEseProto7816_3_Var.phNxpEseNextTx_Cntx.IframeInfo.seqNo) :
    ∃ w' : Session,
      TransceiveProcess_loop K d tr (fuel + 1) status w hist =
        TransceiveProcess_loop K d tr fuel true w' (hist ++ [SendIframe_frame d
          w.phNxpEseProto7816_3_Var.phNxpEseNextTx_Cntx.IframeInfo.seqNo
          w.phNxpEseProto7816_3_Var.phNxpEseNextTx_Cntx.IframeInfo]) ∧
      w'.phNxpEseProto7816_3_Var.phNxpEseProto7816_nextTransceiveState = .SEND_IFRAME ∧
      w'.phNxpEseProto7816_3_Var.phNxpEseNextTx_Cntx
        = w.phNxpEseProto7816_3_Var.phNxpEseNextTx_Cntx ∧
      asm w' = asm w := by
  have hH : PH_PROTO_7816_HEADER_LEN d ≤ 4 := by cases d <;> decide
  have hC : PH_PROTO_7816_CRC_LEN = 2 := rfl
  have g3' : w.phNxpEseProto7816_3_Var.phNxpEseNextTx_Cntx.IframeInfo.sendDataLen
      ≤ UINT_MAX - (PH_PROTO_7816_HEADER_LEN d + PH_PROTO_7816_CRC_LEN) := by
    have hU : UINT_MAX = 4294967295 := rfl
    omega
  rw [loop_step_I K d tr fuel status w hist r hst g1 g2 g3' hr hg,
    DecodeFrame_R_block K d fuel r _ hg h80 h40,
    DecodeFrame_R_same K d (pcbOf r) _ h1 h2 hseq]
  simp only [Option.some_bind]
  exact ⟨_, rfl, hst, rfl, rfl⟩

/-! ## R-blocks in the loop -/

/-- The block the send step emits when the next step is `SEND_IFRAME`. -/
theorem TransceiveProcess_send_IFRAME_hist (K : Consts) (d : Dialect) (tr : Transport)
    (hist : List (List Nat)) (status : Bool) (w : Session)
    (hst : w.phNxpEseProto7816_3_Var.phNxpEseProto7816_nextTransceiveState = .SEND_IFRAME)
    (g1 : 1 ≤ w.phNxpEseProto7816_3_Var.phNxpEseNextTx_Cntx.IframeInfo.sendDataLen)
    (g2 : w.phNxpEseProto7816_3_Var.phNxpEseNextTx_Cntx.IframeInfo.sendDataLen
        + PH_PROTO_7816_HEADER_LEN d + PH_PROTO_7816_CRC_LEN ≤ K.MAX_APDU_BUFFER)
    (g3 : w.phNxpEseProto7816_3_Var.phNxpEseNextTx_Cntx.IframeInfo.sendDataLen ≤ UINT_MAX - 6) :
    (TransceiveProcess_send K d tr hist status w).2.2 =
      hist ++ [SendIframe_frame d
        w.phNxpEseProto7816_3_Var.phNxpEseNextTx_Cntx.IframeInfo.seqNo
        w.phNxpEseProto7816_3_Var.phNxpEseNextTx_Cntx.IframeInfo] := by
  have hH : PH_PROTO_7816_HEADER_LEN d ≤ 4 := by cases d <;> decide
  have hC : PH_PROTO_7816_CRC_LEN = 2 := rfl
  have g3' : w.phNxpEseProto7816_3_Var.phNxpEseNextTx_Cntx.IframeInfo.sendDataLen
      ≤ UINT_MAX - (PH_PROTO_7816_HEADER_LEN d + PH_PROTO_7816_CRC_LEN) := by
    have hU : UINT_MAX = 4294967295 := rfl
    omega
  rw [TransceiveProcess_send_IFRAME K d tr hist status w hst,
    SendIframe_eq K d tr hist w _ g1 g2 g3']

/-- One iteration of the loop that sends the I-block of the next-to-send context and reads
an R-block reporting a parity or other error while retries remain: the loop goes on in a
session whose next step is `SEND_IFRAME`, whose next-to-send context is the one just sent
and whose recovery counter is one higher. -/
theorem loop_step_nack_I (K : Consts) (d : Dialect) (tr : Transport) (fuel : Nat)
    (status : Bool) (w : Session) (hist : List (List Nat)) (r : List Nat)
    (hst : w.phNxpEseProto7816_3_Var.phNxpEseProto7816_nextTransceiveState = .SEND_IFRAME)
    (hft : w.phNxpEseProto7816_3_Var.phNxpEseNextTx_Cntx.FrameType = .IFRAME)
    (g1 : 1 ≤ w.phNxpEseProto7816_3_Var.phNxpEseNextTx_Cntx.IframeInfo.sendDataLen)
    (g2 : w.phNxpEseProto7816_3_Var.phNxpEseNextTx_Cntx.IframeInfo.sendDataLen
        + PH_PROTO_7816_HEADER_LEN d + PH_PROTO_7816_CRC_LEN ≤ K.MAX_APDU_BUFFER)
    (g3 : w.phNxpEseProto7816_3_Var.phNxpEseNextTx_Cntx.IframeInfo.sendDataLen ≤ UINT_MAX - 6)
    (hr : tr (hist ++ [SendIframe_frame d
        w.phNxpEseProto7816_3_Var.phNxpEseNextTx_Cntx.IframeInfo.seqNo
        w.phNxpEseProto7816_3_Var.phNxpEseNextTx_Cntx.IframeInfo]) = .received r)
    (hg : GoodFrame K d r)
    (h80 : pcbOf r &&& 0x80 ≠ 0) (h40 : pcbOf r &&& 0x40 = 0)
    (herr : (pcbOf r &&& 0x01 ≠ 0 ∧ pcbOf r &&& 0x02 = 0)
      ∨ (pcbOf r &&& 0x01 = 0 ∧ pcbOf r &&& 0x02 ≠ 0))
    (hrc : w.phNxpEseProto7816_3_Var.recoveryCounter < K.PH_PROTO_7816_FRAME_RETRY_COUNT) :
    ∃ w' : Session,
      TransceiveProcess_loop K d tr (fuel + 1) status w hist =
        TransceiveProcess_loop K d tr fuel true w' (hist ++ [SendIframe_frame d
          w.phNxpEseProto7816_3_Var.phNxpEseNextTx_Cntx.IframeInfo.seqNo
          w.phNxpEseProto7816_3_Var.phNxpEseNextTx_Cntx.IframeInfo]) ∧
      w'.phNxpEseProto7816_3_Var.phNxpEseProto7816_nextTransceiveState = .SEND_IFRAME ∧
      w'.phNxpEseProto7816_3_Var.phNxpEseNextTx_Cntx
        = w.phNxpEseProto7816_3_Var.phNxpEseNextTx_Cntx ∧
      w'.phNxpEseProto7816_3_Var.recoveryCounter
        = w.phNxpEseProto7816_3_Var.recoveryCounter + 1 ∧
      asm w' = asm w := by
  have hH : PH_PROTO_7816_HEADER_LEN d ≤ 4 := by cases d <;> decide
  have hC : PH_PROTO_7816_CRC_LEN = 2 := rfl
  have g3' : w.phNxpEseProto7816_3_Var.phNxpEseNextTx_Cntx.IframeInfo.sendDataLen
      ≤ UINT_MAX - (PH_PROTO_7816_HEADER_LEN d + PH_PROTO_7816_CRC_LEN) := by
    have hU : UINT_MAX = 4294967295 := rfl
    omega
  rw [loop_step_I K d tr fuel status w hist r hst g1 g2 g3' hr hg,
    DecodeFrame_R_block K d fuel r _ hg h80 h40]
  obtain ⟨x, e, a1, _, a3, a4, _, a6⟩ := DecodeFrame_R_nack_I K d (pcbOf r)
    { phNxpEseProto7816_3_Var :=
        { w.phNxpEseProto7816_3_Var with
          lastSentNonErrorframeType := .IFRAME
          phNxpEseLastTx_Cntx := w.phNxpEseProto7816_3_Var.phNxpEseNextTx_Cntx
          timeoutCounter := PH_PROTO_7816_VALUE_ZERO
          rnack_retry_counter := PH_PROTO_7816_VALUE_ZERO },
      rsp := w.rsp } herr hrc hft
  rw [e]
  simp only [Option.some_bind]
  exact ⟨x, rfl, a3, a1, a4, a6⟩

/-- C28: an error-free R-block whose sequence bit equals the sequence number of the
last-sent I-block schedules nothing, where SEND_IFRAME with the last-sent context is
expected.  Dialect-A: decoding `5A 90 00` (sequence bit 1, the sequence number of the
last-sent I context of a freshly reset session) in a freshly reset session, whose next
step is `IDLE_STATE`, returns TRUE and leaves the next step `IDLE_STATE`.  In a run: the
peer answers the command with a chained I-block, the host sends an R-ACK, and the peer
answers it with the error-free R-block `5A 80 00`, whose sequence bit 0 is the sequence
number of the I-block sent last; the host then sends the R-ACK again (PCB `0x90`), not the
I-block (PCB `0x00`). -/
theorem C28_same_ack_schedules_nothing :
    ((DecodeFrame sampleConsts .T1oI2C_UM11225 4
        (some (withCRC .T1oI2C_UM11225 [0x5A, 0x90, 0x00]))
        (withCRC .T1oI2C_UM11225 [0x5A, 0x90, 0x00]).length (freshSession 3 3)).map
      fun x => (x.1, x.2.phNxpEseProto7816_3_Var.phNxpEseProto7816_nextTransceiveState))
      = some (true, .IDLE_STATE) ∧
    (freshSession 3 3).phNxpEseProto7816_3_Var.phNxpEseLastTx_Cntx.IframeInfo.seqNo = 1 ∧
    (freshSession 3 3).phNxpEseProto7816_3_Var.phNxpEseProto7816_nextTransceiveState
      = .IDLE_STATE ∧
    ((Transceive sampleConsts .T1oI2C_UM11225 ackAfterChainPeer 10 (freshSession 3 3) []
        (some cmd5) (some rspBuf10)).map fun x => (x.1, x.2.1.rsp.len, x.2.2.map pcbOf))
      = some (true, 4, [0x00, 0x90, 0x90]) := by
  refine ⟨by decide!, by decide, by decide, by decide!⟩

/-- C29: decoding an R-block that reports a parity error or an other error while
`recoveryCounter` is below the frame retry limit and the last-sent block was an I-block:
`DecodeFrame` returns TRUE, the next-to-send context becomes the last-sent context, the
next step is `SEND_IFRAME`, `recoveryCounter` is incremented by 1 and the response
assembly is untouched; the block sent next is the I-block built from the last-sent context
(same sequence number, chaining bit, offset and length).  In the loop: after an I-block `f`
was sent and such an R-block was read, the loop goes on and the next block it sends is `f`
again, byte for byte. -/
theorem C29_nack_retransmission (K : Consts) (d : Dialect) :
    (∀ (tr : Transport) (fuel : Nat) (r : List Nat) (w : Session) (hist : List (List Nat))
        (status : Bool),
      GoodFrame K d r → pcbOf r &&& 0x80 ≠ 0 → pcbOf r &&& 0x40 = 0 →
      ((pcbOf r &&& 0x01 ≠ 0 ∧ pcbOf r &&& 0x02 = 0)
        ∨ (pcbOf r &&& 0x01 = 0 ∧ pcbOf r &&& 0x02 ≠ 0)) →
      w.phNxpEseProto7816_3_Var.recoveryCounter < K.PH_PROTO_7816_FRAME_RETRY_COUNT →
      w.phNxpEseProto7816_3_Var.phNxpEseLastTx_Cntx.FrameType = .IFRAME →
      ∃ w' : Session, DecodeFrame K d fuel (some r) r.length w = some (true, w') ∧
        w'.phNxpEseProto7816_3_Var.phNxpEseNextTx_Cntx
          = w.phNxpEseProto7816_3_Var.phNxpEseLastTx_Cntx ∧
        w'.phNxpEseProto7816_3_Var.phNxpEseProto7816_nextTransceiveState = .SEND_IFRAME ∧
        w'.phNxpEseProto7816_3_Var.recoveryCounter
          = w.phNxpEseProto7816_3_Var.recoveryCounter + 1 ∧
        asm w' = asm w ∧
        (1 ≤ w.phNxpEseProto7816_3_Var.phNxpEseLastTx_Cntx.IframeInfo.sendDataLen →
          w.phNxpEseProto7816_3_Var.phNxpEseLastTx_Cntx.IframeInfo.sendDataLen
            + PH_PROTO_7816_HEADER_LEN d + PH_PROTO_7816_CRC_LEN ≤ K.MAX_APDU_BUFFER →
          w.phNxpEseProto7816_3_Var.phNxpEseLastTx_Cntx.IframeInfo.sendDataLen
            ≤ UINT_MAX - 6 →
          (TransceiveProcess_send K d tr hist status w').2.2 =
            hist ++ [SendIframe_frame d
              w.phNxpEseProto7816_3_Var.phNxpEseLastTx_Cntx.IframeInfo.seqNo
              w.phNxpEseProto7816_3_Var.phNxpEseLastTx_Cntx.IframeInfo])) ∧
    (∀ (tr : Transport) (fuel : Nat) (status : Bool) (w : Session) (hist : List (List Nat))
        (r : List Nat),
      w.phNxpEseProto7816_3_Var.phNxpEseProto7816_nextTransceiveState = .SEND_IFRAME →
      w.phNxpEseProto7816_3_Var.phNxpEseNextTx_Cntx.FrameType = .IFRAME →
      1 ≤ w.phNxpEseProto7816_3_Var.phNxpEseNextTx_Cntx.IframeInfo.sendDataLen →
      w.phNxpEseProto7816_3_Var.phNxpEseNextTx_Cntx.IframeInfo.sendDataLen
        + PH_PROTO_7816_HEADER_LEN d + PH_PROTO_7816_CRC_LEN ≤ K.MAX_APDU_BUFFER →
      w.phNxpEseProto7816_3_Var.phNxpEseNextTx_Cntx.IframeInfo.sendDataLen ≤ UINT_MAX - 6 →
      tr (hist ++ [SendIframe_frame d
        w.phNxpEseProto7816_3_Var.phNxpEseNextTx_Cntx.IframeInfo.seqNo
        w.phNxpEseProto7816_3_Var.phNxpEseNextTx_Cntx.IframeInfo]) = .received r →
      GoodFrame K d r → pcbOf r &&& 0x80 ≠ 0 → pcbOf r &&& 0x40 = 0 →
      ((pcbOf r &&& 0x01 ≠ 0 ∧ pcbOf r &&& 0x02 = 0)
        ∨ (pcbOf r &&& 0x01 = 0 ∧ pcbOf r &&& 0x02 ≠ 0)) →
      w.phNxpEseProto7816_3_Var.recoveryCounter < K.PH_PROTO_7816_FRAME_RETRY_COUNT →
      ∃ w' : Session,
        TransceiveProcess_loop K d tr (fuel + 1) status w hist =
          TransceiveProcess_loop K d tr fuel true w' (hist ++ [SendIframe_frame d
            w.phNxpEseProto7816_3_Var.phNxpEseNextTx_Cntx.IframeInfo.seqNo
            w.phNxpEseProto7816_3_Var.phNxpEseNextTx_Cntx.IframeInfo]) ∧
        w'.phNxpEseProto7816_3_Var.recoveryCounter
          = w.phNxpEseProto7816_3_Var.recoveryCounter + 1 ∧
        (TransceiveProcess_send K d tr (hist ++ [SendIframe_frame d
            w.phNxpEseProto7816_3_Var.phNxpEseNextTx_Cntx.IframeInfo.seqNo
            w.phNxpEseProto7816_3_Var.phNxpEseNextTx_Cntx.IframeInfo]) true w').2.2 =
          hist ++ [SendIframe_frame d
            w.phNxpEseProto7816_3_Var.phNxpEseNextTx_Cntx.IframeInfo.seqNo
            w.phNxpEseProto7816_3_Var.phNxpEseNextTx_Cntx.IframeInfo]
          ++ [SendIframe_frame d
            w.phNxpEseProto7816_3_Var.phNxpEseNextTx_Cntx.IframeInfo.seqNo
            w.phNxpEseProto7816_3_Var.phNxpEseNextTx_Cntx.IframeInfo]) := by
  refine ⟨?_, ?_⟩
  · intro tr fuel r w hist status hg h80 h40 herr hrc hft
    rw [DecodeFrame_R_block K d fuel r w hg h80 h40]
    obtain ⟨x, e, a1, _, a3, a4, _, a6⟩ := DecodeFrame_R_nack_I K d (pcbOf r) w herr hrc hft
    rw [e]
    refine ⟨x, rfl, a1, a3, a4, a6, ?_⟩
    intro g1 g2 g3
    rw [← a1] at g1 g2 g3 ⊢
    exact TransceiveProcess_send_IFRAME_hist K d tr hist status x a3 g1 g2 g3
  · intro tr fuel status w hist r hst hft g1 g2 g3 hr hg h80 h40 herr hrc
    obtain ⟨w', e, a1, a2, a3, _⟩ := loop_step_nack_I K d tr fuel status w hist r hst hft g1 g2
      g3 hr hg h80 h40 herr hrc
    refine ⟨w', e, a3, ?_⟩
    rw [TransceiveProcess_send_IFRAME_hist K d tr _ true w' a1 (by rw [a2]; exact g1)
      (by rw [a2]; exact g2) (by rw [a2]; exact g3), a2]

theorem C29_nack_retransmission_witness :
    (∃ w' : Session,
      DecodeFrame sampleConsts .T1oI2C_UM11225 4
        (some (withCRC .T1oI2C_UM11225 [0x5A, 0x82, 0x00]))
        (withCRC .T1oI2C_UM11225 [0x5A, 0x82, 0x00]).length sentSession = some (true, w') ∧
      w'.phNxpEseProto7816_3_Var.phNxpEseProto7816_nextTransceiveState = .SEND_IFRAME ∧
      w'.phNxpEseProto7816_3_Var.phNxpEseNextTx_Cntx
        = sentSession.phNxpEseProto7816_3_Var.phNxpEseLastTx_Cntx ∧
      w'.phNxpEseProto7816_3_Var.recoveryCounter = 1 ∧
      (TransceiveProcess_send sampleConsts .T1oI2C_UM11225 nackOncePeer [] true w').2.2 =
        [withCRC .T1oI2C_UM11225 [0x5A, 0x00, 0x05, 0x00, 0xA4, 0x04, 0x00, 0x00]]) ∧
    (∃ w' : Session,
      TransceiveProcess_loop sampleConsts .T1oI2C_UM11225
          (fun _ => .received (withCRC .T1oI2C_UM11225 [0x5A, 0x81, 0x00])) 3 true
          sentSession [] =
        TransceiveProcess_loop sampleConsts .T1oI2C_UM11225
          (fun _ => .received (withCRC .T1oI2C_UM11225 [0x5A, 0x81, 0x00])) 2 true w'
          [withCRC .T1oI2C_UM11225 [0x5A, 0x00, 0x05, 0x00, 0xA4, 0x04, 0x00, 0x00]] ∧
      w'.phNxpEseProto7816_3_Var.recoveryCounter = 1 ∧
      (TransceiveProcess_send sampleConsts .T1oI2C_UM11225
          (fun _ => .received (withCRC .T1oI2C_UM11225 [0x5A, 0x81, 0x00]))
          [withCRC .T1oI2C_UM11225 [0x5A, 0x00, 0x05, 0x00, 0xA4, 0x04, 0x00, 0x00]]
          true w').2.2 =
        [withCRC .T1oI2C_UM11225 [0x5A, 0x00, 0x05, 0x00, 0xA4, 0x04, 0x00, 0x00],
         withCRC .T1oI2C_UM11225 [0x5A, 0x00, 0x05, 0x00, 0xA4, 0x04, 0x00, 0x00]]) := by
  have hf : SendIframe_frame .T1oI2C_UM11225
      sentSession.phNxpEseProto7816_3_Var.phNxpEseNextTx_Cntx.IframeInfo.seqNo
      sentSession.phNxpEseProto7816_3_Var.phNxpEseNextTx_Cntx.IframeInfo
      = withCRC .T1oI2C_UM11225 [0x5A, 0x00, 0x05, 0x00, 0xA4, 0x04, 0x00, 0x00] := by
    decide!
  have hl : SendIframe_frame .T1oI2C_UM11225
      sentSession.phNxpEseProto7816_3_Var.phNxpEseLastTx_Cntx.IframeInfo.seqNo
      sentSession.phNxpEseProto7816_3_Var.phNxpEseLastTx_Cntx.IframeInfo
      = withCRC .T1oI2C_UM11225 [0x5A, 0x00, 0x05, 0x00, 0xA4, 0x04, 0x00, 0x00] := hf
  refine ⟨?_, ?_⟩
  · obtain ⟨w', e, a1, a2, a3, _, a5⟩ :=
      (C29_nack_retransmission sampleConsts .T1oI2C_UM11225).1 nackOncePeer 4
        (withCRC .T1oI2C_UM11225 [0x5A, 0x82, 0x00]) sentSession [] true
        ⟨by decide, by decide⟩ (by decide) (by decide) (Or.inr ⟨by decide, by decide⟩)
        (by decide) rfl
    refine ⟨w', e, a2, a1, ?_, ?_⟩
    · rw [a3]; rfl
    · rw [a5 (by decide) (by decide) (by decide), hl]; rfl
  · obtain ⟨w', e, a1, a2⟩ :=
      (C29_nack_retransmission sampleConsts .T1oI2C_UM11225).2
        (fun _ => .received (withCRC .T1oI2C_UM11225 [0x5A, 0x81, 0x00])) 2 true
        sentSession [] (withCRC .T1oI2C_UM11225 [0x5A, 0x81, 0x00]) rfl rfl (by decide)
        (by decide) (by decide) rfl ⟨by decide, by decide⟩ (by decide) (by decide)
        (Or.inl ⟨by decide, by decide⟩) (by decide)
    rw [hf] at e a2
    exact ⟨w', e, by rw [a1]; rfl, a2⟩

/-! ## Frames that schedule nothing -/

theorem DecodeFrame_S_block (K : Consts) (d : Dialect) (fuel : Nat) (r : List Nat)
    (w : Session) (hg : GoodFrame K d r)
    (h80 : pcbOf r &&& 0x80 ≠ 0) (h40 : pcbOf r &&& 0x40 ≠ 0) :
    DecodeFrame K d fuel (some r) r.length w
      = DecodeFrame_S K d fuel r r.length (pcbOf r) w := by
  have h1 := CheckCRC_true_lt _ _ _ _ hg.1
  have h2 := hg.2
  have h3 := HEADER_LEN_le_INF_FILED d
  have h4 : ¬ r.length < PH_PROTO_7816_INF_FILED d := by omega
  have h40' : 0x40 &&& pcbOf r ≠ 0 := by rw [Nat.and_comm]; exact h40
  have h80' : 0x80 &&& pcbOf r ≠ 0 := by rw [Nat.and_comm]; exact h80
  unfold pcbOf at h80 h40' h80'
  simp only [DecodeFrame, h1, not_true_eq_false, if_false, ge_iff_le,
    Nat.le_trans h3 h2, h4, h80, h80', ne_eq, not_false_eq_true, h40', and_self, if_true,
    and_false, pcbOf]

/-- The `default:` case of the S-block `switch`: only the bookkeeping of the received
block is done (frame type recorded, WTX counter cleared); no next step is scheduled. -/
theorem DecodeFrame_S_default (K : Consts) (d : Dialect) (fuel : Nat) (buf : List Nat)
    (n pcb : Nat) (w : Session)
    (hun : ∀ t ∈ handledSubtypes d, pcb &&& 0x3F ≠ K.sFrameCode t) :
    DecodeFrame_S K d fuel buf n pcb w =
      some (true,
        { w with
          phNxpEseProto7816_3_Var :=
            { w.phNxpEseProto7816_3_Var with
              wtx_counter := 0
              phNxpEseRx_Cntx.lastRcvdFrameType := .SFRAME } }) := by
  have c1 := hun .RESYNCH_RSP (by cases d <;> simp [handledSubtypes])
  have c2 := hun .IFSC_RES (by cases d <;> simp [handledSubtypes])
  have c3 := hun .ABORT_RES (by cases d <;> simp [handledSubtypes])
  have c4 := hun .WTX_REQ (by cases d <;> simp [handledSubtypes])
  have c9 := hun .DEEP_PWR_DOWN_RES (by cases d <;> simp [handledSubtypes])
  unfold DecodeFrame_S
  lift_lets
  intro frameType s2 s1 w1 s0 w2 setType plain
  have hw2 : w2 = { w with
      phNxpEseProto7816_3_Var :=
        { w.phNxpEseProto7816_3_Var with
          wtx_counter := 0
          phNxpEseRx_Cntx.lastRcvdFrameType := .SFRAME } } := by
    unfold w2
    rw [if_pos c4]
  rw [if_neg c1, if_neg c2, if_neg c3, if_neg c4]
  cases d with
  | T1oI2C_UM11225 =>
    have c5 := hun .INTF_RESET_RSP (by simp [handledSubtypes])
    have c6 := hun .PROP_END_APDU_RSP (by simp [handledSubtypes])
    have c7 := hun .ATR_RES (by simp [handledSubtypes])
    have c8 := hun .CHIP_RESET_RES (by simp [handledSubtypes])
    show (if frameType = K.sFrameCode .INTF_RESET_RSP then _ else _) = _
    rw [if_neg c5, if_neg c6, if_neg c7, if_neg c8, if_neg c9, hw2]
  | T1oI2C_GP1_0 =>
    have c5 := hun .SWR_RSP (by simp [handledSubtypes])
    have c6 := hun .RELEASE_RES (by simp [handledSubtypes])
    have c7 := hun .CIP_RES (by simp [handledSubtypes])
    have c8 := hun .COLD_RESET_RES (by simp [handledSubtypes])
    show (if frameType = K.sFrameCode .SWR_RSP then _ else _) = _
    rw [if_neg c5, if_neg c6, if_neg c7, if_neg c8, if_neg c9, hw2]

/-- An error-free R-block whose sequence bit is `s` schedules nothing in a session whose
last-sent I context has sequence number `s`. -/
theorem Stutters_same_ack (K : Consts) (d : Dialect) (s : Nat) (r : List Nat)
    (hg : GoodFrame K d r) (h80 : pcbOf r &&& 0x80 ≠ 0) (h40 : pcbOf r &&& 0x40 = 0)
    (h1 : pcbOf r &&& 0x01 = 0) (h2 : pcbOf r &&& 0x02 = 0)
    (hseq : (pcbOf r &&& 0x10) >>> 4 = s) : Stutters K d s r := by
  refine ⟨hg, fun W hW => ?_⟩
  have e := DecodeFrame_R_same K d (pcbOf r) W h1 h2 (by rw [hseq, hW])
  refine ⟨(DecodeFrame_R K d (pcbOf r) W).2, fun fuel => ?_, ?_, ?_⟩
  · rw [DecodeFrame_R_block K d fuel r W hg h80 h40]
    have e1 : (DecodeFrame_R K d (pcbOf r) W).1 = true := by rw [e]
    exact congrArg some (Prod.ext e1 rfl)
  · rw [congrArg Prod.snd e]
  · rw [congrArg Prod.snd e]

/-- An S-block of an unhandled subtype schedules nothing, whatever was sent last. -/
theorem Stutters_unhandled (K : Consts) (d : Dialect) (s : Nat) (r : List Nat)
    (hg : GoodFrame K d r) (hun : UnhandledS K d r) : Stutters K d s r := by
  refine ⟨hg, fun W _ => ⟨{ W with
    phNxpEseProto7816_3_Var :=
      { W.phNxpEseProto7816_3_Var with
        wtx_counter := 0
        phNxpEseRx_Cntx.lastRcvdFrameType := .SFRAME } }, fun fuel => ?_, rfl, rfl⟩⟩
  rw [DecodeFrame_S_block K d fuel r W hg hun.1 hun.2.1,
    DecodeFrame_S_default K d fuel r r.length (pcbOf r) W hun.2.2]

/-- One iteration of the loop that sends the I-block of the next-to-send context and reads
a frame that schedules nothing: the loop goes on in a session whose next step is still
`SEND_IFRAME` and whose next-to-send context is unchanged. -/
theorem loop_step_stutter (K : Consts) (d : Dialect) (tr : Transport)
    (w : Session) (hist : List (List Nat)) (r : List Nat)
    (hst : w.phNxpEseProto7816_3_Var.phNxpEseProto7816_nextTransceiveState = .SEND_IFRAME)
    (g1 : 1 ≤ w.phNxpEseProto7816_3_Var.phNxpEseNextTx_Cntx.IframeInfo.sendDataLen)
    (g2 : w.phNxpEseProto7816_3_Var.phNxpEseNextTx_Cntx.IframeInfo.sendDataLen
        + PH_PROTO_7816_HEADER_LEN d + PH_PROTO_7816_CRC_LEN ≤ K.MAX_APDU_BUFFER)
    (g3 : w.phNxpEseProto7816_3_Var.phNxpEseNextTx_Cntx.IframeInfo.sendDataLen ≤ UINT_MAX - 6)
    (hr : tr (hist ++ [SendIframe_frame d
        w.phNxpEseProto7816_3_Var.phNxpEseNextTx_Cntx.IframeInfo.seqNo
        w.phNxpEseProto7816_3_Var.phNxpEseNextTx_Cntx.IframeInfo]) = .received r)
    (hs : Stutters K d w.phNxpEseProto7816_3_Var.phNxpEseNextTx_Cntx.IframeInfo.seqNo r) :
    ∃ w' : Session,
      (∀ (fuel : Nat) (status : Bool),
        TransceiveProcess_loop K d tr (fuel + 1) status w hist =
          TransceiveProcess_loop K d tr fuel true w' (hist ++ [SendIframe_frame d
            w.phNxpEseProto7816_3_Var.phNxpEseNextTx_Cntx.IframeInfo.seqNo
            w.phNxpEseProto7816_3_Var.phNxpEseNextTx_Cntx.IframeInfo])) ∧
      w'.phNxpEseProto7816_3_Var.phNxpEseProto7816_nextTransceiveState = .SEND_IFRAME ∧
      w'.phNxpEseProto7816_3_Var.phNxpEseNextTx_Cntx
        = w.phNxpEseProto7816_3_Var.phNxpEseNextTx_Cntx := by
  have hH : PH_PROTO_7816_HEADER_LEN d ≤ 4 := by cases d <;> decide
  have hC : PH_PROTO_7816_CRC_LEN = 2 := rfl
  have g3' : w.phNxpEseProto7816_3_Var.phNxpEseNextTx_Cntx.IframeInfo.sendDataLen
      ≤ UINT_MAX - (PH_PROTO_7816_HEADER_LEN d + PH_PROTO_7816_CRC_LEN) := by
    have hU : UINT_MAX = 4294967295 := rfl
    omega
  obtain ⟨W', e, a1, a2⟩ := hs.2
    { phNxpEseProto7816_3_Var :=
        { w.phNxpEseProto7816_3_Var with
          lastSentNonErrorframeType := .IFRAME
          phNxpEseLastTx_Cntx := w.phNxpEseProto7816_3_Var.phNxpEseNextTx_Cntx
          timeoutCounter := PH_PROTO_7816_VALUE_ZERO
          rnack_retry_counter := PH_PROTO_7816_VALUE_ZERO },
      rsp := w.rsp } rfl
  refine ⟨W', fun fuel status => ?_, a1.trans hst, a2⟩
  rw [loop_step_I K d tr fuel status w hist r hst g1 g2 g3' hr hs.1, e fuel]
  rfl

/-- With a peer that answers every block with a frame that schedules nothing, the loop
started at `SEND_IFRAME` does `n + 1` iterations, each sending the same I-block, and is
then again at `SEND_IFRAME` with the same next-to-send context. -/
theorem loop_stutter_iter (K : Consts) (d : Dialect) (tr : Transport) (c : iFrameInfo_t)
    (hpeer : ∀ hist, ∃ r, tr hist = .received r ∧ Stutters K d c.seqNo r)
    (g1 : 1 ≤ c.sendDataLen)
    (g2 : c.sendDataLen + PH_PROTO_7816_HEADER_LEN d + PH_PROTO_7816_CRC_LEN
      ≤ K.MAX_APDU_BUFFER)
    (g3 : c.sendDataLen ≤ UINT_MAX - 6) :
    ∀ (n : Nat) (w : Session) (hist : List (List Nat)),
      w.phNxpEseProto7816_3_Var.phNxpEseProto7816_nextTransceiveState = .SEND_IFRAME →
      w.phNxpEseProto7816_3_Var.phNxpEseNextTx_Cntx.IframeInfo = c →
      ∃ w' : Session,
        w'.phNxpEseProto7816_3_Var.phNxpEseProto7816_nextTransceiveState = .SEND_IFRAME ∧
        w'.phNxpEseProto7816_3_Var.phNxpEseNextTx_Cntx.IframeInfo = c ∧
        ∀ (fuel : Nat) (status : Bool),
          TransceiveProcess_loop K d tr (n + 1 + fuel) status w hist =
            TransceiveProcess_loop K d tr fuel true w'
              (hist ++ List.replicate (n + 1) (SendIframe_frame d c.seqNo c)) := by
  intro n
  induction n with
  | zero =>
    intro w hist hst hc
    obtain ⟨r, hr, hs⟩ := hpeer (hist ++ [SendIframe_frame d c.seqNo c])
    obtain ⟨w', e, a1, a2⟩ := loop_step_stutter K d tr w hist r hst (by rw [hc]; exact g1)
      (by rw [hc]; exact g2) (by rw [hc]; exact g3) (by rw [hc]; exact hr)
      (by rw [hc]; exact hs)
    refine ⟨w', a1, by rw [a2, hc], fun fuel status => ?_⟩
    have h := e fuel status
    rw [hc] at h
    rw [show 0 + 1 + fuel = fuel + 1 by omega, h]
    rfl
  | succ n ih =>
    intro w hist hst hc
    obtain ⟨r, hr, hs⟩ := hpeer (hist ++ [SendIframe_frame d c.seqNo c])
    obtain ⟨w1, e, a1, a2⟩ := loop_step_stutter K d tr w hist r hst (by rw [hc]; exact g1)
      (by rw [hc]; exact g2) (by rw [hc]; exact g3) (by rw [hc]; exact hr)
      (by rw [hc]; exact hs)
    obtain ⟨w', b1, b2, b3⟩ := ih w1 (hist ++ [SendIframe_frame d c.seqNo c]) a1
      (by rw [a2, hc])
    refine ⟨w', b1, b2, fun fuel status => ?_⟩
    have h := e (n + 1 + fuel) status
    rw [hc] at h
    rw [show n + 1 + 1 + fuel = n + 1 + fuel + 1 by omega, h, b3 fuel true,
      List.append_assoc]
    rfl

/-- With such a peer the loop started at `SEND_IFRAME` never returns, whatever the number
of iterations allowed. -/
theorem loop_stutter_forever (K : Consts) (d : Dialect) (tr : Transport) (c : iFrameInfo_t)
    (hpeer : ∀ hist, ∃ r, tr hist = .received r ∧ Stutters K d c.seqNo r)
    (g1 : 1 ≤ c.sendDataLen)
    (g2 : c.sendDataLen + PH_PROTO_7816_HEADER_LEN d + PH_PROTO_7816_CRC_LEN
      ≤ K.MAX_APDU_BUFFER)
    (g3 : c.sendDataLen ≤ UINT_MAX - 6)
    (fuel : Nat) (status : Bool) (w : Session) (hist : List (List Nat))
    (hst : w.phNxpEseProto7816_3_Var.phNxpEseProto7816_nextTransceiveState = .SEND_IFRAME)
    (hc : w.phNxpEseProto7816_3_Var.phNxpEseNextTx_Cntx.IframeInfo = c) :
    TransceiveProcess_loop K d tr fuel status w hist = none := by
  cases fuel with
  | zero => rfl
  | succ n =>
    obtain ⟨w', _, _, e⟩ := loop_stutter_iter K d tr c hpeer g1 g2 g3 n w hist hst hc
    have h := e 0 status
    rw [Nat.add_zero] at h
    rw [h]
    rfl

/-- C30 (what the code does instead): in the sample Dialect-A configuration the S-block
`5A E4 00` has a subtype without `case` label.  Decoded right after the I-block of the
command was sent, `DecodeFrame` returns TRUE and the next step is still `SEND_IFRAME`, not
`IDLE_STATE`: the `default:` case only logs.  In a run, a peer that answers the I-block
with this S-block and the next block with the I-block `90 00` is sent the same I-block
twice and the call returns TRUE with the two response bytes; a peer that answers every
block with this S-block keeps the loop from ever returning. -/
theorem C30_unhandled_subtype_not_idle :
    UnhandledS sampleConsts .T1oI2C_UM11225 (withCRC .T1oI2C_UM11225 [0x5A, 0xE4, 0x00]) ∧
    sentSession.phNxpEseProto7816_3_Var.phNxpEseProto7816_nextTransceiveState
      = .SEND_IFRAME ∧
    ((DecodeFrame sampleConsts .T1oI2C_UM11225 4
        (some (withCRC .T1oI2C_UM11225 [0x5A, 0xE4, 0x00]))
        (withCRC .T1oI2C_UM11225 [0x5A, 0xE4, 0x00]).length sentSession).map
      fun x => (x.1, x.2.phNxpEseProto7816_3_Var.phNxpEseProto7816_nextTransceiveState))
      = some (true, .SEND_IFRAME) ∧
    ((Transceive sampleConsts .T1oI2C_UM11225 unknownSOncePeer 10 (freshSession 3 3) []
        (some cmd5) (some rspBuf10)).map fun x => (x.1, x.2.1.rsp.len, x.2.2))
      = some (true, 2,
          [withCRC .T1oI2C_UM11225 [0x5A, 0x00, 0x05, 0x00, 0xA4, 0x04, 0x00, 0x00],
           withCRC .T1oI2C_UM11225 [0x5A, 0x00, 0x05, 0x00, 0xA4, 0x04, 0x00, 0x00]]) ∧
    (∀ fuel, Transceive sampleConsts .T1oI2C_UM11225 unknownSPeer fuel (freshSession 3 3) []
        (some cmd5) (some rspBuf10) = none) := by
  refine ⟨⟨by decide, by decide, by decide⟩, by decide, by decide!, by decide!, fun fuel => ?_⟩
  rw [Transceive_some sampleConsts .T1oI2C_UM11225 unknownSPeer fuel (freshSession 3 3) []
    cmd5 rspBuf10 rfl,
    loop_stutter_forever sampleConsts .T1oI2C_UM11225 unknownSPeer
      (installCmd (freshSession 3 3).phNxpEseProto7816_3_Var cmd5).phNxpEseNextTx_Cntx.IframeInfo
      (fun _ => ⟨_, rfl, Stutters_unhandled sampleConsts .T1oI2C_UM11225 _ _
        ⟨by decide, by decide⟩ ⟨by decide, by decide, by decide⟩⟩)
      (by decide) (by decide) (by decide) fuel false _ [] rfl rfl]
  rfl

/-- C25 (what the code does instead): in the sample Dialect-A configuration, with a peer
that answers every block with the valid error-free R-block `5A 80 00`, whose sequence bit
is the sequence number of the I-block just sent, `Transceive` does not return for any
number of loop iterations: after every number `n + 1` of iterations the loop has sent the
same I-block `n + 1` times and its next step is `SEND_IFRAME` again, never `IDLE_STATE`.
No retry budget is consumed on this path (`recoveryCounter` is reset by each such block). -/
theorem C25_same_ack_never_idle :
    (∀ fuel, Transceive sampleConsts .T1oI2C_UM11225 sameAckPeer fuel (freshSession 3 3) []
        (some cmd5) (some rspBuf10) = none) ∧
    (∀ n : Nat, ∃ w' : Session,
      w'.phNxpEseProto7816_3_Var.phNxpEseProto7816_nextTransceiveState = .SEND_IFRAME ∧
      ∀ fuel : Nat,
        TransceiveProcess_loop sampleConsts .T1oI2C_UM11225 sameAckPeer (n + 1 + fuel) false
          { phNxpEseProto7816_3_Var :=
              installCmd (freshSession 3 3).phNxpEseProto7816_3_Var cmd5,
            rsp := rspBuf10 } [] =
        TransceiveProcess_loop sampleConsts .T1oI2C_UM11225 sameAckPeer fuel true w'
          (List.replicate (n + 1)
            (withCRC .T1oI2C_UM11225 [0x5A, 0x00, 0x05, 0x00, 0xA4, 0x04, 0x00, 0x00]))) := by
  have hpeer : ∀ hist : List (List Nat), ∃ r, sameAckPeer hist = .received r ∧
      Stutters sampleConsts .T1oI2C_UM11225
        (installCmd (freshSession 3 3).phNxpEseProto7816_3_Var
          cmd5).phNxpEseNextTx_Cntx.IframeInfo.seqNo r :=
    fun _ => ⟨_, rfl, Stutters_same_ack sampleConsts .T1oI2C_UM11225 _ _
      ⟨by decide, by decide⟩ (by decide) (by decide) (by decide) (by decide) (by decide)⟩
  have hf : SendIframe_frame .T1oI2C_UM11225
      (installCmd (freshSession 3 3).phNxpEseProto7816_3_Var
        cmd5).phNxpEseNextTx_Cntx.IframeInfo.seqNo
      (installCmd (freshSession 3 3).phNxpEseProto7816_3_Var
        cmd5).phNxpEseNextTx_Cntx.IframeInfo
      = withCRC .T1oI2C_UM11225 [0x5A, 0x00, 0x05, 0x00, 0xA4, 0x04, 0x00, 0x00] := by
    decide!
  refine ⟨fun fuel => ?_, fun n => ?_⟩
  · rw [Transceive_some sampleConsts .T1oI2C_UM11225 sameAckPeer fuel (freshSession 3 3) []
      cmd5 rspBuf10 rfl,
      loop_stutter_forever sampleConsts .T1oI2C_UM11225 sameAckPeer _ hpeer
        (by decide) (by decide) (by decide) fuel false _ [] rfl rfl]
    rfl
  · obtain ⟨w', a1, _, a3⟩ := loop_stutter_iter sampleConsts .T1oI2C_UM11225 sameAckPeer _
      hpeer (by decide) (by decide) (by decide) n
      { phNxpEseProto7816_3_Var := installCmd (freshSession 3 3).phNxpEseProto7816_3_Var cmd5,
        rsp := rspBuf10 } [] rfl rfl
    refine ⟨w', a1, fun fuel => ?_⟩
    rw [a3 fuel false, hf]
    rfl

/-! ## S-blocks in the loop -/

/-- The block `SendSFrame` hands over, by the `switch` entry of its type. -/
theorem sFrameOf_eq (K : Consts) (d : Dialect) (t : SFrameType) (n : Nat) (b : List Nat)
    (pcb : Nat) (hsw : SendSFrame_switch K d t = some (n, b, pcb)) :
    sFrameOf K d t = (SendSFrame_frame d n b pcb).take n := by
  unfold sFrameOf
  rw [hsw]

/-- Sending an S-block whose type the `switch` handles: the status is TRUE unless the write
fails, only `lastSentNonErrorframeType` changes, and the block is appended. -/
theorem SendSFrame_eq (K : Consts) (d : Dialect) (tr : Transport) (hist : List (List Nat))
    (w : Session) (t : SFrameType) (n : Nat) (b : List Nat) (pcb : Nat)
    (hsw : SendSFrame_switch K d t = some (n, b, pcb)) :
    SendSFrame K d tr hist w { sFrameType := t } =
      ((SendRawFrame tr hist n (SendSFrame_frame d n b pcb)).1,
        { w with phNxpEseProto7816_3_Var.lastSentNonErrorframeType := .SFRAME },
        hist ++ [sFrameOf K d t]) := by
  rw [sFrameOf_eq K d t n b pcb hsw]
  unfold SendSFrame
  simp only [hsw, SendRawFrame_hist]

/-- One iteration of the loop that sends an S-block and reads a frame with a good CRC: the
frame is decoded in the session in which the block just sent is the last-sent context. -/
theorem loop_step_S (K : Consts) (d : Dialect) (tr : Transport) (fuel : Nat)
    (status : Bool) (w : Session) (hist : List (List Nat)) (t : SFrameType) (n : Nat)
    (b : List Nat) (pcb : Nat) (r : List Nat)
    (hidle : w.phNxpEseProto7816_3_Var.phNxpEseProto7816_nextTransceiveState ≠ .IDLE_STATE)
    (hsend : TransceiveProcess_send K d tr hist status w
      = SendSFrame K d tr hist w { sFrameType := t })
    (hsw : SendSFrame_switch K d t = some (n, b, pcb))
    (hr : tr (hist ++ [sFrameOf K d t]) = .received r)
    (hg : GoodFrame K d r) :
    TransceiveProcess_loop K d tr (fuel + 1) status w hist =
      (DecodeFrame K d fuel (some r) r.length
        { phNxpEseProto7816_3_Var :=
            { w.phNxpEseProto7816_3_Var with
              lastSentNonErrorframeType := .SFRAME
              phNxpEseLastTx_Cntx := w.phNxpEseProto7816_3_Var.phNxpEseNextTx_Cntx
              timeoutCounter := PH_PROTO_7816_VALUE_ZERO
              rnack_retry_counter := PH_PROTO_7816_VALUE_ZERO },
          rsp := w.rsp }).bind fun p =>
        TransceiveProcess_loop K d tr fuel p.1 p.2 (hist ++ [sFrameOf K d t]) := by
  have hs := SendSFrame_eq K d tr hist w t n b pcb hsw
  have hok := SendRawFrame_ok tr hist n (SendSFrame_frame d n b pcb) r
    (by rw [← sFrameOf_eq K d t n b pcb hsw]; exact hr)
  rw [hok] at hs
  have hget : GetRawFrame tr (hist ++ [sFrameOf K d t]) = some r := by
    simp only [GetRawFrame, hr]
  rw [TransceiveProcess_loop_succ, if_neg hidle, hsend, hs]
  simp only [if_true, hget]
  rw [ProcessResponse_good K d fuel r _ hg]

/-- The `else` part of `case WTX_REQ`, taken unless the last-sent block was an S-block
other than the WTX response: the WTX counter is incremented; when it then equals the
limit the reset request of the dialect is scheduled and the counter cleared, otherwise
the WTX response is scheduled. -/
theorem DecodeFrame_WTX_else (K : Consts) (d : Dialect) (w : Session)
    (hlast : ¬ (w.phNxpEseProto7816_3_Var.phNxpEseLastTx_Cntx.SframeInfo.sFrameType ≠ .WTX_RSP ∧
      w.phNxpEseProto7816_3_Var.phNxpEseLastTx_Cntx.FrameType = .SFRAME)) :
    ∃ x : Session, DecodeFrame_WTX K d w = (true, x) ∧
      x.phNxpEseProto7816_3_Var.wtx_counter_limit
        = w.phNxpEseProto7816_3_Var.wtx_counter_limit ∧
      asm x = asm w ∧
      ((w.phNxpEseProto7816_3_Var.wtx_counter + 1) % (K.WTX_COUNTER_MAX + 1)
          ≠ w.phNxpEseProto7816_3_Var.wtx_counter_limit →
        x.phNxpEseProto7816_3_Var.phNxpEseProto7816_nextTransceiveState = .SEND_S_WTX_RSP ∧
        x.phNxpEseProto7816_3_Var.wtx_counter
          = (w.phNxpEseProto7816_3_Var.wtx_counter + 1) % (K.WTX_COUNTER_MAX + 1) ∧
        x.phNxpEseProto7816_3_Var.phNxpEseNextTx_Cntx.SframeInfo.sFrameType = .WTX_RSP) ∧
      ((w.phNxpEseProto7816_3_Var.wtx_counter + 1) % (K.WTX_COUNTER_MAX + 1)
          = w.phNxpEseProto7816_3_Var.wtx_counter_limit →
        x.phNxpEseProto7816_3_Var.phNxpEseProto7816_nextTransceiveState = resetStep d ∧
        x.phNxpEseProto7816_3_Var.wtx_counter = 0 ∧
        x.phNxpEseProto7816_3_Var.phNxpEseNextTx_Cntx.SframeInfo.sFrameType = resetReq d) := by
  unfold DecodeFrame_WTX
  lift_lets
  intro a w1 v1 s1 s2
  rw [if_neg hlast]
  by_cases c : (w.phNxpEseProto7816_3_Var.wtx_counter + 1) % (K.WTX_COUNTER_MAX + 1)
      = w.phNxpEseProto7816_3_Var.wtx_counter_limit
  · rw [if_pos c]
    cases d
    · exact ⟨_, rfl, rfl, rfl, fun h => absurd c h, fun _ => ⟨rfl, rfl, rfl⟩⟩
    · exact ⟨_, rfl, rfl, rfl, fun h => absurd c h, fun _ => ⟨rfl, rfl, rfl⟩⟩
  · rw [if_neg c]
    exact ⟨_, rfl, rfl, rfl, fun _ => ⟨rfl, rfl, rfl⟩, fun h => absurd h c⟩

/-- The S-block `switch` reaches `case WTX_REQ` for a WTX request. -/
theorem DecodeFrame_S_wtx (K : Consts) (d : Dialect) (fuel : Nat) (buf : List Nat)
    (n pcb : Nat) (w : Session)
    (hc : pcb &&& 0x3F = K.sFrameCode .WTX_REQ)
    (h1 : K.sFrameCode .WTX_REQ ≠ K.sFrameCode .RESYNCH_RSP)
    (h2 : K.sFrameCode .WTX_REQ ≠ K.sFrameCode .IFSC_RES)
    (h3 : K.sFrameCode .WTX_REQ ≠ K.sFrameCode .ABORT_RES) :
    DecodeFrame_S K d fuel buf n pcb w =
      some (DecodeFrame_WTX K d
        { w with phNxpEseProto7816_3_Var.phNxpEseRx_Cntx.lastRcvdFrameType := .SFRAME }) := by
  unfold DecodeFrame_S
  lift_lets
  intro frameType s2 s1 w1 s0 w2 setType plain
  have hf : frameType = K.sFrameCode .WTX_REQ := hc
  have hw2 : w2 = w1 := by
    unfold w2
    rw [if_neg (by rw [not_not]; exact hf)]
  rw [if_neg (by rw [hf]; exact h1), if_neg (by rw [hf]; exact h2),
    if_neg (by rw [hf]; exact h3), if_pos hf, hw2]

/-- Decoding a WTX request when the last-sent block was not an S-block other than the WTX
response. -/
theorem DecodeFrame_wtxReq (K : Consts) (d : Dialect) (r : List Nat) (w : Session)
    (hg : GoodFrame K d r) (hw : IsWtxReq K r)
    (hlast : ¬ (w.phNxpEseProto7816_3_Var.phNxpEseLastTx_Cntx.SframeInfo.sFrameType ≠ .WTX_RSP ∧
      w.phNxpEseProto7816_3_Var.phNxpEseLastTx_Cntx.FrameType = .SFRAME)) :
    ∃ x : Session, (∀ fuel, DecodeFrame K d fuel (some r) r.length w = some (true, x)) ∧
      x.phNxpEseProto7816_3_Var.wtx_counter_limit
        = w.phNxpEseProto7816_3_Var.wtx_counter_limit ∧
      asm x = asm w ∧
      ((w.phNxpEseProto7816_3_Var.wtx_counter + 1) % (K.WTX_COUNTER_MAX + 1)
          ≠ w.phNxpEseProto7816_3_Var.wtx_counter_limit →
        x.phNxpEseProto7816_3_Var.phNxpEseProto7816_nextTransceiveState = .SEND_S_WTX_RSP ∧
        x.phNxpEseProto7816_3_Var.wtx_counter
          = (w.phNxpEseProto7816_3_Var.wtx_counter + 1) % (K.WTX_COUNTER_MAX + 1) ∧
        x.phNxpEseProto7816_3_Var.phNxpEseNextTx_Cntx.SframeInfo.sFrameType = .WTX_RSP) ∧
      ((w.phNxpEseProto7816_3_Var.wtx_counter + 1) % (K.WTX_COUNTER_MAX + 1)
          = w.phNxpEseProto7816_3_Var.wtx_counter_limit →
        x.phNxpEseProto7816_3_Var.phNxpEseProto7816_nextTransceiveState = resetStep d ∧
        x.phNxpEseProto7816_3_Var.wtx_counter = 0 ∧
        x.phNxpEseProto7816_3_Var.phNxpEseNextTx_Cntx.SframeInfo.sFrameType = resetReq d) := by
  obtain ⟨x, e, a1, a2, a3, a4⟩ := DecodeFrame_WTX_else K d
    { w with phNxpEseProto7816_3_Var.phNxpEseRx_Cntx.lastRcvdFrameType := .SFRAME } hlast
  refine ⟨x, fun fuel => ?_, a1, a2, a3, a4⟩
  rw [DecodeFrame_S_block K d fuel r w hg hw.1 hw.2.1,
    DecodeFrame_S_wtx K d fuel r r.length (pcbOf r) w hw.2.2.1 hw.2.2.2.1 hw.2.2.2.2.1
      hw.2.2.2.2.2, e]

/-- The block `SendSFrame` builds in its frame buffer is the first bytes of the buffer,
with NAD and PCB stored, followed by their CRC trailer. -/
theorem SendSFrame_frame_withCRC (d : Dialect) (m : Nat) (b : List Nat) (pcb : Nat)
    (hl : m + 2 ≤ b.length) :
    (SendSFrame_frame d (m + 2) b pcb).take (m + 2)
      = withCRC d (((b.set PH_PROPTO_7816_NAD_OFFSET 0x5A).set
          PH_PROPTO_7816_PCB_OFFSET pcb).take m) := by
  have hl2 : m + 2 ≤ ((b.set PH_PROPTO_7816_NAD_OFFSET 0x5A).set
      PH_PROPTO_7816_PCB_OFFSET pcb).length := by
    simp only [List.length_set]; exact hl
  have hm : (((b.set PH_PROPTO_7816_NAD_OFFSET 0x5A).set
      PH_PROPTO_7816_PCB_OFFSET pcb).take m).length = m := by
    rw [List.length_take]; omega
  unfold SendSFrame_frame withCRC
  simp only [Nat.add_sub_cancel, show m + 2 - 1 = m + 1 by omega]
  rw [set_set_take _ m _ _ hl2, ComputeCRC_take d _ m (by omega), hm]
  rfl

/-- The end-of-session request as bytes: NAD, PCB `0xC0 | type code`, LEN 0 (one byte in
Dialect-A, two in Dialect-B), no INF, CRC. -/
theorem sFrameOf_closeReq (K : Consts) (d : Dialect) :
    sFrameOf K d (closeReq d)
      = withCRC d ([0x5A, (0xC0 ||| closeCode K d) % 256] ++ specLen d 0) := by
  cases d
  · show sFrameOf K .T1oI2C_UM11225 .PROP_END_APDU_REQ = _
    rw [sFrameOf_eq K .T1oI2C_UM11225 .PROP_END_APDU_REQ _ _ _ rfl]
    exact SendSFrame_frame_withCRC .T1oI2C_UM11225 3 _ _ (by decide)
  · show sFrameOf K .T1oI2C_GP1_0 .RELEASE_REQ = _
    rw [sFrameOf_eq K .T1oI2C_GP1_0 .RELEASE_REQ _ _ _ rfl]
    exact SendSFrame_frame_withCRC .T1oI2C_GP1_0 4 _ _ (by decide)

/-- The reset request as bytes: NAD, PCB `0xC0 | type code`, LEN 0, no INF, CRC. -/
theorem sFrameOf_resetReq (K : Consts) (d : Dialect) :
    sFrameOf K d (resetReq d)
      = withCRC d ([0x5A, (0xC0 ||| resetCode K d) % 256] ++ specLen d 0) := by
  cases d
  · show sFrameOf K .T1oI2C_UM11225 .INTF_RESET_REQ = _
    rw [sFrameOf_eq K .T1oI2C_UM11225 .INTF_RESET_REQ _ _ _ rfl]
    exact SendSFrame_frame_withCRC .T1oI2C_UM11225 3 _ _ (by decide)
  · show sFrameOf K .T1oI2C_GP1_0 .SWR_REQ = _
    rw [sFrameOf_eq K .T1oI2C_GP1_0 .SWR_REQ _ _ _ rfl]
    exact SendSFrame_frame_withCRC .T1oI2C_GP1_0 4 _ _ (by decide)

/-- The WTX response as bytes: NAD, PCB `0xE0 | type code of WTX`, LEN 1, INF `01`, CRC. -/
theorem sFrameOf_wtxRsp (K : Consts) (d : Dialect) :
    sFrameOf K d .WTX_RSP
      = withCRC d ([0x5A, (0xE0 ||| K.PH_PROTO_7816_S_WTX) % 256] ++ specLen d 1 ++ [0x01]) := by
  cases d
  · rw [sFrameOf_eq K .T1oI2C_UM11225 .WTX_RSP _ _ _ rfl]
    exact SendSFrame_frame_withCRC .T1oI2C_UM11225 4 _ _ (by decide)
  · rw [sFrameOf_eq K .T1oI2C_GP1_0 .WTX_RSP _ _ _ rfl]
    exact SendSFrame_frame_withCRC .T1oI2C_GP1_0 5 _ _ (by decide)

theorem SendSFrame_switch_wtxRsp (K : Consts) (d : Dialect) :
    ∃ n b pcb, SendSFrame_switch K d .WTX_RSP = some (n, b, pcb) := by
  cases d <;> exact ⟨_, _, _, rfl⟩

theorem SendSFrame_switch_resetReq (K : Consts) (d : Dialect) :
    ∃ n b pcb, SendSFrame_switch K d (resetReq d) = some (n, b, pcb) := by
  cases d <;> exact ⟨_, _, _, rfl⟩

theorem SendSFrame_switch_closeReq (K : Consts) (d : Dialect) :
    ∃ n b pcb, SendSFrame_switch K d (closeReq d) = some (n, b, pcb) := by
  cases d <;> exact ⟨_, _, _, rfl⟩

theorem TransceiveProcess_send_wtxRsp (K : Consts) (d : Dialect) (tr : Transport)
    (hist : List (List Nat)) (status : Bool) (w : Session)
    (hst : w.phNxpEseProto7816_3_Var.phNxpEseProto7816_nextTransceiveState = .SEND_S_WTX_RSP) :
    TransceiveProcess_send K d tr hist status w
      = SendSFrame K d tr hist w { sFrameType := .WTX_RSP } := by
  unfold TransceiveProcess_send
  rw [hst]

theorem TransceiveProcess_send_resetReq (K : Consts) (d : Dialect) (tr : Transport)
    (hist : List (List Nat)) (status : Bool) (w : Session)
    (hst : w.phNxpEseProto7816_3_Var.phNxpEseProto7816_nextTransceiveState = resetStep d) :
    TransceiveProcess_send K d tr hist status w
      = SendSFrame K d tr hist w { sFrameType := resetReq d } := by
  unfold TransceiveProcess_send
  rw [hst]
  cases d <;> rfl

theorem TransceiveProcess_send_closeReq (K : Consts) (d : Dialect) (tr : Transport)
    (hist : List (List Nat)) (status : Bool) (w : Session)
    (hst : w.phNxpEseProto7816_3_Var.phNxpEseProto7816_nextTransceiveState = closeStep d) :
    TransceiveProcess_send K d tr hist status w
      = SendSFrame K d tr hist w { sFrameType := closeReq d } := by
  unfold TransceiveProcess_send
  rw [hst]
  cases d <;> rfl

/-- One iteration of the loop that sends the WTX response and reads a WTX request. -/
theorem loop_step_wtx (K : Consts) (d : Dialect) (tr : Transport)
    (w : Session) (hist : List (List Nat)) (r : List Nat)
    (hst : w.phNxpEseProto7816_3_Var.phNxpEseProto7816_nextTransceiveState = .SEND_S_WTX_RSP)
    (hnx : w.phNxpEseProto7816_3_Var.phNxpEseNextTx_Cntx.SframeInfo.sFrameType = .WTX_RSP)
    (hr : tr (hist ++ [sFrameOf K d .WTX_RSP]) = .received r)
    (hg : GoodFrame K d r) (hw : IsWtxReq K r) :
    ∃ x : Session,
      (∀ (fuel : Nat) (status : Bool),
        TransceiveProcess_loop K d tr (fuel + 1) status w hist =
          TransceiveProcess_loop K d tr fuel true x (hist ++ [sFrameOf K d .WTX_RSP])) ∧
      x.phNxpEseProto7816_3_Var.wtx_counter_limit
        = w.phNxpEseProto7816_3_Var.wtx_counter_limit ∧
      asm x = asm w ∧
      ((w.phNxpEseProto7816_3_Var.wtx_counter + 1) % (K.WTX_COUNTER_MAX + 1)
          ≠ w.phNxpEseProto7816_3_Var.wtx_counter_limit →
        x.phNxpEseProto7816_3_Var.phNxpEseProto7816_nextTransceiveState = .SEND_S_WTX_RSP ∧
        x.phNxpEseProto7816_3_Var.wtx_counter
          = (w.phNxpEseProto7816_3_Var.wtx_counter + 1) % (K.WTX_COUNTER_MAX + 1) ∧
        x.phNxpEseProto7816_3_Var.phNxpEseNextTx_Cntx.SframeInfo.sFrameType = .WTX_RSP) ∧
      ((w.phNxpEseProto7816_3_Var.wtx_counter + 1) % (K.WTX_COUNTER_MAX + 1)
          = w.phNxpEseProto7816_3_Var.wtx_counter_limit →
        x.phNxpEseProto7816_3_Var.phNxpEseProto7816_nextTransceiveState = resetStep d ∧
        x.phNxpEseProto7816_3_Var.wtx_counter = 0 ∧
        x.phNxpEseProto7816_3_Var.phNxpEseNextTx_Cntx.SframeInfo.sFrameType = resetReq d) := by
  obtain ⟨n, b, pcb, hsw⟩ := SendSFrame_switch_wtxRsp K d
  obtain ⟨x, e, a1, a2, a3, a4⟩ := DecodeFrame_wtxReq K d r
    { phNxpEseProto7816_3_Var :=
        { w.phNxpEseProto7816_3_Var with
          lastSentNonErrorframeType := .SFRAME
          phNxpEseLastTx_Cntx := w.phNxpEseProto7816_3_Var.phNxpEseNextTx_Cntx
          timeoutCounter := PH_PROTO_7816_VALUE_ZERO
          rnack_retry_counter := PH_PROTO_7816_VALUE_ZERO },
      rsp := w.rsp } hg hw (fun h => h.1 hnx)
  refine ⟨x, fun fuel status => ?_, a1, a2, a3, a4⟩
  rw [loop_step_S K d tr fuel status w hist .WTX_RSP n b pcb r (by rw [hst]; decide)
    (TransceiveProcess_send_wtxRsp K d tr hist status w hst) hsw hr hg, e fuel]
  rfl

/-- One iteration of the loop that sends the I-block of the next-to-send context and reads
a WTX request. -/
theorem loop_step_I_wtx (K : Consts) (d : Dialect) (tr : Transport)
    (w : Session) (hist : List (List Nat)) (r : List Nat)
    (hst : w.phNxpEseProto7816_3_Var.phNxpEseProto7816_nextTransceiveState = .SEND_IFRAME)
    (hft : w.phNxpEseProto7816_3_Var.phNxpEseNextTx_Cntx.FrameType = .IFRAME)
    (g1 : 1 ≤ w.phNxpEseProto7816_3_Var.phNxpEseNextTx_Cntx.IframeInfo.sendDataLen)
    (g2 : w.phNxpEseProto7816_3_Var.phNxpEseNextTx_Cntx.IframeInfo.sendDataLen
        + PH_PROTO_7816_HEADER_LEN d + PH_PROTO_7816_CRC_LEN ≤ K.MAX_APDU_BUFFER)
    (g3 : w.phNxpEseProto7816_3_Var.phNxpEseNextTx_Cntx.IframeInfo.sendDataLen ≤ UINT_MAX - 6)
    (hr : tr (hist ++ [SendIframe_frame d
        w.phNxpEseProto7816_3_Var.phNxpEseNextTx_Cntx.IframeInfo.seqNo
        w.phNxpEseProto7816_3_Var.phNxpEseNextTx_Cntx.IframeInfo]) = .received r)
    (hg : GoodFrame K d r) (hw : IsWtxReq K r) :
    ∃ x : Session,
      (∀ (fuel : Nat) (status : Bool),
        TransceiveProcess_loop K d tr (fuel + 1) status w hist =
          TransceiveProcess_loop K d tr fuel true x (hist ++ [SendIframe_frame d
            w.phNxpEseProto7816_3_Var.phNxpEseNextTx_Cntx.IframeInfo.seqNo
            w.phNxpEseProto7816_3_Var.phNxpEseNextTx_Cntx.IframeInfo])) ∧
      x.phNxpEseProto7816_3_Var.wtx_counter_limit
        = w.phNxpEseProto7816_3_Var.wtx_counter_limit ∧
      asm x = asm w ∧
      ((w.phNxpEseProto7816_3_Var.wtx_counter + 1) % (K.WTX_COUNTER_MAX + 1)
          ≠ w.phNxpEseProto7816_3_Var.wtx_counter_limit →
        x.phNxpEseProto7816_3_Var.phNxpEseProto7816_nextTransceiveState = .SEND_S_WTX_RSP ∧
        x.phNxpEseProto7816_3_Var.wtx_counter
          = (w.phNxpEseProto7816_3_Var.wtx_counter + 1) % (K.WTX_COUNTER_MAX + 1) ∧
        x.phNxpEseProto7816_3_Var.phNxpEseNextTx_Cntx.SframeInfo.sFrameType = .WTX_RSP) ∧
      ((w.phNxpEseProto7816_3_Var.wtx_counter + 1) % (K.WTX_COUNTER_MAX + 1)
          = w.phNxpEseProto7816_3_Var.wtx_counter_limit →
        x.phNxpEseProto7816_3_Var.phNxpEseProto7816_nextTransceiveState = resetStep d ∧
        x.phNxpEseProto7816_3_Var.wtx_counter = 0 ∧
        x.phNxpEseProto7816_3_Var.phNxpEseNextTx_Cntx.SframeInfo.sFrameType = resetReq d) := by
  have hH : PH_PROTO_7816_HEADER_LEN d ≤ 4 := by cases d <;> decide
  have hC : PH_PROTO_7816_CRC_LEN = 2 := rfl
  have g3' : w.phNxpEseProto7816_3_Var.phNxpEseNextTx_Cntx.IframeInfo.sendDataLen
      ≤ UINT_MAX - (PH_PROTO_7816_HEADER_LEN d + PH_PROTO_7816_CRC_LEN) := by
    have hU : UINT_MAX = 4294967295 := rfl
    omega
  obtain ⟨x, e, a1, a2, a3, a4⟩ := DecodeFrame_wtxReq K d r
    { phNxpEseProto7816_3_Var :=
        { w.phNxpEseProto7816_3_Var with
          lastSentNonErrorframeType := .IFRAME
          phNxpEseLastTx_Cntx := w.phNxpEseProto7816_3_Var.phNxpEseNextTx_Cntx
          timeoutCounter := PH_PROTO_7816_VALUE_ZERO
          rnack_retry_counter := PH_PROTO_7816_VALUE_ZERO },
      rsp := w.rsp } hg hw
    (fun h => by
      have h2 : w.phNxpEseProto7816_3_Var.phNxpEseNextTx_Cntx.FrameType = .SFRAME := h.2
      rw [hft] at h2
      cases h2)
  refine ⟨x, fun fuel status => ?_, a1, a2, a3, a4⟩
  rw [loop_step_I K d tr fuel status w hist r hst g1 g2 g3' hr hg, e fuel]
  rfl

/-- With a peer that answers each WTX response with a further WTX request, the loop
started at `SEND_S_WTX_RSP` with `m + 1` increments of the WTX counter left before the
limit sends `m + 1` WTX responses and then has the reset request of the dialect as next
step. -/
theorem loop_wtx_iter (K : Consts) (d : Dialect) (tr : Transport) :
    ∀ (m : Nat) (w : Session) (hist : List (List Nat)),
      w.phNxpEseProto7816_3_Var.phNxpEseProto7816_nextTransceiveState = .SEND_S_WTX_RSP →
      w.phNxpEseProto7816_3_Var.phNxpEseNextTx_Cntx.SframeInfo.sFrameType = .WTX_RSP →
      w.phNxpEseProto7816_3_Var.wtx_counter + m + 1
        = w.phNxpEseProto7816_3_Var.wtx_counter_limit →
      w.phNxpEseProto7816_3_Var.wtx_counter_limit ≤ K.WTX_COUNTER_MAX →
      (∀ j, j ≤ m → ∃ r,
        tr (hist ++ List.replicate (j + 1) (sFrameOf K d .WTX_RSP)) = .received r ∧
        GoodFrame K d r ∧ IsWtxReq K r) →
      ∃ x : Session,
        x.phNxpEseProto7816_3_Var.phNxpEseProto7816_nextTransceiveState = resetStep d ∧
        x.phNxpEseProto7816_3_Var.phNxpEseNextTx_Cntx.SframeInfo.sFrameType = resetReq d ∧
        x.phNxpEseProto7816_3_Var.wtx_counter = 0 ∧
        asm x = asm w ∧
        ∀ (fuel : Nat) (status : Bool),
          TransceiveProcess_loop K d tr (m + 1 + fuel) status w hist =
            TransceiveProcess_loop K d tr fuel true x
              (hist ++ List.replicate (m + 1) (sFrameOf K d .WTX_RSP)) := by
  intro m
  induction m with
  | zero =>
    intro w hist hst hnx hcnt hfit hpeer
    have hmod : (w.phNxpEseProto7816_3_Var.wtx_counter + 1) % (K.WTX_COUNTER_MAX + 1)
        = w.phNxpEseProto7816_3_Var.wtx_counter + 1 := Nat.mod_eq_of_lt (by omega)
    obtain ⟨r, hr, hg, hw⟩ := hpeer 0 (Nat.le_refl 0)
    obtain ⟨x, e, _, a2, _, a4⟩ := loop_step_wtx K d tr w hist r hst hnx hr hg hw
    obtain ⟨b1, b2, b3⟩ := a4 (by rw [hmod]; omega)
    refine ⟨x, b1, b3, b2, a2, fun fuel status => ?_⟩
    rw [show 0 + 1 + fuel = fuel + 1 by omega, e fuel status]
    rfl
  | succ m ih =>
    intro w hist hst hnx hcnt hfit hpeer
    have hmod : (w.phNxpEseProto7816_3_Var.wtx_counter + 1) % (K.WTX_COUNTER_MAX + 1)
        = w.phNxpEseProto7816_3_Var.wtx_counter + 1 := Nat.mod_eq_of_lt (by omega)
    obtain ⟨r, hr, hg, hw⟩ := hpeer 0 (Nat.zero_le _)
    obtain ⟨w1, e, a1, a2, a3, _⟩ := loop_step_wtx K d tr w hist r hst hnx hr hg hw
    obtain ⟨b1, b2, b3⟩ := a3 (by rw [hmod]; omega)
    obtain ⟨x, c1, c2, c3, c4, c5⟩ := ih w1 (hist ++ [sFrameOf K d .WTX_RSP]) b1 b3
      (by rw [b2, hmod, a1]; omega) (by rw [a1]; exact hfit)
      (fun j hj => by
        obtain ⟨r', h1, h2, h3⟩ := hpeer (j + 1) (by omega)
        refine ⟨r', ?_, h2, h3⟩
        rw [List.append_assoc]
        exact h1)
    refine ⟨x, c1, c2, c3, c4.trans a2, fun fuel status => ?_⟩
    rw [show m + 1 + 1 + fuel = m + 1 + fuel + 1 by omega, e (m + 1 + fuel) status,
      c5 fuel true, List.append_assoc]
    rfl

/-- The block the send step emits when the next step is the reset request. -/
theorem TransceiveProcess_send_resetReq_hist (K : Consts) (d : Dialect) (tr : Transport)
    (hist : List (List Nat)) (status : Bool) (w : Session)
    (hst : w.phNxpEseProto7816_3_Var.phNxpEseProto7816_nextTransceiveState = resetStep d) :
    (TransceiveProcess_send K d tr hist status w).2.2
      = hist ++ [sFrameOf K d (resetReq d)] := by
  obtain ⟨n, b, pcb, hsw⟩ := SendSFrame_switch_resetReq K d
  rw [TransceiveProcess_send_resetReq K d tr hist status w hst,
    SendSFrame_eq K d tr hist w (resetReq d) n b pcb hsw]

/-- C21 (as amended): WTX escalation.  For every non-zero `wtx_counter_limit` L (a value
of the counter's type, that is at most `WTX_COUNTER_MAX`), in a session whose next step is
`SEND_IFRAME` with a sendable I-block and whose WTX counter is 0, given a peer that
answers the I-block and each following WTX response with a WTX request (L consecutive WTX
requests, each with a good CRC), the loop does L iterations in which it emits the I-block
and exactly L - 1 WTX responses, and the next block it emits is the reset request of the
dialect (Interface-Reset in Dialect-A, Software-Reset in Dialect-B).  The response
assembly is untouched.  The WTX response is the S-block with PCB `0xE0 | S_WTX`, LEN 1 and
INF `01`; the reset request has PCB `0xC0 | type code` and LEN 0. -/
theorem C21_wtx_escalation (K : Consts) (d : Dialect) (tr : Transport) (w : Session)
    (hist : List (List Nat)) (L : Nat) (hL : 1 ≤ L) (hfit : L ≤ K.WTX_COUNTER_MAX)
    (hst : w.phNxpEseProto7816_3_Var.phNxpEseProto7816_nextTransceiveState = .SEND_IFRAME)
    (hft : w.phNxpEseProto7816_3_Var.phNxpEseNextTx_Cntx.FrameType = .IFRAME)
    (g1 : 1 ≤ w.phNxpEseProto7816_3_Var.phNxpEseNextTx_Cntx.IframeInfo.sendDataLen)
    (g2 : w.phNxpEseProto7816_3_Var.phNxpEseNextTx_Cntx.IframeInfo.sendDataLen
        + PH_PROTO_7816_HEADER_LEN d + PH_PROTO_7816_CRC_LEN ≤ K.MAX_APDU_BUFFER)
    (g3 : w.phNxpEseProto7816_3_Var.phNxpEseNextTx_Cntx.IframeInfo.sendDataLen ≤ UINT_MAX - 6)
    (hlim : w.phNxpEseProto7816_3_Var.wtx_counter_limit = L)
    (hcnt : w.phNxpEseProto7816_3_Var.wtx_counter = 0)
    (hpeer : ∀ k, k < L → ∃ r,
      tr (hist ++ SendIframe_frame d
          w.phNxpEseProto7816_3_Var.phNxpEseNextTx_Cntx.IframeInfo.seqNo
          w.phNxpEseProto7816_3_Var.phNxpEseNextTx_Cntx.IframeInfo
        :: List.replicate k (sFrameOf K d .WTX_RSP)) = .received r ∧
      GoodFrame K d r ∧ IsWtxReq K r) :
    (∃ x : Session,
      x.phNxpEseProto7816_3_Var.phNxpEseProto7816_nextTransceiveState = resetStep d ∧
      asm x = asm w ∧
      (∀ (fuel : Nat) (status : Bool),
        TransceiveProcess_loop K d tr (L + fuel) status w hist =
          TransceiveProcess_loop K d tr fuel true x
            (hist ++ SendIframe_frame d
                w.phNxpEseProto7816_3_Var.phNxpEseNextTx_Cntx.IframeInfo.seqNo
                w.phNxpEseProto7816_3_Var.phNxpEseNextTx_Cntx.IframeInfo
              :: List.replicate (L - 1) (sFrameOf K d .WTX_RSP))) ∧
      (∀ status : Bool,
        (TransceiveProcess_send K d tr
            (hist ++ SendIframe_frame d
                w.phNxpEseProto7816_3_Var.phNxpEseNextTx_Cntx.IframeInfo.seqNo
                w.phNxpEseProto7816_3_Var.phNxpEseNextTx_Cntx.IframeInfo
              :: List.replicate (L - 1) (sFrameOf K d .WTX_RSP)) status x).2.2 =
          (hist ++ SendIframe_frame d
                w.phNxpEseProto7816_3_Var.phNxpEseNextTx_Cntx.IframeInfo.seqNo
                w.phNxpEseProto7816_3_Var.phNxpEseNextTx_Cntx.IframeInfo
              :: List.replicate (L - 1) (sFrameOf K d .WTX_RSP))
            ++ [sFrameOf K d (resetReq d)])) ∧
    sFrameOf K d .WTX_RSP
      = withCRC d ([0x5A, (0xE0 ||| K.PH_PROTO_7816_S_WTX) % 256] ++ specLen d 1 ++ [0x01]) ∧
    sFrameOf K d (resetReq d)
      = withCRC d ([0x5A, (0xC0 ||| resetCode K d) % 256] ++ specLen d 0) := by
  refine ⟨?_, sFrameOf_wtxRsp K d, sFrameOf_resetReq K d⟩
  obtain ⟨r0, hr0, hg0, hw0⟩ := hpeer 0 (by omega)
  obtain ⟨w1, e, a1, a2, a3, a4⟩ := loop_step_I_wtx K d tr w hist r0 hst hft g1 g2 g3
    (by rw [List.append_cons, List.replicate_zero, List.append_nil] at hr0; exact hr0) hg0 hw0
  have hmod : (w.phNxpEseProto7816_3_Var.wtx_counter + 1) % (K.WTX_COUNTER_MAX + 1) = 1 := by
    rw [hcnt]
    exact Nat.mod_eq_of_lt (by omega)
  match L, hL, hfit, hlim, hpeer with
  | 1, _, _, hlim, _ =>
    obtain ⟨b1, _, _⟩ := a4 (by rw [hmod, hlim])
    refine ⟨w1, b1, a2, fun fuel status => ?_, fun status => ?_⟩
    · rw [show 1 + fuel = fuel + 1 by omega, e fuel status]
      rfl
    · exact TransceiveProcess_send_resetReq_hist K d tr _ status w1 b1
  | m + 2, _, hfit, hlim, hpeer =>
    obtain ⟨b1, b2, b3⟩ := a3 (by rw [hmod, hlim]; omega)
    obtain ⟨x, c1, _, _, c4, c5⟩ := loop_wtx_iter K d tr m w1
      (hist ++ [SendIframe_frame d
        w.phNxpEseProto7816_3_Var.phNxpEseNextTx_Cntx.IframeInfo.seqNo
        w.phNxpEseProto7816_3_Var.phNxpEseNextTx_Cntx.IframeInfo]) b1 b3
      (by rw [b2, hmod, a1, hlim]; omega) (by rw [a1, hlim]; exact hfit)
      (fun j hj => by
        obtain ⟨r', h1, h2, h3⟩ := hpeer (j + 1) (by omega)
        refine ⟨r', ?_, h2, h3⟩
        rw [List.append_assoc]
        exact h1)
    refine ⟨x, c1, c4.trans a2, fun fuel status => ?_, fun status => ?_⟩
    · rw [show m + 2 + fuel = m + 1 + fuel + 1 by omega, e (m + 1 + fuel) status,
        c5 fuel true, List.append_assoc]
      rfl
    · exact TransceiveProcess_send_resetReq_hist K d tr _ status x c1

theorem C21_wtx_escalation_witness :
    ∃ x : Session,
      x.phNxpEseProto7816_3_Var.phNxpEseProto7816_nextTransceiveState = .SEND_S_INTF_RST ∧
      (∀ (fuel : Nat) (status : Bool),
        TransceiveProcess_loop sampleConsts .T1oI2C_UM11225 wtxTwicePeer (2 + fuel) status
          { phNxpEseProto7816_3_Var :=
              installCmd (freshSession 2 3).phNxpEseProto7816_3_Var cmd5,
            rsp := rspBuf10 } [] =
        TransceiveProcess_loop sampleConsts .T1oI2C_UM11225 wtxTwicePeer fuel true x
          [withCRC .T1oI2C_UM11225 [0x5A, 0x00, 0x05, 0x00, 0xA4, 0x04, 0x00, 0x00],
           withCRC .T1oI2C_UM11225 [0x5A, 0xE3, 0x01, 0x01]]) ∧
      (TransceiveProcess_send sampleConsts .T1oI2C_UM11225 wtxTwicePeer
          [withCRC .T1oI2C_UM11225 [0x5A, 0x00, 0x05, 0x00, 0xA4, 0x04, 0x00, 0x00],
           withCRC .T1oI2C_UM11225 [0x5A, 0xE3, 0x01, 0x01]] true x).2.2 =
        [withCRC .T1oI2C_UM11225 [0x5A, 0x00, 0x05, 0x00, 0xA4, 0x04, 0x00, 0x00],
         withCRC .T1oI2C_UM11225 [0x5A, 0xE3, 0x01, 0x01],
         withCRC .T1oI2C_UM11225 [0x5A, 0xCF, 0x00]] := by
  have hf : SendIframe_frame .T1oI2C_UM11225
      (installCmd (freshSession 2 3).phNxpEseProto7816_3_Var
        cmd5).phNxpEseNextTx_Cntx.IframeInfo.seqNo
      (installCmd (freshSession 2 3).phNxpEseProto7816_3_Var
        cmd5).phNxpEseNextTx_Cntx.IframeInfo
      = withCRC .T1oI2C_UM11225 [0x5A, 0x00, 0x05, 0x00, 0xA4, 0x04, 0x00, 0x00] := by
    decide!
  have hx : sFrameOf sampleConsts .T1oI2C_UM11225 .WTX_RSP
      = withCRC .T1oI2C_UM11225 [0x5A, 0xE3, 0x01, 0x01] := by decide!
  have hq : sFrameOf sampleConsts .T1oI2C_UM11225 (resetReq .T1oI2C_UM11225)
      = withCRC .T1oI2C_UM11225 [0x5A, 0xCF, 0x00] := by decide!
  obtain ⟨⟨x, a1, _, a3, a4⟩, _, _⟩ := C21_wtx_escalation sampleConsts .T1oI2C_UM11225
    wtxTwicePeer
    { phNxpEseProto7816_3_Var := installCmd (freshSession 2 3).phNxpEseProto7816_3_Var cmd5,
      rsp := rspBuf10 } [] 2 (by decide) (by decide) rfl rfl (by decide) (by decide)
    (by decide)
    (by decide) (by decide)
    (fun k hk => by
      have hk' : k = 0 ∨ k = 1 := by omega
      rcases hk' with rfl | rfl
      · exact ⟨withCRC .T1oI2C_UM11225 [0x5A, 0xC3, 0x01, 0x01], rfl,
          ⟨by decide, by decide⟩,
          ⟨by decide, by decide, by decide, by decide, by decide, by decide⟩⟩
      · exact ⟨withCRC .T1oI2C_UM11225 [0x5A, 0xC3, 0x01, 0x01], rfl,
          ⟨by decide, by decide⟩,
          ⟨by decide, by decide, by decide, by decide, by decide, by decide⟩⟩)
  rw [hf, hx] at a3 a4
  rw [hq] at a4
  exact ⟨x, a1, a3, a4 true⟩

/-- C21 fails as stated: with `wtx_counter_limit = 2`, a peer that answers the I-block and
the WTX response with a WTX request each (two consecutive WTX requests) draws one WTX
response (PCB `0xE3`), not two, and then the Interface-Reset request (PCB `0xCF`). -/
theorem C21_counterexample :
    ((Transceive sampleConsts .T1oI2C_UM11225 wtxTwicePeer 10 (freshSession 2 3) []
        (some cmd5) (some rspBuf10)).map fun x => x.2.2.map pcbOf)
      = some [0x00, 0xE3, 0xCF] ∧
    (freshSession 2 3).phNxpEseProto7816_3_Var.wtx_counter_limit = 2 ∧
    (freshSession 2 3).phNxpEseProto7816_3_Var.wtx_counter = 0 ∧
    pcbOf (sFrameOf sampleConsts .T1oI2C_UM11225 .WTX_RSP) = 0xE3 ∧
    pcbOf (sFrameOf sampleConsts .T1oI2C_UM11225 .INTF_RESET_REQ) = 0xCF ∧
    IsWtxReq sampleConsts (withCRC .T1oI2C_UM11225 [0x5A, 0xC3, 0x01, 0x01]) := by
  refine ⟨by decide!, by decide, by decide, by decide!, by decide!,
    ⟨by decide, by decide, by decide, by decide, by decide, by decide⟩⟩

/-! ## Close -/

/-- `Close` in state Idle is the loop run from the prepared session, with the current
state set to Idle afterwards. -/
theorem Close_idle (K : Consts) (d : Dialect) (tr : Transport) (fuel : Nat) (w : Session)
    (hist : List (List Nat))
    (hidle : w.phNxpEseProto7816_3_Var.phNxpEseProto7816_CurrentState
      = .PH_NXP_ESE_PROTO_7816_IDLE) :
    Close K d tr fuel w hist =
      (TransceiveProcess_loop K d tr fuel false (closeSession d w) hist).map fun x =>
        (x.1,
          { x.2.1 with
            phNxpEseProto7816_3_Var.phNxpEseProto7816_CurrentState :=
              .PH_NXP_ESE_PROTO_7816_IDLE },
          x.2.2) := by
  cases d <;>
  · simp only [Close, closeSession, closeReq, closeStep, hidle, ne_eq, not_true_eq_false,
      if_false, TransceiveProcess]
    cases TransceiveProcess_loop K _ tr fuel false _ hist with
    | none => rfl
    | some r => obtain ⟨a, b, c⟩ := r; rfl

/-- `Close` outside state Idle: FALSE, no block, only `pRsp` cleared. -/
theorem Close_not_idle (K : Consts) (d : Dialect) (tr : Transport) (fuel : Nat) (w : Session)
    (hist : List (List Nat))
    (hidle : w.phNxpEseProto7816_3_Var.phNxpEseProto7816_CurrentState
      ≠ .PH_NXP_ESE_PROTO_7816_IDLE) :
    Close K d tr fuel w hist =
      some (false, { w with phNxpEseProto7816_3_Var.phNxpEseRx_Cntx.pRsp := .NULL }, hist) := by
  unfold Close
  simp only [hidle, ne_eq, not_false_eq_true, if_true]

/-- Whatever a loop run returns that starts by sending an S-block: the blocks handed over
start with that S-block. -/
theorem loop_first_S (K : Consts) (d : Dialect) (tr : Transport) (fuel : Nat)
    (status : Bool) (w : Session) (hist : List (List Nat)) (t : SFrameType) (n : Nat)
    (b : List Nat) (pcb : Nat)
    (hidle : w.phNxpEseProto7816_3_Var.phNxpEseProto7816_nextTransceiveState ≠ .IDLE_STATE)
    (hsend : TransceiveProcess_send K d tr hist status w
      = SendSFrame K d tr hist w { sFrameType := t })
    (hsw : SendSFrame_switch K d t = some (n, b, pcb))
    (x : Bool × Session × List (List Nat))
    (h : TransceiveProcess_loop K d tr fuel status w hist = some x) :
    ∃ l, x.2.2 = hist ++ sFrameOf K d t :: l := by
  cases fuel with
  | zero => simp [TransceiveProcess_loop] at h
  | succ fuel =>
    have hs := SendSFrame_eq K d tr hist w t n b pcb hsw
    rw [TransceiveProcess_loop_succ, if_neg hidle, hsend, hs] at h
    have key : ∀ st W, TransceiveProcess_loop K d tr fuel st W (hist ++ [sFrameOf K d t])
        = some x → ∃ l, x.2.2 = hist ++ sFrameOf K d t :: l := by
      intro st W hx
      obtain ⟨l, hl⟩ := TransceiveProcess_loop_hist K d tr fuel st W _ x hx
      exact ⟨l, by rw [hl, List.append_assoc]; rfl⟩
    split at h
    · simp only [Option.bind_eq_some] at h
      obtain ⟨p, _, hp⟩ := h
      exact key _ _ hp
    · exact key _ _ h

/-- One iteration of the loop whose write fails: the loop stops with FALSE. -/
theorem loop_S_write_failed (K : Consts) (d : Dialect) (tr : Transport) (fuel : Nat)
    (status : Bool) (w : Session) (hist : List (List Nat)) (t : SFrameType) (n : Nat)
    (b : List Nat) (pcb : Nat)
    (hidle : w.phNxpEseProto7816_3_Var.phNxpEseProto7816_nextTransceiveState ≠ .IDLE_STATE)
    (hsend : TransceiveProcess_send K d tr hist status w
      = SendSFrame K d tr hist w { sFrameType := t })
    (hsw : SendSFrame_switch K d t = some (n, b, pcb))
    (hr : tr (hist ++ [sFrameOf K d t]) = .writeFailed) :
    TransceiveProcess_loop K d tr (fuel + 2) status w hist =
      some (false,
        { w with
          phNxpEseProto7816_3_Var :=
            { w.phNxpEseProto7816_3_Var with
              lastSentNonErrorframeType := .SFRAME
              phNxpEseProto7816_nextTransceiveState := .IDLE_STATE } },
        hist ++ [sFrameOf K d t]) := by
  have hs := SendSFrame_eq K d tr hist w t n b pcb hsw
  have hfail : (SendRawFrame tr hist n (SendSFrame_frame d n b pcb)).1 = false := by
    unfold SendRawFrame
    rw [← sFrameOf_eq K d t n b pcb hsw]
    simp only [hr]
  rw [hfail] at hs
  rw [TransceiveProcess_loop_succ, if_neg hidle, hsend, hs]
  simp only [Bool.false_eq_true, if_false]
  rw [TransceiveProcess_loop_succ, if_pos rfl]

/-- The S-block `switch` reaches the `case` of the end-of-session response; with LEN 0 no
payload is walked, the subtype is recorded and `IDLE_STATE` scheduled. -/
theorem DecodeFrame_S_closeRsp (K : Consts) (d : Dialect) (fuel : Nat) (r : List Nat)
    (n : Nat) (w : Session) (hc : IsCloseRsp K d r) :
    DecodeFrame_S K d fuel r n (pcbOf r) w =
      some (true, DecodeFrame_sDone (closeRsp d)
        { w with
          phNxpEseProto7816_3_Var :=
            { w.phNxpEseProto7816_3_Var with
              wtx_counter := 0
              phNxpEseRx_Cntx.lastRcvdFrameType := .SFRAME } }) := by
  obtain ⟨_, _, hcode, hlen, d1, d2, d3, d4, d5⟩ := hc
  unfold DecodeFrame_S
  lift_lets
  intro frameType s2 s1 w1 s0 w2 setType plain
  have hf : frameType = K.sFrameCode (closeRsp d) := hcode
  have hw2 : w2 = { w with
      phNxpEseProto7816_3_Var :=
        { w.phNxpEseProto7816_3_Var with
          wtx_counter := 0
          phNxpEseRx_Cntx.lastRcvdFrameType := .SFRAME } } := by
    unfold w2
    rw [if_pos (by rw [hf]; exact d4)]
  have hdata : DecodeFrame_sData d fuel r = some () := by
    unfold DecodeFrame_sData
    rw [if_neg (by rw [hlen]; decide)]
  have hplain : plain (closeRsp d) = some (true, DecodeFrame_sDone (closeRsp d) w2) := by
    unfold plain
    rw [hdata]
    rfl
  rw [if_neg (by rw [hf]; exact d1), if_neg (by rw [hf]; exact d2),
    if_neg (by rw [hf]; exact d3), if_neg (by rw [hf]; exact d4)]
  cases d with
  | T1oI2C_UM11225 =>
    show (if frameType = K.sFrameCode .INTF_RESET_RSP then _ else _) = _
    rw [if_neg (by rw [hf]; exact d5), if_pos (by exact hf), ← hw2]
    exact hplain
  | T1oI2C_GP1_0 =>
    show (if frameType = K.sFrameCode .SWR_RSP then _ else _) = _
    rw [if_neg (by rw [hf]; exact d5), if_pos (by exact hf), ← hw2]
    exact hplain

/-- C22 (as amended): clean close.  `Close` called when the current state is not Idle
returns FALSE without handing a block to the transport (only `pRsp` is cleared).  Called
in Idle, the first block it hands over is the end-of-session S-request of the dialect
(Prop-End-APDU in Dialect-A, Release in Dialect-B) with empty INF: NAD `5A`, PCB
`0xC0 | type code`, LEN 0 (one byte in Dialect-A, two in Dialect-B) and the CRC; whenever
it returns, the current state is Idle and the blocks handed over start with that request.
It returns FALSE after that single block when the write fails, and TRUE after that single
block when the peer answers with the end-of-session response with LEN 0. -/
theorem C22_clean_close (K : Consts) (d : Dialect) (tr : Transport) (fuel : Nat)
    (w : Session) (hist : List (List Nat)) :
    (w.phNxpEseProto7816_3_Var.phNxpEseProto7816_CurrentState ≠ .PH_NXP_ESE_PROTO_7816_IDLE →
      Close K d tr fuel w hist =
        some (false, { w with phNxpEseProto7816_3_Var.phNxpEseRx_Cntx.pRsp := .NULL }, hist)) ∧
    (w.phNxpEseProto7816_3_Var.phNxpEseProto7816_CurrentState = .PH_NXP_ESE_PROTO_7816_IDLE →
      (∀ x, Close K d tr fuel w hist = some x →
        x.2.1.phNxpEseProto7816_3_Var.phNxpEseProto7816_CurrentState
          = .PH_NXP_ESE_PROTO_7816_IDLE ∧
        ∃ l, x.2.2 = hist ++ sFrameOf K d (closeReq d) :: l) ∧
      (tr (hist ++ [sFrameOf K d (closeReq d)]) = .writeFailed →
        ∃ W : Session,
          Close K d tr (fuel + 2) w hist
            = some (false, W, hist ++ [sFrameOf K d (closeReq d)]) ∧
          W.phNxpEseProto7816_3_Var.phNxpEseProto7816_CurrentState
            = .PH_NXP_ESE_PROTO_7816_IDLE) ∧
      (∀ r, tr (hist ++ [sFrameOf K d (closeReq d)]) = .received r →
        GoodFrame K d r → IsCloseRsp K d r →
        ∃ W : Session,
          Close K d tr (fuel + 2) w hist
            = some (true, W, hist ++ [sFrameOf K d (closeReq d)]) ∧
          W.phNxpEseProto7816_3_Var.phNxpEseProto7816_CurrentState
            = .PH_NXP_ESE_PROTO_7816_IDLE)) ∧
    sFrameOf K d (closeReq d)
      = withCRC d ([0x5A, (0xC0 ||| closeCode K d) % 256] ++ specLen d 0) := by
  obtain ⟨n, b, pcb, hsw⟩ := SendSFrame_switch_closeReq K d
  have hst : (closeSession d w).phNxpEseProto7816_3_Var.phNxpEseProto7816_nextTransceiveState
      = closeStep d := rfl
  have hni : (closeSession d w).phNxpEseProto7816_3_Var.phNxpEseProto7816_nextTransceiveState
      ≠ .IDLE_STATE := by
    rw [hst]; cases d <;> decide
  refine ⟨Close_not_idle K d tr fuel w hist, fun hidle => ⟨?_, ?_, ?_⟩, sFrameOf_closeReq K d⟩
  · intro x hx
    rw [Close_idle K d tr fuel w hist hidle] at hx
    simp only [Option.map_eq_some'] at hx
    obtain ⟨y, hy, rfl⟩ := hx
    exact ⟨rfl, loop_first_S K d tr fuel false (closeSession d w) hist (closeReq d) n b pcb hni
      (TransceiveProcess_send_closeReq K d tr hist false _ hst) hsw y hy⟩
  · intro hr
    rw [Close_idle K d tr (fuel + 2) w hist hidle,
      loop_S_write_failed K d tr fuel false (closeSession d w) hist (closeReq d) n b pcb hni
        (TransceiveProcess_send_closeReq K d tr hist false _ hst) hsw hr]
    exact ⟨_, rfl, rfl⟩
  · intro r hr hg hc
    rw [Close_idle K d tr (fuel + 2) w hist hidle,
      loop_step_S K d tr (fuel + 1) false (closeSession d w) hist (closeReq d) n b pcb r hni
        (TransceiveProcess_send_closeReq K d tr hist false _ hst) hsw hr hg,
      DecodeFrame_S_block K d (fuel + 1) r _ hg hc.1 hc.2.1,
      DecodeFrame_S_closeRsp K d (fuel + 1) r r.length _ hc]
    simp only [Option.some_bind]
    have hloop : ∀ (X : Session) (h' : List (List Nat)),
        X.phNxpEseProto7816_3_Var.phNxpEseProto7816_nextTransceiveState = .IDLE_STATE →
        TransceiveProcess_loop K d tr (fuel + 1) true X h' = some (true, X, h') := by
      intro X h' hX
      rw [TransceiveProcess_loop_succ, if_pos hX]
    rw [hloop]
    · exact ⟨_, rfl, rfl⟩
    · rfl

theorem C22_clean_close_witness :
    (∃ W : Session,
      Close sampleConsts .T1oI2C_UM11225 closePeer 2 (freshSession 3 3) []
        = some (true, W, [withCRC .T1oI2C_UM11225 [0x5A, 0xC5, 0x00]]) ∧
      W.phNxpEseProto7816_3_Var.phNxpEseProto7816_CurrentState
        = .PH_NXP_ESE_PROTO_7816_IDLE) ∧
    (∃ W : Session,
      Close sampleConsts .T1oI2C_GP1_0 releasePeer 2 (freshSession 3 3) []
        = some (true, W, [withCRC .T1oI2C_GP1_0 [0x5A, 0xC8, 0x00, 0x00]]) ∧
      W.phNxpEseProto7816_3_Var.phNxpEseProto7816_CurrentState
        = .PH_NXP_ESE_PROTO_7816_IDLE) ∧
    Close sampleConsts .T1oI2C_UM11225 closePeer 2
        { freshSession 3 3 with
          phNxpEseProto7816_3_Var.phNxpEseProto7816_CurrentState :=
            .PH_NXP_ESE_PROTO_7816_TRANSCEIVE } []
      = some (false,
          { freshSession 3 3 with
            phNxpEseProto7816_3_Var.phNxpEseProto7816_CurrentState :=
              .PH_NXP_ESE_PROTO_7816_TRANSCEIVE }, []) := by
  have hA : sFrameOf sampleConsts .T1oI2C_UM11225 (closeReq .T1oI2C_UM11225)
      = withCRC .T1oI2C_UM11225 [0x5A, 0xC5, 0x00] := by decide!
  have hB : sFrameOf sampleConsts .T1oI2C_GP1_0 (closeReq .T1oI2C_GP1_0)
      = withCRC .T1oI2C_GP1_0 [0x5A, 0xC8, 0x00, 0x00] := by decide!
  refine ⟨?_, ?_, ?_⟩
  · obtain ⟨W, e, a⟩ :=
      ((C22_clean_close sampleConsts .T1oI2C_UM11225 closePeer 0 (freshSession 3 3) []).2.1
        rfl).2.2 (withCRC .T1oI2C_UM11225 [0x5A, 0xE5, 0x00]) (by rw [hA]; rfl)
        ⟨by decide, by decide⟩
        ⟨by decide, by decide, by decide, by decide, by decide, by decide, by decide,
          by decide, by decide⟩
    rw [hA] at e
    exact ⟨W, e, a⟩
  · obtain ⟨W, e, a⟩ :=
      ((C22_clean_close sampleConsts .T1oI2C_GP1_0 releasePeer 0 (freshSession 3 3) []).2.1
        rfl).2.2 (withCRC .T1oI2C_GP1_0 [0x5A, 0xE8, 0x00, 0x00]) (by rw [hB]; rfl)
        ⟨by decide, by decide⟩
        ⟨by decide, by decide, by decide, by decide, by decide, by decide, by decide,
          by decide, by decide⟩
    rw [hB] at e
    exact ⟨W, e, a⟩
  · exact (C22_clean_close sampleConsts .T1oI2C_UM11225 closePeer 2
      { freshSession 3 3 with
        phNxpEseProto7816_3_Var.phNxpEseProto7816_CurrentState :=
          .PH_NXP_ESE_PROTO_7816_TRANSCEIVE } []).1 (by decide)

/-- C22 fails as stated: the PCB of the end-of-session request is `0xC0 | type code`.  For
every configuration whose Release type code fits the five type bits of an S-block PCB the
Dialect-B block differs from `5A EF 00 00 <crc>` (`0xEF` has bit 5, the response bit, set).
With the sample configuration the blocks are `5A C5 00 <crc>` in Dialect-A and
`5A C8 00 00 <crc>` in Dialect-B. -/
theorem C22_counterexample :
    (∀ K : Consts, K.PH_PROTO_7816_S_RELEASE < 32 →
      sFrameOf K .T1oI2C_GP1_0 .RELEASE_REQ
        ≠ withCRC .T1oI2C_GP1_0 [0x5A, 0xEF, 0x00, 0x00]) ∧
    PH_PROTO_7816_S_BLOCK_REQ = 0xC0 ∧
    ((Close sampleConsts .T1oI2C_UM11225 closePeer 2 (freshSession 3 3) []).map
        fun x => (x.1, x.2.2))
      = some (true, [withCRC .T1oI2C_UM11225 [0x5A, 0xC5, 0x00]]) ∧
    ((Close sampleConsts .T1oI2C_GP1_0 releasePeer 2 (freshSession 3 3) []).map
        fun x => (x.1, x.2.2))
      = some (true, [withCRC .T1oI2C_GP1_0 [0x5A, 0xC8, 0x00, 0x00]]) := by
  refine ⟨fun K hK h => ?_, rfl, by decide!, by decide!⟩
  have e := sFrameOf_closeReq K .T1oI2C_GP1_0
  have e' : sFrameOf K .T1oI2C_GP1_0 .RELEASE_REQ
      = withCRC .T1oI2C_GP1_0
          ([0x5A, (0xC0 ||| K.PH_PROTO_7816_S_RELEASE) % 256] ++ specLen .T1oI2C_GP1_0 0) := e
  rw [e'] at h
  have h1 := congrArg (fun l => l.getD 1 0) h
  have key : ∀ c, c < 32 → (0xC0 ||| c) % 256 ≠ 0xEF := by decide
  exact key _ hK h1

/-! ## ProcessResponse: CRC failure and read failure -/

/-- C31 (as amended): CRC failure handling.  When a frame is read but `CheckCRC` fails:
if `rnack_retry_counter < rnack_retry_limit`, the next step is `SEND_R_NACK` with error
code parity, `rnack_retry_counter` is incremented by 1, `timeoutCounter` becomes 0 and the
recovery counter, the WTX counter, the two limits and the response assembly are unchanged;
otherwise (the counter is at the limit) the next step is `IDLE_STATE`,
`rnack_retry_counter` and `timeoutCounter` become 0, the rest is unchanged and
`ProcessResponse` returns FALSE. -/
theorem C31_crc_failure (K : Consts) (d : Dialect) (fuel : Nat) (p : List Nat) (w : Session)
    (hcrc : CheckCRC K.MAX_APDU_BUFFER d p.length (some p) = false) :
    (w.phNxpEseProto7816_3_Var.rnack_retry_counter
        < w.phNxpEseProto7816_3_Var.rnack_retry_limit →
      ∃ x : Session, ProcessResponse K d fuel (some p) w = some (true, x) ∧
        x.phNxpEseProto7816_3_Var.phNxpEseProto7816_nextTransceiveState = .SEND_R_NACK ∧
        x.phNxpEseProto7816_3_Var.phNxpEseNextTx_Cntx.FrameType = .RFRAME ∧
        x.phNxpEseProto7816_3_Var.phNxpEseNextTx_Cntx.RframeInfo.errCode = .PARITY_ERROR ∧
        x.phNxpEseProto7816_3_Var.rnack_retry_counter
          = w.phNxpEseProto7816_3_Var.rnack_retry_counter + 1 ∧
        x.phNxpEseProto7816_3_Var.timeoutCounter = 0 ∧
        x.phNxpEseProto7816_3_Var.recoveryCounter
          = w.phNxpEseProto7816_3_Var.recoveryCounter ∧
        x.phNxpEseProto7816_3_Var.wtx_counter = w.phNxpEseProto7816_3_Var.wtx_counter ∧
        limits x = limits w ∧ asm x = asm w) ∧
    (¬ w.phNxpEseProto7816_3_Var.rnack_retry_counter
        < w.phNxpEseProto7816_3_Var.rnack_retry_limit →
      ∃ x : Session, ProcessResponse K d fuel (some p) w = some (false, x) ∧
        x.phNxpEseProto7816_3_Var.phNxpEseProto7816_nextTransceiveState = .IDLE_STATE ∧
        x.phNxpEseProto7816_3_Var.rnack_retry_counter = 0 ∧
        x.phNxpEseProto7816_3_Var.timeoutCounter = 0 ∧
        x.phNxpEseProto7816_3_Var.recoveryCounter
          = w.phNxpEseProto7816_3_Var.recoveryCounter ∧
        x.phNxpEseProto7816_3_Var.wtx_counter = w.phNxpEseProto7816_3_Var.wtx_counter ∧
        limits x = limits w ∧ asm x = asm w) := by
  refine ⟨fun h => ?_, fun h => ?_⟩
  · refine ⟨{ w with
        phNxpEseProto7816_3_Var :=
          ProcessResponse_rnack .PARITY_ERROR
            { w.phNxpEseProto7816_3_Var with timeoutCounter := PH_PROTO_7816_VALUE_ZERO } },
      ?_, rfl, rfl, rfl, rfl, rfl, rfl, rfl, rfl, rfl⟩
    unfold ProcessResponse
    simp only [hcrc, Bool.false_eq_true, if_false]
    rw [if_pos h]
  · refine ⟨{ w with
        phNxpEseProto7816_3_Var :=
          ProcessResponse_giveUp
            { w.phNxpEseProto7816_3_Var with timeoutCounter := PH_PROTO_7816_VALUE_ZERO } },
      ?_, rfl, rfl, rfl, rfl, rfl, rfl, rfl⟩
    unfold ProcessResponse
    simp only [hcrc, Bool.false_eq_true, if_false]
    rw [if_neg h]

theorem C31_crc_failure_witness :
    ∃ x : Session,
      ProcessResponse sampleConsts .T1oI2C_UM11225 4 (some [0x5A, 0x00, 0x00, 0xFF, 0xFF])
        retriedSession = some (true, x) ∧
      x.phNxpEseProto7816_3_Var.phNxpEseProto7816_nextTransceiveState = .SEND_R_NACK ∧
      x.phNxpEseProto7816_3_Var.rnack_retry_counter = 2 ∧
      x.phNxpEseProto7816_3_Var.timeoutCounter = 0 := by
  obtain ⟨x, e, a1, _, _, a4, a5, _⟩ :=
    (C31_crc_failure sampleConsts .T1oI2C_UM11225 4 [0x5A, 0x00, 0x00, 0xFF, 0xFF]
      retriedSession (by decide!)).1 (by decide)
  exact ⟨x, e, a1, by rw [a4]; rfl, a5⟩

/-- C31 fails as stated: the timeout counter is a counter that changes.  Reading the frame
`5A 00 00 FF FF`, whose CRC is wrong, in a session with R-NACK counter 1 (limit 3) and
timeout counter 1 schedules the R-NACK and leaves the timeout counter 0.  The state
arises in a run: the peer stays silent after the I-block and after the first R-NACK
(timeout counter 1), then sends the corrupted frame, then stays silent; with the timeout
retry limit 1 the host sends the R-NACK four times in all, one more than it could if the
timeout counter had kept its value 1. -/
theorem C31_counterexample :
    ((ProcessResponse sampleConsts .T1oI2C_UM11225 4 (some [0x5A, 0x00, 0x00, 0xFF, 0xFF])
      retriedSession).map fun x =>
        (x.1, x.2.phNxpEseProto7816_3_Var.phNxpEseProto7816_nextTransceiveState,
          x.2.phNxpEseProto7816_3_Var.rnack_retry_counter,
          x.2.phNxpEseProto7816_3_Var.timeoutCounter))
      = some (true, .SEND_R_NACK, 2, 0) ∧
    retriedSession.phNxpEseProto7816_3_Var.timeoutCounter = 1 ∧
    retriedSession.phNxpEseProto7816_3_Var.rnack_retry_counter = 1 ∧
    retriedSession.phNxpEseProto7816_3_Var.rnack_retry_limit = 3 ∧
    CheckCRC sampleConsts.MAX_APDU_BUFFER .T1oI2C_UM11225 5
      (some [0x5A, 0x00, 0x00, 0xFF, 0xFF]) = false ∧
    sampleConsts.PH_PROTO_7816_TIMEOUT_RETRY_COUNT = 1 ∧
    ((Transceive sampleConsts .T1oI2C_UM11225 badCrcPeer 12 (freshSession 3 3) []
        (some cmd5) (some rspBuf10)).map fun x => (x.1, x.2.2.map pcbOf))
      = some (false, [0x00, 0x81, 0x81, 0x81, 0x81]) := by
  refine ⟨by decide!, by decide, by decide, by decide, by decide!, by decide, by decide!⟩

/-- C32: read failure handling.  When the read fails `ProcessResponse` returns FALSE, and:
if the last-sent context is the WTX response S-block, it schedules `SEND_R_NACK` with
error code other while `rnack_retry_counter < rnack_retry_limit` (the counter is
incremented) and `IDLE_STATE` otherwise; if the last-sent context is an I-block, it
schedules `SEND_R_NACK` with error code parity while `rnack_retry_counter <
rnack_retry_limit` and `IDLE_STATE` otherwise; for any other last-sent context that a
sender can emit (an R-block, or an S-block other than the WTX response), it copies the
last-sent context into the next-to-send context and increments `timeoutCounter` while
`timeoutCounter` is below the timeout retry limit, leaving the next step as it is, and
schedules `IDLE_STATE` otherwise.  (A last-sent S context of type `RESYNCH_RSP`, which
`SendSFrame` cannot send, is treated like the WTX response.) -/
theorem C32_read_failure (K : Consts) (d : Dialect) (fuel : Nat) (w : Session) :
    (∃ x : Session, ProcessResponse K d fuel none w = some (false, x)) ∧
    (w.phNxpEseProto7816_3_Var.phNxpEseLastTx_Cntx.FrameType = .SFRAME →
      w.phNxpEseProto7816_3_Var.phNxpEseLastTx_Cntx.SframeInfo.sFrameType = .WTX_RSP ∨
        w.phNxpEseProto7816_3_Var.phNxpEseLastTx_Cntx.SframeInfo.sFrameType = .RESYNCH_RSP →
      (w.phNxpEseProto7816_3_Var.rnack_retry_counter
          < w.phNxpEseProto7816_3_Var.rnack_retry_limit →
        ProcessResponse K d fuel none w =
          some (false, { w with
            phNxpEseProto7816_3_Var :=
              ProcessResponse_rnack .OTHER_ERROR w.phNxpEseProto7816_3_Var })) ∧
      (¬ w.phNxpEseProto7816_3_Var.rnack_retry_counter
          < w.phNxpEseProto7816_3_Var.rnack_retry_limit →
        ProcessResponse K d fuel none w =
          some (false, { w with
            phNxpEseProto7816_3_Var := ProcessResponse_giveUp w.phNxpEseProto7816_3_Var }))) ∧
    (w.phNxpEseProto7816_3_Var.phNxpEseLastTx_Cntx.FrameType = .IFRAME →
      (w.phNxpEseProto7816_3_Var.rnack_retry_counter
          < w.phNxpEseProto7816_3_Var.rnack_retry_limit →
        ProcessResponse K d fuel none w =
          some (false, { w with
            phNxpEseProto7816_3_Var :=
              ProcessResponse_rnack .PARITY_ERROR w.phNxpEseProto7816_3_Var })) ∧
      (¬ w.phNxpEseProto7816_3_Var.rnack_retry_counter
          < w.phNxpEseProto7816_3_Var.rnack_retry_limit →
        ProcessResponse K d fuel none w =
          some (false, { w with
            phNxpEseProto7816_3_Var := ProcessResponse_giveUp w.phNxpEseProto7816_3_Var }))) ∧
    (w.phNxpEseProto7816_3_Var.phNxpEseLastTx_Cntx.FrameType ≠ .IFRAME →
      ¬ (w.phNxpEseProto7816_3_Var.phNxpEseLastTx_Cntx.FrameType = .SFRAME ∧
        (w.phNxpEseProto7816_3_Var.phNxpEseLastTx_Cntx.SframeInfo.sFrameType = .WTX_RSP ∨
          w.phNxpEseProto7816_3_Var.phNxpEseLastTx_Cntx.SframeInfo.sFrameType
            = .RESYNCH_RSP)) →
      (w.phNxpEseProto7816_3_Var.timeoutCounter < K.PH_PROTO_7816_TIMEOUT_RETRY_COUNT →
        ProcessResponse K d fuel none w =
          some (false, { w with
            phNxpEseProto7816_3_Var :=
              { w.phNxpEseProto7816_3_Var with
                timeoutCounter := w.phNxpEseProto7816_3_Var.timeoutCounter + 1
                phNxpEseNextTx_Cntx := w.phNxpEseProto7816_3_Var.phNxpEseLastTx_Cntx } })) ∧
      (¬ w.phNxpEseProto7816_3_Var.timeoutCounter < K.PH_PROTO_7816_TIMEOUT_RETRY_COUNT →
        ProcessResponse K d fuel none w =
          some (false, { w with
            phNxpEseProto7816_3_Var :=
              { w.phNxpEseProto7816_3_Var with
                phNxpEseProto7816_nextTransceiveState := .IDLE_STATE
                timeoutCounter := PH_PROTO_7816_VALUE_ZERO } }))) ∧
    (∀ e v, (ProcessResponse_rnack e v).phNxpEseProto7816_nextTransceiveState = .SEND_R_NACK ∧
      (ProcessResponse_rnack e v).phNxpEseNextTx_Cntx.FrameType = .RFRAME ∧
      (ProcessResponse_rnack e v).phNxpEseNextTx_Cntx.RframeInfo.errCode = e ∧
      (ProcessResponse_rnack e v).rnack_retry_counter = v.rnack_retry_counter + 1) ∧
    (∀ v, (ProcessResponse_giveUp v).phNxpEseProto7816_nextTransceiveState = .IDLE_STATE) ∧
    SendSFrame_switch K d .RESYNCH_RSP = none := by
  refine ⟨?_, ?_, ?_, ?_, fun e v => ⟨rfl, rfl, rfl, rfl⟩, fun v => rfl, by cases d <;> rfl⟩
  · unfold ProcessResponse
    dsimp only
    repeat' split
    all_goals exact ⟨_, rfl⟩
  · intro h1 h2
    refine ⟨fun h => ?_, fun h => ?_⟩
    · unfold ProcessResponse
      dsimp only
      rw [if_pos ⟨h1, h2⟩, if_pos h]
    · unfold ProcessResponse
      dsimp only
      rw [if_pos ⟨h1, h2⟩, if_neg h]
  · intro h1
    have hn : ¬ (w.phNxpEseProto7816_3_Var.phNxpEseLastTx_Cntx.FrameType = .SFRAME ∧
        (w.phNxpEseProto7816_3_Var.phNxpEseLastTx_Cntx.SframeInfo.sFrameType = .WTX_RSP ∨
          w.phNxpEseProto7816_3_Var.phNxpEseLastTx_Cntx.SframeInfo.sFrameType
            = .RESYNCH_RSP)) := by
      intro h
      rw [h1] at h
      exact absurd h.1 (by decide)
    refine ⟨fun h => ?_, fun h => ?_⟩
    · unfold ProcessResponse
      dsimp only
      rw [if_neg hn, if_pos h1, if_pos h]
    · unfold ProcessResponse
      dsimp only
      rw [if_neg hn, if_pos h1, if_neg h]
  · intro h1 hn
    refine ⟨fun h => ?_, fun h => ?_⟩
    · unfold ProcessResponse
      dsimp only
      rw [if_neg hn, if_neg h1, if_pos h]
    · unfold ProcessResponse
      dsimp only
      rw [if_neg hn, if_neg h1, if_neg h]

theorem C32_read_failure_witness :
    ProcessResponse sampleConsts .T1oI2C_UM11225 4 none sentSession =
      some (false, { sentSession with
        phNxpEseProto7816_3_Var :=
          ProcessResponse_rnack .PARITY_ERROR sentSession.phNxpEseProto7816_3_Var }) ∧
    ProcessResponse sampleConsts .T1oI2C_UM11225 4 none (freshSession 3 3) =
      some (false, { freshSession 3 3 with
        phNxpEseProto7816_3_Var :=
          { (freshSession 3 3).phNxpEseProto7816_3_Var with
            timeoutCounter := 1
            phNxpEseNextTx_Cntx :=
              (freshSession 3 3).phNxpEseProto7816_3_Var.phNxpEseLastTx_Cntx } }) := by
  refine ⟨?_, ?_⟩
  · exact ((C32_read_failure sampleConsts .T1oI2C_UM11225 4 sentSession).2.2.1 rfl).1
      (by decide)
  · exact ((C32_read_failure sampleConsts .T1oI2C_UM11225 4 (freshSession 3 3)).2.2.2.1
      (by decide) (by decide)).1 (by decide)

/-! ## Short frames and the S-response payload walk -/

/-- A frame shorter than the header leaves `DecodeFrame` through its third guard with the
initial status TRUE. -/
theorem DecodeFrame_below_header (K : Consts) (d : Dialect) (fuel : Nat)
    (p : Option (List Nat)) (n : Nat) (w : Session) (hn : n < PH_PROTO_7816_HEADER_LEN d) :
    DecodeFrame K d fuel p n w = some (true, w) := by
  unfold DecodeFrame
  cases p with
  | none => rfl
  | some buf =>
    dsimp only
    by_cases h1 : ¬ n < K.MAX_APDU_BUFFER
    · rw [if_pos h1]
    · rw [if_neg h1, if_pos (by omega)]

/-- A frame that holds the header but is shorter than header plus CRC is rejected: FALSE,
nothing changed. -/
theorem DecodeFrame_below_inf (K : Consts) (d : Dialect) (fuel : Nat)
    (buf : List Nat) (n : Nat) (w : Session) (h0 : n < K.MAX_APDU_BUFFER)
    (h1 : PH_PROTO_7816_HEADER_LEN d ≤ n) (h2 : n < PH_PROTO_7816_INF_FILED d) :
    DecodeFrame K d fuel (some buf) n w = some (false, w) := by
  unfold DecodeFrame
  dsimp only
  rw [if_neg (by omega), if_neg (by omega), if_pos h2]

/-- C39 (what the code does instead): the two-byte frame `00 00` passes `CheckCRC` in
Dialect-A, and `DecodeFrame` called with it (length 2, below the header length 3) returns
TRUE, not FALSE, with the session unchanged; so does `ProcessResponse`, apart from the two
counters it clears, and the next step stays `SEND_IFRAME`.  In a run a peer that answers
the I-block with `00 00` and the next block with the I-block `90 00` is sent the same
I-block twice and the call returns TRUE.  A frame of length 3 or 4 is rejected with
FALSE. -/
theorem C39_short_frame_accepted :
    CheckCRC sampleConsts.MAX_APDU_BUFFER .T1oI2C_UM11225 2 (some [0x00, 0x00]) = true ∧
    PH_PROTO_7816_HEADER_LEN .T1oI2C_UM11225 = 3 ∧
    PH_PROTO_7816_INF_FILED .T1oI2C_UM11225 = 5 ∧
    DecodeFrame sampleConsts .T1oI2C_UM11225 4 (some [0x00, 0x00]) 2 sentSession
      = some (true, sentSession) ∧
    ((ProcessResponse sampleConsts .T1oI2C_UM11225 4 (some [0x00, 0x00]) sentSession).map
        fun x => (x.1, x.2.phNxpEseProto7816_3_Var.phNxpEseProto7816_nextTransceiveState))
      = some (true, .SEND_IFRAME) ∧
    DecodeFrame sampleConsts .T1oI2C_UM11225 4 (some [0x5A, 0x00, 0x00]) 3 sentSession
      = some (false, sentSession) ∧
    ((Transceive sampleConsts .T1oI2C_UM11225 shortFramePeer 10 (freshSession 3 3) []
        (some cmd5) (some rspBuf10)).map fun x => (x.1, x.2.1.rsp.len, x.2.2))
      = some (true, 2,
          [withCRC .T1oI2C_UM11225 [0x5A, 0x00, 0x05, 0x00, 0xA4, 0x04, 0x00, 0x00],
           withCRC .T1oI2C_UM11225 [0x5A, 0x00, 0x05, 0x00, 0xA4, 0x04, 0x00, 0x00]]) := by
  refine ⟨by decide!, rfl, rfl, ?_, by decide!, ?_, by decide!⟩
  · exact DecodeFrame_below_header sampleConsts .T1oI2C_UM11225 4 _ 2 sentSession (by decide)
  · exact DecodeFrame_below_inf sampleConsts .T1oI2C_UM11225 4 _ 3 sentSession (by decide)
      (by decide) (by decide)

/-- The payload walk on `loopingSRsp` never ends. -/
theorem DecodeSFrameData_loop_looping (fuel : Nat) :
    DecodeSFrameData_loop loopingSRsp 4 fuel 2 = none := by
  induction fuel with
  | zero => rfl
  | succ fuel ih =>
    unfold DecodeSFrameData_loop
    rw [if_pos (by decide)]
    have e : ((2 + 1) % 256 + loopingSRsp.getD ((2 + 1) % 256 + 1) 0) % 256 = 2 := by decide
    simp only [e]
    exact ih

/-- The payload walk on `loopingSRspB` never ends. -/
theorem DecodeSFrameData_loop_loopingB (fuel : Nat) :
    DecodeSFrameData_loop loopingSRspB 5 fuel 3 = none := by
  induction fuel with
  | zero => rfl
  | succ fuel ih =>
    unfold DecodeSFrameData_loop
    rw [if_pos (by decide)]
    have e : ((3 + 1) % 256 + loopingSRspB.getD ((3 + 1) % 256 + 1) 0) % 256 = 3 := by decide
    simp only [e]
    exact ih

/-- Decoding an S-block of a subtype whose `case` walks the payload and then schedules
`IDLE_STATE` (here the end-of-session response with a non-zero LEN byte). -/
theorem DecodeFrame_S_closeRsp_walk (K : Consts) (d : Dialect) (fuel : Nat) (r : List Nat)
    (n : Nat) (w : Session)
    (hcode : pcbOf r &&& 0x3F = K.sFrameCode (closeRsp d))
    (d1 : K.sFrameCode (closeRsp d) ≠ K.sFrameCode .RESYNCH_RSP)
    (d2 : K.sFrameCode (closeRsp d) ≠ K.sFrameCode .IFSC_RES)
    (d3 : K.sFrameCode (closeRsp d) ≠ K.sFrameCode .ABORT_RES)
    (d4 : K.sFrameCode (closeRsp d) ≠ K.sFrameCode .WTX_REQ)
    (d5 : K.sFrameCode (closeRsp d) ≠ resetRspCode K d)
    (hwalk : DecodeFrame_sData d fuel r = none) :
    DecodeFrame_S K d fuel r n (pcbOf r) w = none := by
  unfold DecodeFrame_S
  lift_lets
  intro frameType s2 s1 w1 s0 w2 setType plain
  have hf : frameType = K.sFrameCode (closeRsp d) := hcode
  have hplain : plain (closeRsp d) = none := by
    unfold plain
    rw [hwalk]
    rfl
  rw [if_neg (by rw [hf]; exact d1), if_neg (by rw [hf]; exact d2),
    if_neg (by rw [hf]; exact d3), if_neg (by rw [hf]; exact d4)]
  cases d with
  | T1oI2C_UM11225 =>
    show (if frameType = K.sFrameCode .INTF_RESET_RSP then _ else _) = _
    rw [if_neg (by rw [hf]; exact d5), if_pos (by exact hf)]
    exact hplain
  | T1oI2C_GP1_0 =>
    show (if frameType = K.sFrameCode .SWR_RSP then _ else _) = _
    rw [if_neg (by rw [hf]; exact d5), if_pos (by exact hf)]
    exact hplain

/-- C40 (what the code does instead): the payload walk of `DecodeSFrameData` does not end
on the Dialect-A S-response `5A E5 02 00 FF <crc>`: with its 8-bit offset it steps from
offset 2 to 3, adds the byte `FF` found at index 4 and is at offset 2 again, below the
end offset 4, in every iteration.  For every number of iterations allowed the walk has not
returned; neither has `DecodeFrame` on this frame (which passes the CRC check), nor a
`Close` whose request the peer answers with it.  The same holds in Dialect-B for
`5A E8 00 02 00 FF <crc>`. -/
theorem C40_payload_walk_never_ends :
    (∀ fuel, DecodeSFrameData .T1oI2C_UM11225 fuel (some loopingSRsp) = none) ∧
    (∀ fuel, DecodeSFrameData .T1oI2C_GP1_0 fuel (some loopingSRspB) = none) ∧
    GoodFrame sampleConsts .T1oI2C_UM11225 loopingSRsp ∧
    GoodFrame sampleConsts .T1oI2C_GP1_0 loopingSRspB ∧
    (∀ fuel w, DecodeFrame sampleConsts .T1oI2C_UM11225 fuel (some loopingSRsp)
      loopingSRsp.length w = none) ∧
    (∀ fuel, Close sampleConsts .T1oI2C_UM11225 loopingPeer fuel (freshSession 3 3) []
      = none) := by
  have hA : ∀ fuel, DecodeSFrameData .T1oI2C_UM11225 fuel (some loopingSRsp) = none := by
    intro fuel
    unfold DecodeSFrameData
    have e : (loopingSRsp.getD PH_PROPTO_7816_LEN_UPPER_OFFSET 0
        + PH_PROPTO_7816_LEN_UPPER_OFFSET) % 256 = 4 := by decide
    simp only [e]
    show (DecodeSFrameData_loop loopingSRsp 4 fuel 2).map _ = none
    rw [DecodeSFrameData_loop_looping]
    rfl
  have hB : ∀ fuel, DecodeSFrameData .T1oI2C_GP1_0 fuel (some loopingSRspB) = none := by
    intro fuel
    unfold DecodeSFrameData
    have e : (loopingSRspB.getD PH_PROPTO_7816_LEN_LOWER_OFFSET 0
        + PH_PROPTO_7816_LEN_LOWER_OFFSET) % 256 = 5 := by decide
    simp only [e]
    show (DecodeSFrameData_loop loopingSRspB 5 fuel 3).map _ = none
    rw [DecodeSFrameData_loop_loopingB]
    rfl
  have hgA : GoodFrame sampleConsts .T1oI2C_UM11225 loopingSRsp := ⟨by decide!, by decide⟩
  have hD : ∀ fuel w, DecodeFrame sampleConsts .T1oI2C_UM11225 fuel (some loopingSRsp)
      loopingSRsp.length w = none := by
    intro fuel w
    rw [DecodeFrame_S_block sampleConsts .T1oI2C_UM11225 fuel loopingSRsp w hgA (by decide)
      (by decide)]
    refine DecodeFrame_S_closeRsp_walk sampleConsts .T1oI2C_UM11225 fuel loopingSRsp _ w
      (by decide) (by decide) (by decide) (by decide) (by decide) (by decide) ?_
    unfold DecodeFrame_sData
    rw [if_pos (by decide)]
    exact hA fuel
  refine ⟨hA, hB, hgA, ⟨by decide!, by decide⟩, hD, fun fuel => ?_⟩
  rw [Close_idle sampleConsts .T1oI2C_UM11225 loopingPeer fuel (freshSession 3 3) [] rfl]
  cases fuel with
  | zero => rfl
  | succ fuel =>
    obtain ⟨n, b, pcb, hsw⟩ := SendSFrame_switch_closeReq sampleConsts .T1oI2C_UM11225
    rw [loop_step_S sampleConsts .T1oI2C_UM11225 loopingPeer fuel false
      (closeSession .T1oI2C_UM11225 (freshSession 3 3)) [] (closeReq .T1oI2C_UM11225) n b pcb
      loopingSRsp (by decide)
      (TransceiveProcess_send_closeReq sampleConsts .T1oI2C_UM11225 loopingPeer [] false _ rfl)
      hsw rfl hgA, hD fuel]
    rfl

/-! ## Reset responses, chaining past the command, and the ATR length -/

/-- The S-block `switch` reaches the reset-response `case` of the dialect; once the payload
walk has returned, the case body runs in the session in which the S-block was recorded. -/
theorem DecodeFrame_S_resetRsp (K : Consts) (d : Dialect) (fuel : Nat) (r : List Nat)
    (n : Nat) (w : Session) (hc : ReachesResetRsp K d r)
    (hwalk : DecodeFrame_sData d fuel r = some ()) :
    DecodeFrame_S K d fuel r n (pcbOf r) w =
      some (DecodeFrame_resetRsp K d (resetRsp d) (resetRspSaves d) r n (sReceived w)) := by
  obtain ⟨⟨_, _, hcode⟩, d1, d2, d3, d4⟩ := hc
  unfold DecodeFrame_S
  lift_lets
  intro frameType s2 s1 w1 s0 w2 setType plain
  have hf : frameType = resetRspCode K d := hcode
  have hw2 : w2 = sReceived w := by
    unfold w2
    rw [if_pos (by rw [hf]; exact d4)]
    rfl
  rw [if_neg (by rw [hf]; exact d1), if_neg (by rw [hf]; exact d2),
    if_neg (by rw [hf]; exact d3), if_neg (by rw [hf]; exact d4)]
  cases d with
  | T1oI2C_UM11225 =>
    show (if frameType = K.sFrameCode .INTF_RESET_RSP then _ else _) = _
    rw [if_pos (by exact hf), hwalk, ← hw2]
    rfl
  | T1oI2C_GP1_0 =>
    show (if frameType = K.sFrameCode .SWR_RSP then _ else _) = _
    rw [if_pos (by exact hf), hwalk, ← hw2]
    rfl

/-- The reset-response `case` when the recovery counter is above the frame-retry limit:
status FALSE, next step `IDLE_STATE`, and no `ResetProtoParams`: apart from the next step,
the response cursor and the caller's buffer the session is as before. -/
theorem DecodeFrame_resetRsp_exhausted (K : Consts) (d : Dialect) (t : SFrameType)
    (save : Bool) (buf : List Nat) (n : Nat) (w : Session)
    (hn : PH_PROTO_7816_INF_FILED d ≤ n)
    (hrc : K.PH_PROTO_7816_FRAME_RETRY_COUNT < w.phNxpEseProto7816_3_Var.recoveryCounter) :
    ∃ x : Session, DecodeFrame_resetRsp K d t save buf n w = (false, x) ∧
      x.phNxpEseProto7816_3_Var.phNxpEseProto7816_nextTransceiveState = .IDLE_STATE ∧
      x.phNxpEseProto7816_3_Var.recoveryCounter = w.phNxpEseProto7816_3_Var.recoveryCounter ∧
      x.phNxpEseProto7816_3_Var.phNxpEseLastTx_Cntx
        = w.phNxpEseProto7816_3_Var.phNxpEseLastTx_Cntx ∧
      x.phNxpEseProto7816_3_Var.phNxpEseNextTx_Cntx
        = w.phNxpEseProto7816_3_Var.phNxpEseNextTx_Cntx ∧
      x.phNxpEseProto7816_3_Var.phNxpEseRx_Cntx.lastRcvdIframeInfo
        = w.phNxpEseProto7816_3_Var.phNxpEseRx_Cntx.lastRcvdIframeInfo := by
  unfold DecodeFrame_resetRsp
  lift_lets
  intro idle finish r
  have hfin : ∀ x : Session,
      K.PH_PROTO_7816_FRAME_RETRY_COUNT < x.phNxpEseProto7816_3_Var.recoveryCounter →
      finish x = (false, idle x) := by
    intro x hx
    unfold finish
    rw [if_pos hx]
  have hsave : ∀ (p : Option (List Nat)) (m : Nat),
      (SaveRxframeData p m w).2.phNxpEseProto7816_3_Var.recoveryCounter
          = w.phNxpEseProto7816_3_Var.recoveryCounter ∧
      (SaveRxframeData p m w).2.phNxpEseProto7816_3_Var.phNxpEseLastTx_Cntx
          = w.phNxpEseProto7816_3_Var.phNxpEseLastTx_Cntx ∧
      (SaveRxframeData p m w).2.phNxpEseProto7816_3_Var.phNxpEseNextTx_Cntx
          = w.phNxpEseProto7816_3_Var.phNxpEseNextTx_Cntx ∧
      (SaveRxframeData p m w).2.phNxpEseProto7816_3_Var.phNxpEseRx_Cntx.lastRcvdIframeInfo
          = w.phNxpEseProto7816_3_Var.phNxpEseRx_Cntx.lastRcvdIframeInfo := by
    intro p m
    unfold SaveRxframeData
    cases p with
    | none => exact ⟨rfl, rfl, rfl, rfl⟩
    | some src =>
      dsimp only
      cases w.phNxpEseProto7816_3_Var.phNxpEseRx_Cntx.pRsp with
      | NULL => exact ⟨rfl, rfl, rfl, rfl⟩
      | caller =>
        dsimp only
        cases w.rsp.p_data with
        | none => exact ⟨rfl, rfl, rfl, rfl⟩
        | some dst =>
          dsimp only
          split_ifs <;> exact ⟨rfl, rfl, rfl, rfl⟩
  cases save with
  | false =>
    rw [if_neg (by simp)]
    rw [hfin w hrc]
    exact ⟨_, rfl, rfl, rfl, rfl, rfl, rfl⟩
  | true =>
    rw [if_pos rfl, if_neg (by omega)]
    obtain ⟨h1, h2, h3, h4⟩ := hsave (some (buf.drop (PH_PROPTO_7816_INF_BYTE_OFFSET d)))
      (n - PH_PROTO_7816_INF_FILED d)
    by_cases c : r.1 = false
    · rw [if_pos c]
      exact ⟨_, rfl, rfl, h1, h2, h3, h4⟩
    · rw [if_neg c, hfin r.2 (by rw [h1]; exact hrc)]
      exact ⟨_, rfl, rfl, h1, h2, h3, h4⟩

/-- C36 (as amended): interface-reset recovery.  An unexpected-sequence I-block decoded
when `recovery_counter` equals the frame-retry limit schedules the reset request of the
dialect and leaves `recovery_counter` at limit + 1 in the arithmetic of the counter's
type, which is limit + 1 itself when the limit is below the largest value of the type.
When the reset request is then sent with `recovery_counter` above the limit and the peer answers with the
reset response of the dialect (good CRC, payload walk returning), the loop returns FALSE
after that one exchange with next step `IDLE_STATE`, so the Transceive fails, and the
protocol parameters are not reset: `recovery_counter` keeps its value above the limit, the
last-sent context is the reset request just sent, and the next-to-send context and the
last received I-block information (with their sequence numbers) are as before. -/
theorem C36_reset_after_escalation (K : Consts) (d : Dialect) (tr : Transport) (fuel : Nat)
    (status : Bool) (w : Session) (hist : List (List Nat)) (r : List Nat)
    (hst : w.phNxpEseProto7816_3_Var.phNxpEseProto7816_nextTransceiveState = resetStep d)
    (hrc : K.PH_PROTO_7816_FRAME_RETRY_COUNT < w.phNxpEseProto7816_3_Var.recoveryCounter)
    (hr : tr (hist ++ [sFrameOf K d (resetReq d)]) = .received r)
    (hg : GoodFrame K d r) (hc : ReachesResetRsp K d r)
    (hwalk : DecodeFrame_sData d (fuel + 1) r = some ()) :
    (∀ (buf : List Nat) (n pcb : Nat) (v : Session),
      (pcb &&& 0x40) >>> 6
        = v.phNxpEseProto7816_3_Var.phNxpEseRx_Cntx.lastRcvdIframeInfo.seqNo →
      v.phNxpEseProto7816_3_Var.recoveryCounter = K.PH_PROTO_7816_FRAME_RETRY_COUNT →
      ∃ x : Session, DecodeFrame_I K d buf n pcb v = (true, x) ∧
        x.phNxpEseProto7816_3_Var.phNxpEseProto7816_nextTransceiveState = resetStep d ∧
        x.phNxpEseProto7816_3_Var.recoveryCounter
          = (K.PH_PROTO_7816_FRAME_RETRY_COUNT + 1) % (K.RECOVERY_COUNTER_MAX + 1) ∧
        (K.PH_PROTO_7816_FRAME_RETRY_COUNT < K.RECOVERY_COUNTER_MAX →
          x.phNxpEseProto7816_3_Var.recoveryCounter
            = K.PH_PROTO_7816_FRAME_RETRY_COUNT + 1)) ∧
    ∃ x : Session,
      TransceiveProcess_loop K d tr (fuel + 2) status w hist
        = some (false, x, hist ++ [sFrameOf K d (resetReq d)]) ∧
      x.phNxpEseProto7816_3_Var.phNxpEseProto7816_nextTransceiveState = .IDLE_STATE ∧
      x.phNxpEseProto7816_3_Var.recoveryCounter = w.phNxpEseProto7816_3_Var.recoveryCounter ∧
      x.phNxpEseProto7816_3_Var.phNxpEseLastTx_Cntx
        = w.phNxpEseProto7816_3_Var.phNxpEseNextTx_Cntx ∧
      x.phNxpEseProto7816_3_Var.phNxpEseNextTx_Cntx
        = w.phNxpEseProto7816_3_Var.phNxpEseNextTx_Cntx ∧
      x.phNxpEseProto7816_3_Var.phNxpEseRx_Cntx.lastRcvdIframeInfo
        = w.phNxpEseProto7816_3_Var.phNxpEseRx_Cntx.lastRcvdIframeInfo := by
  refine ⟨?_, ?_⟩
  · intro buf n pcb v hseq hv
    obtain ⟨x, e, _, hx, _, h2, _⟩ := DecodeFrame_I_repeat K d buf n pcb v hseq
    have hx1 : x.phNxpEseProto7816_3_Var.recoveryCounter
        = (K.PH_PROTO_7816_FRAME_RETRY_COUNT + 1) % (K.RECOVERY_COUNTER_MAX + 1) := by
      rw [hx, if_neg (by omega), hv]
    exact ⟨x, e, (h2 hv).1, hx1, fun hfit => hx1.trans (Nat.mod_eq_of_lt (by omega))⟩
  · obtain ⟨n, b, pcb, hsw⟩ := SendSFrame_switch_resetReq K d
    have hidle : w.phNxpEseProto7816_3_Var.phNxpEseProto7816_nextTransceiveState
        ≠ .IDLE_STATE := by
      rw [hst]; cases d <;> decide
    rw [loop_step_S K d tr (fuel + 1) status w hist (resetReq d) n b pcb r hidle
      (TransceiveProcess_send_resetReq K d tr hist status w hst) hsw hr hg,
      DecodeFrame_S_block K d (fuel + 1) r _ hg hc.1.1 hc.1.2.1,
      DecodeFrame_S_resetRsp K d (fuel + 1) r r.length _ hc hwalk]
    obtain ⟨x, e, hx, h1, h2, h3, h4⟩ := DecodeFrame_resetRsp_exhausted K d (resetRsp d)
      (resetRspSaves d) r r.length
      (sReceived
        { phNxpEseProto7816_3_Var :=
            { w.phNxpEseProto7816_3_Var with
              lastSentNonErrorframeType := .SFRAME
              phNxpEseLastTx_Cntx := w.phNxpEseProto7816_3_Var.phNxpEseNextTx_Cntx
              timeoutCounter := PH_PROTO_7816_VALUE_ZERO
              rnack_retry_counter := PH_PROTO_7816_VALUE_ZERO },
          rsp := w.rsp }) hg.2 hrc
    rw [e]
    refine ⟨x, ?_, hx, h1, h2, h3, h4⟩
    show TransceiveProcess_loop K d tr (fuel + 1) false x _ = _
    rw [TransceiveProcess_loop_succ, if_pos hx]

/-- The amended C36 at the Dialect-A session escalated after the recovery budget 3 was
used up, with a peer that answers the Interface-Reset request with an Interface-Reset
response carrying `AA BB`. -/
theorem C36_reset_after_escalation_witness :
    escalatedSession.phNxpEseProto7816_3_Var.recoveryCounter = 4 ∧
    ∃ x : Session,
      TransceiveProcess_loop sampleConsts .T1oI2C_UM11225 atrResetPeer (2 + 2) false
          escalatedSession []
        = some (false, x, [] ++ [sFrameOf sampleConsts .T1oI2C_UM11225
            (resetReq .T1oI2C_UM11225)]) ∧
      x.phNxpEseProto7816_3_Var.phNxpEseProto7816_nextTransceiveState = .IDLE_STATE ∧
      x.phNxpEseProto7816_3_Var.recoveryCounter
        = escalatedSession.phNxpEseProto7816_3_Var.recoveryCounter ∧
      x.phNxpEseProto7816_3_Var.phNxpEseLastTx_Cntx
        = escalatedSession.phNxpEseProto7816_3_Var.phNxpEseNextTx_Cntx ∧
      x.phNxpEseProto7816_3_Var.phNxpEseNextTx_Cntx
        = escalatedSession.phNxpEseProto7816_3_Var.phNxpEseNextTx_Cntx ∧
      x.phNxpEseProto7816_3_Var.phNxpEseRx_Cntx.lastRcvdIframeInfo
        = escalatedSession.phNxpEseProto7816_3_Var.phNxpEseRx_Cntx.lastRcvdIframeInfo :=
  ⟨by decide,
    (C36_reset_after_escalation sampleConsts .T1oI2C_UM11225 atrResetPeer 2 false
      escalatedSession [] (withCRC .T1oI2C_UM11225 [0x5A, 0xEF, 0x02, 0xAA, 0xBB])
      (by decide) (by decide) (by decide!) ⟨by decide!, by decide⟩
      ⟨⟨by decide, by decide, by decide⟩, by decide, by decide, by decide, by decide⟩
      (by decide!)).2⟩

/-- C36 as stated fails: Dialect-A, frame-retry limit 3, a session fresh after
`ResetProtoParams`, command `00 A4 04 00 00`.  The peer answers the I-block and each of
the three R-NACKs with an I-block that repeats the sequence number 1, and answers the
Interface-Reset request with an Interface-Reset response.  `Transceive` returns FALSE, but
the parameters are not reset: the recovery counter is 4 and the last-sent sequence number
0, where `ResetProtoParams` gives 0 and 1. -/
theorem C36_counterexample :
    ((Transceive sampleConsts .T1oI2C_UM11225 escalationPeer 10 (freshSession 3 3) []
        (some cmd5) (some rspBuf10)).map fun r => (r.1,
          r.2.1.phNxpEseProto7816_3_Var.recoveryCounter,
          r.2.1.phNxpEseProto7816_3_Var.phNxpEseLastTx_Cntx.IframeInfo.seqNo,
          r.2.2.map pcbOf))
      = some (false, 4, 0, [0x00, 0x82, 0x82, 0x82, 0xCF]) ∧
    sampleConsts.PH_PROTO_7816_FRAME_RETRY_COUNT = 3 ∧
    (ResetProtoParams sampleConsts
      (freshSession 3 3).phNxpEseProto7816_3_Var).2.recoveryCounter = 0 ∧
    (ResetProtoParams sampleConsts
      (freshSession 3 3).phNxpEseProto7816_3_Var).2.phNxpEseLastTx_Cntx.IframeInfo.seqNo
      = 1 := by
  refine ⟨by decide!, by decide, by decide, by decide⟩

/-- C37: the command-buffer bound fails on an R-ACK that follows the last fragment.
Dialect-A, IFSC 4, the seven-byte command `01 .. 07`, and a peer that acknowledges the
chained I-block, then acknowledges the final non-chained I-block with the other sequence
number, then answers with an I-block.  The R-ACK handler runs `SetNextIframeContxt` once
more: `Transceive` sends a third I-block whose context has `dataOffset` 8 and
`sendDataLen` 3, so `dataOffset + sendDataLen` is 11, past the 7 bytes of the command; its
INF is read behind the command (zero bytes in this model) and is no slice of it. -/
theorem C37_chaining_past_command :
    ((Transceive sampleConsts .T1oI2C_UM11225 ackTwicePeer 10 (sessionWithIfsc 4) []
        (some cmd7) (some rspBuf10)).map fun r => (r.1,
          r.2.1.phNxpEseProto7816_3_Var.phNxpEseLastTx_Cntx.IframeInfo.dataOffset,
          r.2.1.phNxpEseProto7816_3_Var.phNxpEseLastTx_Cntx.IframeInfo.sendDataLen,
          r.2.2.map (infOf .T1oI2C_UM11225)))
      = some (true, 8, 3, [[1, 2, 3, 4], [5, 6, 7], [0, 0, 0]]) ∧
    cmd7.len = 7 ∧
    cmd7.p_data = some [1, 2, 3, 4, 5, 6, 7] ∧
    (sessionWithIfsc 4).phNxpEseProto7816_3_Var.phNxpEseNextTx_Cntx.IframeInfo.maxDataLen
      = 4 ∧
    ¬ (8 + 3 ≤ cmd7.len) := by
  refine ⟨by decide!, by decide, by decide, by decide, by decide⟩

/-- C38: the length `IntfReset` reports is 0 although the response carried two bytes.
Dialect-A, a session fresh after `ResetProtoParams`, a ten-byte buffer, and a peer that
answers the Interface-Reset request with an Interface-Reset response carrying `AA BB`.
`IntfReset` returns TRUE and the two bytes are in the caller's buffer, but the length on
return is 0: the response handler runs `ResetProtoParams`, which clears
`responseBytesRcvd`, before `IntfReset` copies the cursor into `AtrRsp->len`.  The sibling
`GetAtr`, whose ATR response does not reset the parameters, reports length 2 for the same
payload. -/
theorem C38_intf_reset_length_zero :
    ((IntfReset sampleConsts atrResetPeer 4 (freshSession 3 3) [] (some rspBuf10)).map
      fun x => (x.1, x.2.1.rsp.len, x.2.1.rsp.p_data))
      = some (true, 0, some [0xAA, 0xBB, 0, 0, 0, 0, 0, 0, 0, 0]) ∧
    ((GetAtr sampleConsts atrPeer 4 (freshSession 3 3) [] (some rspBuf10)).map
      fun x => (x.1, x.2.1.rsp.len, x.2.1.rsp.p_data))
      = some (true, 2, some [0xAA, 0xBB, 0, 0, 0, 0, 0, 0, 0, 0]) ∧
    infOf .T1oI2C_UM11225 (withCRC .T1oI2C_UM11225 [0x5A, 0xEF, 0x02, 0xAA, 0xBB])
      = [0xAA, 0xBB] ∧
    rspBuf10.len = 10 := by
  refine ⟨by decide!, by decide!, by decide!, by decide⟩

/-! ## The retry budgets through the decoder -/

theorem RecoveryStep_of_ctr (K : Consts) (w x : Session)
    (h : ctrView x.phNxpEseProto7816_3_Var = ctrView w.phNxpEseProto7816_3_Var) :
    RecoveryStep K w x ∧ RnackStep w x := by
  unfold ctrView at h
  simp only [Prod.mk.injEq] at h
  exact ⟨Or.inl (le_of_eq h.1), h.2.2.2, Or.inl h.2.2.1⟩

theorem SaveRxframeData_ctr (p : Option (List Nat)) (n : Nat) (w : Session) :
    ctrView (SaveRxframeData p n w).2.phNxpEseProto7816_3_Var
      = ctrView w.phNxpEseProto7816_3_Var := by
  unfold SaveRxframeData
  cases p with
  | none => rfl
  | some src =>
    dsimp only
    cases w.phNxpEseProto7816_3_Var.phNxpEseRx_Cntx.pRsp with
    | NULL => rfl
    | caller =>
      dsimp only
      cases w.rsp.p_data with
      | none => rfl
      | some dst =>
        dsimp only
        split_ifs <;> rfl

theorem ctrView_SetNext (v : phNxpEseProto7816_t) :
    ctrView (SetNextIframeContxt v).2 = ctrView v := by
  unfold SetNextIframeContxt
  lift_lets
  intros
  repeat' split
  all_goals rfl

/-- The escalation `RecoverySteps(); recoveryCounter++`: the recovery counter grows by
one, the next step is `IDLE_STATE` when it was above the limit, the other counters stay. -/
theorem escalate_budget (K : Consts) (d : Dialect) (w : Session) :
    RecoveryStep K w (DecodeFrame_escalate K d w) ∧ RnackStep w (DecodeFrame_escalate K d w) ∧
    (DecodeFrame_escalate K d w).phNxpEseProto7816_3_Var.wtx_counter
      = w.phNxpEseProto7816_3_Var.wtx_counter := by
  have hmod : (w.phNxpEseProto7816_3_Var.recoveryCounter + 1) % (K.RECOVERY_COUNTER_MAX + 1)
        ≤ w.phNxpEseProto7816_3_Var.recoveryCounter ∨
      (w.phNxpEseProto7816_3_Var.recoveryCounter + 1) % (K.RECOVERY_COUNTER_MAX + 1)
        = w.phNxpEseProto7816_3_Var.recoveryCounter + 1 := by
    by_cases c : w.phNxpEseProto7816_3_Var.recoveryCounter + 1 < K.RECOVERY_COUNTER_MAX + 1
    · exact Or.inr (Nat.mod_eq_of_lt c)
    · have hlt : (w.phNxpEseProto7816_3_Var.recoveryCounter + 1)
          % (K.RECOVERY_COUNTER_MAX + 1) < K.RECOVERY_COUNTER_MAX + 1 :=
        Nat.mod_lt _ (Nat.succ_pos _)
      exact Or.inl (by omega)
  unfold DecodeFrame_escalate RecoverySteps
  by_cases c : w.phNxpEseProto7816_3_Var.recoveryCounter ≤ K.PH_PROTO_7816_FRAME_RETRY_COUNT
  · rw [if_pos c]
    cases d
    · refine ⟨?_, ⟨rfl, Or.inl rfl⟩, rfl⟩
      rcases hmod with h | h
      · exact Or.inl h
      · exact Or.inr ⟨h, fun h => by omega⟩
    · refine ⟨?_, ⟨rfl, Or.inl rfl⟩, rfl⟩
      rcases hmod with h | h
      · exact Or.inl h
      · exact Or.inr ⟨h, fun h => by omega⟩
  · rw [if_neg c]
    refine ⟨?_, ⟨rfl, Or.inl rfl⟩, rfl⟩
    rcases hmod with h | h
    · exact Or.inl h
    · exact Or.inr ⟨h, fun _ => rfl⟩

/-- The I-block branch: the WTX counter is cleared, the R-NACK budget is untouched, and
the recovery counter is cleared or makes one step. -/
theorem DecodeFrame_I_budget (K : Consts) (d : Dialect) (buf : List Nat) (n pcb : Nat)
    (w : Session) :
    ∃ x : Session, (DecodeFrame_I K d buf n pcb w).2 = x ∧
      RecoveryStep K w x ∧ RnackStep w x ∧ x.phNxpEseProto7816_3_Var.wtx_counter = 0 := by
  unfold DecodeFrame_I
  lift_lets
  intro s14 s13 w1 inf w2 s12 s11 s10 w3 s9 s8 s7 s6 s5 w4a ra s4 s3 w4b rb s2 s1 s0
  have ha : ctrView ra.2.phNxpEseProto7816_3_Var
      = (0, 0, w.phNxpEseProto7816_3_Var.rnack_retry_counter,
          w.phNxpEseProto7816_3_Var.rnack_retry_limit) :=
    SaveRxframeData_ctr inf (n - PH_PROTO_7816_INF_FILED d) w4a
  have hb : ctrView rb.2.phNxpEseProto7816_3_Var
      = (0, 0, w.phNxpEseProto7816_3_Var.rnack_retry_counter,
          w.phNxpEseProto7816_3_Var.rnack_retry_limit) :=
    SaveRxframeData_ctr inf (n - PH_PROTO_7816_INF_FILED d) w4b
  have key : ∀ y : Session, ctrView y.phNxpEseProto7816_3_Var
      = (0, 0, w.phNxpEseProto7816_3_Var.rnack_retry_counter,
          w.phNxpEseProto7816_3_Var.rnack_retry_limit) →
      RecoveryStep K w y ∧ RnackStep w y ∧ y.phNxpEseProto7816_3_Var.wtx_counter = 0 := by
    intro y hy
    unfold ctrView at hy
    simp only [Prod.mk.injEq] at hy
    exact ⟨Or.inl (by rw [hy.1]; exact Nat.zero_le _), ⟨hy.2.2.2, Or.inl hy.2.2.1⟩, hy.2.1⟩
  repeat' split
  · exact ⟨_, rfl, key _ ha⟩
  · exact ⟨_, rfl, key _ ha⟩
  · exact ⟨_, rfl, key _ hb⟩
  · exact ⟨_, rfl, key _ hb⟩
  · rename_i c
    exact ⟨_, rfl, Or.inr ⟨rfl, fun h => absurd (show
      w.phNxpEseProto7816_3_Var.recoveryCounter < K.PH_PROTO_7816_FRAME_RETRY_COUNT from c)
      (by omega)⟩, ⟨rfl, Or.inl rfl⟩, rfl⟩
  · obtain ⟨e1, e2, e3⟩ := escalate_budget K d w1
    exact ⟨_, rfl, e1, e2, e3⟩

theorem Budget_congr (K : Consts) (w w' x : Session)
    (hrc : w'.phNxpEseProto7816_3_Var.recoveryCounter = w.phNxpEseProto7816_3_Var.recoveryCounter)
    (hrn : w'.phNxpEseProto7816_3_Var.rnack_retry_counter
      = w.phNxpEseProto7816_3_Var.rnack_retry_counter)
    (hlim : w'.phNxpEseProto7816_3_Var.rnack_retry_limit
      = w.phNxpEseProto7816_3_Var.rnack_retry_limit)
    (h : RecoveryStep K w' x ∧ RnackStep w' x) : RecoveryStep K w x ∧ RnackStep w x := by
  unfold RecoveryStep RnackStep at *
  rw [hrc, hrn, hlim] at h
  exact h

/-- The R-block branch: the WTX counter is cleared, the R-NACK budget is untouched, and
the recovery counter is cleared or makes one step. -/
theorem DecodeFrame_R_budget (K : Consts) (d : Dialect) (pcb : Nat) (w : Session) :
    ∃ x : Session, (DecodeFrame_R K d pcb w).2 = x ∧
      RecoveryStep K w x ∧ RnackStep w x ∧ x.phNxpEseProto7816_3_Var.wtx_counter = 0 := by
  unfold DecodeFrame_R
  lift_lets
  intro s6 s5 s4 v1 pL s3 s2 v2a v3a v4 v2 s1 s0 v3
  have h2 : ctrView v2 = (w.phNxpEseProto7816_3_Var.recoveryCounter, 0,
      w.phNxpEseProto7816_3_Var.rnack_retry_counter,
      w.phNxpEseProto7816_3_Var.rnack_retry_limit) := by
    unfold v2
    split <;> rfl
  have h3 : ctrView v3 = (w.phNxpEseProto7816_3_Var.recoveryCounter, 0,
      w.phNxpEseProto7816_3_Var.rnack_retry_counter,
      w.phNxpEseProto7816_3_Var.rnack_retry_limit) := by
    unfold v3
    repeat' split
    all_goals exact h2
  have h4 : ctrView v4 = (0, 0, w.phNxpEseProto7816_3_Var.rnack_retry_counter,
      w.phNxpEseProto7816_3_Var.rnack_retry_limit) := ctrView_SetNext v3a
  have hesc : ∀ v : phNxpEseProto7816_t,
      ctrView v = (w.phNxpEseProto7816_3_Var.recoveryCounter, 0,
        w.phNxpEseProto7816_3_Var.rnack_retry_counter,
        w.phNxpEseProto7816_3_Var.rnack_retry_limit) →
      RecoveryStep K w (DecodeFrame_escalate K d { w with phNxpEseProto7816_3_Var := v }) ∧
      RnackStep w (DecodeFrame_escalate K d { w with phNxpEseProto7816_3_Var := v }) ∧
      (DecodeFrame_escalate K d
        { w with phNxpEseProto7816_3_Var := v }).phNxpEseProto7816_3_Var.wtx_counter = 0 := by
    intro v hv
    unfold ctrView at hv
    simp only [Prod.mk.injEq] at hv
    obtain ⟨e1, e2, e3⟩ := escalate_budget K d { w with phNxpEseProto7816_3_Var := v }
    obtain ⟨b1, b2⟩ := Budget_congr K w { w with phNxpEseProto7816_3_Var := v } _
      hv.1 hv.2.2.1 hv.2.2.2 ⟨e1, e2⟩
    exact ⟨b1, b2, e3.trans hv.2.1⟩
  have hinc : ∀ v : phNxpEseProto7816_t,
      ctrView v = (w.phNxpEseProto7816_3_Var.recoveryCounter, 0,
        w.phNxpEseProto7816_3_Var.rnack_retry_counter,
        w.phNxpEseProto7816_3_Var.rnack_retry_limit) →
      w.phNxpEseProto7816_3_Var.recoveryCounter < K.PH_PROTO_7816_FRAME_RETRY_COUNT →
      ∀ y : Session, y.phNxpEseProto7816_3_Var.recoveryCounter = v.recoveryCounter + 1 →
        y.phNxpEseProto7816_3_Var.wtx_counter = v.wtx_counter →
        y.phNxpEseProto7816_3_Var.rnack_retry_counter = v.rnack_retry_counter →
        y.phNxpEseProto7816_3_Var.rnack_retry_limit = v.rnack_retry_limit →
        RecoveryStep K w y ∧ RnackStep w y ∧ y.phNxpEseProto7816_3_Var.wtx_counter = 0 := by
    intro v hv hlt y y1 y2 y3 y4
    unfold ctrView at hv
    simp only [Prod.mk.injEq] at hv
    exact ⟨Or.inr ⟨by rw [y1, hv.1], fun h => by omega⟩,
      ⟨by rw [y4, hv.2.2.2], Or.inl (by rw [y3, hv.2.2.1])⟩, by rw [y2, hv.2.1]⟩
  have hzero : ∀ y : Session, ctrView y.phNxpEseProto7816_3_Var
      = (0, 0, w.phNxpEseProto7816_3_Var.rnack_retry_counter,
          w.phNxpEseProto7816_3_Var.rnack_retry_limit) →
      RecoveryStep K w y ∧ RnackStep w y ∧ y.phNxpEseProto7816_3_Var.wtx_counter = 0 := by
    intro y hy
    unfold ctrView at hy
    simp only [Prod.mk.injEq] at hy
    exact ⟨Or.inl (by rw [hy.1]; exact Nat.zero_le _), ⟨hy.2.2.2, Or.inl hy.2.2.1⟩, hy.2.1⟩
  repeat' split
  · exact ⟨_, rfl, hzero _ h4⟩
  · exact ⟨_, rfl, hzero _ rfl⟩
  · rename_i c
    have c' : w.phNxpEseProto7816_3_Var.recoveryCounter
        < K.PH_PROTO_7816_FRAME_RETRY_COUNT := by
      have e : v2.recoveryCounter = w.phNxpEseProto7816_3_Var.recoveryCounter :=
        congrArg (fun t => t.1) h2
      rw [← e]; exact c
    exact ⟨_, rfl, hinc v3 h3 c' _ rfl rfl rfl rfl⟩
  · exact ⟨_, rfl, hesc v2 h2⟩
  · rename_i c
    exact ⟨_, rfl, Or.inr ⟨rfl, fun h => absurd (show
      w.phNxpEseProto7816_3_Var.recoveryCounter < K.PH_PROTO_7816_FRAME_RETRY_COUNT from c)
      (by omega)⟩, ⟨rfl, Or.inl rfl⟩, rfl⟩
  · exact ⟨_, rfl, hesc v1 rfl⟩
  · exact ⟨_, rfl, Or.inl (le_refl _), ⟨rfl, Or.inl rfl⟩, rfl⟩

/-- The `case WTX_REQ`: the R-NACK budget is untouched and the recovery counter makes at
most one step. -/
theorem DecodeFrame_WTX_budget (K : Consts) (d : Dialect) (w : Session) :
    ∃ x : Session, (DecodeFrame_WTX K d w).2 = x ∧ RecoveryStep K w x ∧ RnackStep w x := by
  unfold DecodeFrame_WTX
  lift_lets
  intro a w1 v1 s1 s2
  repeat' split
  · rename_i c
    exact ⟨_, rfl, Or.inr ⟨rfl, fun h => absurd (show
      w.phNxpEseProto7816_3_Var.recoveryCounter < K.PH_PROTO_7816_FRAME_RETRY_COUNT from c)
      (by omega)⟩, ⟨rfl, Or.inl rfl⟩⟩
  · obtain ⟨e1, e2, _⟩ := escalate_budget K d w1
    exact ⟨_, rfl, e1, e2⟩
  · unfold DecodeFrame_wtxReset
    cases d
    · exact ⟨_, rfl, Or.inl (le_refl _), ⟨rfl, Or.inl rfl⟩⟩
    · exact ⟨_, rfl, Or.inl (le_refl _), ⟨rfl, Or.inl rfl⟩⟩
  · exact ⟨_, rfl, Or.inl (le_refl _), ⟨rfl, Or.inl rfl⟩⟩

/-- The reset-response `case`: the counters stay or are all cleared by
`ResetProtoParams`; the R-NACK limit stays. -/
theorem DecodeFrame_resetRsp_budget (K : Consts) (d : Dialect) (t : SFrameType) (save : Bool)
    (buf : List Nat) (n : Nat) (w : Session) :
    ∃ x : Session, (DecodeFrame_resetRsp K d t save buf n w).2 = x ∧
      RecoveryStep K w x ∧ RnackStep w x ∧
      (w.phNxpEseProto7816_3_Var.wtx_counter = 0 →
        x.phNxpEseProto7816_3_Var.wtx_counter = 0) := by
  unfold DecodeFrame_resetRsp
  lift_lets
  intro idle finish r
  have hr : ctrView r.2.phNxpEseProto7816_3_Var = ctrView w.phNxpEseProto7816_3_Var :=
    SaveRxframeData_ctr _ _ w
  have hsame : ∀ y : Session,
      ctrView y.phNxpEseProto7816_3_Var = ctrView w.phNxpEseProto7816_3_Var →
      RecoveryStep K w y ∧ RnackStep w y ∧
      (w.phNxpEseProto7816_3_Var.wtx_counter = 0 →
        y.phNxpEseProto7816_3_Var.wtx_counter = 0) := by
    intro y hy
    obtain ⟨b1, b2⟩ := RecoveryStep_of_ctr K w y hy
    unfold ctrView at hy
    simp only [Prod.mk.injEq] at hy
    exact ⟨b1, b2, fun h => hy.2.1.trans h⟩
  have hfin : ∀ y : Session,
      ctrView y.phNxpEseProto7816_3_Var = ctrView w.phNxpEseProto7816_3_Var →
      RecoveryStep K w (finish y).2 ∧ RnackStep w (finish y).2 ∧
      (w.phNxpEseProto7816_3_Var.wtx_counter = 0 →
        (finish y).2.phNxpEseProto7816_3_Var.wtx_counter = 0) := by
    intro y hy
    unfold finish
    split
    · exact hsame _ hy
    · unfold ctrView at hy
      simp only [Prod.mk.injEq] at hy
      exact ⟨Or.inl (Nat.zero_le _), ⟨hy.2.2.2, Or.inr rfl⟩, fun _ => rfl⟩
  repeat' split
  · exact ⟨_, rfl, hsame _ rfl⟩
  · exact ⟨_, rfl, hsame _ hr⟩
  · exact ⟨_, rfl, hfin _ hr⟩
  · exact ⟨_, rfl, hfin _ rfl⟩

/-- The cases `ATR_RES` and `CIP_RES`: the counters stay. -/
theorem DecodeFrame_paramRsp_budget (d : Dialect) (buf : List Nat) (n : Nat) (w : Session) :
    ctrView (DecodeFrame_paramRsp d buf n w).2.phNxpEseProto7816_3_Var
      = ctrView w.phNxpEseProto7816_3_Var := by
  have hs := SaveRxframeData_ctr (some (buf.drop (PH_PROPTO_7816_INF_BYTE_OFFSET d)))
    (n - PH_PROTO_7816_INF_FILED d) w
  unfold DecodeFrame_paramRsp
  lift_lets
  intros
  split
  · exact hs
  · exact hs

/-- The S-block branch: the R-NACK budget is untouched or cleared, the recovery counter
makes at most one step, and every subtype but WTX-REQ clears the WTX counter. -/
theorem DecodeFrame_S_budget (K : Consts) (d : Dialect) (fuel : Nat) (buf : List Nat)
    (n pcb : Nat) (w : Session) (x : Bool × Session)
    (h : DecodeFrame_S K d fuel buf n pcb w = some x) :
    RecoveryStep K w x.2 ∧ RnackStep w x.2 ∧
    (pcb &&& 0x3F ≠ K.sFrameCode .WTX_REQ → x.2.phNxpEseProto7816_3_Var.wtx_counter = 0) := by
  revert h
  unfold DecodeFrame_S
  lift_lets
  intro frameType s2 s1 w1 s0 w2 setType plain h
  have hrc : w2.phNxpEseProto7816_3_Var.recoveryCounter
      = w.phNxpEseProto7816_3_Var.recoveryCounter := by
    unfold w2; split <;> rfl
  have hrn : w2.phNxpEseProto7816_3_Var.rnack_retry_counter
      = w.phNxpEseProto7816_3_Var.rnack_retry_counter := by
    unfold w2; split <;> rfl
  have hlim : w2.phNxpEseProto7816_3_Var.rnack_retry_limit
      = w.phNxpEseProto7816_3_Var.rnack_retry_limit := by
    unfold w2; split <;> rfl
  have hwtx : frameType ≠ K.sFrameCode .WTX_REQ →
      w2.phNxpEseProto7816_3_Var.wtx_counter = 0 := by
    intro c
    unfold w2
    rw [if_pos c]
  have hsame : ∀ y : Session,
      ctrView y.phNxpEseProto7816_3_Var = ctrView w2.phNxpEseProto7816_3_Var →
      RecoveryStep K w y ∧ RnackStep w y ∧
      (frameType ≠ K.sFrameCode .WTX_REQ → y.phNxpEseProto7816_3_Var.wtx_counter = 0) := by
    intro y hy
    obtain ⟨b1, b2⟩ := Budget_congr K w w2 y hrc hrn hlim (RecoveryStep_of_ctr K w2 y hy)
    unfold ctrView at hy
    simp only [Prod.mk.injEq] at hy
    exact ⟨b1, b2, fun c => hy.2.1.trans (hwtx c)⟩
  have hplain : ∀ t y, plain t = some y → RecoveryStep K w y.2 ∧ RnackStep w y.2 ∧
      (frameType ≠ K.sFrameCode .WTX_REQ → y.2.phNxpEseProto7816_3_Var.wtx_counter = 0) := by
    intro t y hy
    unfold plain at hy
    simp only [Option.map_eq_some'] at hy
    obtain ⟨_, _, rfl⟩ := hy
    exact hsame _ rfl
  have hreset : ∀ t save, RecoveryStep K w (DecodeFrame_resetRsp K d t save buf n w2).2 ∧
      RnackStep w (DecodeFrame_resetRsp K d t save buf n w2).2 ∧
      (frameType ≠ K.sFrameCode .WTX_REQ →
        (DecodeFrame_resetRsp K d t save buf n w2).2.phNxpEseProto7816_3_Var.wtx_counter
          = 0) := by
    intro t save
    obtain ⟨y, e, b1, b2, b3⟩ := DecodeFrame_resetRsp_budget K d t save buf n w2
    rw [e]
    obtain ⟨c1, c2⟩ := Budget_congr K w w2 y hrc hrn hlim ⟨b1, b2⟩
    exact ⟨c1, c2, fun c => b3 (hwtx c)⟩
  have hparam : ∀ t, RecoveryStep K w (DecodeFrame_paramRsp d buf n (setType t w2)).2 ∧
      RnackStep w (DecodeFrame_paramRsp d buf n (setType t w2)).2 ∧
      (frameType ≠ K.sFrameCode .WTX_REQ →
        (DecodeFrame_paramRsp d buf n (setType t w2)).2.phNxpEseProto7816_3_Var.wtx_counter
          = 0) := fun t =>
    hsame _ (DecodeFrame_paramRsp_budget d buf n (setType t w2))
  by_cases c1 : frameType = K.sFrameCode .RESYNCH_RSP
  · rw [if_pos c1] at h
    rw [← Option.some.inj h]
    exact hsame _ rfl
  rw [if_neg c1] at h
  by_cases c2 : frameType = K.sFrameCode .IFSC_RES
  · rw [if_pos c2] at h
    rw [← Option.some.inj h]
    exact hsame _ rfl
  rw [if_neg c2] at h
  by_cases c3 : frameType = K.sFrameCode .ABORT_RES
  · rw [if_pos c3] at h
    rw [← Option.some.inj h]
    exact hsame _ rfl
  rw [if_neg c3] at h
  by_cases c4 : frameType = K.sFrameCode .WTX_REQ
  · rw [if_pos c4] at h
    rw [← Option.some.inj h]
    obtain ⟨y, e, b1, b2⟩ := DecodeFrame_WTX_budget K d w2
    rw [e]
    obtain ⟨g1, g2⟩ := Budget_congr K w w2 y hrc hrn hlim ⟨b1, b2⟩
    exact ⟨g1, g2, fun c => absurd c4 c⟩
  rw [if_neg c4] at h
  cases d
  · dsimp only at h
    by_cases c5 : frameType = K.sFrameCode .INTF_RESET_RSP
    · rw [if_pos c5] at h
      simp only [Option.map_eq_some'] at h
      obtain ⟨_, _, rfl⟩ := h
      exact hreset _ _
    rw [if_neg c5] at h
    by_cases c6 : frameType = K.sFrameCode .PROP_END_APDU_RSP
    · rw [if_pos c6] at h
      exact hplain _ _ h
    rw [if_neg c6] at h
    by_cases c7 : frameType = K.sFrameCode .ATR_RES
    · rw [if_pos c7] at h
      simp only [Option.map_eq_some'] at h
      obtain ⟨_, _, rfl⟩ := h
      exact hparam _
    rw [if_neg c7] at h
    by_cases c8 : frameType = K.sFrameCode .CHIP_RESET_RES
    · rw [if_pos c8] at h
      exact hplain _ _ h
    rw [if_neg c8] at h
    by_cases c9 : frameType = K.sFrameCode .DEEP_PWR_DOWN_RES
    · rw [if_pos c9] at h
      exact hplain _ _ h
    rw [if_neg c9] at h
    rw [← Option.some.inj h]
    exact hsame _ rfl
  · dsimp only at h
    by_cases c5 : frameType = K.sFrameCode .SWR_RSP
    · rw [if_pos c5] at h
      simp only [Option.map_eq_some'] at h
      obtain ⟨_, _, rfl⟩ := h
      exact hreset _ _
    rw [if_neg c5] at h
    by_cases c6 : frameType = K.sFrameCode .RELEASE_RES
    · rw [if_pos c6] at h
      exact hplain _ _ h
    rw [if_neg c6] at h
    by_cases c7 : frameType = K.sFrameCode .CIP_RES
    · rw [if_pos c7] at h
      simp only [Option.map_eq_some'] at h
      obtain ⟨_, _, rfl⟩ := h
      exact hparam _
    rw [if_neg c7] at h
    by_cases c8 : frameType = K.sFrameCode .COLD_RESET_RES
    · rw [if_pos c8] at h
      exact hplain _ _ h
    rw [if_neg c8] at h
    by_cases c9 : frameType = K.sFrameCode .DEEP_PWR_DOWN_RES
    · rw [if_pos c9] at h
      exact hplain _ _ h
    rw [if_neg c9] at h
    rw [← Option.some.inj h]
    exact hsame _ rfl

/-- The function `DecodeFrame` and the budgets: the R-NACK limit stays, the R-NACK counter
stays or is cleared, the recovery counter makes at most one step, and a frame of decodable
length that is not a WTX request clears the WTX counter. -/
theorem DecodeFrame_budget (K : Consts) (d : Dialect) (fuel : Nat) (r : List Nat) (n : Nat)
    (w : Session) (x : Bool × Session)
    (h : DecodeFrame K d fuel (some r) n w = some x) :
    RecoveryStep K w x.2 ∧ RnackStep w x.2 ∧
    (n < K.MAX_APDU_BUFFER → PH_PROTO_7816_INF_FILED d ≤ n →
      ¬ (pcbOf r &&& 0x80 ≠ 0 ∧ pcbOf r &&& 0x40 ≠ 0 ∧
          pcbOf r &&& 0x3F = K.sFrameCode .WTX_REQ) →
      x.2.phNxpEseProto7816_3_Var.wtx_counter = 0) := by
  have h3 := HEADER_LEN_le_INF_FILED d
  have hsame : RecoveryStep K w w ∧ RnackStep w w := RecoveryStep_of_ctr K w w rfl
  unfold DecodeFrame at h
  dsimp only at h
  by_cases c1 : n < K.MAX_APDU_BUFFER
  swap
  · rw [if_pos c1] at h
    rw [← Option.some.inj h]
    exact ⟨hsame.1, hsame.2, fun a => absurd a c1⟩
  rw [if_neg (not_not.mpr c1)] at h
  by_cases c2 : n ≥ PH_PROTO_7816_HEADER_LEN d
  swap
  · rw [if_pos c2] at h
    rw [← Option.some.inj h]
    exact ⟨hsame.1, hsame.2, fun _ a => absurd (Nat.le_trans h3 a) c2⟩
  rw [if_neg (not_not.mpr c2)] at h
  by_cases c3 : n < PH_PROTO_7816_INF_FILED d
  · rw [if_pos c3] at h
    rw [← Option.some.inj h]
    exact ⟨hsame.1, hsame.2, fun _ a => by omega⟩
  rw [if_neg c3] at h
  by_cases c4 : r.getD PH_PROPTO_7816_PCB_OFFSET 0 &&& 0x80 = 0
  · rw [if_pos c4] at h
    rw [← Option.some.inj h]
    obtain ⟨y, e, b1, b2, b3⟩ := DecodeFrame_I_budget K d r n
      (r.getD PH_PROPTO_7816_PCB_OFFSET 0) w
    show RecoveryStep K w (DecodeFrame_I K d r n _ w).2 ∧ _
    rw [e]
    exact ⟨b1, b2, fun _ _ _ => b3⟩
  rw [if_neg c4] at h
  by_cases c5 : r.getD PH_PROPTO_7816_PCB_OFFSET 0 &&& 0x80 ≠ 0 ∧
      0x40 &&& r.getD PH_PROPTO_7816_PCB_OFFSET 0 = 0
  · rw [if_pos c5] at h
    rw [← Option.some.inj h]
    obtain ⟨y, e, b1, b2, b3⟩ := DecodeFrame_R_budget K d
      (r.getD PH_PROPTO_7816_PCB_OFFSET 0) w
    show RecoveryStep K w (DecodeFrame_R K d _ w).2 ∧ _
    rw [e]
    exact ⟨b1, b2, fun _ _ _ => b3⟩
  rw [if_neg c5] at h
  by_cases c6 : 0x80 &&& r.getD PH_PROPTO_7816_PCB_OFFSET 0 ≠ 0 ∧
      0x40 &&& r.getD PH_PROPTO_7816_PCB_OFFSET 0 ≠ 0
  · rw [if_pos c6] at h
    obtain ⟨b1, b2, b3⟩ := DecodeFrame_S_budget K d fuel r n _ w x h
    refine ⟨b1, b2, fun _ _ hnot => b3 (fun e => hnot ⟨c4, ?_, e⟩)⟩
    show r.getD PH_PROPTO_7816_PCB_OFFSET 0 &&& 0x40 ≠ 0
    rw [Nat.and_comm]
    exact c6.2
  · exfalso
    apply c6
    rw [Nat.and_comm]
    refine ⟨c4, fun e => c5 ⟨c4, e⟩⟩

/-- The function `ProcessResponse` and the budgets: the R-NACK limit stays; the R-NACK
counter stays within the limit and is 0 after a frame that passes the CRC check; the
recovery counter makes at most one step. -/
theorem ProcessResponse_budget (K : Consts) (d : Dialect) (fuel : Nat)
    (rd : Option (List Nat)) (w : Session) (x : Bool × Session)
    (h : ProcessResponse K d fuel rd w = some x) :
    RecoveryStep K w x.2 ∧
    x.2.phNxpEseProto7816_3_Var.rnack_retry_limit
      = w.phNxpEseProto7816_3_Var.rnack_retry_limit ∧
    (w.phNxpEseProto7816_3_Var.rnack_retry_counter
        ≤ w.phNxpEseProto7816_3_Var.rnack_retry_limit →
      x.2.phNxpEseProto7816_3_Var.rnack_retry_counter
        ≤ x.2.phNxpEseProto7816_3_Var.rnack_retry_limit) ∧
    (∀ r, rd = some r → CheckCRC K.MAX_APDU_BUFFER d r.length (some r) = true →
      x.2.phNxpEseProto7816_3_Var.rnack_retry_counter = 0) := by
  unfold ProcessResponse at h
  cases rd with
  | some r =>
    dsimp only at h
    by_cases c1 : CheckCRC K.MAX_APDU_BUFFER d r.length (some r) = true
    · rw [if_pos c1] at h
      obtain ⟨b1, ⟨b2, b3⟩, _⟩ := DecodeFrame_budget K d fuel r r.length _ x h
      have hz : x.2.phNxpEseProto7816_3_Var.rnack_retry_counter = 0 := by
        rcases b3 with b3 | b3
        · exact b3
        · exact b3
      exact ⟨b1, b2, fun _ => by rw [hz]; exact Nat.zero_le _, fun _ _ _ => hz⟩
    · rw [if_neg c1] at h
      by_cases c2 : w.phNxpEseProto7816_3_Var.rnack_retry_counter
          < w.phNxpEseProto7816_3_Var.rnack_retry_limit
      · rw [if_pos c2] at h
        rw [← Option.some.inj h]
        exact ⟨Or.inl (le_refl _), rfl, fun _ => c2,
          fun r' e hc => absurd (by rw [Option.some.inj e]; exact hc) c1⟩
      · rw [if_neg c2] at h
        rw [← Option.some.inj h]
        exact ⟨Or.inl (le_refl _), rfl, fun _ => Nat.zero_le _,
          fun r' e hc => absurd (by rw [Option.some.inj e]; exact hc) c1⟩
  | none =>
    dsimp only at h
    by_cases c2 : w.phNxpEseProto7816_3_Var.rnack_retry_counter
        < w.phNxpEseProto7816_3_Var.rnack_retry_limit
    · simp only [c2, if_true] at h
      repeat' split at h
      all_goals rw [← Option.some.inj h]
      all_goals first
        | exact ⟨Or.inl (le_refl _), rfl, fun _ => c2, fun r' e => by cases e⟩
        | exact ⟨Or.inl (le_refl _), rfl, fun a => a, fun r' e => by cases e⟩
    · simp only [c2, if_false] at h
      repeat' split at h
      all_goals rw [← Option.some.inj h]
      all_goals first
        | exact ⟨Or.inl (le_refl _), rfl, fun _ => Nat.zero_le _, fun r' e => by cases e⟩
        | exact ⟨Or.inl (le_refl _), rfl, fun a => a, fun r' e => by cases e⟩

/-! ## Invariants of the loop and of the API calls -/

/-- A property `P` of the session holds when the loop returns, if it holds at entry, if
while the loop runs it implies a property `Q` that the send step and the copy of the
next-to-send context into the last-sent one keep, and if `ProcessResponse` leads from `Q`
back to `P`. -/
theorem TransceiveProcess_loop_inv (K : Consts) (d : Dialect) (tr : Transport)
    (P Q : Session → Prop)
    (hPQ : ∀ w, P w →
      w.phNxpEseProto7816_3_Var.phNxpEseProto7816_nextTransceiveState ≠ .IDLE_STATE → Q w)
    (hQP : ∀ w, Q w → P w)
    (hsend : ∀ (w : Session) (t : FrameType) (st : TransceiveState), Q w →
      Q { w with
          phNxpEseProto7816_3_Var.lastSentNonErrorframeType := t
          phNxpEseProto7816_3_Var.phNxpEseProto7816_nextTransceiveState := st })
    (hidle : ∀ w : Session, Q w →
      Q { w with phNxpEseProto7816_3_Var.phNxpEseProto7816_nextTransceiveState := .IDLE_STATE })
    (hcopy : ∀ w : Session, Q w →
      Q { w with
          phNxpEseProto7816_3_Var.phNxpEseLastTx_Cntx :=
            w.phNxpEseProto7816_3_Var.phNxpEseNextTx_Cntx })
    (hresp : ∀ (w : Session) (fuel : Nat) (rd : Option (List Nat)) (x : Bool × Session),
      Q w → ProcessResponse K d fuel rd w = some x → P x.2)
    (fuel : Nat) :
    ∀ (status : Bool) (w : Session) (hist : List (List Nat)) x,
      P w → TransceiveProcess_loop K d tr fuel status w hist = some x → P x.2.1 := by
  induction fuel with
  | zero => intro status w hist x _ h; simp [TransceiveProcess_loop] at h
  | succ fuel ih =>
    intro status w hist x hP h
    rw [TransceiveProcess_loop_succ] at h
    split at h
    · rw [← Option.some.inj h]
      exact hP
    · rename_i hne
      have hQ := hPQ w hP hne
      obtain ⟨t, st, hs⟩ := TransceiveProcess_send_session K d tr hist status w
      have hQ1 : Q (TransceiveProcess_send K d tr hist status w).2.1 := by
        rw [hs]; exact hsend w t st hQ
      split at h
      · cases hp : ProcessResponse K d fuel
            (GetRawFrame tr (TransceiveProcess_send K d tr hist status w).2.2)
            { (TransceiveProcess_send K d tr hist status w).2.1 with
              phNxpEseProto7816_3_Var.phNxpEseLastTx_Cntx :=
                (TransceiveProcess_send K d tr hist status w).2.1.phNxpEseProto7816_3_Var.phNxpEseNextTx_Cntx } with
        | none => rw [hp] at h; cases h
        | some p =>
          rw [hp] at h
          exact ih _ _ _ _ (hresp _ _ _ p (hcopy _ hQ1) hp) h
      · exact ih _ _ _ _ (hQP _ (hidle _ hQ1)) h

/-- The R-NACK budget is an invariant of the loop: while the R-NACK counter is within its
limit at entry it is so when the loop returns, and the limit is the same. -/
theorem TransceiveProcess_loop_rnack (K : Consts) (d : Dialect) (tr : Transport) (fuel : Nat)
    (status : Bool) (w : Session) (hist : List (List Nat))
    (x : Bool × Session × List (List Nat)) (L : Nat)
    (h0 : w.phNxpEseProto7816_3_Var.rnack_retry_counter
      ≤ w.phNxpEseProto7816_3_Var.rnack_retry_limit ∧
      w.phNxpEseProto7816_3_Var.rnack_retry_limit = L)
    (h : TransceiveProcess_loop K d tr fuel status w hist = some x) :
    x.2.1.phNxpEseProto7816_3_Var.rnack_retry_counter
      ≤ x.2.1.phNxpEseProto7816_3_Var.rnack_retry_limit ∧
    x.2.1.phNxpEseProto7816_3_Var.rnack_retry_limit = L := by
  refine TransceiveProcess_loop_inv K d tr
    (fun y => y.phNxpEseProto7816_3_Var.rnack_retry_counter
        ≤ y.phNxpEseProto7816_3_Var.rnack_retry_limit ∧
      y.phNxpEseProto7816_3_Var.rnack_retry_limit = L)
    (fun y => y.phNxpEseProto7816_3_Var.rnack_retry_counter
        ≤ y.phNxpEseProto7816_3_Var.rnack_retry_limit ∧
      y.phNxpEseProto7816_3_Var.rnack_retry_limit = L)
    (fun _ a _ => a) (fun _ a => a) (fun _ _ _ a => a) (fun _ a => a) (fun _ a => a)
    ?_ fuel status w hist x h0 h
  intro y f rd p hy hp
  obtain ⟨_, b2, b3, _⟩ := ProcessResponse_budget K d f rd y p hp
  exact ⟨b3 hy.1, b2.trans hy.2⟩

/-- The recovery counter in one run of the loop: with M the larger of its value at entry
and limit + 1, it is at most M + 1 when the loop returns. -/
theorem TransceiveProcess_loop_recovery (K : Consts) (d : Dialect) (tr : Transport)
    (fuel : Nat) (status : Bool) (w : Session) (hist : List (List Nat))
    (x : Bool × Session × List (List Nat)) (M : Nat)
    (hM : K.PH_PROTO_7816_FRAME_RETRY_COUNT + 1 ≤ M)
    (h0 : w.phNxpEseProto7816_3_Var.recoveryCounter ≤ M)
    (h : TransceiveProcess_loop K d tr fuel status w hist = some x) :
    x.2.1.phNxpEseProto7816_3_Var.recoveryCounter ≤ M ∨
    (x.2.1.phNxpEseProto7816_3_Var.recoveryCounter = M + 1 ∧
      x.2.1.phNxpEseProto7816_3_Var.phNxpEseProto7816_nextTransceiveState = .IDLE_STATE) := by
  refine TransceiveProcess_loop_inv K d tr
    (fun y => y.phNxpEseProto7816_3_Var.recoveryCounter ≤ M ∨
      (y.phNxpEseProto7816_3_Var.recoveryCounter = M + 1 ∧
        y.phNxpEseProto7816_3_Var.phNxpEseProto7816_nextTransceiveState = .IDLE_STATE))
    (fun y => y.phNxpEseProto7816_3_Var.recoveryCounter ≤ M)
    ?_ (fun _ a => Or.inl a) (fun _ _ _ a => a) (fun _ a => a) (fun _ a => a)
    ?_ fuel status w hist x (Or.inl h0) h
  · intro y hy hne
    rcases hy with hy | ⟨_, hy⟩
    · exact hy
    · exact absurd hy hne
  · intro y f rd p hy hp
    obtain ⟨b1, _⟩ := ProcessResponse_budget K d f rd y p hp
    rcases b1 with b1 | ⟨b1, b2⟩
    · exact Or.inl (Nat.le_trans b1 hy)
    · by_cases c : K.PH_PROTO_7816_FRAME_RETRY_COUNT < y.phNxpEseProto7816_3_Var.recoveryCounter
      · by_cases c2 : y.phNxpEseProto7816_3_Var.recoveryCounter = M
        · exact Or.inr ⟨by rw [b1, c2], b2 c⟩
        · exact Or.inl (by omega)
      · exact Or.inl (by omega)

theorem TransceiveProcess_loop_within (K : Consts) (d : Dialect) (tr : Transport) (fuel : Nat)
    (status : Bool) (w : Session) (hist : List (List Nat))
    (x : Bool × Session × List (List Nat)) (h0 : RnackWithin w)
    (h : TransceiveProcess_loop K d tr fuel status w hist = some x) :
    RnackWithin x.2.1 :=
  (TransceiveProcess_loop_rnack K d tr fuel status w hist x _ ⟨h0, rfl⟩ h).1

theorem sRequest_within (K : Consts) (d : Dialect) (tr : Transport) (fuel : Nat) (w : Session)
    (hist : List (List Nat)) (t : SFrameType) (st : TransceiveState) (clearRsp : Bool)
    (x : Bool × Session × List (List Nat)) (h0 : RnackWithin w)
    (h : sRequest K d tr fuel w hist t st clearRsp = some x) :
    RnackWithin x.2.1 := by
  unfold sRequest TransceiveProcess at h
  dsimp only at h
  split at h
  · cases h
  · rename_i status w2 hist2 hl
    rw [← Option.some.inj h]
    exact TransceiveProcess_loop_within K d tr fuel false _ hist (status, w2, hist2) (by exact h0) hl

theorem sFetch_within (K : Consts) (d : Dialect) (tr : Transport) (fuel : Nat) (w : Session)
    (hist : List (List Nat)) (t : SFrameType) (st : TransceiveState)
    (pRsp : Option phNxpEse_data)
    (x : Bool × Session × List (List Nat)) (h0 : RnackWithin w)
    (h : sFetch K d tr fuel w hist t st pRsp = some x) :
    RnackWithin x.2.1 := by
  unfold sFetch TransceiveProcess at h
  cases pRsp with
  | none => rw [← Option.some.inj h]; exact h0
  | some rsp =>
    dsimp only at h
    split at h
    · cases h
    · rename_i status w2 hist2 hl
      rw [← Option.some.inj h]
      exact TransceiveProcess_loop_within K d tr fuel false _ hist (status, w2, hist2) (by exact h0) hl

theorem Transceive_within (K : Consts) (d : Dialect) (tr : Transport) (fuel : Nat)
    (w : Session) (hist : List (List Nat)) (pCmd pRsp : Option phNxpEse_data)
    (x : Bool × Session × List (List Nat)) (h0 : RnackWithin w)
    (h : Transceive K d tr fuel w hist pCmd pRsp = some x) :
    RnackWithin x.2.1 := by
  unfold Transceive TransceiveProcess at h
  split at h
  · split at h
    · rw [← Option.some.inj h]; exact h0
    · dsimp only at h
      split at h
      · cases h
      · rename_i status w2 hist2 hl
        have hw2 : RnackWithin w2 := by
          refine TransceiveProcess_loop_within K d tr fuel false _ hist (status, w2, hist2) ?_ hl
          unfold SetFirstIframeContxt
          lift_lets
          intros
          repeat' split
          all_goals exact h0
        split at h
        · rw [← Option.some.inj h]; exact hw2
        · rw [← Option.some.inj h]; exact hw2
  · rw [← Option.some.inj h]; exact h0

theorem Close_within (K : Consts) (d : Dialect) (tr : Transport) (fuel : Nat)
    (w : Session) (hist : List (List Nat))
    (x : Bool × Session × List (List Nat)) (h0 : RnackWithin w)
    (h : Close K d tr fuel w hist = some x) :
    RnackWithin x.2.1 := by
  unfold Close TransceiveProcess at h
  dsimp only at h
  split at h
  · rw [← Option.some.inj h]; exact h0
  · split at h
    · cases h
    · rename_i status w2 hist2 hl
      rw [← Option.some.inj h]
      exact TransceiveProcess_loop_within K d tr fuel false _ hist (status, w2, hist2) (by exact h0) hl

theorem Open_within (K : Consts) (d : Dialect) (tr : Transport) (fuel : Nat) (w : Session)
    (hist : List (List Nat)) (initParam : phNxpEseProto7816InitParam_t)
    (AtrRsp : phNxpEse_data) (x : Bool × Session × List (List Nat))
    (h : Open K d tr fuel w hist initParam AtrRsp = some x) :
    RnackWithin x.2.1 := by
  unfold Open at h
  dsimp only at h
  split at h
  · cases h
  · rename_i status w2 hist2 hr
    have h2 : RnackWithin w2 :=
      sRequest_within K d tr fuel _ hist _ _ _ (status, w2, hist2) (Nat.zero_le _) hr
    split at h
    · cases d
      · dsimp only at h
        simp only [Option.map_eq_some'] at h
        obtain ⟨y, hy, rfl⟩ := h
        exact sFetch_within K _ tr fuel w2 hist2 _ _ _ y h2 hy
      · dsimp only at h
        simp only [Option.map_eq_some'] at h
        obtain ⟨y, hy, rfl⟩ := h
        exact sFetch_within K _ tr fuel w2 hist2 _ _ _ y h2 hy
    · rw [← Option.some.inj h]; exact h2

/-- The R-NACK budget is respected in every reachable session. -/
theorem Reachable_within (K : Consts) (d : Dialect) (w : Session) (h : Reachable K d w) :
    RnackWithin w := by
  induction h with
  | opened tr fuel w hist initParam AtrRsp x hx => exact Open_within K d tr fuel w hist _ _ x hx
  | transceive tr fuel w hist pCmd pRsp x _ hx ih =>
    exact Transceive_within K d tr fuel w hist pCmd pRsp x ih hx
  | close tr fuel w hist x _ hx ih => exact Close_within K d tr fuel w hist x ih hx
  | resetProtoParams w _ _ => exact Nat.zero_le _
  | reset w _ _ => exact Nat.zero_le _
  | setIfscSize n w _ ih => exact ih
  | wtxRsp tr hist w _ ih =>
    unfold WTXRsp
    rw [SendSFrame_session]
    exact ih
  | sendRSync tr hist w _ ih =>
    unfold SendRSync
    rw [SendSFrame_session]
    exact ih
  | deepPwrDown tr fuel w hist x _ hx ih =>
    exact sRequest_within K d tr fuel w hist _ _ _ x ih hx
  | intfReset tr fuel w hist AtrRsp x _ _ hx ih =>
    exact sFetch_within K _ tr fuel w hist _ _ _ x ih hx
  | chipReset tr fuel w hist x _ _ hx ih =>
    exact sRequest_within K _ tr fuel w hist _ _ _ x ih hx
  | getAtr tr fuel w hist pRsp x _ _ hx ih =>
    exact sFetch_within K _ tr fuel w hist _ _ _ x ih hx
  | softReset tr fuel w hist x _ _ hx ih =>
    exact sRequest_within K _ tr fuel w hist _ _ _ x ih hx
  | coldReset tr fuel w hist x _ _ hx ih =>
    exact sRequest_within K _ tr fuel w hist _ _ _ x ih hx
  | getCip tr fuel w hist pRsp x _ _ hx ih =>
    exact sFetch_within K _ tr fuel w hist _ _ _ x ih hx

/-! ## WTX handling and the two retry budgets -/

/-- C33 (as amended): WTX-REQ handling.  For a received frame of at least header plus CRC
length with a good CRC: when it is a WTX request and the last-sent block is not an S-block
other than WTX-RSP, `DecodeFrame` returns TRUE having incremented `wtx_counter` by one in
the arithmetic of its type (from `WTX_COUNTER_MAX` it goes to 0); when the incremented
counter equals `wtx_counter_limit` the counter is set to 0 and the reset request of the
dialect is scheduled (`SEND_S_INTF_RST` in Dialect-A, `SEND_S_SWR` in Dialect-B),
otherwise the next step is `SEND_S_WTX_RSP` with a WTX response as next S-block.
Decoding such a frame that is not a WTX request leaves `wtx_counter` at 0, and every
I-block and R-block is decoded, whatever the iteration bound.  A frame shorter than header
plus CRC is not decoded: `DecodeFrame` returns with the session, and so `wtx_counter`,
unchanged. -/
theorem C33_wtx_handling (K : Consts) (d : Dialect) (r : List Nat) (w : Session)
    (hg : GoodFrame K d r) :
    (IsWtxReq K r →
      ¬ (w.phNxpEseProto7816_3_Var.phNxpEseLastTx_Cntx.SframeInfo.sFrameType ≠ .WTX_RSP ∧
        w.phNxpEseProto7816_3_Var.phNxpEseLastTx_Cntx.FrameType = .SFRAME) →
      ∃ x : Session, (∀ fuel, DecodeFrame K d fuel (some r) r.length w = some (true, x)) ∧
        ((w.phNxpEseProto7816_3_Var.wtx_counter + 1) % (K.WTX_COUNTER_MAX + 1)
            = w.phNxpEseProto7816_3_Var.wtx_counter_limit →
          x.phNxpEseProto7816_3_Var.wtx_counter = 0 ∧
          x.phNxpEseProto7816_3_Var.phNxpEseProto7816_nextTransceiveState = resetStep d ∧
          x.phNxpEseProto7816_3_Var.phNxpEseNextTx_Cntx.SframeInfo.sFrameType = resetReq d) ∧
        ((w.phNxpEseProto7816_3_Var.wtx_counter + 1) % (K.WTX_COUNTER_MAX + 1)
            ≠ w.phNxpEseProto7816_3_Var.wtx_counter_limit →
          x.phNxpEseProto7816_3_Var.wtx_counter
            = (w.phNxpEseProto7816_3_Var.wtx_counter + 1) % (K.WTX_COUNTER_MAX + 1) ∧
          x.phNxpEseProto7816_3_Var.phNxpEseProto7816_nextTransceiveState
            = .SEND_S_WTX_RSP ∧
          x.phNxpEseProto7816_3_Var.phNxpEseNextTx_Cntx.SframeInfo.sFrameType = .WTX_RSP) ∧
        (w.phNxpEseProto7816_3_Var.wtx_counter < K.WTX_COUNTER_MAX →
          (w.phNxpEseProto7816_3_Var.wtx_counter + 1) % (K.WTX_COUNTER_MAX + 1)
            = w.phNxpEseProto7816_3_Var.wtx_counter + 1)) ∧
    (¬ (pcbOf r &&& 0x80 ≠ 0 ∧ pcbOf r &&& 0x40 ≠ 0 ∧
          pcbOf r &&& 0x3F = K.sFrameCode .WTX_REQ) →
      ∀ (fuel : Nat) (x : Bool × Session),
        DecodeFrame K d fuel (some r) r.length w = some x →
        x.2.phNxpEseProto7816_3_Var.wtx_counter = 0) ∧
    (¬ (pcbOf r &&& 0x80 ≠ 0 ∧ pcbOf r &&& 0x40 ≠ 0) →
      ∀ fuel : Nat, ∃ x : Bool × Session,
        DecodeFrame K d fuel (some r) r.length w = some x ∧
        x.2.phNxpEseProto7816_3_Var.wtx_counter = 0) ∧
    (∀ (fuel : Nat) (p : Option (List Nat)) (n : Nat),
      n < PH_PROTO_7816_INF_FILED d →
      ∃ b : Bool, DecodeFrame K d fuel p n w = some (b, w)) := by
  have hcl : ∀ (fuel : Nat) (x : Bool × Session),
      ¬ (pcbOf r &&& 0x80 ≠ 0 ∧ pcbOf r &&& 0x40 ≠ 0 ∧
          pcbOf r &&& 0x3F = K.sFrameCode .WTX_REQ) →
      DecodeFrame K d fuel (some r) r.length w = some x →
      x.2.phNxpEseProto7816_3_Var.wtx_counter = 0 := fun fuel x hnot hx =>
    (DecodeFrame_budget K d fuel r r.length w x hx).2.2
      (CheckCRC_true_lt _ _ _ _ hg.1) hg.2 hnot
  refine ⟨?_, fun hnot fuel x hx => hcl fuel x hnot hx, ?_, ?_⟩
  · intro hw hlast
    obtain ⟨x, e, _, _, a3, a4⟩ := DecodeFrame_wtxReq K d r w hg hw hlast
    exact ⟨x, e, fun h => ⟨(a4 h).2.1, (a4 h).1, (a4 h).2.2⟩,
      fun h => ⟨(a3 h).2.1, (a3 h).1, (a3 h).2.2⟩,
      fun h => Nat.mod_eq_of_lt (by omega)⟩
  · intro hnS fuel
    have hnW : ¬ (pcbOf r &&& 0x80 ≠ 0 ∧ pcbOf r &&& 0x40 ≠ 0 ∧
        pcbOf r &&& 0x3F = K.sFrameCode .WTX_REQ) := fun h => hnS ⟨h.1, h.2.1⟩
    by_cases c : pcbOf r &&& 0x80 = 0
    · have e := DecodeFrame_I_block K d fuel r w hg c
      exact ⟨_, e, hcl fuel _ hnW e⟩
    · have c40 : pcbOf r &&& 0x40 = 0 := by
        by_contra c40
        exact hnS ⟨c, c40⟩
      have e := DecodeFrame_R_block K d fuel r w hg c c40
      exact ⟨_, e, hcl fuel _ hnW e⟩
  · intro fuel p n hn
    by_cases c1 : n < PH_PROTO_7816_HEADER_LEN d
    · exact ⟨true, DecodeFrame_below_header K d fuel p n w c1⟩
    · cases p with
      | none => exact ⟨true, rfl⟩
      | some buf =>
        by_cases c0 : n < K.MAX_APDU_BUFFER
        · exact ⟨false, DecodeFrame_below_inf K d fuel buf n w c0 (by omega) hn⟩
        · refine ⟨true, ?_⟩
          unfold DecodeFrame
          dsimp only
          rw [if_pos c0]

/-- The amended C33 at the Dialect-A session in which the command I-block was sent, for
the WTX request `5A C3 01 01`: the counter goes from 0 to 1 (limit 3) and the WTX response
is scheduled. -/
theorem C33_wtx_handling_witness :
    GoodFrame sampleConsts .T1oI2C_UM11225 (withCRC .T1oI2C_UM11225 [0x5A, 0xC3, 0x01, 0x01]) ∧
    sentSession.phNxpEseProto7816_3_Var.wtx_counter = 0 ∧
    sentSession.phNxpEseProto7816_3_Var.wtx_counter_limit = 3 ∧
    ∃ x : Session,
      (∀ fuel, DecodeFrame sampleConsts .T1oI2C_UM11225 fuel
        (some (withCRC .T1oI2C_UM11225 [0x5A, 0xC3, 0x01, 0x01]))
        (withCRC .T1oI2C_UM11225 [0x5A, 0xC3, 0x01, 0x01]).length sentSession
          = some (true, x)) ∧
      x.phNxpEseProto7816_3_Var.wtx_counter = 1 ∧
      x.phNxpEseProto7816_3_Var.phNxpEseProto7816_nextTransceiveState = .SEND_S_WTX_RSP := by
  have hg : GoodFrame sampleConsts .T1oI2C_UM11225
      (withCRC .T1oI2C_UM11225 [0x5A, 0xC3, 0x01, 0x01]) := ⟨by decide!, by decide⟩
  obtain ⟨x, e, _, h2, _⟩ := (C33_wtx_handling sampleConsts .T1oI2C_UM11225
    (withCRC .T1oI2C_UM11225 [0x5A, 0xC3, 0x01, 0x01]) sentSession hg).1
    ⟨by decide, by decide, by decide, by decide, by decide, by decide⟩ (by decide)
  exact ⟨hg, by decide, by decide, x, e, (h2 (by decide)).1.trans (by decide),
    (h2 (by decide)).2.1⟩

/-- C33 fails as stated: a frame that is not a WTX request does not always clear
`wtx_counter`.  Dialect-A, `wtx_counter_limit` 2: the three-byte frame `5A` with its CRC
passes the CRC check but is shorter than header plus CRC, so `DecodeFrame` returns FALSE
at its length test and a `wtx_counter` of 1 stays 1.  In a run the peer answers the
I-block with a WTX request (counter 1, WTX response sent), the WTX response with that
short frame (the WTX response is sent again) and its repetition with a second WTX request:
the counter reaches the limit 2 and the host sends the Interface-Reset request, where a
cleared counter would have drawn another WTX response. -/
theorem C33_counterexample :
    CheckCRC sampleConsts.MAX_APDU_BUFFER .T1oI2C_UM11225 3
      (some (withCRC .T1oI2C_UM11225 [0x5A])) = true ∧
    (withCRC .T1oI2C_UM11225 [0x5A]).length = 3 ∧
    PH_PROTO_7816_INF_FILED .T1oI2C_UM11225 = 5 ∧
    waitingSession.phNxpEseProto7816_3_Var.wtx_counter = 1 ∧
    ((DecodeFrame sampleConsts .T1oI2C_UM11225 4 (some (withCRC .T1oI2C_UM11225 [0x5A])) 3
      waitingSession).map fun x => (x.1, x.2.phNxpEseProto7816_3_Var.wtx_counter))
      = some (false, 1) ∧
    ((Transceive sampleConsts .T1oI2C_UM11225 wtxShortPeer 10 (freshSession 2 3) []
        (some cmd5) (some rspBuf10)).map fun x => x.2.2.map pcbOf)
      = some [0x00, 0xE3, 0xE3, 0xCF] := by
  refine ⟨by decide!, by decide!, rfl, by decide, by decide!, by decide!⟩

/-- C34 (as amended): the recovery budget.  `recovery_counter` is not bounded by the
frame-retry limit: the escalation leaves it at limit + 1, and the code tests it with
`>` against the limit.  What holds: every `ProcessResponse` step raises it by at most one,
and a step that raises it when it was already above the limit schedules `IDLE_STATE`; so
when a run of the `TransceiveProcess` loop returns, `recovery_counter` is at most one more
than the larger of its value at entry and limit + 1; in particular it is at most
limit + 2 when the run was entered with `recovery_counter` at most limit + 1. -/
theorem C34_recovery_budget (K : Consts) (d : Dialect) (tr : Transport) (fuel : Nat)
    (status : Bool) (w : Session) (hist : List (List Nat))
    (x : Bool × Session × List (List Nat))
    (h : TransceiveProcess_loop K d tr fuel status w hist = some x) :
    x.2.1.phNxpEseProto7816_3_Var.recoveryCounter
      ≤ max w.phNxpEseProto7816_3_Var.recoveryCounter
          (K.PH_PROTO_7816_FRAME_RETRY_COUNT + 1) + 1 ∧
    (w.phNxpEseProto7816_3_Var.recoveryCounter ≤ K.PH_PROTO_7816_FRAME_RETRY_COUNT + 1 →
      x.2.1.phNxpEseProto7816_3_Var.recoveryCounter
        ≤ K.PH_PROTO_7816_FRAME_RETRY_COUNT + 2) ∧
    (∀ (v : Session) (n : Nat) (rd : Option (List Nat)) (y : Bool × Session),
      ProcessResponse K d n rd v = some y →
      y.2.phNxpEseProto7816_3_Var.recoveryCounter
        ≤ v.phNxpEseProto7816_3_Var.recoveryCounter + 1 ∧
      (K.PH_PROTO_7816_FRAME_RETRY_COUNT < v.phNxpEseProto7816_3_Var.recoveryCounter →
        v.phNxpEseProto7816_3_Var.recoveryCounter
          < y.2.phNxpEseProto7816_3_Var.recoveryCounter →
        y.2.phNxpEseProto7816_3_Var.phNxpEseProto7816_nextTransceiveState = .IDLE_STATE)) := by
  have key := TransceiveProcess_loop_recovery K d tr fuel status w hist x
    (max w.phNxpEseProto7816_3_Var.recoveryCounter (K.PH_PROTO_7816_FRAME_RETRY_COUNT + 1))
    (Nat.le_max_right _ _) (Nat.le_max_left _ _) h
  refine ⟨?_, ?_, ?_⟩
  · rcases key with k | ⟨k, _⟩
    · exact Nat.le_succ_of_le k
    · exact le_of_eq k
  · intro h0
    have e : max w.phNxpEseProto7816_3_Var.recoveryCounter
        (K.PH_PROTO_7816_FRAME_RETRY_COUNT + 1) = K.PH_PROTO_7816_FRAME_RETRY_COUNT + 1 :=
      Nat.max_eq_right h0
    rw [e] at key
    rcases key with k | ⟨k, _⟩
    · exact Nat.le_succ_of_le k
    · exact le_of_eq k
  · intro v n rd y hy
    obtain ⟨b1, _⟩ := ProcessResponse_budget K d n rd v y hy
    rcases b1 with b1 | ⟨b1, b2⟩
    · exact ⟨Nat.le_succ_of_le b1, fun _ hlt => absurd hlt (by omega)⟩
    · exact ⟨le_of_eq b1, fun hgt _ => b2 hgt⟩

/-- The amended C34 at the Dialect-A run in which the peer answers every block with an
I-block that repeats the sequence number 1: the run returns with `recovery_counter` 5,
which is limit + 2 for the limit 3. -/
theorem C34_recovery_budget_witness :
    ∃ x : Bool × Session × List (List Nat),
      TransceiveProcess_loop sampleConsts .T1oI2C_UM11225 wrongSeqPeer 12 false
        { phNxpEseProto7816_3_Var := installCmd (freshSession 3 3).phNxpEseProto7816_3_Var cmd5,
          rsp := rspBuf10 } [] = some x ∧
      x.2.1.phNxpEseProto7816_3_Var.recoveryCounter = 5 ∧
      x.2.1.phNxpEseProto7816_3_Var.recoveryCounter
        ≤ sampleConsts.PH_PROTO_7816_FRAME_RETRY_COUNT + 2 := by
  have hs : (TransceiveProcess_loop sampleConsts .T1oI2C_UM11225 wrongSeqPeer 12 false
      { phNxpEseProto7816_3_Var := installCmd (freshSession 3 3).phNxpEseProto7816_3_Var cmd5,
        rsp := rspBuf10 } []).map
        (fun y => y.2.1.phNxpEseProto7816_3_Var.recoveryCounter) = some 5 := by decide!
  simp only [Option.map_eq_some'] at hs
  obtain ⟨x, hx, h5⟩ := hs
  exact ⟨x, hx, h5, (C34_recovery_budget sampleConsts .T1oI2C_UM11225 wrongSeqPeer 12 false
    _ [] x hx).2.1 (by decide)⟩

/-- C34 as stated fails: Dialect-A, frame-retry limit 3.  `Open` (Resync and ATR
answered) followed by one `Transceive` of `00 A4 04 00 00` whose every block the peer
answers with an I-block repeating the sequence number 1: both calls return TRUE, and the
session they leave is reachable from `Open` and has `recovery_counter` 5. -/
theorem C34_counterexample :
    ((Open sampleConsts .T1oI2C_UM11225 openPeer 10 (freshSession 0 0) [] sampleInit
      rspBuf10).bind fun x =>
        (Transceive sampleConsts .T1oI2C_UM11225 wrongSeqPeer 12 x.2.1 [] (some cmd5)
          (some rspBuf10)).map fun y =>
            (x.1, y.1, y.2.1.phNxpEseProto7816_3_Var.recoveryCounter, y.2.2.map pcbOf))
      = some (true, true, 5, [0x00, 0x82, 0x82, 0x82, 0xCF]) ∧
    sampleConsts.PH_PROTO_7816_FRAME_RETRY_COUNT = 3 ∧
    ¬ (∀ w : Session, Reachable sampleConsts .T1oI2C_UM11225 w →
      w.phNxpEseProto7816_3_Var.recoveryCounter
        ≤ sampleConsts.PH_PROTO_7816_FRAME_RETRY_COUNT) := by
  have hs : ((Open sampleConsts .T1oI2C_UM11225 openPeer 10 (freshSession 0 0) [] sampleInit
      rspBuf10).bind fun x =>
        (Transceive sampleConsts .T1oI2C_UM11225 wrongSeqPeer 12 x.2.1 [] (some cmd5)
          (some rspBuf10)).map fun y =>
            (x.1, y.1, y.2.1.phNxpEseProto7816_3_Var.recoveryCounter, y.2.2.map pcbOf))
      = some (true, true, 5, [0x00, 0x82, 0x82, 0x82, 0xCF]) := by decide!
  refine ⟨hs, by decide, fun hall => ?_⟩
  simp only [Option.bind_eq_some, Option.map_eq_some'] at hs
  obtain ⟨x, hx, y, hy, e⟩ := hs
  have h5 : y.2.1.phNxpEseProto7816_3_Var.recoveryCounter = 5 :=
    congrArg (fun t => t.2.2.1) e
  have hle := hall y.2.1 (Reachable.transceive _ _ _ _ _ _ y
    (Reachable.opened _ _ _ _ _ _ x hx) hy)
  rw [h5] at hle
  exact absurd hle (by decide)

/-- C35: the R-NACK budget invariant.  In every session reachable from `Open` through
calls of the public functions, whatever the peer replies, `rnack_retry_counter` is at most
`rnack_retry_limit`.  Inside a call the bound is kept by every `ProcessResponse` step
(the send step does not touch the counter), so it holds whenever a run of the loop started
in such a session returns; and after every frame that passes the CRC check the counter
is 0. -/
theorem C35_rnack_budget (K : Consts) (d : Dialect) (w : Session) (h : Reachable K d w) :
    w.phNxpEseProto7816_3_Var.rnack_retry_counter
      ≤ w.phNxpEseProto7816_3_Var.rnack_retry_limit ∧
    (∀ (tr : Transport) (fuel : Nat) (status : Bool) (hist : List (List Nat))
        (x : Bool × Session × List (List Nat)),
      TransceiveProcess_loop K d tr fuel status w hist = some x →
      x.2.1.phNxpEseProto7816_3_Var.rnack_retry_counter
        ≤ x.2.1.phNxpEseProto7816_3_Var.rnack_retry_limit) ∧
    (∀ (v : Session) (fuel : Nat) (rd : Option (List Nat)) (y : Bool × Session),
      v.phNxpEseProto7816_3_Var.rnack_retry_counter
        ≤ v.phNxpEseProto7816_3_Var.rnack_retry_limit →
      ProcessResponse K d fuel rd v = some y →
      y.2.phNxpEseProto7816_3_Var.rnack_retry_counter
        ≤ y.2.phNxpEseProto7816_3_Var.rnack_retry_limit) ∧
    (∀ (v : Session) (fuel : Nat) (r : List Nat) (y : Bool × Session),
      CheckCRC K.MAX_APDU_BUFFER d r.length (some r) = true →
      ProcessResponse K d fuel (some r) v = some y →
      y.2.phNxpEseProto7816_3_Var.rnack_retry_counter = 0) := by
  have hw := Reachable_within K d w h
  refine ⟨hw, ?_, ?_, ?_⟩
  · intro tr fuel status hist x hx
    exact TransceiveProcess_loop_within K d tr fuel status w hist x hw hx
  · intro v fuel rd y hv hy
    exact (ProcessResponse_budget K d fuel rd v y hy).2.2.1 hv
  · intro v fuel r y hc hy
    exact (ProcessResponse_budget K d fuel (some r) v y hy).2.2.2 r rfl hc

/-- The theorem of C35 at a session reached by `Open` and one `Transceive` in which the
peer answers the command with a frame whose CRC is wrong and the write of the R-NACK
fails: the call returns FALSE with `rnack_retry_counter` 1, within the limit 3. -/
theorem C35_rnack_budget_witness :
    ∃ x y : Bool × Session × List (List Nat),
      Open sampleConsts .T1oI2C_UM11225 openPeer 10 (freshSession 0 0) [] sampleInit rspBuf10
        = some x ∧
      Transceive sampleConsts .T1oI2C_UM11225 badCrcThenFailPeer 12 x.2.1 [] (some cmd5)
        (some rspBuf10) = some y ∧
      y.2.1.phNxpEseProto7816_3_Var.rnack_retry_counter = 1 ∧
      y.2.1.phNxpEseProto7816_3_Var.rnack_retry_limit = 3 ∧
      y.2.1.phNxpEseProto7816_3_Var.rnack_retry_counter
        ≤ y.2.1.phNxpEseProto7816_3_Var.rnack_retry_limit := by
  have hs : ((Open sampleConsts .T1oI2C_UM11225 openPeer 10 (freshSession 0 0) [] sampleInit
      rspBuf10).bind fun x =>
        (Transceive sampleConsts .T1oI2C_UM11225 badCrcThenFailPeer 12 x.2.1 [] (some cmd5)
          (some rspBuf10)).map fun y =>
            (y.2.1.phNxpEseProto7816_3_Var.rnack_retry_counter,
              y.2.1.phNxpEseProto7816_3_Var.rnack_retry_limit))
      = some (1, 3) := by decide!
  simp only [Option.bind_eq_some, Option.map_eq_some'] at hs
  obtain ⟨x, hx, y, hy, e⟩ := hs
  exact ⟨x, y, hx, hy, congrArg (fun t => t.1) e, congrArg (fun t => t.2) e,
    (C35_rnack_budget sampleConsts .T1oI2C_UM11225 y.2.1
      (Reachable.transceive _ _ _ _ _ _ y (Reachable.opened _ _ _ _ _ _ x hx) hy)).1⟩

end T1oI2C
